import Mathlib

/-!
# EMS bus protocol engine (`src/ems.cpp`): a shallow embedding

The C++ unit keeps its state in globals (`EMS_Sys_Status`, `EMS_TxQueue`,
`Devices`, `EMS_Boiler`, `EMS_Thermostat`, `EMS_SolarModule`, `EMS_HeatPump`)
and talks to the UART through `emsuart_tx_buffer`.  Here the globals are the
fields of one `State` record that every function takes and returns, and the
UART is a trace `uart_tx` of the buffers handed to `emsuart_tx_buffer`.

Conventions
* bytes and words are natural numbers; where the C code narrows a value the
  model reduces it modulo the width (`% 256`, `% 65536`, `% 2 ^ 32`);
* a C pointer into a byte buffer is the buffer (a list) plus an index, and a
  read is `List.getD _ _ 0`;
* console output (`myDebug`, `_debugPrintTelegram`, `_printMessage`,
  `ems_dumpBuffer`) changes no state and is left out;
* `ems.h`, `ems_devices.h` and `emsuart.h` are not part of the sources at
  hand: the constants the comments of `ems.cpp` and the specification fix are
  definitions below, every other constant and the product tables are fields
  of `Config`.
-/

namespace EMS

/-! ## Constants -/

/-- Modelled from the spec: `EMS_ID_ME` is declared in `ems.h`; the
specification gives our own bus address as `0x0B` (and `ems.cpp` says a poll
for us "will have a value of 0x8B (0x0B | 0x80)"). -/
def EMS_ID_ME : Nat := 0x0B

/-- Modelled from the spec: `EMS_ID_NONE` is declared in `ems.h`; it is the
"none" sentinel and the broadcast destination, `0x00` (`ems.cpp` compares the
offset with it under the comment "only if the offset is 0"). -/
def EMS_ID_NONE : Nat := 0x00

/-- Modelled from the spec: `EMS_MIN_TELEGRAM_LENGTH` is declared in `ems.h`;
`ems.cpp` says of it "is always 6 bytes long (including CRC at end)". -/
def EMS_MIN_TELEGRAM_LENGTH : Nat := 6

/-- Modelled from the spec: `EMS_TX_SUCCESS` is declared in `ems.h`; `ems.cpp`
calls it "a single byte 01 (success)". -/
def EMS_TX_SUCCESS : Nat := 0x01

/-- Modelled from the spec: `EMS_TX_ERROR` is declared in `ems.h`; `ems.cpp`
calls it "04 (error)". -/
def EMS_TX_ERROR : Nat := 0x04

/-- The retry limit, `ems.cpp` line 218. -/
def TX_WRITE_TIMEOUT_COUNT : Nat := 2

/-- Bus timeout in milliseconds, `ems.cpp` line 219. -/
def EMS_BUS_TIMEOUT : Nat := 15000

/-- Poll timeout in microseconds, `ems.cpp` line 220. -/
def EMS_POLL_TIMEOUT : Nat := 5000000

/-- The CRC lookup table, `ems.cpp` lines 204-216. -/
def ems_crc_table : List Nat :=
  [0x00, 0x02, 0x04, 0x06, 0x08, 0x0A, 0x0C, 0x0E, 0x10, 0x12, 0x14, 0x16, 0x18, 0x1A, 0x1C, 0x1E, 0x20, 0x22, 0x24, 0x26,
   0x28, 0x2A, 0x2C, 0x2E, 0x30, 0x32, 0x34, 0x36, 0x38, 0x3A, 0x3C, 0x3E, 0x40, 0x42, 0x44, 0x46, 0x48, 0x4A, 0x4C, 0x4E,
   0x50, 0x52, 0x54, 0x56, 0x58, 0x5A, 0x5C, 0x5E, 0x60, 0x62, 0x64, 0x66, 0x68, 0x6A, 0x6C, 0x6E, 0x70, 0x72, 0x74, 0x76,
   0x78, 0x7A, 0x7C, 0x7E, 0x80, 0x82, 0x84, 0x86, 0x88, 0x8A, 0x8C, 0x8E, 0x90, 0x92, 0x94, 0x96, 0x98, 0x9A, 0x9C, 0x9E,
   0xA0, 0xA2, 0xA4, 0xA6, 0xA8, 0xAA, 0xAC, 0xAE, 0xB0, 0xB2, 0xB4, 0xB6, 0xB8, 0xBA, 0xBC, 0xBE, 0xC0, 0xC2, 0xC4, 0xC6,
   0xC8, 0xCA, 0xCC, 0xCE, 0xD0, 0xD2, 0xD4, 0xD6, 0xD8, 0xDA, 0xDC, 0xDE, 0xE0, 0xE2, 0xE4, 0xE6, 0xE8, 0xEA, 0xEC, 0xEE,
   0xF0, 0xF2, 0xF4, 0xF6, 0xF8, 0xFA, 0xFC, 0xFE, 0x19, 0x1B, 0x1D, 0x1F, 0x11, 0x13, 0x15, 0x17, 0x09, 0x0B, 0x0D, 0x0F,
   0x01, 0x03, 0x05, 0x07, 0x39, 0x3B, 0x3D, 0x3F, 0x31, 0x33, 0x35, 0x37, 0x29, 0x2B, 0x2D, 0x2F, 0x21, 0x23, 0x25, 0x27,
   0x59, 0x5B, 0x5D, 0x5F, 0x51, 0x53, 0x55, 0x57, 0x49, 0x4B, 0x4D, 0x4F, 0x41, 0x43, 0x45, 0x47, 0x79, 0x7B, 0x7D, 0x7F,
   0x71, 0x73, 0x75, 0x77, 0x69, 0x6B, 0x6D, 0x6F, 0x61, 0x63, 0x65, 0x67, 0x99, 0x9B, 0x9D, 0x9F, 0x91, 0x93, 0x95, 0x97,
   0x89, 0x8B, 0x8D, 0x8F, 0x81, 0x83, 0x85, 0x87, 0xB9, 0xBB, 0xBD, 0xBF, 0xB1, 0xB3, 0xB5, 0xB7, 0xA9, 0xAB, 0xAD, 0xAF,
   0xA1, 0xA3, 0xA5, 0xA7, 0xD9, 0xDB, 0xDD, 0xDF, 0xD1, 0xD3, 0xD5, 0xD7, 0xC9, 0xCB, 0xCD, 0xCF, 0xC1, 0xC3, 0xC5, 0xC7,
   0xF9, 0xFB, 0xFD, 0xFF, 0xF1, 0xF3, 0xF5, 0xF7, 0xE9, 0xEB, 0xED, 0xEF, 0xE1, 0xE3, 0xE5, 0xE7]

/-! ## Enumerations and records (their C declarations live in `ems.h`) -/

/-- Modelled from the spec: the enumeration `_EMS_RX_STATUS` of `ems.h`.  The
specification and `ems.cpp` name the one value `EMS_RX_STATUS_IDLE`;
`ems_parseTelegram` tests for any other ("Rx non-idle", lines 835-840), which
the UART driver sets while the receive buffer is not valid:
`EMS_RX_STATUS_BUSY` stands for it. -/
inductive _EMS_RX_STATUS where
  | EMS_RX_STATUS_IDLE
  | EMS_RX_STATUS_BUSY
deriving DecidableEq, Repr

/-- Modelled from the spec: the enumeration `_EMS_TX_STATUS` of `ems.h`, with
the six values `ems.cpp` names.  It is the type both of
`EMS_Sys_Status.emsTxStatus` and of the result of `emsuart_tx_buffer`. -/
inductive _EMS_TX_STATUS where
  | EMS_TX_STATUS_OK
  | EMS_TX_STATUS_IDLE
  | EMS_TX_STATUS_WAIT
  | EMS_TX_WTD_TIMEOUT
  | EMS_TX_BRK_DETECT
  | EMS_TX_REV_DETECT
deriving DecidableEq, Repr

/-- Modelled from the spec: the enumeration `_EMS_TX_TELEGRAM_ACTION` of
`ems.h`, with the four actions `ems.cpp` names and the initial one. -/
inductive _EMS_TX_TELEGRAM_ACTION where
  | EMS_TX_TELEGRAM_INIT
  | EMS_TX_TELEGRAM_READ
  | EMS_TX_TELEGRAM_WRITE
  | EMS_TX_TELEGRAM_VALIDATE
  | EMS_TX_TELEGRAM_RAW
deriving DecidableEq, Repr

open _EMS_RX_STATUS _EMS_TX_STATUS _EMS_TX_TELEGRAM_ACTION

/-- The record `EMS_Sys_Status`, with the fields `ems.cpp` uses.  The widths
of the counters are those of `ems.h`: `emsRxPgks`, `emsTxPkgs` and `emxCrcErr`
are `uint16_t`, so each `++` on them is written as plus 1 modulo `2 ^ 16`
(65535 is followed by 0); `txRetryCount` is `uint8_t`.  The retry counter is
set to 0 by `ems_init` and by every enqueue, and a mismatch that raises it to 2
(Read) or above 3 (Validate) removes the entry, so with the queue capacity of
`ems.h` (100 entries) it stays far below 255 and its `++` is written as
plus 1. -/
structure _EMS_Sys_Status where
  emsRxStatus : _EMS_RX_STATUS
  emsTxStatus : _EMS_TX_STATUS
  emsRxPgks : Nat
  emsTxPkgs : Nat
  emxCrcErr : Nat
  emsPollEnabled : Bool
  emsLogging : Nat
  emsRefreshed : Bool
  emsBusConnected : Bool
  emsRxTimestamp : Nat
  emsPollFrequency : Nat
  emsTxCapable : Bool
  emsTxDisabled : Bool
  txRetryCount : Nat
  emsTxMode : Nat
  emsIDMask : Nat
  emsPollAck : Nat
deriving DecidableEq, Repr

/-- An outbound telegram, as queued in `EMS_TxQueue`; `data` is the byte
array of the C struct. -/
structure _EMS_TxTelegram where
  action : _EMS_TX_TELEGRAM_ACTION
  dest : Nat
  type : Nat
  offset : Nat
  length : Nat
  dataValue : Nat
  type_validate : Nat
  comparisonValue : Nat
  comparisonOffset : Nat
  comparisonPostRead : Nat
  forceRefresh : Bool
  timestamp : Nat
  data : List Nat
deriving DecidableEq, Repr

/-- An inbound telegram: `telegram` is the raw buffer, `data` the index in it
at which the C pointer `EMS_RxTelegram.data` points. -/
structure _EMS_RxTelegram where
  telegram : List Nat
  timestamp : Nat
  length : Nat
  src : Nat
  dest : Nat
  offset : Nat
  emsplus : Bool
  type : Nat
  data : Nat
  data_length : Nat
deriving DecidableEq, Repr

/-- The boiler record `EMS_Boiler`.  Numeric fields hold the raw unsigned
value the decoder computes. -/
structure _EMS_Boiler where
  device_id : Nat
  product_id : Nat
  version : String
  wWActivated : Nat
  wWSelTemp : Nat
  wWCircPump : Nat
  wWDesiredTemp : Nat
  wWComfort : Nat
  selFlowTemp : Nat
  curFlowTemp : Nat
  retTemp : Nat
  burnGas : Nat
  fanWork : Nat
  ignWork : Nat
  heatPmp : Nat
  wWHeat : Nat
  wWCirc : Nat
  selBurnPow : Nat
  curBurnPow : Nat
  flameCurr : Nat
  sysPress : Nat
  serviceCodeChar : List Nat
  serviceCode : Nat
  extTemp : Nat
  boilTemp : Nat
  pumpMod : Nat
  burnStarts : Nat
  burnWorkMin : Nat
  heatWorkMin : Nat
  wWCurTmp : Nat
  wWStarts : Nat
  wWWorkM : Nat
  wWOneTime : Nat
  wWCurFlow : Nat
  UBAuptime : Nat
  heating_temp : Nat
  pump_mod_max : Nat
  pump_mod_min : Nat
  tapwaterActive : Nat
  heatingActive : Nat
deriving DecidableEq, Repr

/-- The thermostat record `EMS_Thermostat`. -/
structure _EMS_Thermostat where
  device_id : Nat
  model_id : Nat
  product_id : Nat
  write_supported : Bool
  hc : Nat
  version : String
  setpoint_roomTemp : Nat
  curr_roomTemp : Nat
  mode : Nat
  day_mode : Nat
  hour : Nat
  minute : Nat
  second : Nat
  day : Nat
  month : Nat
  year : Nat
  daytemp : Nat
  nighttemp : Nat
  holidaytemp : Nat
  heatingtype : Nat
  circuitcalctemp : Nat
deriving DecidableEq, Repr

/-- The solar module record `EMS_SolarModule`. -/
structure _EMS_SolarModule where
  device_id : Nat
  model_id : Nat
  product_id : Nat
  version : String
  collectorTemp : Nat
  bottomTemp : Nat
  pumpModulation : Nat
  pump : Nat
  setpoint_maxBottomTemp : Nat
  EnergyLastHour : Nat
  EnergyToday : Nat
  EnergyTotal : Nat
  pumpWorkMin : Nat
deriving DecidableEq, Repr

/-- The heat pump record `EMS_HeatPump`. -/
structure _EMS_HeatPump where
  device_id : Nat
  model_id : Nat
  product_id : Nat
  version : String
  HPModulation : Nat
  HPSpeed : Nat
deriving DecidableEq, Repr

/-- An entry of the list `Devices` of detected devices. -/
structure _Generic_Type where
  product_id : Nat
  device_id : Nat
  version : String
  model_string : String
deriving DecidableEq, Repr

/-- An entry of `Boiler_Types` (`ems_devices.h`). -/
structure _Boiler_Type where
  model_id : Nat
  product_id : Nat
  model_string : String
deriving DecidableEq, Repr

/-- An entry of `Thermostat_Types` (`ems_devices.h`). -/
structure _Thermostat_Type where
  model_id : Nat
  product_id : Nat
  device_id : Nat
  model_string : String
  write_supported : Bool
deriving DecidableEq, Repr

/-- An entry of `SolarModule_Types` (`ems_devices.h`). -/
structure _SolarModule_Type where
  model_id : Nat
  product_id : Nat
  device_id : Nat
  model_string : String
deriving DecidableEq, Repr

/-- An entry of `HeatPump_Types` (`ems_devices.h`). -/
structure _HeatPump_Type where
  model_id : Nat
  product_id : Nat
  device_id : Nat
  model_string : String
deriving DecidableEq, Repr

/-- An entry of `Other_Types` (`ems_devices.h`). -/
structure _Other_Type where
  model_id : Nat
  product_id : Nat
  device_id : Nat
  model_string : String
deriving DecidableEq, Repr

/-- The constants and tables of `ems.h` and `ems_devices.h` that `ems.cpp`
uses and that neither its comments nor the specification fix. -/
structure Config where
  EMS_MAX_TELEGRAM_LENGTH : Nat
  EMS_TX_TELEGRAM_QUEUE_MAX : Nat
  EMS_ID_BOILER : Nat
  EMS_ID_SM : Nat
  EMS_PRODUCTID_HEATRONICS : Nat
  EMS_PRODUCTID_SM10 : Nat
  EMS_PRODUCTID_SM100 : Nat
  EMS_MODEL_NONE : Nat
  EMS_MODEL_ALL : Nat
  EMS_MODEL_UBA : Nat
  EMS_MODEL_SM : Nat
  EMS_MODEL_HP : Nat
  EMS_MODEL_RC10 : Nat
  EMS_MODEL_RC20 : Nat
  EMS_MODEL_RC20F : Nat
  EMS_MODEL_RC30 : Nat
  EMS_MODEL_RC35 : Nat
  EMS_MODEL_ES73 : Nat
  EMS_MODEL_EASY : Nat
  EMS_MODEL_RC300 : Nat
  EMS_VALUE_INT_ON : Nat
  EMS_VALUE_INT_NOTSET : Nat
  EMS_VALUE_SHORT_NOTSET : Nat
  EMS_BOILER_SELFLOWTEMP_HEATING : Nat
  EMS_TYPE_Version : Nat
  EMS_TYPE_UBAMonitorFast : Nat
  EMS_TYPE_UBAMonitorSlow : Nat
  EMS_TYPE_UBAMonitorWWMessage : Nat
  EMS_TYPE_UBAParameterWW : Nat
  EMS_TYPE_UBATotalUptimeMessage : Nat
  EMS_TYPE_UBAMaintenanceSettingsMessage : Nat
  EMS_TYPE_UBAParametersMessage : Nat
  EMS_TYPE_UBASetPoints : Nat
  EMS_TYPE_SM10Monitor : Nat
  EMS_TYPE_SM100Monitor : Nat
  EMS_TYPE_SM100Status : Nat
  EMS_TYPE_SM100Status2 : Nat
  EMS_TYPE_SM100Energy : Nat
  EMS_TYPE_ISM1StatusMessage : Nat
  EMS_TYPE_ISM1Set : Nat
  EMS_TYPE_HPMonitor1 : Nat
  EMS_TYPE_HPMonitor2 : Nat
  EMS_TYPE_RCTime : Nat
  EMS_TYPE_RCOutdoorTempMessage : Nat
  EMS_TYPE_RC10Set : Nat
  EMS_TYPE_RC10StatusMessage : Nat
  EMS_TYPE_RC20Set : Nat
  EMS_TYPE_RC20StatusMessage : Nat
  EMS_TYPE_RC30Set : Nat
  EMS_TYPE_RC30StatusMessage : Nat
  EMS_TYPE_RC35Set_HC1 : Nat
  EMS_TYPE_RC35StatusMessage_HC1 : Nat
  EMS_TYPE_RC35Set_HC2 : Nat
  EMS_TYPE_RC35StatusMessage_HC2 : Nat
  EMS_TYPE_EasyStatusMessage : Nat
  EMS_TYPE_RCPLUSStatusMessage : Nat
  EMS_TYPE_RCPLUSSet : Nat
  EMS_TYPE_RCPLUSStatusHeating : Nat
  EMS_TYPE_RCPLUSStatusMode : Nat
  EMS_TYPE_JunkersStatusMessage : Nat
  EMS_OFFSET_UBAParameterWW_wwComfort : Nat
  EMS_OFFSET_RC10StatusMessage_setpoint : Nat
  EMS_OFFSET_RC10StatusMessage_curr : Nat
  EMS_OFFSET_RC20StatusMessage_setpoint : Nat
  EMS_OFFSET_RC20StatusMessage_curr : Nat
  EMS_OFFSET_RC30StatusMessage_setpoint : Nat
  EMS_OFFSET_RC30StatusMessage_curr : Nat
  EMS_OFFSET_RC35StatusMessage_setpoint : Nat
  EMS_OFFSET_RC35StatusMessage_curr : Nat
  EMS_OFFSET_RC35Get_mode_day : Nat
  EMS_OFFSET_RC35Set_circuitcalctemp : Nat
  EMS_OFFSET_EasyStatusMessage_curr : Nat
  EMS_OFFSET_EasyStatusMessage_setpoint : Nat
  EMS_OFFSET_RCPLUSStatusMessage_curr : Nat
  EMS_OFFSET_RCPLUSStatusMessage_setpoint : Nat
  EMS_OFFSET_RCPLUSGet_mode_day : Nat
  EMS_OFFSET_RCPLUSStatusMessage_mode : Nat
  EMS_OFFSET_JunkersStatusMessage_curr : Nat
  EMS_OFFSET_JunkersStatusMessage_setpoint : Nat
  EMS_OFFSET_RC20Set_mode : Nat
  EMS_OFFSET_RC30Set_mode : Nat
  EMS_OFFSET_RC35Set_mode : Nat
  EMS_OFFSET_RC35Set_temp_day : Nat
  EMS_OFFSET_RC35Set_temp_night : Nat
  EMS_OFFSET_RC35Set_temp_holiday : Nat
  EMS_OFFSET_RC35Set_heatingtype : Nat
  EMS_VALUE_USHORT_NOTSET : Nat
  EMS_VALUE_LONG_NOTSET : Nat
  EMS_SYS_LOGGING_DEFAULT : Nat
  EMS_SYS_LOGGING_JABBER : Nat
  EMS_BOILER_TAPWATER_TEMPERATURE_MAX : Nat
  EMS_TYPE_UBAFunctionTest : Nat
  EMS_OFFSET_UBAParameterWW_wwtemp : Nat
  EMS_OFFSET_UBAParameterWW_wwactivated : Nat
  EMS_OFFSET_UBASetPoints_flowtemp : Nat
  EMS_VALUE_UBAParameterWW_wwComfort_Hot : Nat
  EMS_VALUE_UBAParameterWW_wwComfort_Eco : Nat
  EMS_VALUE_UBAParameterWW_wwComfort_Intelligent : Nat
  EMS_OFFSET_RC10Set_temp : Nat
  EMS_OFFSET_RC20Set_temp : Nat
  EMS_OFFSET_RC30Set_temp : Nat
  Boiler_Types : List _Boiler_Type
  Thermostat_Types : List _Thermostat_Type
  SolarModule_Types : List _SolarModule_Type
  HeatPump_Types : List _HeatPump_Type
  Other_Types : List _Other_Type

/-- What one call reads from outside the unit: the clocks `millis()` and
`micros()`, the result `emsuart_tx_buffer` reports for a telegram sent from
the queue, and the indeterminate contents of the local `new_EMS_TxTelegram`
that `_createValidate` declares without an initialiser. -/
structure Env where
  millis : Nat
  micros : Nat
  txStatus : _EMS_TX_STATUS
  stack_TxTelegram : _EMS_TxTelegram

/-- The globals of `ems.cpp`, the static `_last_emsPollFrequency` of
`ems_parseTelegram`, and the trace of buffers passed to `emsuart_tx_buffer`
(oldest first). -/
structure State where
  EMS_Sys_Status : _EMS_Sys_Status
  EMS_TxQueue : List _EMS_TxTelegram
  Devices : List _Generic_Type
  EMS_Boiler : _EMS_Boiler
  EMS_Thermostat : _EMS_Thermostat
  EMS_SolarModule : _EMS_SolarModule
  EMS_HeatPump : _EMS_HeatPump
  _last_emsPollFrequency : Nat
  uart_tx : List (List Nat)
deriving DecidableEq, Repr

/-! ## The Tx queue

`EMS_TxQueue` is a `CircularBuffer<_EMS_TxTelegram, EMS_TX_TELEGRAM_QUEUE_MAX>`
of the Arduino CircularBuffer library; the list holds its elements from head
(next to send) to tail. -/

/-- The library's `push`: add at the tail; on a full buffer the head, the
oldest element, is overwritten. -/
def CircularBuffer_push (cfg : Config) (q : List _EMS_TxTelegram) (x : _EMS_TxTelegram) :
    List _EMS_TxTelegram :=
  if q.length < cfg.EMS_TX_TELEGRAM_QUEUE_MAX then q ++ [x] else q.tail ++ [x]

/-- The library's `unshift`: add at the head; on a full buffer the tail
element is overwritten. -/
def CircularBuffer_unshift (cfg : Config) (q : List _EMS_TxTelegram) (x : _EMS_TxTelegram) :
    List _EMS_TxTelegram :=
  if q.length < cfg.EMS_TX_TELEGRAM_QUEUE_MAX then x :: q else x :: q.dropLast

/-- The library's `shift`: remove the head. -/
def CircularBuffer_shift (q : List _EMS_TxTelegram) : List _EMS_TxTelegram :=
  q.tail

/-! ## Transport and CRC -/

/-- The call `emsuart_tx_buffer(buf, len)`: the first `len` bytes of `buf`
go out on the wire.  The driver itself (`emsuart.cpp`) is outside the
sources; of its effects the model keeps the bytes it is given, and its
result is an input (`Env.txStatus`). -/
def emsuart_tx_buffer (buf : List Nat) (len : Nat) (s : State) : State :=
  { s with uart_tx := s.uart_tx ++ [buf.take len] }

/-- The function `ems_tx_pollAck`, lines 467-469. -/
def ems_tx_pollAck (s : State) : State :=
  emsuart_tx_buffer [s.EMS_Sys_Status.emsPollAck] 1 s

/-- The function `_crcCalculator`, lines 475-485: fold the bytes at the
indices `0 .. len - 2` through the table. -/
def _crcCalculator (data : List Nat) (len : Nat) : Nat :=
  (List.range (len - 1)).foldl
    (fun crc i => (ems_crc_table.getD crc 0 ^^^ data.getD i 0) % 256) 0

/-- The function `ems_setEmsRefreshed`, lines 381-383. -/
def ems_setEmsRefreshed (b : Bool) (s : State) : State :=
  { s with EMS_Sys_Status.emsRefreshed := b }

/-- The function `ems_getBoilerEnabled`, lines 389-391. -/
def ems_getBoilerEnabled (s : State) : Bool :=
  s.EMS_Boiler.device_id != EMS_ID_NONE

/-- The function `ems_getThermostatEnabled`, lines 393-395. -/
def ems_getThermostatEnabled (s : State) : Bool :=
  s.EMS_Thermostat.device_id != EMS_ID_NONE

/-- The function `ems_getSolarModuleEnabled`, lines 397-399. -/
def ems_getSolarModuleEnabled (s : State) : Bool :=
  s.EMS_SolarModule.device_id != EMS_ID_NONE

/-- The function `ems_getHeatPumpEnabled`, lines 401-403. -/
def ems_getHeatPumpEnabled (s : State) : Bool :=
  s.EMS_HeatPump.device_id != EMS_ID_NONE

/-! ## Sending -/

/-- The header and CRC part of `_ems_sendTelegram`, lines 640-670: the byte
array and the length of the local copy `EMS_TxTelegram` once the header is
filled in and the CRC is stored at `length - 1`. -/
def _ems_sendTelegram_header (mask : Nat) (EMS_TxTelegram : _EMS_TxTelegram) : List Nat × Nat :=
  let data0 := EMS_TxTelegram.data.set 0 ((EMS_ID_ME ^^^ mask) % 256)
  let data1 :=
    if EMS_TxTelegram.action = EMS_TX_TELEGRAM_WRITE then
      data0.set 1 ((EMS_TxTelegram.dest ^^^ mask) % 256)
    else
      data0.set 1 ((EMS_TxTelegram.dest ^^^ 0x80 ^^^ mask) % 256)
  let data2 :=
    if EMS_TxTelegram.type > 0xFF then
      ((((data1.set 2 0xFF).set 3 (EMS_TxTelegram.offset % 256)).set 4
          (EMS_TxTelegram.dataValue % 256)).set 5
          ((EMS_TxTelegram.type >>> 8) % 256)).set 6 ((EMS_TxTelegram.type &&& 0xFF) % 256)
    else
      let d := (data1.set 2 (EMS_TxTelegram.type % 256)).set 3 (EMS_TxTelegram.offset % 256)
      if EMS_TxTelegram.length = EMS_MIN_TELEGRAM_LENGTH then
        d.set 4 (EMS_TxTelegram.dataValue % 256)
      else d
  let length :=
    if EMS_TxTelegram.type > 0xFF then (EMS_TxTelegram.length + 2) % 256
    else EMS_TxTelegram.length
  (data2.set (length - 1) (_crcCalculator data2 length), length)

/-- The function `_ems_sendTelegram`, lines 593-702.  `EMS_TxQueue.first()`
returns a copy, so the header bytes and the length are written to the local
copy and the queued entry stays as it was.  `txStatus` is what
`emsuart_tx_buffer` returns. -/
def _ems_sendTelegram (txStatus : _EMS_TX_STATUS) (s : State) : State :=
  match s.EMS_TxQueue with
  | [] => s
  | EMS_TxTelegram :: _ =>
    if s.EMS_Sys_Status.emsTxDisabled then
      { s with EMS_TxQueue := CircularBuffer_shift s.EMS_TxQueue }
    else if EMS_TxTelegram.dest = EMS_ID_NONE then
      { s with EMS_TxQueue := CircularBuffer_shift s.EMS_TxQueue }
    else if EMS_TxTelegram.action = EMS_TX_TELEGRAM_RAW then
      let data := EMS_TxTelegram.data.set (EMS_TxTelegram.length - 1)
        (_crcCalculator EMS_TxTelegram.data EMS_TxTelegram.length)
      let s1 := emsuart_tx_buffer data EMS_TxTelegram.length s
      { s1 with EMS_TxQueue := CircularBuffer_shift s1.EMS_TxQueue }
    else
      let sent := _ems_sendTelegram_header s.EMS_Sys_Status.emsIDMask EMS_TxTelegram
      let s1 := emsuart_tx_buffer sent.1 sent.2 s
      if txStatus = EMS_TX_STATUS_OK ∨ txStatus = EMS_TX_STATUS_IDLE then
        { s1 with EMS_Sys_Status.emsTxStatus := EMS_TX_STATUS_WAIT }
      else
        { s1 with EMS_Sys_Status.emsTxStatus := EMS_TX_STATUS_IDLE }

/-- The function `_createValidate`, lines 709-746.  The new entry is a local
declared without an initialiser: the fields the function does not assign
(`forceRefresh`, `timestamp`, `data`) keep what `stack` holds. -/
def _createValidate (cfg : Config) (stack : _EMS_TxTelegram) (s : State) : State :=
  match s.EMS_TxQueue with
  | [] => s
  | EMS_TxTelegram :: _ =>
    let s1 := { s with EMS_Sys_Status.emsTxStatus := EMS_TX_STATUS_IDLE }
    if EMS_TxTelegram.action ≠ EMS_TX_TELEGRAM_WRITE ∨
        EMS_TxTelegram.type_validate = EMS_ID_NONE then
      { s1 with EMS_TxQueue := CircularBuffer_shift s1.EMS_TxQueue }
    else
      let new_EMS_TxTelegram : _EMS_TxTelegram :=
        { stack with
          action := EMS_TX_TELEGRAM_VALIDATE
          type_validate := EMS_TxTelegram.type_validate
          dest := EMS_TxTelegram.dest
          type := EMS_TxTelegram.type
          comparisonValue := EMS_TxTelegram.comparisonValue
          comparisonPostRead := EMS_TxTelegram.comparisonPostRead
          comparisonOffset := EMS_TxTelegram.comparisonOffset
          offset := EMS_TxTelegram.comparisonOffset
          dataValue := 1
          length := EMS_MIN_TELEGRAM_LENGTH }
      { s1 with EMS_TxQueue :=
          CircularBuffer_unshift cfg (CircularBuffer_shift s1.EMS_TxQueue) new_EMS_TxTelegram }

/-- The function `_removeTxQueue`, lines 1111-1116. -/
def _removeTxQueue (s : State) : State :=
  { s with
    EMS_TxQueue := if s.EMS_TxQueue.isEmpty then s.EMS_TxQueue
      else CircularBuffer_shift s.EMS_TxQueue
    EMS_Sys_Status.emsTxStatus := EMS_TX_STATUS_IDLE }

/-- Modelled from the spec: the initialiser `EMS_TX_TELEGRAM_NEW` of `ems.h`,
a Tx telegram with every field cleared and a zeroed byte array of
`EMS_MAX_TELEGRAM_LENGTH` bytes. -/
def EMS_TX_TELEGRAM_NEW (cfg : Config) : _EMS_TxTelegram :=
  { action := EMS_TX_TELEGRAM_INIT, dest := EMS_ID_NONE, type := EMS_ID_NONE, offset := 0,
    length := 0, dataValue := 0, type_validate := EMS_ID_NONE, comparisonValue := 0,
    comparisonOffset := 0, comparisonPostRead := EMS_ID_NONE, forceRefresh := false,
    timestamp := 0, data := List.replicate cfg.EMS_MAX_TELEGRAM_LENGTH 0 }

/-- The function `ems_doReadCommand`, lines 2386-2427; `now` is `millis()`. -/
def ems_doReadCommand (cfg : Config) (now : Nat) (type dest : Nat) (forceRefresh : Bool)
    (s : State) : State :=
  if type = EMS_ID_NONE ∨ dest = EMS_ID_NONE then s
  else if s.EMS_Sys_Status.emsTxDisabled then s
  else
    let EMS_TxTelegram : _EMS_TxTelegram :=
      { EMS_TX_TELEGRAM_NEW cfg with
        timestamp := now
        action := EMS_TX_TELEGRAM_READ
        dest := dest
        offset := 0
        type := type
        length := EMS_MIN_TELEGRAM_LENGTH
        dataValue := cfg.EMS_MAX_TELEGRAM_LENGTH
        type_validate := EMS_ID_NONE
        comparisonValue := 0
        comparisonOffset := 0
        comparisonPostRead := EMS_ID_NONE
        forceRefresh := forceRefresh }
    { s with
      EMS_Sys_Status.txRetryCount := 0
      EMS_TxQueue := CircularBuffer_push cfg s.EMS_TxQueue EMS_TxTelegram }

/-- The function `ems_getThermostatValues`, lines 2012-2050.  The `switch`
on the model is a chain of tests in the order of its `case` labels. -/
def ems_getThermostatValues (cfg : Config) (now : Nat) (s : State) : State :=
  if !ems_getThermostatEnabled s then s
  else
    let model_id := s.EMS_Thermostat.model_id
    let type := s.EMS_Thermostat.device_id
    let hc := s.EMS_Thermostat.hc
    let s1 :=
      if model_id = cfg.EMS_MODEL_RC20 then
        ems_doReadCommand cfg now cfg.EMS_TYPE_RC20Set type false
          (ems_doReadCommand cfg now cfg.EMS_TYPE_RC20StatusMessage type false s)
      else if model_id = cfg.EMS_MODEL_RC30 then
        ems_doReadCommand cfg now cfg.EMS_TYPE_RC30Set type false
          (ems_doReadCommand cfg now cfg.EMS_TYPE_RC30StatusMessage type false s)
      else if model_id = cfg.EMS_MODEL_EASY then
        ems_doReadCommand cfg now cfg.EMS_TYPE_EasyStatusMessage type false s
      else if model_id = cfg.EMS_MODEL_RC35 ∨ model_id = cfg.EMS_MODEL_ES73 then
        if hc = 1 then
          ems_doReadCommand cfg now cfg.EMS_TYPE_RC35Set_HC1 type false
            (ems_doReadCommand cfg now cfg.EMS_TYPE_RC35StatusMessage_HC1 type false s)
        else if hc = 2 then
          ems_doReadCommand cfg now cfg.EMS_TYPE_RC35Set_HC2 type false
            (ems_doReadCommand cfg now cfg.EMS_TYPE_RC35StatusMessage_HC2 type false s)
        else s
      else if model_id = cfg.EMS_MODEL_RC300 then
        ems_doReadCommand cfg now cfg.EMS_TYPE_RCPLUSStatusMessage type false s
      else s
    ems_doReadCommand cfg now cfg.EMS_TYPE_RCTime type false s1

/-- The function `ems_getBoilerValues`, lines 2055-2061. -/
def ems_getBoilerValues (cfg : Config) (now : Nat) (s : State) : State :=
  let d := s.EMS_Boiler.device_id
  ems_doReadCommand cfg now cfg.EMS_TYPE_UBATotalUptimeMessage d false
    (ems_doReadCommand cfg now cfg.EMS_TYPE_UBAParametersMessage d false
      (ems_doReadCommand cfg now cfg.EMS_TYPE_UBAParameterWW d false
        (ems_doReadCommand cfg now cfg.EMS_TYPE_UBAMonitorSlow d false
          (ems_doReadCommand cfg now cfg.EMS_TYPE_UBAMonitorFast d false s))))

/-- The function `ems_getSolarModuleValues`, lines 2066-2076. -/
def ems_getSolarModuleValues (cfg : Config) (now : Nat) (s : State) : State :=
  let product_id := s.EMS_SolarModule.product_id
  if ems_getSolarModuleEnabled s then
    if product_id = cfg.EMS_PRODUCTID_SM10 then
      ems_doReadCommand cfg now cfg.EMS_TYPE_SM10Monitor cfg.EMS_ID_SM false s
    else if product_id = cfg.EMS_PRODUCTID_SM100 then
      ems_doReadCommand cfg now cfg.EMS_TYPE_SM100Monitor cfg.EMS_ID_SM false s
    else s
  else s

/-! ## Decoders -/

/-- The accessor `_toByte(i)`, line 34. -/
def _toByte (EMS_RxTelegram : _EMS_RxTelegram) (i : Nat) : Nat :=
  EMS_RxTelegram.telegram.getD (EMS_RxTelegram.data + i) 0

/-- The accessor `_toShort(i)`, line 35. -/
def _toShort (EMS_RxTelegram : _EMS_RxTelegram) (i : Nat) : Nat :=
  (_toByte EMS_RxTelegram i <<< 8) + _toByte EMS_RxTelegram (i + 1)

/-- The accessor `_toLong(i)`, line 36. -/
def _toLong (EMS_RxTelegram : _EMS_RxTelegram) (i : Nat) : Nat :=
  (_toByte EMS_RxTelegram i <<< 16) + (_toByte EMS_RxTelegram (i + 1) <<< 8)
    + _toByte EMS_RxTelegram (i + 2)

/-- The accessor `_bitRead(i, bit)`, line 37. -/
def _bitRead (EMS_RxTelegram : _EMS_RxTelegram) (i bit : Nat) : Nat :=
  (_toByte EMS_RxTelegram i >>> bit) &&& 0x01

/-- A C truth value stored in a numeric field. -/
def boolToByte (b : Bool) : Nat := if b then 1 else 0

/-- The function `_checkActive`, lines 1244-1254. -/
def _checkActive (cfg : Config) (s : State) : State :=
  let s1 :=
    if s.EMS_Boiler.wWCurFlow ≠ cfg.EMS_VALUE_INT_NOTSET ∧
        s.EMS_Boiler.burnGas ≠ cfg.EMS_VALUE_INT_NOTSET then
      { s with EMS_Boiler.tapwaterActive :=
          boolToByte (s.EMS_Boiler.wWCurFlow != 0 && s.EMS_Boiler.burnGas == cfg.EMS_VALUE_INT_ON) }
    else s
  if s1.EMS_Boiler.selFlowTemp ≠ cfg.EMS_VALUE_INT_NOTSET ∧
      s1.EMS_Boiler.burnGas ≠ cfg.EMS_VALUE_INT_NOTSET then
    { s1 with EMS_Boiler.heatingActive :=
        boolToByte (decide (s1.EMS_Boiler.selFlowTemp ≥ cfg.EMS_BOILER_SELFLOWTEMP_HEATING)
          && s1.EMS_Boiler.burnGas == cfg.EMS_VALUE_INT_ON) }
  else s1

/-- The function `_process_UBAParameterWW`, lines 1260-1268. -/
def _process_UBAParameterWW (cfg : Config) (rx : _EMS_RxTelegram) (s : State) : State :=
  { s with
    EMS_Boiler.wWActivated := boolToByte (_toByte rx 1 == 0xFF)
    EMS_Boiler.wWSelTemp := _toByte rx 2
    EMS_Boiler.wWCircPump := boolToByte (_toByte rx 6 == 0xFF)
    EMS_Boiler.wWDesiredTemp := _toByte rx 8
    EMS_Boiler.wWComfort := _toByte rx cfg.EMS_OFFSET_UBAParameterWW_wwComfort
    EMS_Sys_Status.emsRefreshed := true }

/-- The function `_process_UBATotalUptimeMessage`, lines 1274-1277. -/
def _process_UBATotalUptimeMessage (rx : _EMS_RxTelegram) (s : State) : State :=
  { s with
    EMS_Boiler.UBAuptime := _toLong rx 0
    EMS_Sys_Status.emsRefreshed := true }

/-- The function `_process_UBAParametersMessage`, lines 1282-1286. -/
def _process_UBAParametersMessage (rx : _EMS_RxTelegram) (s : State) : State :=
  { s with
    EMS_Boiler.heating_temp := _toByte rx 1
    EMS_Boiler.pump_mod_max := _toByte rx 9
    EMS_Boiler.pump_mod_min := _toByte rx 10 }

/-- The function `_process_UBAMonitorWWMessage`, lines 1292-1298. -/
def _process_UBAMonitorWWMessage (rx : _EMS_RxTelegram) (s : State) : State :=
  { s with
    EMS_Boiler.wWCurTmp := _toShort rx 1
    EMS_Boiler.wWStarts := _toLong rx 13
    EMS_Boiler.wWWorkM := _toLong rx 10
    EMS_Boiler.wWOneTime := _bitRead rx 5 1
    EMS_Boiler.wWCurFlow := _toByte rx 9 }

/-- The function `_process_UBAMonitorFast`, lines 1304-1334. -/
def _process_UBAMonitorFast (cfg : Config) (rx : _EMS_RxTelegram) (s : State) : State :=
  _checkActive cfg
    { s with
      EMS_Boiler.selFlowTemp := _toByte rx 0
      EMS_Boiler.curFlowTemp := _toShort rx 1
      EMS_Boiler.retTemp := _toShort rx 13
      EMS_Boiler.burnGas := _bitRead rx 7 0
      EMS_Boiler.fanWork := _bitRead rx 7 2
      EMS_Boiler.ignWork := _bitRead rx 7 3
      EMS_Boiler.heatPmp := _bitRead rx 7 5
      EMS_Boiler.wWHeat := _bitRead rx 7 6
      EMS_Boiler.wWCirc := _bitRead rx 7 7
      EMS_Boiler.curBurnPow := _toByte rx 4
      EMS_Boiler.selBurnPow := _toByte rx 3
      EMS_Boiler.flameCurr := _toShort rx 15
      EMS_Boiler.serviceCodeChar := [_toByte rx 18, _toByte rx 19, 0]
      EMS_Boiler.serviceCode := _toShort rx 20
      EMS_Boiler.sysPress := _toByte rx 17 }

/-- The function `_process_UBAMonitorSlow`, lines 1340-1347. -/
def _process_UBAMonitorSlow (rx : _EMS_RxTelegram) (s : State) : State :=
  { s with
    EMS_Boiler.extTemp := _toShort rx 0
    EMS_Boiler.boilTemp := _toShort rx 2
    EMS_Boiler.pumpMod := _toByte rx 9
    EMS_Boiler.burnStarts := _toLong rx 10
    EMS_Boiler.burnWorkMin := _toLong rx 13
    EMS_Boiler.heatWorkMin := _toLong rx 19 }

/-- The function `_process_RC10StatusMessage`, lines 1355-1360. -/
def _process_RC10StatusMessage (cfg : Config) (rx : _EMS_RxTelegram) (s : State) : State :=
  { s with
    EMS_Thermostat.setpoint_roomTemp := _toByte rx cfg.EMS_OFFSET_RC10StatusMessage_setpoint
    EMS_Thermostat.curr_roomTemp := _toShort rx cfg.EMS_OFFSET_RC10StatusMessage_curr
    EMS_Sys_Status.emsRefreshed := true }

/-- The function `_process_RC20StatusMessage`, lines 1367-1372. -/
def _process_RC20StatusMessage (cfg : Config) (rx : _EMS_RxTelegram) (s : State) : State :=
  { s with
    EMS_Thermostat.setpoint_roomTemp := _toByte rx cfg.EMS_OFFSET_RC20StatusMessage_setpoint
    EMS_Thermostat.curr_roomTemp := _toShort rx cfg.EMS_OFFSET_RC20StatusMessage_curr
    EMS_Sys_Status.emsRefreshed := true }

/-- The function `_process_RC30StatusMessage`, lines 1378-1383. -/
def _process_RC30StatusMessage (cfg : Config) (rx : _EMS_RxTelegram) (s : State) : State :=
  { s with
    EMS_Thermostat.setpoint_roomTemp := _toByte rx cfg.EMS_OFFSET_RC30StatusMessage_setpoint
    EMS_Thermostat.curr_roomTemp := _toShort rx cfg.EMS_OFFSET_RC30StatusMessage_curr
    EMS_Sys_Status.emsRefreshed := true }

/-- The function `_process_RC35StatusMessage`, lines 1390-1404. -/
def _process_RC35StatusMessage (cfg : Config) (rx : _EMS_RxTelegram) (s : State) : State :=
  { s with
    EMS_Thermostat.setpoint_roomTemp := _toByte rx cfg.EMS_OFFSET_RC35StatusMessage_setpoint
    EMS_Thermostat.curr_roomTemp :=
      if _toByte rx 3 = 0x7D then cfg.EMS_VALUE_SHORT_NOTSET
      else _toShort rx cfg.EMS_OFFSET_RC35StatusMessage_curr
    EMS_Thermostat.day_mode := _bitRead rx cfg.EMS_OFFSET_RC35Get_mode_day 1
    EMS_Thermostat.circuitcalctemp := _toByte rx cfg.EMS_OFFSET_RC35Set_circuitcalctemp
    EMS_Sys_Status.emsRefreshed := true }

/-- The function `_process_EasyStatusMessage`, lines 1410-1415. -/
def _process_EasyStatusMessage (cfg : Config) (rx : _EMS_RxTelegram) (s : State) : State :=
  { s with
    EMS_Thermostat.curr_roomTemp := _toShort rx cfg.EMS_OFFSET_EasyStatusMessage_curr
    EMS_Thermostat.setpoint_roomTemp := _toShort rx cfg.EMS_OFFSET_EasyStatusMessage_setpoint
    EMS_Sys_Status.emsRefreshed := true }

/-- The function `_process_RCPLUSStatusMessage`, lines 1421-1452. -/
def _process_RCPLUSStatusMessage (cfg : Config) (rx : _EMS_RxTelegram) (s : State) : State :=
  let s1 :=
    if rx.offset = 0 then
      { s with
        EMS_Thermostat.curr_roomTemp := _toShort rx cfg.EMS_OFFSET_RCPLUSStatusMessage_curr
        EMS_Thermostat.setpoint_roomTemp := _toByte rx cfg.EMS_OFFSET_RCPLUSStatusMessage_setpoint
        EMS_Thermostat.day_mode := _bitRead rx cfg.EMS_OFFSET_RCPLUSGet_mode_day 1
        EMS_Thermostat.mode := _bitRead rx cfg.EMS_OFFSET_RCPLUSStatusMessage_mode 0 }
    else s
  if rx.offset = cfg.EMS_OFFSET_RCPLUSStatusMessage_mode then
    { s1 with EMS_Thermostat.mode := _bitRead rx 0 0 }
  else s1

/-- The function `_process_RCPLUSStatusHeating`, lines 1457-1460: empty body. -/
def _process_RCPLUSStatusHeating (_rx : _EMS_RxTelegram) (s : State) : State := s

/-- The function `_process_RCPLUSStatusMode`, lines 1465-1467: empty body. -/
def _process_RCPLUSStatusMode (_rx : _EMS_RxTelegram) (s : State) : State := s

/-- The function `_process_JunkersStatusMessage`, lines 1472-1479. -/
def _process_JunkersStatusMessage (cfg : Config) (rx : _EMS_RxTelegram) (s : State) : State :=
  if rx.offset = 0 then
    { s with
      EMS_Thermostat.curr_roomTemp := _toShort rx cfg.EMS_OFFSET_JunkersStatusMessage_curr
      EMS_Thermostat.setpoint_roomTemp := _toShort rx cfg.EMS_OFFSET_JunkersStatusMessage_setpoint }
  else s

/-- The function `_process_RCPLUSSetMessage`, lines 1484-1486: empty body. -/
def _process_RCPLUSSetMessage (_rx : _EMS_RxTelegram) (s : State) : State := s

/-- The function `_process_RC10Set`, lines 1492-1494: empty body. -/
def _process_RC10Set (_rx : _EMS_RxTelegram) (s : State) : State := s

/-- The function `_process_RC20Set`, lines 1500-1502. -/
def _process_RC20Set (cfg : Config) (rx : _EMS_RxTelegram) (s : State) : State :=
  { s with EMS_Thermostat.mode := _toByte rx cfg.EMS_OFFSET_RC20Set_mode }

/-- The function `_process_RC30Set`, lines 1508-1510. -/
def _process_RC30Set (cfg : Config) (rx : _EMS_RxTelegram) (s : State) : State :=
  { s with EMS_Thermostat.mode := _toByte rx cfg.EMS_OFFSET_RC30Set_mode }

/-- The function `_process_RC35Set`, lines 1517-1526. -/
def _process_RC35Set (cfg : Config) (rx : _EMS_RxTelegram) (s : State) : State :=
  { s with
    EMS_Thermostat.mode := _toByte rx cfg.EMS_OFFSET_RC35Set_mode
    EMS_Thermostat.daytemp := _toByte rx cfg.EMS_OFFSET_RC35Set_temp_day
    EMS_Thermostat.nighttemp := _toByte rx cfg.EMS_OFFSET_RC35Set_temp_night
    EMS_Thermostat.holidaytemp := _toByte rx cfg.EMS_OFFSET_RC35Set_temp_holiday
    EMS_Thermostat.heatingtype := _toByte rx cfg.EMS_OFFSET_RC35Set_heatingtype
    EMS_Sys_Status.emsRefreshed := true }

/-- The function `_process_RCOutdoorTempMessage`, lines 1531-1533: empty body. -/
def _process_RCOutdoorTempMessage (_rx : _EMS_RxTelegram) (s : State) : State := s

/-- The function `_process_SM10Monitor`, lines 1538-1545. -/
def _process_SM10Monitor (rx : _EMS_RxTelegram) (s : State) : State :=
  { s with
    EMS_SolarModule.collectorTemp := _toShort rx 2
    EMS_SolarModule.bottomTemp := _toShort rx 5
    EMS_SolarModule.pumpModulation := _toByte rx 4
    EMS_SolarModule.pump := _bitRead rx 7 1
    EMS_Sys_Status.emsRefreshed := true }

/-- The function `_process_SM100Monitor`, lines 1553-1566. -/
def _process_SM100Monitor (rx : _EMS_RxTelegram) (s : State) : State :=
  if rx.offset ≠ 0 then s
  else
    let s1 := { s with EMS_SolarModule.collectorTemp := _toShort rx 0 }
    let s2 := if rx.data_length > 2 then
      { s1 with EMS_SolarModule.bottomTemp := _toShort rx 2 } else s1
    { s2 with EMS_Sys_Status.emsRefreshed := true }

/-- The function `_process_SM100Status`, lines 1573-1583. -/
def _process_SM100Status (rx : _EMS_RxTelegram) (s : State) : State :=
  let s1 :=
    if rx.offset = 0 then { s with EMS_SolarModule.pumpModulation := _toByte rx 9 }
    else if rx.offset = 0x09 then { s with EMS_SolarModule.pumpModulation := _toByte rx 0 }
    else s
  { s1 with EMS_Sys_Status.emsRefreshed := true }

/-- The function `_process_SM100Status2`, lines 1588-1598. -/
def _process_SM100Status2 (rx : _EMS_RxTelegram) (s : State) : State :=
  let s1 :=
    if rx.offset = 0 then { s with EMS_SolarModule.pump := _bitRead rx 10 2 }
    else if rx.offset = 0x0A then { s with EMS_SolarModule.pump := _bitRead rx 0 2 }
    else s
  { s1 with EMS_Sys_Status.emsRefreshed := true }

/-- The function `_process_SM100Energy`, lines 1604-1610. -/
def _process_SM100Energy (rx : _EMS_RxTelegram) (s : State) : State :=
  { s with
    EMS_SolarModule.EnergyLastHour := _toShort rx 2
    EMS_SolarModule.EnergyToday := _toShort rx 6
    EMS_SolarModule.EnergyTotal := _toShort rx 10
    EMS_Sys_Status.emsRefreshed := true }

/-- The function `_process_HPMonitor1`, lines 1615-1619. -/
def _process_HPMonitor1 (rx : _EMS_RxTelegram) (s : State) : State :=
  { s with
    EMS_HeatPump.HPModulation := _toByte rx 14
    EMS_Sys_Status.emsRefreshed := true }

/-- The function `_process_HPMonitor2`, lines 1624-1628. -/
def _process_HPMonitor2 (rx : _EMS_RxTelegram) (s : State) : State :=
  { s with
    EMS_HeatPump.HPSpeed := _toByte rx 25
    EMS_Sys_Status.emsRefreshed := true }

/-- The function `_process_ISM1StatusMessage`, lines 1633-1647. -/
def _process_ISM1StatusMessage (rx : _EMS_RxTelegram) (s : State) : State :=
  let s1 :=
    if rx.offset = 0 then
      { s with
        EMS_SolarModule.collectorTemp := _toShort rx 4
        EMS_SolarModule.bottomTemp := _toShort rx 6
        EMS_SolarModule.EnergyLastHour := _toShort rx 2
        EMS_SolarModule.pump := _bitRead rx 8 0
        EMS_SolarModule.pumpWorkMin := _toLong rx 10 }
    else s
  if rx.offset = 4 then { s1 with EMS_SolarModule.collectorTemp := _toShort rx 0 } else s1

/-- The function `_process_ISM1Set`, lines 1653-1659. -/
def _process_ISM1Set (rx : _EMS_RxTelegram) (s : State) : State :=
  if rx.offset = 6 then { s with EMS_SolarModule.setpoint_maxBottomTemp := _toByte rx 0 } else s

/-- The function `_process_SetPoints`, lines 1664-1682: it only prints. -/
def _process_SetPoints (_rx : _EMS_RxTelegram) (s : State) : State := s

/-- The function `_process_RCTime`, lines 1688-1699. -/
def _process_RCTime (cfg : Config) (rx : _EMS_RxTelegram) (s : State) : State :=
  if s.EMS_Thermostat.model_id = cfg.EMS_MODEL_EASY then s
  else
    { s with
      EMS_Thermostat.hour := _toByte rx 2
      EMS_Thermostat.minute := _toByte rx 4
      EMS_Thermostat.second := _toByte rx 5
      EMS_Thermostat.day := _toByte rx 3
      EMS_Thermostat.month := _toByte rx 1
      EMS_Thermostat.year := _toByte rx 0 }

/-! ## Device discovery -/

/-- The function `_addDevice`, lines 1711-1727.  `strlcpy` cuts the two
strings to the sizes of the fields of `_Generic_Type`, which `ems.h` declares;
the model keeps them whole. -/
def _addDevice (product_id device_id : Nat) (version model_string : String) (s : State) : State :=
  let found := s.Devices.any (fun it => it.product_id == product_id && it.device_id == device_id)
  if !found then
    { s with Devices := s.Devices ++
        [{ product_id := product_id, device_id := device_id, version := version,
           model_string := model_string }] }
  else s

/-- The search loops `while (i < max) { if (...) { found; break; } i++; }`:
the index of the first entry that satisfies `p`, counted from `i`. -/
def findFirst {α : Type} (p : α → Bool) : List α → Nat → Option Nat
  | [], _ => none
  | x :: xs, i => if p x then some i else findFirst p xs (i + 1)

/-- The format `%02d` of `snprintf` on a byte. -/
def fmt02d (n : Nat) : String :=
  if n < 10 then "0" ++ toString n else toString n

/-- The function `_process_Version`, lines 1733-1914.  `myESP.fs_saveConfig()`
writes the settings file through callbacks of the application and changes
nothing of the state modelled here.  `now` is `millis()`. -/
def _process_Version (cfg : Config) (now : Nat) (rx : _EMS_RxTelegram) (s : State) : State :=
  if rx.data_length < 3 then s
  else
    let product_id := _toByte rx 0
    let version := fmt02d (_toByte rx 1) ++ "." ++ fmt02d (_toByte rx 2)
    match findFirst
        (fun (b : _Boiler_Type) => b.product_id == product_id && (rx.src &&& 0x7F) == cfg.EMS_ID_BOILER)
        cfg.Boiler_Types 0 with
    | some i =>
      let entry := cfg.Boiler_Types.getD i ⟨0, 0, ""⟩
      let s1 := _addDevice product_id cfg.EMS_ID_BOILER version entry.model_string s
      if s1.EMS_Boiler.device_id = EMS_ID_NONE ∨
          (s1.EMS_Boiler.device_id = cfg.EMS_ID_BOILER ∧ s1.EMS_Boiler.product_id = EMS_ID_NONE) then
        let s2 := { s1 with
          EMS_Boiler.device_id := cfg.EMS_ID_BOILER
          EMS_Boiler.product_id := entry.product_id
          EMS_Boiler.version := version }
        let s3 :=
          if s2.EMS_Boiler.product_id = cfg.EMS_PRODUCTID_HEATRONICS then
            { s2 with
              EMS_Sys_Status.emsIDMask := 0x80
              EMS_Sys_Status.emsPollAck := EMS_ID_ME ^^^ 0x80 }
          else s2
        ems_getBoilerValues cfg now s3
      else s1
    | none =>
    match findFirst (fun (t : _Thermostat_Type) => t.product_id == product_id)
        cfg.Thermostat_Types 0 with
    | some i =>
      let entry := cfg.Thermostat_Types.getD i ⟨0, 0, 0, "", false⟩
      let s1 := _addDevice product_id entry.device_id version entry.model_string s
      if (s1.EMS_Thermostat.device_id = EMS_ID_NONE ∨
            s1.EMS_Thermostat.model_id = cfg.EMS_MODEL_NONE ∨
            s1.EMS_Thermostat.device_id = entry.device_id) ∧
          s1.EMS_Thermostat.product_id = EMS_ID_NONE then
        ems_getThermostatValues cfg now
          { s1 with
            EMS_Thermostat.model_id := entry.model_id
            EMS_Thermostat.device_id := entry.device_id
            EMS_Thermostat.write_supported := entry.write_supported
            EMS_Thermostat.product_id := product_id
            EMS_Thermostat.version := version }
      else s1
    | none =>
    match findFirst (fun (t : _SolarModule_Type) => t.product_id == product_id)
        cfg.SolarModule_Types 0 with
    | some i =>
      let entry := cfg.SolarModule_Types.getD i ⟨0, 0, 0, ""⟩
      let s1 := _addDevice product_id entry.device_id version entry.model_string s
      ems_getSolarModuleValues cfg now
        { s1 with
          EMS_SolarModule.device_id := entry.device_id
          EMS_SolarModule.product_id := product_id
          EMS_SolarModule.version := version }
    | none =>
    match findFirst (fun (t : _HeatPump_Type) => t.product_id == product_id)
        cfg.HeatPump_Types 0 with
    | some i =>
      let entry := cfg.HeatPump_Types.getD i ⟨0, 0, 0, ""⟩
      let s1 := _addDevice product_id entry.device_id version entry.model_string s
      { s1 with
        EMS_HeatPump.device_id := (cfg.SolarModule_Types.getD i ⟨0, 0, 0, ""⟩).device_id
        EMS_HeatPump.product_id := product_id
        EMS_HeatPump.version := version }
    | none =>
    match findFirst (fun (t : _Other_Type) => t.product_id == product_id)
        cfg.Other_Types 0 with
    | some i =>
      let entry := cfg.Other_Types.getD i ⟨0, 0, 0, ""⟩
      _addDevice product_id entry.device_id version entry.model_string s
    | none => _addDevice product_id rx.src version "unknown?" s

/-! ## Type registry and dispatch -/

/-- An entry of the table `EMS_Types`: model, type ID, label and callback
(`none` for `nullptr`). -/
structure _EMS_Type where
  model_id : Nat
  type : Nat
  typeString : String
  processType_cb : Option (_EMS_RxTelegram → State → State)

/-- The table `EMS_Types`, lines 109-186. -/
def EMS_Types (cfg : Config) (now : Nat) : List _EMS_Type :=
  [ ⟨cfg.EMS_MODEL_ALL, cfg.EMS_TYPE_Version, "Version", some (_process_Version cfg now)⟩,
    ⟨cfg.EMS_MODEL_UBA, cfg.EMS_TYPE_UBAMonitorFast, "UBAMonitorFast", some (_process_UBAMonitorFast cfg)⟩,
    ⟨cfg.EMS_MODEL_UBA, cfg.EMS_TYPE_UBAMonitorSlow, "UBAMonitorSlow", some _process_UBAMonitorSlow⟩,
    ⟨cfg.EMS_MODEL_UBA, cfg.EMS_TYPE_UBAMonitorWWMessage, "UBAMonitorWWMessage", some _process_UBAMonitorWWMessage⟩,
    ⟨cfg.EMS_MODEL_UBA, cfg.EMS_TYPE_UBAParameterWW, "UBAParameterWW", some (_process_UBAParameterWW cfg)⟩,
    ⟨cfg.EMS_MODEL_UBA, cfg.EMS_TYPE_UBATotalUptimeMessage, "UBATotalUptimeMessage", some _process_UBATotalUptimeMessage⟩,
    ⟨cfg.EMS_MODEL_UBA, cfg.EMS_TYPE_UBAMaintenanceSettingsMessage, "UBAMaintenanceSettingsMessage", none⟩,
    ⟨cfg.EMS_MODEL_UBA, cfg.EMS_TYPE_UBAParametersMessage, "UBAParametersMessage", some _process_UBAParametersMessage⟩,
    ⟨cfg.EMS_MODEL_UBA, cfg.EMS_TYPE_UBASetPoints, "UBASetPoints", some _process_SetPoints⟩,
    ⟨cfg.EMS_MODEL_SM, cfg.EMS_TYPE_SM10Monitor, "SM10Monitor", some _process_SM10Monitor⟩,
    ⟨cfg.EMS_MODEL_SM, cfg.EMS_TYPE_SM100Monitor, "SM100Monitor", some _process_SM100Monitor⟩,
    ⟨cfg.EMS_MODEL_SM, cfg.EMS_TYPE_SM100Status, "SM100Status", some _process_SM100Status⟩,
    ⟨cfg.EMS_MODEL_SM, cfg.EMS_TYPE_SM100Status2, "SM100Status2", some _process_SM100Status2⟩,
    ⟨cfg.EMS_MODEL_SM, cfg.EMS_TYPE_SM100Energy, "SM100Energy", some _process_SM100Energy⟩,
    ⟨cfg.EMS_MODEL_SM, cfg.EMS_TYPE_ISM1StatusMessage, "ISM1StatusMessage", some _process_ISM1StatusMessage⟩,
    ⟨cfg.EMS_MODEL_SM, cfg.EMS_TYPE_ISM1Set, "ISM1Set", some _process_ISM1Set⟩,
    ⟨cfg.EMS_MODEL_HP, cfg.EMS_TYPE_HPMonitor1, "HeatPumpMonitor1", some _process_HPMonitor1⟩,
    ⟨cfg.EMS_MODEL_HP, cfg.EMS_TYPE_HPMonitor2, "HeatPumpMonitor2", some _process_HPMonitor2⟩,
    ⟨cfg.EMS_MODEL_RC10, cfg.EMS_TYPE_RCTime, "RCTime", some (_process_RCTime cfg)⟩,
    ⟨cfg.EMS_MODEL_RC10, cfg.EMS_TYPE_RC10Set, "RC10Set", some _process_RC10Set⟩,
    ⟨cfg.EMS_MODEL_RC10, cfg.EMS_TYPE_RC10StatusMessage, "RC10StatusMessage", some (_process_RC10StatusMessage cfg)⟩,
    ⟨cfg.EMS_MODEL_RC20, cfg.EMS_TYPE_RCOutdoorTempMessage, "RCOutdoorTempMessage", some _process_RCOutdoorTempMessage⟩,
    ⟨cfg.EMS_MODEL_RC20, cfg.EMS_TYPE_RCTime, "RCTime", some (_process_RCTime cfg)⟩,
    ⟨cfg.EMS_MODEL_RC20, cfg.EMS_TYPE_RC20Set, "RC20Set", some (_process_RC20Set cfg)⟩,
    ⟨cfg.EMS_MODEL_RC20, cfg.EMS_TYPE_RC20StatusMessage, "RC20StatusMessage", some (_process_RC20StatusMessage cfg)⟩,
    ⟨cfg.EMS_MODEL_RC20F, cfg.EMS_TYPE_RCOutdoorTempMessage, "RCOutdoorTempMessage", some _process_RCOutdoorTempMessage⟩,
    ⟨cfg.EMS_MODEL_RC20F, cfg.EMS_TYPE_RCTime, "RCTime", some (_process_RCTime cfg)⟩,
    ⟨cfg.EMS_MODEL_RC20F, cfg.EMS_TYPE_RC20Set, "RC20Set", some (_process_RC20Set cfg)⟩,
    ⟨cfg.EMS_MODEL_RC20F, cfg.EMS_TYPE_RC20StatusMessage, "RC20StatusMessage", some (_process_RC20StatusMessage cfg)⟩,
    ⟨cfg.EMS_MODEL_RC30, cfg.EMS_TYPE_RCOutdoorTempMessage, "RCOutdoorTempMessage", some _process_RCOutdoorTempMessage⟩,
    ⟨cfg.EMS_MODEL_RC30, cfg.EMS_TYPE_RCTime, "RCTime", some (_process_RCTime cfg)⟩,
    ⟨cfg.EMS_MODEL_RC30, cfg.EMS_TYPE_RC30Set, "RC30Set", some (_process_RC30Set cfg)⟩,
    ⟨cfg.EMS_MODEL_RC30, cfg.EMS_TYPE_RC30StatusMessage, "RC30StatusMessage", some (_process_RC30StatusMessage cfg)⟩,
    ⟨cfg.EMS_MODEL_RC35, cfg.EMS_TYPE_RCOutdoorTempMessage, "RCOutdoorTempMessage", some _process_RCOutdoorTempMessage⟩,
    ⟨cfg.EMS_MODEL_RC35, cfg.EMS_TYPE_RCTime, "RCTime", some (_process_RCTime cfg)⟩,
    ⟨cfg.EMS_MODEL_RC35, cfg.EMS_TYPE_RC35Set_HC1, "RC35Set_HC1", some (_process_RC35Set cfg)⟩,
    ⟨cfg.EMS_MODEL_RC35, cfg.EMS_TYPE_RC35StatusMessage_HC1, "RC35StatusMessage_HC1", some (_process_RC35StatusMessage cfg)⟩,
    ⟨cfg.EMS_MODEL_RC35, cfg.EMS_TYPE_RC35Set_HC2, "RC35Set_HC2", some (_process_RC35Set cfg)⟩,
    ⟨cfg.EMS_MODEL_RC35, cfg.EMS_TYPE_RC35StatusMessage_HC2, "RC35StatusMessage_HC2", some (_process_RC35StatusMessage cfg)⟩,
    ⟨cfg.EMS_MODEL_ES73, cfg.EMS_TYPE_RCOutdoorTempMessage, "RCOutdoorTempMessage", some _process_RCOutdoorTempMessage⟩,
    ⟨cfg.EMS_MODEL_ES73, cfg.EMS_TYPE_RCTime, "RCTime", some (_process_RCTime cfg)⟩,
    ⟨cfg.EMS_MODEL_ES73, cfg.EMS_TYPE_RC35Set_HC1, "RC35Set", some (_process_RC35Set cfg)⟩,
    ⟨cfg.EMS_MODEL_ES73, cfg.EMS_TYPE_RC35StatusMessage_HC1, "RC35StatusMessage", some (_process_RC35StatusMessage cfg)⟩,
    ⟨cfg.EMS_MODEL_EASY, cfg.EMS_TYPE_EasyStatusMessage, "EasyStatusMessage", some (_process_EasyStatusMessage cfg)⟩,
    ⟨cfg.EMS_MODEL_ALL, cfg.EMS_TYPE_RCPLUSStatusMessage, "RCPLUSStatusMessage", some (_process_RCPLUSStatusMessage cfg)⟩,
    ⟨cfg.EMS_MODEL_ALL, cfg.EMS_TYPE_RCPLUSSet, "RCPLUSSetMessage", some _process_RCPLUSSetMessage⟩,
    ⟨cfg.EMS_MODEL_ALL, cfg.EMS_TYPE_RCPLUSStatusHeating, "RCPLUSStatusHeating", some _process_RCPLUSStatusHeating⟩,
    ⟨cfg.EMS_MODEL_ALL, cfg.EMS_TYPE_RCPLUSStatusMode, "RCPLUSStatusMode", some _process_RCPLUSStatusMode⟩,
    ⟨cfg.EMS_MODEL_ALL, cfg.EMS_TYPE_JunkersStatusMessage, "JunkersStatusMessage", some (_process_JunkersStatusMessage cfg)⟩ ]

/-- The function `_ems_processTelegram`, lines 1053-1106. -/
def _ems_processTelegram (cfg : Config) (now : Nat) (rx : _EMS_RxTelegram) (s : State) : State :=
  if rx.data_length = 0 then s
  else
    let dest := rx.dest
    let type := rx.type
    let s1 :=
      match findFirst
          (fun (e : _EMS_Type) => e.type == type && (dest == EMS_ID_NONE || dest == EMS_ID_ME))
          (EMS_Types cfg now) 0 with
      | some i =>
        match (EMS_Types cfg now).get? i with
        | some ⟨_, _, _, some processType_cb⟩ =>
          if rx.emsplus then processType_cb rx s
          else if rx.offset = EMS_ID_NONE then processType_cb rx s
          else s
        | _ => s
      | none => s
    { s1 with EMS_Sys_Status.emsTxStatus := EMS_TX_STATUS_IDLE }

/-- The function `_processType`, lines 1123-1238.  `EMS_TxTelegram` is the
copy of the queue head taken before the branches, so the three tests on its
action see the same value.  `emsRxPgks++` (line 1169) is the increment of a
16-bit field, reduced modulo `2 ^ 16`; for the 8-bit `txRetryCount` (lines
1179 and 1218) see `_EMS_Sys_Status`. -/
def _processType (cfg : Config) (now : Nat) (rx : _EMS_RxTelegram) (s : State) : State :=
  let telegram := rx.telegram
  if rx.src = EMS_ID_ME then s
  else if s.EMS_Sys_Status.emsTxStatus = EMS_TX_STATUS_IDLE then
    _ems_processTelegram cfg now rx s
  else
    let s1 := { s with EMS_Sys_Status.emsTxStatus := EMS_TX_STATUS_IDLE }
    if (telegram.getD 1 0 &&& 0x7F) ≠ EMS_ID_ME then
      _ems_processTelegram cfg now rx (_removeTxQueue s1)
    else
      match s1.EMS_TxQueue with
      | [] => _ems_processTelegram cfg now rx s1
      | EMS_TxTelegram :: _ =>
        let s2 :=
          if EMS_TxTelegram.action = EMS_TX_TELEGRAM_READ then
            let s3 :=
              if (rx.src &&& 0x7F) = (EMS_TxTelegram.dest &&& 0x7F) ∧
                  rx.type = EMS_TxTelegram.type then
                let s4 := _removeTxQueue s1
                ems_setEmsRefreshed EMS_TxTelegram.forceRefresh
                  { s4 with
                    EMS_Sys_Status.emsRxPgks := (s4.EMS_Sys_Status.emsRxPgks + 1) % 2 ^ 16 }
              else if rx.data_length = 0 then _removeTxQueue s1
              else
                let s4 := { s1 with
                  EMS_Sys_Status.txRetryCount := s1.EMS_Sys_Status.txRetryCount + 1 }
                if s4.EMS_Sys_Status.txRetryCount ≥ TX_WRITE_TIMEOUT_COUNT then _removeTxQueue s4
                else s4
            _ems_processTelegram cfg now rx s3
          else s1
        let s5 :=
          if EMS_TxTelegram.action = EMS_TX_TELEGRAM_VALIDATE then
            let dataReceived := telegram.getD 4 0
            if EMS_TxTelegram.comparisonValue = dataReceived then
              ems_doReadCommand cfg now EMS_TxTelegram.comparisonPostRead EMS_TxTelegram.dest true
                (_removeTxQueue s2)
            else
              let s6 := { s2 with
                EMS_Sys_Status.txRetryCount := s2.EMS_Sys_Status.txRetryCount + 1 }
              if s6.EMS_Sys_Status.txRetryCount > TX_WRITE_TIMEOUT_COUNT then _removeTxQueue s6
              else
                let EMS_TxTelegram1 := { EMS_TxTelegram with
                  action := EMS_TX_TELEGRAM_WRITE
                  dataValue := EMS_TxTelegram.comparisonValue
                  offset := EMS_TxTelegram.comparisonOffset }
                { s6 with EMS_TxQueue :=
                    CircularBuffer_unshift cfg (CircularBuffer_shift s6.EMS_TxQueue) EMS_TxTelegram1 }
          else s2
        ems_tx_pollAck s5

/-! ## Receiving -/

/-- The framing step of `ems_parseTelegram`, lines 889-929: the fields of the
static `EMS_RxTelegram` computed from the raw bytes; every field is assigned
on every path.  `now` is `millis()`. -/
def ems_parseTelegram_frame (telegram : List Nat) (length : Nat) (now : Nat) : _EMS_RxTelegram :=
  let src := telegram.getD 0 0 &&& 0x7F
  let dest := telegram.getD 1 0 &&& 0x7F
  let offset := telegram.getD 3 0
  if telegram.getD 2 0 ≥ 0xF0 then
    if telegram.getD 2 0 = 0xFF then
      { telegram := telegram, timestamp := now, length := length, src := src, dest := dest,
        offset := offset, emsplus := true,
        type := ((telegram.getD 4 0 <<< 8) + telegram.getD 5 0) % 65536,
        data := 6,
        data_length := if length ≤ 7 then 0 else length - 7 }
    else
      let shift := if telegram.getD 4 0 ≠ 0xFF then 1 else 0
      { telegram := telegram, timestamp := now, length := length, src := src, dest := dest,
        offset := offset, emsplus := true,
        type := ((telegram.getD (5 + shift) 0 <<< 8) + telegram.getD (6 + shift) 0) % 65536,
        data := 6 + shift,
        data_length := if length ≤ 9 + shift then 0 else length - (9 + shift) }
  else
    { telegram := telegram, timestamp := now, length := length, src := src, dest := dest,
      offset := offset, emsplus := false,
      type := telegram.getD 2 0,
      data := 4,
      data_length := length - 5 }

/-- The function `ems_parseTelegram`, lines 808-955: `telegram` is the
receive buffer and `length` the number of bytes of the telegram in it,
CRC included.  `LA_PULSE`, a pulse on a logic-analyser pin, is left out.
`emsTxPkgs++` (line 865) and `emxCrcErr++` (line 941) are increments of 16-bit
fields, reduced modulo `2 ^ 16`. -/
def ems_parseTelegram (cfg : Config) (env : Env) (telegram : List Nat) (length : Nat)
    (s : State) : State :=
  if s.EMS_Sys_Status.emsTxStatus = EMS_TX_REV_DETECT ∧
      ¬ (length ≥ 5 ∧ telegram.getD (length - 1) 0 = _crcCalculator telegram length) then s
  else
    let s1 :=
      if s.EMS_Sys_Status.emsTxStatus = EMS_TX_REV_DETECT then
        { s with
          EMS_Sys_Status.emsTxStatus := EMS_TX_STATUS_IDLE
          EMS_Sys_Status.emsIDMask := telegram.getD 0 0 &&& 0x80
          EMS_Sys_Status.emsPollAck := EMS_ID_ME ^^^ (telegram.getD 0 0 &&& 0x80) }
      else s
    if s1.EMS_Sys_Status.emsRxStatus ≠ EMS_RX_STATUS_IDLE then s1
    else if length = 1 then
      let value := telegram.getD 0 0
      if (value ^^^ 0x80 ^^^ s1.EMS_Sys_Status.emsIDMask) = EMS_ID_ME then
        let s2 := { s1 with
          EMS_Sys_Status.emsTxCapable := true
          EMS_Sys_Status.emsPollFrequency :=
            (env.micros + 2 ^ 32 - s1._last_emsPollFrequency) % 2 ^ 32
          _last_emsPollFrequency := env.micros }
        if !s2.EMS_TxQueue.isEmpty ∧ s2.EMS_Sys_Status.emsTxStatus = EMS_TX_STATUS_IDLE then
          _ems_sendTelegram env.txStatus s2
        else if s2.EMS_Sys_Status.emsPollEnabled then ems_tx_pollAck s2
        else s2
      else if s1.EMS_Sys_Status.emsTxStatus = EMS_TX_STATUS_WAIT then
        if value = EMS_TX_SUCCESS then
          _createValidate cfg env.stack_TxTelegram
            (ems_tx_pollAck { s1 with
              EMS_Sys_Status.emsTxPkgs := (s1.EMS_Sys_Status.emsTxPkgs + 1) % 2 ^ 16 })
        else if value = EMS_TX_ERROR then _removeTxQueue (ems_tx_pollAck s1)
        else s1
      else s1
    else if length ≤ 4 then s1
    else
      let EMS_RxTelegram := ems_parseTelegram_frame telegram length env.millis
      if telegram.getD (length - 1) 0 ≠ _crcCalculator telegram length then
        { s1 with EMS_Sys_Status.emxCrcErr := (s1.EMS_Sys_Status.emxCrcErr + 1) % 2 ^ 16 }
      else
        _processType cfg env.millis EMS_RxTelegram
          { s1 with
            EMS_Sys_Status.emsRxTimestamp := EMS_RxTelegram.timestamp
            EMS_Sys_Status.emsBusConnected := true }

/-! ## A concrete configuration and concrete states

The model is evaluated on these in the closed theorems below.  The type IDs
are the ones the comments of `ems.cpp` give for each decoder; the product
tables hold one entry per family, among them a boiler with the product ID
`EMS_PRODUCTID_HEATRONICS` that `_process_Version` tests for. -/

/-- A configuration in the shape of `ems.h` and `ems_devices.h`. -/
def sampleConfig : Config :=
  { EMS_MAX_TELEGRAM_LENGTH := 32
    EMS_TX_TELEGRAM_QUEUE_MAX := 100
    EMS_ID_BOILER := 0x08
    EMS_ID_SM := 0x30
    EMS_PRODUCTID_HEATRONICS := 95
    EMS_PRODUCTID_SM10 := 73
    EMS_PRODUCTID_SM100 := 163
    EMS_MODEL_NONE := 0
    EMS_MODEL_ALL := 1
    EMS_MODEL_UBA := 2
    EMS_MODEL_SM := 3
    EMS_MODEL_HP := 4
    EMS_MODEL_RC10 := 5
    EMS_MODEL_RC20 := 6
    EMS_MODEL_RC20F := 7
    EMS_MODEL_RC30 := 8
    EMS_MODEL_RC35 := 9
    EMS_MODEL_ES73 := 10
    EMS_MODEL_EASY := 11
    EMS_MODEL_RC300 := 12
    EMS_VALUE_INT_ON := 1
    EMS_VALUE_INT_NOTSET := 0xFF
    EMS_VALUE_SHORT_NOTSET := 0x8000
    EMS_BOILER_SELFLOWTEMP_HEATING := 70
    EMS_TYPE_Version := 0x02
    EMS_TYPE_UBAMonitorFast := 0x18
    EMS_TYPE_UBAMonitorSlow := 0x19
    EMS_TYPE_UBAMonitorWWMessage := 0x34
    EMS_TYPE_UBAParameterWW := 0x33
    EMS_TYPE_UBATotalUptimeMessage := 0x14
    EMS_TYPE_UBAMaintenanceSettingsMessage := 0x15
    EMS_TYPE_UBAParametersMessage := 0x16
    EMS_TYPE_UBASetPoints := 0x1A
    EMS_TYPE_SM10Monitor := 0x97
    EMS_TYPE_SM100Monitor := 0x0262
    EMS_TYPE_SM100Status := 0x0264
    EMS_TYPE_SM100Status2 := 0x026A
    EMS_TYPE_SM100Energy := 0x028E
    EMS_TYPE_ISM1StatusMessage := 0x0003
    EMS_TYPE_ISM1Set := 0x0001
    EMS_TYPE_HPMonitor1 := 0xE3
    EMS_TYPE_HPMonitor2 := 0xE5
    EMS_TYPE_RCTime := 0x06
    EMS_TYPE_RCOutdoorTempMessage := 0xA3
    EMS_TYPE_RC10Set := 0xB0
    EMS_TYPE_RC10StatusMessage := 0xB1
    EMS_TYPE_RC20Set := 0xA8
    EMS_TYPE_RC20StatusMessage := 0x91
    EMS_TYPE_RC30Set := 0xA7
    EMS_TYPE_RC30StatusMessage := 0x41
    EMS_TYPE_RC35Set_HC1 := 0x3D
    EMS_TYPE_RC35StatusMessage_HC1 := 0x3E
    EMS_TYPE_RC35Set_HC2 := 0x47
    EMS_TYPE_RC35StatusMessage_HC2 := 0x48
    EMS_TYPE_EasyStatusMessage := 0x0A
    EMS_TYPE_RCPLUSStatusMessage := 0x01A5
    EMS_TYPE_RCPLUSSet := 0x03
    EMS_TYPE_RCPLUSStatusHeating := 0x01B9
    EMS_TYPE_RCPLUSStatusMode := 0x01AF
    EMS_TYPE_JunkersStatusMessage := 0x6F
    EMS_OFFSET_UBAParameterWW_wwComfort := 9
    EMS_OFFSET_RC10StatusMessage_setpoint := 1
    EMS_OFFSET_RC10StatusMessage_curr := 2
    EMS_OFFSET_RC20StatusMessage_setpoint := 1
    EMS_OFFSET_RC20StatusMessage_curr := 2
    EMS_OFFSET_RC30StatusMessage_setpoint := 1
    EMS_OFFSET_RC30StatusMessage_curr := 2
    EMS_OFFSET_RC35StatusMessage_setpoint := 2
    EMS_OFFSET_RC35StatusMessage_curr := 3
    EMS_OFFSET_RC35Get_mode_day := 1
    EMS_OFFSET_RC35Set_circuitcalctemp := 14
    EMS_OFFSET_EasyStatusMessage_curr := 8
    EMS_OFFSET_EasyStatusMessage_setpoint := 10
    EMS_OFFSET_RCPLUSStatusMessage_curr := 0
    EMS_OFFSET_RCPLUSStatusMessage_setpoint := 3
    EMS_OFFSET_RCPLUSGet_mode_day := 8
    EMS_OFFSET_RCPLUSStatusMessage_mode := 10
    EMS_OFFSET_JunkersStatusMessage_curr := 4
    EMS_OFFSET_JunkersStatusMessage_setpoint := 2
    EMS_OFFSET_RC20Set_mode := 23
    EMS_OFFSET_RC30Set_mode := 23
    EMS_OFFSET_RC35Set_mode := 7
    EMS_OFFSET_RC35Set_temp_day := 2
    EMS_OFFSET_RC35Set_temp_night := 1
    EMS_OFFSET_RC35Set_temp_holiday := 3
    EMS_OFFSET_RC35Set_heatingtype := 0
    EMS_VALUE_USHORT_NOTSET := 0x8000
    EMS_VALUE_LONG_NOTSET := 0xFFFFFF
    EMS_SYS_LOGGING_DEFAULT := 0
    EMS_SYS_LOGGING_JABBER := 6
    EMS_BOILER_TAPWATER_TEMPERATURE_MAX := 60
    EMS_TYPE_UBAFunctionTest := 0x1D
    EMS_OFFSET_UBAParameterWW_wwtemp := 2
    EMS_OFFSET_UBAParameterWW_wwactivated := 1
    EMS_OFFSET_UBASetPoints_flowtemp := 0
    EMS_VALUE_UBAParameterWW_wwComfort_Hot := 0x00
    EMS_VALUE_UBAParameterWW_wwComfort_Eco := 0xD8
    EMS_VALUE_UBAParameterWW_wwComfort_Intelligent := 0xEC
    EMS_OFFSET_RC10Set_temp := 4
    EMS_OFFSET_RC20Set_temp := 28
    EMS_OFFSET_RC30Set_temp := 34
    Boiler_Types := [⟨2, 72, "MC10 Module"⟩, ⟨2, 95, "Heatronics 3"⟩]
    Thermostat_Types := [⟨9, 86, 0x10, "RC35", true⟩, ⟨6, 77, 0x17, "RC20", true⟩]
    SolarModule_Types := [⟨3, 73, 0x30, "SM10 Solar Module"⟩]
    HeatPump_Types := [⟨4, 252, 0x38, "HeatPump Module"⟩]
    Other_Types := [⟨0, 68, 0x09, "BC10 Base Controller"⟩] }

/-- A system status as `ems_init` leaves it (lines 225-240), Tx status
`EMS_TX_REV_DETECT`. -/
def sampleSysStatus : _EMS_Sys_Status :=
  { emsRxStatus := EMS_RX_STATUS_IDLE, emsTxStatus := EMS_TX_REV_DETECT, emsRxPgks := 0,
    emsTxPkgs := 0, emxCrcErr := 0, emsPollEnabled := false, emsLogging := 0,
    emsRefreshed := false, emsBusConnected := false, emsRxTimestamp := 0,
    emsPollFrequency := 0, emsTxCapable := false, emsTxDisabled := false, txRetryCount := 0,
    emsTxMode := 0, emsIDMask := 0x00, emsPollAck := 0x0B }

/-- A state with no device bound, an empty queue and nothing sent, Tx status
`EMS_TX_REV_DETECT`. -/
def sampleState : State :=
  { EMS_Sys_Status := sampleSysStatus
    EMS_TxQueue := []
    Devices := []
    EMS_Boiler :=
      { device_id := 0, product_id := 0, version := "?", wWActivated := 0xFF, wWSelTemp := 0xFF,
        wWCircPump := 0xFF, wWDesiredTemp := 0xFF, wWComfort := 0xFF, selFlowTemp := 0xFF,
        curFlowTemp := 0x8000, retTemp := 0x8000, burnGas := 0xFF, fanWork := 0xFF,
        ignWork := 0xFF, heatPmp := 0xFF, wWHeat := 0xFF, wWCirc := 0xFF, selBurnPow := 0xFF,
        curBurnPow := 0xFF, flameCurr := 0x8000, sysPress := 0xFF, serviceCodeChar := [63, 63, 0],
        serviceCode := 0x8000, extTemp := 0x8000, boilTemp := 0x8000, pumpMod := 0xFF,
        burnStarts := 0xFFFFFF, burnWorkMin := 0xFFFFFF, heatWorkMin := 0xFFFFFF,
        wWCurTmp := 0x8000, wWStarts := 0xFFFFFF, wWWorkM := 0xFFFFFF, wWOneTime := 0xFF,
        wWCurFlow := 0xFF, UBAuptime := 0xFFFFFF, heating_temp := 0xFF, pump_mod_max := 0xFF,
        pump_mod_min := 0xFF, tapwaterActive := 0xFF, heatingActive := 0xFF }
    EMS_Thermostat :=
      { device_id := 0, model_id := 0, product_id := 0, write_supported := false, hc := 1,
        version := "?", setpoint_roomTemp := 0x8000, curr_roomTemp := 0x8000, mode := 0xFF,
        day_mode := 0xFF, hour := 0, minute := 0, second := 0, day := 0, month := 0, year := 0,
        daytemp := 0xFF, nighttemp := 0xFF, holidaytemp := 0xFF, heatingtype := 0xFF,
        circuitcalctemp := 0xFF }
    EMS_SolarModule :=
      { device_id := 0, model_id := 0, product_id := 0, version := "?", collectorTemp := 0x8000,
        bottomTemp := 0x8000, pumpModulation := 0xFF, pump := 0xFF,
        setpoint_maxBottomTemp := 0x8000, EnergyLastHour := 0x8000, EnergyToday := 0x8000,
        EnergyTotal := 0x8000, pumpWorkMin := 0xFFFFFF }
    EMS_HeatPump :=
      { device_id := 0, model_id := 0, product_id := 0, version := "?", HPModulation := 0xFF,
        HPSpeed := 0xFF }
    _last_emsPollFrequency := 0
    uart_tx := [] }

/-- The state `sampleState` after bus detection: Tx status idle, with the
given id-mask. -/
def sampleIdle (mask : Nat) : State :=
  { sampleState with
    EMS_Sys_Status.emsTxStatus := EMS_TX_STATUS_IDLE
    EMS_Sys_Status.emsIDMask := mask
    EMS_Sys_Status.emsPollAck := EMS_ID_ME ^^^ mask }

/-- An environment: clocks at 1000 ms and 1000000 us, a transport that
reports success. -/
def sampleEnv : Env :=
  { millis := 1000, micros := 1000000, txStatus := EMS_TX_STATUS_OK,
    stack_TxTelegram := EMS_TX_TELEGRAM_NEW sampleConfig }

/-- A queued telegram as the builders of `ems.cpp` make it: 6 bytes long,
requesting or writing `dataValue`, with a zeroed byte array. -/
def sampleEntry (action : _EMS_TX_TELEGRAM_ACTION) (type dest dataValue : Nat) :
    _EMS_TxTelegram :=
  { EMS_TX_TELEGRAM_NEW sampleConfig with
    action := action, dest := dest, type := type, length := EMS_MIN_TELEGRAM_LENGTH,
    dataValue := dataValue, timestamp := 5 }

/-- The idle state `sampleIdle mask` with the one telegram `t` queued. -/
def sampleQueued (mask : Nat) (t : _EMS_TxTelegram) : State :=
  { sampleIdle mask with EMS_TxQueue := [t] }

/-- A queued Write as `ems_setWarmWaterTemp` makes it (lines 2616-2642): the
value `dataValue` for the byte at `offset` of the type `type`, to be validated
by reading that byte back and followed by a read of `type`. -/
def sampleWrite (type dest offset dataValue : Nat) : _EMS_TxTelegram :=
  { sampleEntry EMS_TX_TELEGRAM_WRITE type dest dataValue with
    offset := offset, type_validate := type, comparisonValue := dataValue,
    comparisonOffset := offset, comparisonPostRead := type }

/-- The state `sampleIdle mask` with the queue `q` and Tx status
`EMS_TX_STATUS_WAIT`: the head of `q` is sent and its reply awaited. -/
def sampleWaiting (mask : Nat) (q : List _EMS_TxTelegram) : State :=
  { sampleIdle mask with
    EMS_Sys_Status.emsTxStatus := EMS_TX_STATUS_WAIT
    EMS_TxQueue := q }

/-! ## Runs and enqueues

The UART driver calls `ems_parseTelegram` once for every received byte
sequence; a run is a sequence of such calls.  `EnqueuedFrom` describes what
the enqueuing functions leave of a queue and of the retry counter. -/

/-- The state `s` has the queue `q` with at most `n` further telegrams pushed
at the tail by `CircularBuffer_push`, and the retry counter `r` or, as every
enqueue resets it, zero. -/
def EnqueuedFrom (cfg : Config) (q : List _EMS_TxTelegram) (r : Nat) (n : Nat) (s : State) :
    Prop :=
  (s.EMS_Sys_Status.txRetryCount = r ∨ s.EMS_Sys_Status.txRetryCount = 0) ∧
  ∃ extra : List _EMS_TxTelegram,
    extra.length ≤ n ∧ s.EMS_TxQueue = extra.foldl (CircularBuffer_push cfg) q

/-- One call of `ems_parseTelegram` by the UART driver: the receive buffer,
the number of bytes in it, and what the call reads from outside. -/
structure RxEvent where
  env : Env
  telegram : List Nat
  length : Nat

/-- The calls of `ems_parseTelegram` for a sequence of received telegrams, one
after the other, each on the state the one before left. -/
def ems_parseTelegram_run (cfg : Config) (events : List RxEvent) (s : State) : State :=
  events.foldl (fun s e => ems_parseTelegram cfg e.env e.telegram e.length s) s

/-- A queued Validate in the shape `_createValidate` gives it (lines 727-742)
for the Write `sampleWrite type dest offset dataValue`: it reads one byte at
`offset` of `type` back and compares it with `dataValue`. -/
def sampleValidate (type dest offset dataValue : Nat) : _EMS_TxTelegram :=
  { sampleWrite type dest offset dataValue with
    action := EMS_TX_TELEGRAM_VALIDATE, dataValue := 1 }

/-! ## The dispatch rule in the words of the specification -/

/-- The decode handler the dispatch rule of the specification selects for a
structured telegram, if any: the payload is not empty, the destination is
broadcast (`0x00`) or us (`0x0B`), some entry of `EMS_Types` has the type of
the telegram, the first such entry has a handler, and the telegram is EMS-plus
or its offset is 0; the handler is the one of that first entry. -/
def dispatch_rule (cfg : Config) (now : Nat) (rx : _EMS_RxTelegram) :
    Option (_EMS_RxTelegram → State → State) :=
  if rx.data_length ≠ 0 ∧ (rx.dest = 0x00 ∨ rx.dest = 0x0B) then
    match (EMS_Types cfg now).find? (fun e => e.type == rx.type) with
    | some e =>
      match e.processType_cb with
      | some cb => if rx.emsplus = true ∨ rx.offset = 0 then some cb else none
      | none => none
    | none => none
  else none

/-- A UBAMonitorFast broadcast of the boiler, 27 bytes with the CRC: header
`08 00 18 00`, a payload of 22 bytes that starts with the selected flow
temperature `selFlowTemp`, current flow temperature `0x01F4`, burner bits
`0x09`, service code `0x00CB`, and the CRC byte `crc`. -/
def sampleMonitorFast (selFlowTemp crc : Nat) : List Nat :=
  [0x08, 0x00, 0x18, 0x00, selFlowTemp, 0x01, 0xF4, 0x64, 0x50, 0x00, 0x00, 0x09, 0x00, 0x00,
   0x00, 0x00, 0x00, 0x01, 0xC2, 0x00, 0x96, 0x0F, 0x30, 0x48, 0x00, 0xCB, crc]

/-- A receive buffer of 32 bytes that holds a UBAMonitorFast broadcast of 25
bytes, header `08 00 18 00`, a payload of 20 bytes and the CRC `0x47`, and
behind it seven bytes `0xA5` left from what was received before. -/
def sampleMonitorFastShort : List Nat :=
  [0x08, 0x00, 0x18, 0x00, 0x3C, 0x01, 0xF4, 0x64, 0x50, 0x00, 0x00, 0x09, 0x00, 0x00,
   0x00, 0x00, 0x00, 0x01, 0xC2, 0x00, 0x96, 0x0F, 0x30, 0x48, 0x47,
   0xA5, 0xA5, 0xA5, 0xA5, 0xA5, 0xA5, 0xA5]

/-! ## Initialisation and bus liveness -/

/-- The function `ems_setLogging`, lines 443-462; the messages it prints are
left out. -/
def ems_setLogging (cfg : Config) (loglevel : Nat) (s : State) : State :=
  if loglevel ≤ cfg.EMS_SYS_LOGGING_JABBER then
    { s with EMS_Sys_Status.emsLogging := loglevel }
  else s

/-- The function `ems_init`, lines 223-347.  It assigns the fields listed
here and no other: not `EMS_Boiler.device_id`, not the `version` of the solar
module and heat pump records, not the Tx queue, the list `Devices` or the
static `_last_emsPollFrequency`. -/
def ems_init (cfg : Config) (s : State) : State :=
  ems_setLogging cfg cfg.EMS_SYS_LOGGING_DEFAULT
    { s with
      EMS_Sys_Status :=
        { s.EMS_Sys_Status with
          emsRxPgks := 0
          emsTxPkgs := 0
          emxCrcErr := 0
          emsRxStatus := EMS_RX_STATUS_IDLE
          emsTxStatus := EMS_TX_REV_DETECT
          emsRefreshed := false
          emsPollEnabled := false
          emsBusConnected := false
          emsRxTimestamp := 0
          emsTxCapable := false
          emsTxDisabled := false
          emsPollFrequency := 0
          txRetryCount := 0
          emsTxMode := 0
          emsIDMask := 0x00
          emsPollAck := EMS_ID_ME }
      EMS_Thermostat :=
        { s.EMS_Thermostat with
          setpoint_roomTemp := cfg.EMS_VALUE_SHORT_NOTSET
          curr_roomTemp := cfg.EMS_VALUE_SHORT_NOTSET
          hour := 0
          minute := 0
          second := 0
          day := 0
          month := 0
          year := 0
          mode := cfg.EMS_VALUE_INT_NOTSET
          day_mode := cfg.EMS_VALUE_INT_NOTSET
          device_id := EMS_ID_NONE
          write_supported := false
          hc := 1
          daytemp := cfg.EMS_VALUE_INT_NOTSET
          nighttemp := cfg.EMS_VALUE_INT_NOTSET
          holidaytemp := cfg.EMS_VALUE_INT_NOTSET
          heatingtype := cfg.EMS_VALUE_INT_NOTSET
          circuitcalctemp := cfg.EMS_VALUE_INT_NOTSET
          model_id := cfg.EMS_MODEL_NONE
          product_id := EMS_ID_NONE
          version := "?" }
      EMS_Boiler :=
        { s.EMS_Boiler with
          wWActivated := cfg.EMS_VALUE_INT_NOTSET
          wWSelTemp := cfg.EMS_VALUE_INT_NOTSET
          wWCircPump := cfg.EMS_VALUE_INT_NOTSET
          wWDesiredTemp := cfg.EMS_VALUE_INT_NOTSET
          wWComfort := cfg.EMS_VALUE_INT_NOTSET
          selFlowTemp := cfg.EMS_VALUE_INT_NOTSET
          curFlowTemp := cfg.EMS_VALUE_USHORT_NOTSET
          retTemp := cfg.EMS_VALUE_USHORT_NOTSET
          burnGas := cfg.EMS_VALUE_INT_NOTSET
          fanWork := cfg.EMS_VALUE_INT_NOTSET
          ignWork := cfg.EMS_VALUE_INT_NOTSET
          heatPmp := cfg.EMS_VALUE_INT_NOTSET
          wWHeat := cfg.EMS_VALUE_INT_NOTSET
          wWCirc := cfg.EMS_VALUE_INT_NOTSET
          selBurnPow := cfg.EMS_VALUE_INT_NOTSET
          curBurnPow := cfg.EMS_VALUE_INT_NOTSET
          flameCurr := cfg.EMS_VALUE_SHORT_NOTSET
          sysPress := cfg.EMS_VALUE_INT_NOTSET
          serviceCodeChar := [63, 63, 0]
          serviceCode := cfg.EMS_VALUE_SHORT_NOTSET
          extTemp := cfg.EMS_VALUE_SHORT_NOTSET
          boilTemp := cfg.EMS_VALUE_USHORT_NOTSET
          pumpMod := cfg.EMS_VALUE_INT_NOTSET
          burnStarts := cfg.EMS_VALUE_LONG_NOTSET
          burnWorkMin := cfg.EMS_VALUE_LONG_NOTSET
          heatWorkMin := cfg.EMS_VALUE_LONG_NOTSET
          wWCurTmp := cfg.EMS_VALUE_USHORT_NOTSET
          wWStarts := cfg.EMS_VALUE_LONG_NOTSET
          wWWorkM := cfg.EMS_VALUE_LONG_NOTSET
          wWOneTime := cfg.EMS_VALUE_INT_NOTSET
          wWCurFlow := cfg.EMS_VALUE_INT_NOTSET
          UBAuptime := cfg.EMS_VALUE_LONG_NOTSET
          heating_temp := cfg.EMS_VALUE_INT_NOTSET
          pump_mod_max := cfg.EMS_VALUE_INT_NOTSET
          pump_mod_min := cfg.EMS_VALUE_INT_NOTSET
          tapwaterActive := cfg.EMS_VALUE_INT_NOTSET
          heatingActive := cfg.EMS_VALUE_INT_NOTSET
          product_id := EMS_ID_NONE
          version := "?" }
      EMS_SolarModule :=
        { s.EMS_SolarModule with
          collectorTemp := cfg.EMS_VALUE_SHORT_NOTSET
          bottomTemp := cfg.EMS_VALUE_SHORT_NOTSET
          pumpModulation := cfg.EMS_VALUE_INT_NOTSET
          pump := cfg.EMS_VALUE_INT_NOTSET
          EnergyLastHour := cfg.EMS_VALUE_USHORT_NOTSET
          EnergyToday := cfg.EMS_VALUE_USHORT_NOTSET
          EnergyTotal := cfg.EMS_VALUE_USHORT_NOTSET
          device_id := EMS_ID_NONE
          model_id := cfg.EMS_MODEL_NONE
          product_id := EMS_ID_NONE
          pumpWorkMin := cfg.EMS_VALUE_LONG_NOTSET
          setpoint_maxBottomTemp := cfg.EMS_VALUE_SHORT_NOTSET }
      EMS_HeatPump :=
        { s.EMS_HeatPump with
          HPModulation := cfg.EMS_VALUE_INT_NOTSET
          HPSpeed := cfg.EMS_VALUE_INT_NOTSET
          device_id := EMS_ID_NONE
          model_id := cfg.EMS_MODEL_NONE
          product_id := EMS_ID_NONE } }

/-- The function `ems_getBusConnected`, lines 432-437: the result and the
state it leaves.  `now` is `millis()`; it and `emsRxTimestamp` are 32-bit
values and the difference is taken modulo `2 ^ 32`. -/
def ems_getBusConnected (now : Nat) (s : State) : Bool × State :=
  let s1 :=
    if (now + 2 ^ 32 - s.EMS_Sys_Status.emsRxTimestamp) % 2 ^ 32 > EMS_BUS_TIMEOUT then
      { s with EMS_Sys_Status.emsBusConnected := false }
    else s
  (s1.EMS_Sys_Status.emsBusConnected, s1)

/-! ## The command builders -/

/-- The function `ems_sendRawTelegram`, lines 2433-2478.  `values` are the
bytes `(uint8_t)strtol(.., 16)` of the tokens that `strtok` cuts out of the
string, in their order; the string holds at most `EMS_MAX_TELEGRAM_LENGTH` of
them (the C code stores token `k` at `data[k]` without a bound check).
`now` is `millis()`. -/
def ems_sendRawTelegram (cfg : Config) (now : Nat) (values : List Nat) (s : State) : State :=
  if s.EMS_Sys_Status.emsTxDisabled then s
  else
    let s1 := { s with EMS_Sys_Status.txRetryCount := 0 }
    let count := values.length - 1
    if count = 0 then s1
    else
      let new := EMS_TX_TELEGRAM_NEW cfg
      let EMS_TxTelegram : _EMS_TxTelegram :=
        { new with
          timestamp := now
          data := (List.range values.length).foldl (fun d k => d.set k (values.getD k 0)) new.data
          dest := values.getD 1 0
          type := if 2 ≤ count then values.getD 2 0 else new.type
          offset := if 3 ≤ count then values.getD 3 0 else new.offset
          length := count + 2
          type_validate := EMS_ID_NONE
          action := EMS_TX_TELEGRAM_RAW }
      { s1 with EMS_TxQueue := CircularBuffer_push cfg s1.EMS_TxQueue EMS_TxTelegram }

/-- The function `ems_setThermostatTemp`, lines 2484-2561.  The `float`
argument is a rational number (every finite `float` is one, and doubling it is
exact); the conversion `(uint8_t)` cuts the fraction off, and the model is for
temperatures from 0 on.  `now` is `millis()`. -/
def ems_setThermostatTemp (cfg : Config) (now : Nat) (temperature : ℚ) (temptype : Nat)
    (s : State) : State :=
  if !ems_getThermostatEnabled s then s
  else if !s.EMS_Thermostat.write_supported then s
  else
    let s1 := { s with EMS_Sys_Status.txRetryCount := 0 }
    let model_id := s.EMS_Thermostat.model_id
    let type := s.EMS_Thermostat.device_id
    let hc := s.EMS_Thermostat.hc
    let t0 : _EMS_TxTelegram :=
      { EMS_TX_TELEGRAM_NEW cfg with
        timestamp := now
        action := EMS_TX_TELEGRAM_WRITE
        dest := type }
    let t1 : _EMS_TxTelegram :=
      if model_id = cfg.EMS_MODEL_RC20 then
        { t0 with
          type := cfg.EMS_TYPE_RC20Set
          offset := cfg.EMS_OFFSET_RC20Set_temp
          comparisonPostRead := cfg.EMS_TYPE_RC20StatusMessage }
      else if model_id = cfg.EMS_MODEL_RC10 then
        { t0 with
          type := cfg.EMS_TYPE_RC10Set
          offset := cfg.EMS_OFFSET_RC10Set_temp
          comparisonPostRead := cfg.EMS_TYPE_RC10StatusMessage }
      else if model_id = cfg.EMS_MODEL_RC30 then
        { t0 with
          type := cfg.EMS_TYPE_RC30Set
          offset := cfg.EMS_OFFSET_RC30Set_temp
          comparisonPostRead := cfg.EMS_TYPE_RC30StatusMessage }
      else if model_id = cfg.EMS_MODEL_RC35 ∨ model_id = cfg.EMS_MODEL_ES73 then
        let t2 : _EMS_TxTelegram :=
          if temptype = 1 then { t0 with offset := cfg.EMS_OFFSET_RC35Set_temp_night }
          else if temptype = 2 then { t0 with offset := cfg.EMS_OFFSET_RC35Set_temp_day }
          else if temptype = 3 then { t0 with offset := 3 }
          else if s.EMS_Thermostat.day_mode = 0 then
            { t0 with offset := cfg.EMS_OFFSET_RC35Set_temp_night }
          else if s.EMS_Thermostat.day_mode = 1 then
            { t0 with offset := cfg.EMS_OFFSET_RC35Set_temp_day }
          else t0
        if hc = 1 then
          { t2 with
            type := cfg.EMS_TYPE_RC35Set_HC1
            comparisonPostRead := cfg.EMS_TYPE_RC35StatusMessage_HC1 }
        else
          { t2 with
            type := cfg.EMS_TYPE_RC35Set_HC2
            comparisonPostRead := cfg.EMS_TYPE_RC35StatusMessage_HC2 }
      else t0
    let dataValue := Int.toNat (Rat.floor (temperature * 2)) % 256
    let EMS_TxTelegram : _EMS_TxTelegram :=
      { t1 with
        length := EMS_MIN_TELEGRAM_LENGTH
        dataValue := dataValue
        type_validate := t1.type
        comparisonOffset := t1.offset
        comparisonValue := dataValue
        forceRefresh := false }
    { s1 with EMS_TxQueue := CircularBuffer_push cfg s1.EMS_TxQueue EMS_TxTelegram }

/-- The function `ems_setThermostatMode`, lines 2567-2611. -/
def ems_setThermostatMode (cfg : Config) (now : Nat) (mode : Nat) (s : State) : State :=
  if !ems_getThermostatEnabled s then s
  else if !s.EMS_Thermostat.write_supported then s
  else
    let model_id := s.EMS_Thermostat.model_id
    let type := s.EMS_Thermostat.device_id
    let hc := s.EMS_Thermostat.hc
    let s1 := { s with EMS_Sys_Status.txRetryCount := 0 }
    let t0 : _EMS_TxTelegram :=
      { EMS_TX_TELEGRAM_NEW cfg with
        timestamp := now
        action := EMS_TX_TELEGRAM_WRITE
        dest := type
        length := EMS_MIN_TELEGRAM_LENGTH
        dataValue := mode }
    let t1 : _EMS_TxTelegram :=
      if model_id = cfg.EMS_MODEL_RC20 then
        { t0 with type := cfg.EMS_TYPE_RC20Set, offset := cfg.EMS_OFFSET_RC20Set_mode }
      else if model_id = cfg.EMS_MODEL_RC30 then
        { t0 with type := cfg.EMS_TYPE_RC30Set, offset := cfg.EMS_OFFSET_RC30Set_mode }
      else if model_id = cfg.EMS_MODEL_RC35 ∨ model_id = cfg.EMS_MODEL_ES73 then
        { t0 with
          type := if hc = 2 then cfg.EMS_TYPE_RC35Set_HC2 else cfg.EMS_TYPE_RC35Set_HC1
          offset := cfg.EMS_OFFSET_RC35Set_mode }
      else t0
    let EMS_TxTelegram : _EMS_TxTelegram :=
      { t1 with
        type_validate := t1.type
        comparisonOffset := t1.offset
        comparisonValue := t1.dataValue
        comparisonPostRead := t1.type
        forceRefresh := false }
    { s1 with EMS_TxQueue := CircularBuffer_push cfg s1.EMS_TxQueue EMS_TxTelegram }

/-- The function `ems_setWarmWaterTemp`, lines 2616-2642. -/
def ems_setWarmWaterTemp (cfg : Config) (now : Nat) (temperature : Nat) (s : State) : State :=
  if temperature < 30 ∨ temperature > cfg.EMS_BOILER_TAPWATER_TEMPERATURE_MAX then s
  else
    let s1 := { s with EMS_Sys_Status.txRetryCount := 0 }
    let EMS_TxTelegram : _EMS_TxTelegram :=
      { EMS_TX_TELEGRAM_NEW cfg with
        timestamp := now
        action := EMS_TX_TELEGRAM_WRITE
        dest := s.EMS_Boiler.device_id
        type := cfg.EMS_TYPE_UBAParameterWW
        offset := cfg.EMS_OFFSET_UBAParameterWW_wwtemp
        length := EMS_MIN_TELEGRAM_LENGTH
        dataValue := temperature
        type_validate := cfg.EMS_TYPE_UBAParameterWW
        comparisonOffset := cfg.EMS_OFFSET_UBAParameterWW_wwtemp
        comparisonValue := temperature
        comparisonPostRead := cfg.EMS_TYPE_UBAParameterWW
        forceRefresh := false }
    { s1 with EMS_TxQueue := CircularBuffer_push cfg s1.EMS_TxQueue EMS_TxTelegram }

/-- The function `ems_setFlowTemp`, lines 2647-2668. -/
def ems_setFlowTemp (cfg : Config) (now : Nat) (temperature : Nat) (s : State) : State :=
  let s1 := { s with EMS_Sys_Status.txRetryCount := 0 }
  let EMS_TxTelegram : _EMS_TxTelegram :=
    { EMS_TX_TELEGRAM_NEW cfg with
      timestamp := now
      action := EMS_TX_TELEGRAM_WRITE
      dest := s.EMS_Boiler.device_id
      type := cfg.EMS_TYPE_UBASetPoints
      offset := cfg.EMS_OFFSET_UBASetPoints_flowtemp
      length := EMS_MIN_TELEGRAM_LENGTH
      dataValue := temperature
      type_validate := cfg.EMS_TYPE_UBASetPoints
      comparisonOffset := cfg.EMS_OFFSET_UBASetPoints_flowtemp
      comparisonValue := temperature
      comparisonPostRead := cfg.EMS_TYPE_UBASetPoints
      forceRefresh := false }
  { s1 with EMS_TxQueue := CircularBuffer_push cfg s1.EMS_TxQueue EMS_TxTelegram }

/-- The function `ems_setWarmWaterModeComfort`, lines 2674-2700.  The retry
counter is reset before the argument is checked. -/
def ems_setWarmWaterModeComfort (cfg : Config) (now : Nat) (comfort : Nat) (s : State) :
    State :=
  let s1 := { s with EMS_Sys_Status.txRetryCount := 0 }
  let t0 : _EMS_TxTelegram := { EMS_TX_TELEGRAM_NEW cfg with timestamp := now }
  let dataValue : Option Nat :=
    if comfort = 1 then some cfg.EMS_VALUE_UBAParameterWW_wwComfort_Hot
    else if comfort = 2 then some cfg.EMS_VALUE_UBAParameterWW_wwComfort_Eco
    else if comfort = 3 then some cfg.EMS_VALUE_UBAParameterWW_wwComfort_Intelligent
    else none
  match dataValue with
  | none => s1
  | some v =>
    let EMS_TxTelegram : _EMS_TxTelegram :=
      { t0 with
        dataValue := v
        action := EMS_TX_TELEGRAM_WRITE
        dest := s.EMS_Boiler.device_id
        type := cfg.EMS_TYPE_UBAParameterWW
        offset := cfg.EMS_OFFSET_UBAParameterWW_wwComfort
        length := EMS_MIN_TELEGRAM_LENGTH
        type_validate := EMS_ID_NONE }
    { s1 with EMS_TxQueue := CircularBuffer_push cfg s1.EMS_TxQueue EMS_TxTelegram }

/-- The function `ems_setWarmWaterActivated`, lines 2706-2722. -/
def ems_setWarmWaterActivated (cfg : Config) (now : Nat) (activated : Bool) (s : State) :
    State :=
  let s1 := { s with EMS_Sys_Status.txRetryCount := 0 }
  let EMS_TxTelegram : _EMS_TxTelegram :=
    { EMS_TX_TELEGRAM_NEW cfg with
      timestamp := now
      action := EMS_TX_TELEGRAM_WRITE
      dest := s.EMS_Boiler.device_id
      type := cfg.EMS_TYPE_UBAParameterWW
      offset := cfg.EMS_OFFSET_UBAParameterWW_wwactivated
      length := EMS_MIN_TELEGRAM_LENGTH
      type_validate := EMS_ID_NONE
      dataValue := if activated then 0xFF else 0x00 }
  { s1 with EMS_TxQueue := CircularBuffer_push cfg s1.EMS_TxQueue EMS_TxTelegram }

/-- The function `ems_setWarmTapWaterActivated`, lines 2729-2776. -/
def ems_setWarmTapWaterActivated (cfg : Config) (now : Nat) (activated : Bool) (s : State) :
    State :=
  let s1 := { s with EMS_Sys_Status.txRetryCount := 0 }
  let new := EMS_TX_TELEGRAM_NEW cfg
  let dest := s.EMS_Boiler.device_id
  let type := cfg.EMS_TYPE_UBAFunctionTest
  let data0 := (List.range cfg.EMS_MAX_TELEGRAM_LENGTH).foldl (fun d i => d.set i 0x00) new.data
  let data1 :=
    (((data0.set 0 EMS_ID_ME).set 1 (dest % 256)).set 2 (type % 256)).set 3 0
  let t0 : _EMS_TxTelegram :=
    { new with
      timestamp := now
      action := EMS_TX_TELEGRAM_WRITE
      dest := dest
      type := type
      offset := 0
      type_validate := type
      comparisonOffset := 0
      comparisonValue := if activated then 0 else 1
      comparisonPostRead := type
      forceRefresh := true }
  let EMS_TxTelegram : _EMS_TxTelegram :=
    if !activated then
      { t0 with
        data := (((data1.set 4 0x5A).set 5 0x00).set 7 0x64).set 8 0xFF
        length := 22 }
    else
      { t0 with
        data := data1.set 4 0x00
        length := EMS_MIN_TELEGRAM_LENGTH }
  { s1 with EMS_TxQueue := CircularBuffer_push cfg s1.EMS_TxQueue EMS_TxTelegram }

/-! ## The CRC table in closed form -/

/-- The closed form of the entry `i` of `ems_crc_table`: twice `i` modulo 256,
xor `0x19` when `i` is 128 or more. -/
def ems_crc_table_formula (i : Nat) : Nat :=
  (2 * i % 256) ^^^ (if i ≥ 128 then 0x19 else 0x00)

/-- The computation of `_crcCalculator` with the closed form in the place of
the table lookup. -/
def _crcCalculator_formula (data : List Nat) (len : Nat) : Nat :=
  (List.range (len - 1)).foldl
    (fun crc i => (ems_crc_table_formula crc ^^^ data.getD i 0) % 256) 0

/-! ## The states the unit can reach -/

/-- The states reached from a call of `ems_init` by calls of
`ems_parseTelegram`, `ems_doReadCommand`, `ems_sendRawTelegram` and the
command builders, with any arguments and any readings of the clocks and of
the transport. -/
inductive Reachable (cfg : Config) : State → Prop where
  | init (s : State) : Reachable cfg (ems_init cfg s)
  | parseTelegram (env : Env) (telegram : List Nat) (length : Nat) (s : State) :
      Reachable cfg s → Reachable cfg (ems_parseTelegram cfg env telegram length s)
  | doReadCommand (now type dest : Nat) (forceRefresh : Bool) (s : State) :
      Reachable cfg s → Reachable cfg (ems_doReadCommand cfg now type dest forceRefresh s)
  | sendRawTelegram (now : Nat) (values : List Nat) (s : State) :
      Reachable cfg s → Reachable cfg (ems_sendRawTelegram cfg now values s)
  | setThermostatTemp (now : Nat) (temperature : ℚ) (temptype : Nat) (s : State) :
      Reachable cfg s → Reachable cfg (ems_setThermostatTemp cfg now temperature temptype s)
  | setThermostatMode (now mode : Nat) (s : State) :
      Reachable cfg s → Reachable cfg (ems_setThermostatMode cfg now mode s)
  | setWarmWaterTemp (now temperature : Nat) (s : State) :
      Reachable cfg s → Reachable cfg (ems_setWarmWaterTemp cfg now temperature s)
  | setFlowTemp (now temperature : Nat) (s : State) :
      Reachable cfg s → Reachable cfg (ems_setFlowTemp cfg now temperature s)
  | setWarmWaterModeComfort (now comfort : Nat) (s : State) :
      Reachable cfg s → Reachable cfg (ems_setWarmWaterModeComfort cfg now comfort s)
  | setWarmWaterActivated (now : Nat) (activated : Bool) (s : State) :
      Reachable cfg s → Reachable cfg (ems_setWarmWaterActivated cfg now activated s)
  | setWarmTapWaterActivated (now : Nat) (activated : Bool) (s : State) :
      Reachable cfg s → Reachable cfg (ems_setWarmTapWaterActivated cfg now activated s)

/-! ## Bus detection and the Heatronics assignment -/

/-- The conditions under which a telegram, framed as `rx` and received in
state `s`, reaches the assignment `emsIDMask = 0x80` of `_process_Version`
(lines 1776-1779): Rx status idle (line 835), not an echo of our own address
(line 1127), type `EMS_TYPE_Version` sent to us or broadcast (lines 1073-1076),
EMS-plus or offset 0 (lines 1093-1098), at least three payload bytes (line
1735), a boiler of `Boiler_Types` with that product ID and the boiler address
as source (line 1748), the boiler record not yet bound (line 1764), and the
product ID `EMS_PRODUCTID_HEATRONICS` (line 1776). -/
def reachesHeatronicsOverride (cfg : Config) (rx : _EMS_RxTelegram) (s : State) : Prop :=
  s.EMS_Sys_Status.emsRxStatus = EMS_RX_STATUS_IDLE ∧
  rx.src ≠ EMS_ID_ME ∧
  rx.type = cfg.EMS_TYPE_Version ∧
  (rx.dest = EMS_ID_NONE ∨ rx.dest = EMS_ID_ME) ∧
  (rx.emsplus = true ∨ rx.offset = EMS_ID_NONE) ∧
  3 ≤ rx.data_length ∧
  (findFirst
    (fun (b : _Boiler_Type) =>
      b.product_id == _toByte rx 0 && (rx.src &&& 0x7F) == cfg.EMS_ID_BOILER)
    cfg.Boiler_Types 0).isSome = true ∧
  (s.EMS_Boiler.device_id = EMS_ID_NONE ∨
    (s.EMS_Boiler.device_id = cfg.EMS_ID_BOILER ∧ s.EMS_Boiler.product_id = EMS_ID_NONE)) ∧
  _toByte rx 0 = cfg.EMS_PRODUCTID_HEATRONICS

instance reachesHeatronicsOverride_decidable (cfg : Config) (rx : _EMS_RxTelegram) (s : State) :
    Decidable (reachesHeatronicsOverride cfg rx s) := by
  unfold reachesHeatronicsOverride
  infer_instance

/-! ## CRC: the checksum does not read the CRC slot -/

/-- Two loop bodies that agree below `n` give the same fold over `0 .. n-1`. -/
theorem foldl_range_congr {β : Type} (f g : β → Nat → β) (n : Nat)
    (h : ∀ b i, i < n → f b i = g b i) (b : β) :
    (List.range n).foldl f b = (List.range n).foldl g b := by
  induction n generalizing b with
  | zero => rfl
  | succ n ih =>
    have hn : ∀ b i, i < n → f b i = g b i := fun b i hi => h b i (Nat.lt_succ_of_lt hi)
    rw [List.range_succ, List.foldl_append, List.foldl_append, ih hn]
    simp only [List.foldl_cons, List.foldl_nil]
    exact h _ n (Nat.lt_succ_self n)

/-- The checksum only depends on the bytes at the indices below `len - 1`. -/
theorem _crcCalculator_congr (d1 d2 : List Nat) (len : Nat)
    (h : ∀ i, i < len - 1 → d1.getD i 0 = d2.getD i 0) :
    _crcCalculator d1 len = _crcCalculator d2 len := by
  unfold _crcCalculator
  apply foldl_range_congr
  intro b i hi
  rw [h i hi]

/-- Writing at index `j` leaves the reads at the other indices alone. -/
theorem getD_set_ne (l : List Nat) (i j v : Nat) (h : i ≠ j) :
    (l.set j v).getD i 0 = l.getD i 0 := by
  simp [List.getD_eq_getElem?_getD, List.getElem?_set, h.symm]

/-- Writing at an index inside the list is read back. -/
theorem getD_set_eq (l : List Nat) (j v : Nat) (h : j < l.length) :
    (l.set j v).getD j 0 = v := by
  simp [List.getD_eq_getElem?_getD, List.getElem?_set, h]

/-- The checksum is unchanged by a write into the CRC slot `len - 1`. -/
theorem _crcCalculator_set_last (data : List Nat) (len v : Nat) :
    _crcCalculator (data.set (len - 1) v) len = _crcCalculator data len := by
  apply _crcCalculator_congr
  intro i hi
  exact getD_set_ne data i (len - 1) v (Nat.ne_of_lt hi)

/-- C1: for a buffer holding a telegram of `len >= 2` bytes, `_crcCalculator`
does not depend on the byte at `len - 1`; hence after the write
`data[len - 1] = _crcCalculator(data, len)` of `_ems_sendTelegram` and
`ems_testTelegram` the receive-side test
`telegram[length - 1] == _crcCalculator(telegram, length)` holds. -/
theorem C1_crc_ignores_crc_slot (data : List Nat) (len : Nat)
    (h2 : 2 ≤ len) (hlen : len ≤ data.length) :
    (∀ v, _crcCalculator (data.set (len - 1) v) len = _crcCalculator data len) ∧
    (data.set (len - 1) (_crcCalculator data len)).getD (len - 1) 0 =
      _crcCalculator (data.set (len - 1) (_crcCalculator data len)) len := by
  refine ⟨fun v => _crcCalculator_set_last data len v, ?_⟩
  rw [_crcCalculator_set_last, getD_set_eq]
  omega

/-- C1 at the read request `0B 88 18 00 20` with an empty CRC slot. -/
theorem C1_crc_ignores_crc_slot_witness :
    (∀ v, _crcCalculator ([0x0B, 0x88, 0x18, 0x00, 0x20, 0x00].set (6 - 1) v) 6 =
        _crcCalculator [0x0B, 0x88, 0x18, 0x00, 0x20, 0x00] 6) ∧
    ([0x0B, 0x88, 0x18, 0x00, 0x20, 0x00].set (6 - 1)
        (_crcCalculator [0x0B, 0x88, 0x18, 0x00, 0x20, 0x00] 6)).getD (6 - 1) 0 =
      _crcCalculator ([0x0B, 0x88, 0x18, 0x00, 0x20, 0x00].set (6 - 1)
        (_crcCalculator [0x0B, 0x88, 0x18, 0x00, 0x20, 0x00] 6)) 6 :=
  C1_crc_ignores_crc_slot [0x0B, 0x88, 0x18, 0x00, 0x20, 0x00] 6 (by decide) (by decide)

/-! ## Framing of received telegrams -/

/-- A read of a buffer of bytes yields a byte, also past its end. -/
theorem getD_lt_256 (l : List Nat) (h : ∀ b ∈ l, b < 256) (i : Nat) : l.getD i 0 < 256 := by
  rw [List.getD_eq_getElem?_getD]
  cases hi : l[i]? with
  | none => simp
  | some b => exact h b (List.getElem?_mem hi)

/-- A byte added to a value shifted left by eight bits is or-ed into it. -/
theorem shl8_add_eq_or (a b : Nat) (hb : b < 256) : (a <<< 8) + b = (a <<< 8) ||| b := by
  rw [Nat.shiftLeft_eq, Nat.mul_comm]
  exact Nat.mul_add_lt_is_or (i := 8) hb a

/-- C3: a telegram of `length >= 5` with byte 2 below `0xF0` is framed as
legacy EMS: source and destination are bytes 0 and 1 without bit 7, the type
is byte 2, the offset byte 3, and the payload is the `length - 5` bytes at
the indices `4 .. length - 2`. -/
theorem C3_frame_legacy (telegram : List Nat) (length now : Nat)
    (hL : 5 ≤ length) (h2 : telegram.getD 2 0 < 0xF0) :
    (ems_parseTelegram_frame telegram length now).src = telegram.getD 0 0 &&& 0x7F ∧
    (ems_parseTelegram_frame telegram length now).dest = telegram.getD 1 0 &&& 0x7F ∧
    (ems_parseTelegram_frame telegram length now).emsplus = false ∧
    (ems_parseTelegram_frame telegram length now).type = telegram.getD 2 0 ∧
    (ems_parseTelegram_frame telegram length now).offset = telegram.getD 3 0 ∧
    (ems_parseTelegram_frame telegram length now).data_length = length - 5 ∧
    (∀ i, i < length - 5 →
      _toByte (ems_parseTelegram_frame telegram length now) i = telegram.getD (4 + i) 0 ∧
      4 + i ≤ length - 2) := by
  have h2' : ¬ telegram.getD 2 0 ≥ 0xF0 := Nat.not_le.mpr h2
  unfold ems_parseTelegram_frame
  rw [if_neg h2']
  refine ⟨rfl, rfl, rfl, rfl, rfl, rfl, ?_⟩
  intro i hi
  exact ⟨rfl, by omega⟩

/-- C3 at the 8-byte legacy telegram `08 00 18 00 05 01 5C 3A`. -/
theorem C3_frame_legacy_witness :
    (ems_parseTelegram_frame [0x08, 0x00, 0x18, 0x00, 0x05, 0x01, 0x5C, 0x3A] 8 0).src
      = [0x08, 0x00, 0x18, 0x00, 0x05, 0x01, 0x5C, 0x3A].getD 0 0 &&& 0x7F ∧
    (ems_parseTelegram_frame [0x08, 0x00, 0x18, 0x00, 0x05, 0x01, 0x5C, 0x3A] 8 0).dest
      = [0x08, 0x00, 0x18, 0x00, 0x05, 0x01, 0x5C, 0x3A].getD 1 0 &&& 0x7F ∧
    (ems_parseTelegram_frame [0x08, 0x00, 0x18, 0x00, 0x05, 0x01, 0x5C, 0x3A] 8 0).emsplus = false ∧
    (ems_parseTelegram_frame [0x08, 0x00, 0x18, 0x00, 0x05, 0x01, 0x5C, 0x3A] 8 0).type
      = [0x08, 0x00, 0x18, 0x00, 0x05, 0x01, 0x5C, 0x3A].getD 2 0 ∧
    (ems_parseTelegram_frame [0x08, 0x00, 0x18, 0x00, 0x05, 0x01, 0x5C, 0x3A] 8 0).offset
      = [0x08, 0x00, 0x18, 0x00, 0x05, 0x01, 0x5C, 0x3A].getD 3 0 ∧
    (ems_parseTelegram_frame [0x08, 0x00, 0x18, 0x00, 0x05, 0x01, 0x5C, 0x3A] 8 0).data_length
      = 8 - 5 ∧
    (∀ i, i < 8 - 5 →
      _toByte (ems_parseTelegram_frame [0x08, 0x00, 0x18, 0x00, 0x05, 0x01, 0x5C, 0x3A] 8 0) i
        = [0x08, 0x00, 0x18, 0x00, 0x05, 0x01, 0x5C, 0x3A].getD (4 + i) 0 ∧
      4 + i ≤ 8 - 2) :=
  C3_frame_legacy [0x08, 0x00, 0x18, 0x00, 0x05, 0x01, 0x5C, 0x3A] 8 0 (by decide) (by decide)

/-- C4: a telegram of `length >= 5` with byte 2 equal to `0xFF` is framed as
extended: the type is `(byte4 << 8) | byte5`, the payload starts at index 6
and has `length - 7` bytes when `length > 7` and none otherwise. -/
theorem C4_frame_extended_FF (telegram : List Nat) (length now : Nat)
    (_hL : 5 ≤ length) (hbytes : ∀ b ∈ telegram, b < 256) (h2 : telegram.getD 2 0 = 0xFF) :
    (ems_parseTelegram_frame telegram length now).emsplus = true ∧
    (ems_parseTelegram_frame telegram length now).type
      = (telegram.getD 4 0 <<< 8) ||| telegram.getD 5 0 ∧
    (ems_parseTelegram_frame telegram length now).data = 6 ∧
    (∀ i, _toByte (ems_parseTelegram_frame telegram length now) i = telegram.getD (6 + i) 0) ∧
    (length > 7 → (ems_parseTelegram_frame telegram length now).data_length = length - 7) ∧
    (length ≤ 7 → (ems_parseTelegram_frame telegram length now).data_length = 0) := by
  have h4 := getD_lt_256 telegram hbytes 4
  have h5 := getD_lt_256 telegram hbytes 5
  have hor : (telegram.getD 4 0 <<< 8) + telegram.getD 5 0
      = (telegram.getD 4 0 <<< 8) ||| telegram.getD 5 0 :=
    shl8_add_eq_or _ _ h5
  have hlt : (telegram.getD 4 0 <<< 8) + telegram.getD 5 0 < 65536 := by
    rw [Nat.shiftLeft_eq]; omega
  unfold ems_parseTelegram_frame
  rw [if_pos (by rw [h2]; decide), if_pos h2]
  refine ⟨rfl, ?_, rfl, fun i => rfl, ?_, ?_⟩
  · show ((telegram.getD 4 0 <<< 8) + telegram.getD 5 0) % 65536 = _
    rw [Nat.mod_eq_of_lt hlt, hor]
  · intro h
    show (if length ≤ 7 then 0 else length - 7) = length - 7
    rw [if_neg (by omega)]
  · intro h
    show (if length ≤ 7 then 0 else length - 7) = 0
    rw [if_pos h]

/-- C4 at the RCPLUSStatusMessage example of `ems.cpp`, `10 00 FF 0A 01 A5 03`. -/
theorem C4_frame_extended_FF_witness :
    (ems_parseTelegram_frame [0x10, 0x00, 0xFF, 0x0A, 0x01, 0xA5, 0x03, 0x17] 8 0).emsplus = true ∧
    (ems_parseTelegram_frame [0x10, 0x00, 0xFF, 0x0A, 0x01, 0xA5, 0x03, 0x17] 8 0).type
      = ([0x10, 0x00, 0xFF, 0x0A, 0x01, 0xA5, 0x03, 0x17].getD 4 0 <<< 8)
        ||| [0x10, 0x00, 0xFF, 0x0A, 0x01, 0xA5, 0x03, 0x17].getD 5 0 ∧
    (ems_parseTelegram_frame [0x10, 0x00, 0xFF, 0x0A, 0x01, 0xA5, 0x03, 0x17] 8 0).data = 6 ∧
    (∀ i, _toByte (ems_parseTelegram_frame [0x10, 0x00, 0xFF, 0x0A, 0x01, 0xA5, 0x03, 0x17] 8 0) i
      = [0x10, 0x00, 0xFF, 0x0A, 0x01, 0xA5, 0x03, 0x17].getD (6 + i) 0) ∧
    (8 > 7 →
      (ems_parseTelegram_frame [0x10, 0x00, 0xFF, 0x0A, 0x01, 0xA5, 0x03, 0x17] 8 0).data_length
        = 8 - 7) ∧
    (8 ≤ 7 →
      (ems_parseTelegram_frame [0x10, 0x00, 0xFF, 0x0A, 0x01, 0xA5, 0x03, 0x17] 8 0).data_length
        = 0) :=
  C4_frame_extended_FF [0x10, 0x00, 0xFF, 0x0A, 0x01, 0xA5, 0x03, 0x17] 8 0 (by decide)
    (by decide) (by decide)

/-- The `0xF9`/`0xF7` branch of the framing step, lines 912-922: with
`shift = 1` if byte 4 is not `0xFF` and `0` otherwise, the type is read from
the bytes `5 + shift` and `6 + shift`, and the data pointer is set to
`6 + shift`, the index of the second of these two bytes. -/
theorem frame_F9_F7 (telegram : List Nat) (length now : Nat)
    (hbytes : ∀ b ∈ telegram, b < 256)
    (h2 : telegram.getD 2 0 = 0xF9 ∨ telegram.getD 2 0 = 0xF7) (shift : Nat)
    (hs : shift = if telegram.getD 4 0 ≠ 0xFF then 1 else 0) :
    (ems_parseTelegram_frame telegram length now).type
      = (telegram.getD (5 + shift) 0 <<< 8) ||| telegram.getD (6 + shift) 0 ∧
    (ems_parseTelegram_frame telegram length now).data = 6 + shift ∧
    _toByte (ems_parseTelegram_frame telegram length now) 0 = telegram.getD (6 + shift) 0 := by
  have h5 := getD_lt_256 telegram hbytes (5 + shift)
  have h6 := getD_lt_256 telegram hbytes (6 + shift)
  have hor : (telegram.getD (5 + shift) 0 <<< 8) + telegram.getD (6 + shift) 0
      = (telegram.getD (5 + shift) 0 <<< 8) ||| telegram.getD (6 + shift) 0 :=
    shl8_add_eq_or _ _ h6
  have hlt : (telegram.getD (5 + shift) 0 <<< 8) + telegram.getD (6 + shift) 0 < 65536 := by
    rw [Nat.shiftLeft_eq]; omega
  have hge : telegram.getD 2 0 ≥ 0xF0 := by rcases h2 with h | h <;> rw [h] <;> decide
  have hne : ¬ telegram.getD 2 0 = 0xFF := by rcases h2 with h | h <;> rw [h] <;> decide
  unfold ems_parseTelegram_frame
  rw [if_pos hge, if_neg hne, ← hs]
  refine ⟨?_, rfl, rfl⟩
  show ((telegram.getD (5 + shift) 0 <<< 8) + telegram.getD (6 + shift) 0) % 65536 = _
  rw [Nat.mod_eq_of_lt hlt, hor]

/-- C5 (the code departs from the claim): on the 12-byte `0xF7` telegram
`10 00 F7 00 FF 01 A5 11 22 33 44 55` the framing step reads the type
`0x01A5` from the bytes 5 and 6 and lets the payload start at index 6, on the
low byte `0xA5` of the type ID, not at index 7 behind it; the payload length
is `12 - 9 = 3`, so the payload is `A5 11 22`. -/
theorem C5_frame_F7_payload_overlaps_type :
    (ems_parseTelegram_frame
      [0x10, 0x00, 0xF7, 0x00, 0xFF, 0x01, 0xA5, 0x11, 0x22, 0x33, 0x44, 0x55] 12 0).type = 0x01A5 ∧
    (ems_parseTelegram_frame
      [0x10, 0x00, 0xF7, 0x00, 0xFF, 0x01, 0xA5, 0x11, 0x22, 0x33, 0x44, 0x55] 12 0).data = 6 ∧
    (ems_parseTelegram_frame
      [0x10, 0x00, 0xF7, 0x00, 0xFF, 0x01, 0xA5, 0x11, 0x22, 0x33, 0x44, 0x55] 12 0).data_length = 3 ∧
    _toByte (ems_parseTelegram_frame
      [0x10, 0x00, 0xF7, 0x00, 0xFF, 0x01, 0xA5, 0x11, 0x22, 0x33, 0x44, 0x55] 12 0) 0 = 0xA5 ∧
    _toByte (ems_parseTelegram_frame
      [0x10, 0x00, 0xF7, 0x00, 0xFF, 0x01, 0xA5, 0x11, 0x22, 0x33, 0x44, 0x55] 12 0) 1 = 0x11 ∧
    _toByte (ems_parseTelegram_frame
      [0x10, 0x00, 0xF7, 0x00, 0xFF, 0x01, 0xA5, 0x11, 0x22, 0x33, 0x44, 0x55] 12 0) 2 = 0x22 := by
  decide

/-! ## Sending: the bytes on the wire -/

/-- A list of at least eight elements, spelled out. -/
theorem exists_eight (l : List Nat) (h : 8 ≤ l.length) :
    ∃ a0 a1 a2 a3 a4 a5 a6 a7 r, l = a0 :: a1 :: a2 :: a3 :: a4 :: a5 :: a6 :: a7 :: r := by
  match l, h with
  | a0 :: a1 :: a2 :: a3 :: a4 :: a5 :: a6 :: a7 :: r, _ => exact ⟨a0, a1, a2, a3, a4, a5, a6, a7, r, rfl⟩

/-- The exclusive or of two bytes is a byte. -/
theorem xor_lt_256 (a b : Nat) (ha : a < 256) (hb : b < 256) : a ^^^ b < 256 :=
  Nat.xor_lt_two_pow (n := 8) ha hb

/-- What a send of a queued read, write or validate entry puts on the wire. -/
theorem _ems_sendTelegram_uart_tx (txStatus : _EMS_TX_STATUS) (s : State) (t : _EMS_TxTelegram)
    (rest : List _EMS_TxTelegram)
    (hq : s.EMS_TxQueue = t :: rest)
    (hen : s.EMS_Sys_Status.emsTxDisabled = false)
    (hdest : t.dest ≠ EMS_ID_NONE) (hraw : t.action ≠ EMS_TX_TELEGRAM_RAW) :
    (_ems_sendTelegram txStatus s).uart_tx = s.uart_tx ++
      [(_ems_sendTelegram_header s.EMS_Sys_Status.emsIDMask t).1.take
        (_ems_sendTelegram_header s.EMS_Sys_Status.emsIDMask t).2] := by
  unfold _ems_sendTelegram
  rw [hq]
  simp only [hen, hdest, hraw, Bool.false_eq_true, if_false]
  split <;> rfl

/-- The bytes built for a 6-byte entry with a type that fits one byte. -/
theorem header_legacy (mask : Nat) (t : _EMS_TxTelegram) (hlen : t.length = 6)
    (hbuf : 8 ≤ t.data.length) (hty : t.type ≤ 0xFF)
    (hmask : mask < 256) (hd : t.dest < 256) (ho : t.offset < 256) (hv : t.dataValue < 256) :
    (_ems_sendTelegram_header mask t).2 = 6 ∧
    (_ems_sendTelegram_header mask t).1.take 6 =
      [0x0B ^^^ mask,
       if t.action = EMS_TX_TELEGRAM_WRITE then t.dest ^^^ mask else t.dest ^^^ 0x80 ^^^ mask,
       t.type, t.offset, t.dataValue,
       _crcCalculator [0x0B ^^^ mask,
         if t.action = EMS_TX_TELEGRAM_WRITE then t.dest ^^^ mask else t.dest ^^^ 0x80 ^^^ mask,
         t.type, t.offset, t.dataValue] 6] := by
  obtain ⟨a0, a1, a2, a3, a4, a5, a6, a7, r, hdata⟩ := exists_eight t.data hbuf
  have hty' : ¬ t.type > 0xFF := Nat.not_lt.mpr hty
  have h1 : (EMS_ID_ME ^^^ mask) % 256 = 0x0B ^^^ mask :=
    Nat.mod_eq_of_lt (xor_lt_256 _ _ (by decide) hmask)
  have h2 : (t.dest ^^^ mask) % 256 = t.dest ^^^ mask := Nat.mod_eq_of_lt (xor_lt_256 _ _ hd hmask)
  have h3 : (t.dest ^^^ 0x80 ^^^ mask) % 256 = t.dest ^^^ 0x80 ^^^ mask :=
    Nat.mod_eq_of_lt (xor_lt_256 _ _ (xor_lt_256 _ _ hd (by decide)) hmask)
  have h4 : t.type % 256 = t.type := Nat.mod_eq_of_lt (by omega)
  have h5 : t.offset % 256 = t.offset := Nat.mod_eq_of_lt ho
  have h6 : t.dataValue % 256 = t.dataValue := Nat.mod_eq_of_lt hv
  unfold _ems_sendTelegram_header
  simp only [hty', if_false, hlen, hdata, EMS_MIN_TELEGRAM_LENGTH, if_true, h1, h2, h3, h4, h5, h6]
  split <;> exact ⟨trivial, rfl⟩

/-- The bytes built for a 6-byte entry with a type above `0xFF`. -/
theorem header_extended (mask : Nat) (t : _EMS_TxTelegram) (hlen : t.length = 6)
    (hbuf : 8 ≤ t.data.length) (hty : t.type > 0xFF) (ht : t.type < 65536)
    (hmask : mask < 256) (hd : t.dest < 256) (ho : t.offset < 256) (hv : t.dataValue < 256) :
    (_ems_sendTelegram_header mask t).2 = 8 ∧
    (_ems_sendTelegram_header mask t).1.take 8 =
      [0x0B ^^^ mask,
       if t.action = EMS_TX_TELEGRAM_WRITE then t.dest ^^^ mask else t.dest ^^^ 0x80 ^^^ mask,
       0xFF, t.offset, t.dataValue, t.type >>> 8, t.type &&& 0xFF,
       _crcCalculator [0x0B ^^^ mask,
         if t.action = EMS_TX_TELEGRAM_WRITE then t.dest ^^^ mask else t.dest ^^^ 0x80 ^^^ mask,
         0xFF, t.offset, t.dataValue, t.type >>> 8, t.type &&& 0xFF] 8] := by
  obtain ⟨a0, a1, a2, a3, a4, a5, a6, a7, r, hdata⟩ := exists_eight t.data hbuf
  have h1 : (EMS_ID_ME ^^^ mask) % 256 = 0x0B ^^^ mask :=
    Nat.mod_eq_of_lt (xor_lt_256 _ _ (by decide) hmask)
  have h2 : (t.dest ^^^ mask) % 256 = t.dest ^^^ mask := Nat.mod_eq_of_lt (xor_lt_256 _ _ hd hmask)
  have h3 : (t.dest ^^^ 0x80 ^^^ mask) % 256 = t.dest ^^^ 0x80 ^^^ mask :=
    Nat.mod_eq_of_lt (xor_lt_256 _ _ (xor_lt_256 _ _ hd (by decide)) hmask)
  have h4 : (t.type >>> 8) % 256 = t.type >>> 8 :=
    Nat.mod_eq_of_lt (by rw [Nat.shiftRight_eq_div_pow]; omega)
  have h7 : (t.type &&& 0xFF) % 256 = t.type &&& 0xFF :=
    Nat.mod_eq_of_lt (Nat.lt_of_le_of_lt Nat.and_le_right (by decide))
  have h5 : t.offset % 256 = t.offset := Nat.mod_eq_of_lt ho
  have h6 : t.dataValue % 256 = t.dataValue := Nat.mod_eq_of_lt hv
  unfold _ems_sendTelegram_header
  simp only [hty, if_true, hlen, hdata, h1, h2, h3, h4, h5, h6, h7]
  split <;> exact ⟨trivial, rfl⟩

set_option maxRecDepth 100000 in
/-- Bit 7 and the low seven bits of a destination below `0x80` under the two id-masks. -/
theorem bit7_of_dest : ∀ d, d < 128 →
    (d ^^^ 0x00) &&& 0x80 = 0x00 ∧ (d ^^^ 0x80) &&& 0x80 = 0x80 ∧
    (d ^^^ 0x80 ^^^ 0x00) &&& 0x80 = 0x80 ∧ (d ^^^ 0x80 ^^^ 0x80) &&& 0x80 = 0x00 ∧
    (d ^^^ 0x80 ^^^ 0x00) &&& 0x7F = d ∧ (d ^^^ 0x80 ^^^ 0x80) &&& 0x7F = d := by
  decide

/-- Reading inside a taken initial segment reads the list. -/
theorem getD_take_lt (l : List Nat) (n i : Nat) (h : i < n) :
    (l.take n).getD i 0 = l.getD i 0 := by
  simp [List.getD_eq_getElem?_getD, List.getElem?_take, h]

/-- The second byte of the built buffer is the destination byte. -/
theorem header_second_byte (mask : Nat) (t : _EMS_TxTelegram)
    (hlen : 3 ≤ t.length) (hlen2 : t.length ≤ 253) (hbuf : t.length + 2 ≤ t.data.length) :
    ((_ems_sendTelegram_header mask t).1.take (_ems_sendTelegram_header mask t).2).getD 1 0 =
      if t.action = EMS_TX_TELEGRAM_WRITE then (t.dest ^^^ mask) % 256
      else (t.dest ^^^ 0x80 ^^^ mask) % 256 := by
  have e : (t.length + 2) % 256 = t.length + 2 := Nat.mod_eq_of_lt (by omega)
  have h1 : 1 < (t.data.set 0 ((EMS_ID_ME ^^^ mask) % 256)).length := by
    rw [List.length_set]; omega
  unfold _ems_sendTelegram_header
  simp only [e]
  rw [getD_take_lt _ _ _ (by split <;> omega), getD_set_ne _ _ _ _ (by split <;> omega)]
  split_ifs <;> simp (disch := decide) only [getD_set_ne] <;> exact getD_set_eq _ _ _ h1

/-- C6: for a queue head with action Read, Write or Validate, destination not
`0x00`, stored length 6 and Tx enabled, `_ems_sendTelegram` hands exactly one
buffer to the transport: `[0x0B ^ mask, d, type, offset, dataValue, crc]` for
a type up to `0xFF` and `[0x0B ^ mask, d, 0xFF, offset, dataValue, type >> 8,
type & 0xFF, crc]` above, where `d` is `dest ^ mask` for a Write and
`dest ^ 0x80 ^ mask` otherwise and `crc` is `_crcCalculator` of the whole
buffer. -/
theorem C6_sendTelegram_bytes (txStatus : _EMS_TX_STATUS) (s : State) (t : _EMS_TxTelegram)
    (rest : List _EMS_TxTelegram) (d : Nat)
    (hq : s.EMS_TxQueue = t :: rest)
    (hact : t.action = EMS_TX_TELEGRAM_READ ∨ t.action = EMS_TX_TELEGRAM_WRITE ∨
      t.action = EMS_TX_TELEGRAM_VALIDATE)
    (hdest : t.dest ≠ 0x00) (hlen : t.length = 6)
    (hen : s.EMS_Sys_Status.emsTxDisabled = false)
    (hbuf : 8 ≤ t.data.length)
    (hmask : s.EMS_Sys_Status.emsIDMask < 256) (hd : t.dest < 256) (ho : t.offset < 256)
    (hv : t.dataValue < 256) (ht : t.type < 65536)
    (hdd : d = if t.action = EMS_TX_TELEGRAM_WRITE then t.dest ^^^ s.EMS_Sys_Status.emsIDMask
      else t.dest ^^^ 0x80 ^^^ s.EMS_Sys_Status.emsIDMask) :
    ∃ buf, (_ems_sendTelegram txStatus s).uart_tx = s.uart_tx ++ [buf] ∧
      (t.type ≤ 0xFF → buf = [0x0B ^^^ s.EMS_Sys_Status.emsIDMask, d, t.type, t.offset,
        t.dataValue, _crcCalculator buf 6]) ∧
      (t.type > 0xFF → buf = [0x0B ^^^ s.EMS_Sys_Status.emsIDMask, d, 0xFF, t.offset,
        t.dataValue, t.type >>> 8, t.type &&& 0xFF, _crcCalculator buf 8]) := by
  have hraw : t.action ≠ EMS_TX_TELEGRAM_RAW := by
    rcases hact with h | h | h <;> rw [h] <;> decide
  refine ⟨_, _ems_sendTelegram_uart_tx txStatus s t rest hq hen hdest hraw, ?_, ?_⟩
  · intro hty
    obtain ⟨h2, h1⟩ := header_legacy s.EMS_Sys_Status.emsIDMask t hlen hbuf hty hmask hd ho hv
    rw [h2, h1, ← hdd]
    rfl
  · intro hty
    obtain ⟨h2, h1⟩ := header_extended s.EMS_Sys_Status.emsIDMask t hlen hbuf hty ht hmask hd ho hv
    rw [h2, h1, ← hdd]
    rfl

/-- C6 at scenario D: a Read of type `0x18` from the boiler `0x08` at the
head of the queue, id-mask `0x00`. -/
theorem C6_sendTelegram_bytes_witness :
    ∃ buf, (_ems_sendTelegram EMS_TX_STATUS_OK
        (sampleQueued 0 (sampleEntry EMS_TX_TELEGRAM_READ 0x18 0x08 32))).uart_tx
        = (sampleQueued 0 (sampleEntry EMS_TX_TELEGRAM_READ 0x18 0x08 32)).uart_tx ++ [buf] ∧
      ((sampleEntry EMS_TX_TELEGRAM_READ 0x18 0x08 32).type ≤ 0xFF →
        buf = [0x0B ^^^ (sampleQueued 0
            (sampleEntry EMS_TX_TELEGRAM_READ 0x18 0x08 32)).EMS_Sys_Status.emsIDMask,
          0x88, (sampleEntry EMS_TX_TELEGRAM_READ 0x18 0x08 32).type,
          (sampleEntry EMS_TX_TELEGRAM_READ 0x18 0x08 32).offset,
          (sampleEntry EMS_TX_TELEGRAM_READ 0x18 0x08 32).dataValue, _crcCalculator buf 6]) ∧
      ((sampleEntry EMS_TX_TELEGRAM_READ 0x18 0x08 32).type > 0xFF →
        buf = [0x0B ^^^ (sampleQueued 0
            (sampleEntry EMS_TX_TELEGRAM_READ 0x18 0x08 32)).EMS_Sys_Status.emsIDMask,
          0x88, 0xFF, (sampleEntry EMS_TX_TELEGRAM_READ 0x18 0x08 32).offset,
          (sampleEntry EMS_TX_TELEGRAM_READ 0x18 0x08 32).dataValue,
          (sampleEntry EMS_TX_TELEGRAM_READ 0x18 0x08 32).type >>> 8,
          (sampleEntry EMS_TX_TELEGRAM_READ 0x18 0x08 32).type &&& 0xFF,
          _crcCalculator buf 8]) :=
  C6_sendTelegram_bytes EMS_TX_STATUS_OK
    (sampleQueued 0 (sampleEntry EMS_TX_TELEGRAM_READ 0x18 0x08 32))
    (sampleEntry EMS_TX_TELEGRAM_READ 0x18 0x08 32) [] 0x88 rfl (Or.inl rfl) (by decide) rfl rfl
    (by decide) (by decide) (by decide) (by decide) (by decide) (by decide) (by decide)

/-! ## Round trip of a read request, and bit 7 of the destination byte -/

/-- The destination the framing step yields is byte 1 without bit 7, and the
offset is byte 3, whatever the format. -/
theorem frame_dest_offset (telegram : List Nat) (length now : Nat) :
    (ems_parseTelegram_frame telegram length now).dest = telegram.getD 1 0 &&& 0x7F ∧
    (ems_parseTelegram_frame telegram length now).offset = telegram.getD 3 0 := by
  unfold ems_parseTelegram_frame
  split_ifs <;> exact ⟨rfl, rfl⟩

/-- What `ems_doReadCommand` does when it does not quit early. -/
theorem ems_doReadCommand_enqueues (cfg : Config) (now type dest : Nat) (forceRefresh : Bool)
    (s : State) (htype : type ≠ EMS_ID_NONE) (hdest : dest ≠ EMS_ID_NONE)
    (hen : s.EMS_Sys_Status.emsTxDisabled = false) :
    ems_doReadCommand cfg now type dest forceRefresh s =
      { s with
        EMS_Sys_Status.txRetryCount := 0
        EMS_TxQueue := CircularBuffer_push cfg s.EMS_TxQueue
          { EMS_TX_TELEGRAM_NEW cfg with
            timestamp := now
            action := EMS_TX_TELEGRAM_READ
            dest := dest
            offset := 0
            type := type
            length := EMS_MIN_TELEGRAM_LENGTH
            dataValue := cfg.EMS_MAX_TELEGRAM_LENGTH
            type_validate := EMS_ID_NONE
            comparisonValue := 0
            comparisonOffset := 0
            comparisonPostRead := EMS_ID_NONE
            forceRefresh := forceRefresh } } := by
  unfold ems_doReadCommand
  simp only [htype, hdest, hen, or_self, Bool.false_eq_true, if_false]

/-- C7 (as stated it fails): the Read that `ems_doReadCommand(0x01A5, 0x10)`
queues is sent as `0B 90 FF 00 20 01 A5 19`, and the framing step of
`ems_parseTelegram` reads from these bytes the type `0x2001`, not `0x01A5`. -/
theorem C7_roundtrip_extended_type_lost :
    (_ems_sendTelegram EMS_TX_STATUS_OK
      (ems_doReadCommand sampleConfig 5 0x01A5 0x10 false (sampleIdle 0))).uart_tx
      = [[0x0B, 0x90, 0xFF, 0x00, 0x20, 0x01, 0xA5, 0x19]] ∧
    (ems_parseTelegram_frame [0x0B, 0x90, 0xFF, 0x00, 0x20, 0x01, 0xA5, 0x19] 8 0).type = 0x2001 ∧
    (ems_parseTelegram_frame [0x0B, 0x90, 0xFF, 0x00, 0x20, 0x01, 0xA5, 0x19] 8 0).type ≠ 0x01A5 := by
  decide

/-- C7 (amended): for the Read entry `ems_doReadCommand(type, dest)` queues on
an empty queue, `dest` in `1 .. 0x7F`, the framing step applied to the bytes
`_ems_sendTelegram` transmits recovers the destination (`dest & 0x7F`, which
is `dest`) and the offset 0; it recovers the type when `type < 0xF0`; for
`type > 0xFF` the bytes are framed as extended and the type read is
`(dataValue << 8) | (type >> 8)` with `dataValue = EMS_MAX_TELEGRAM_LENGTH`,
since the Tx header has `dataValue` at byte 4 and the type at bytes 5 and 6
while the framing step reads the type at bytes 4 and 5. -/
theorem C7_roundtrip_amended (cfg : Config) (now now' type dest : Nat) (forceRefresh : Bool)
    (txStatus : _EMS_TX_STATUS) (s : State)
    (hdest : 1 ≤ dest ∧ dest ≤ 0x7F) (htype : type ≠ 0) (ht : type < 65536)
    (hq : s.EMS_TxQueue = []) (hen : s.EMS_Sys_Status.emsTxDisabled = false)
    (hmask : s.EMS_Sys_Status.emsIDMask = 0x00 ∨ s.EMS_Sys_Status.emsIDMask = 0x80)
    (hmax : 8 ≤ cfg.EMS_MAX_TELEGRAM_LENGTH ∧ cfg.EMS_MAX_TELEGRAM_LENGTH < 256) :
    ∃ buf, (_ems_sendTelegram txStatus (ems_doReadCommand cfg now type dest forceRefresh s)).uart_tx
        = s.uart_tx ++ [buf] ∧
      (ems_parseTelegram_frame buf buf.length now').dest = dest &&& 0x7F ∧
      (ems_parseTelegram_frame buf buf.length now').dest = dest ∧
      (ems_parseTelegram_frame buf buf.length now').offset = 0 ∧
      (type < 0xF0 → (ems_parseTelegram_frame buf buf.length now').type = type ∧
        (ems_parseTelegram_frame buf buf.length now').emsplus = false) ∧
      (type > 0xFF → (ems_parseTelegram_frame buf buf.length now').emsplus = true ∧
        (ems_parseTelegram_frame buf buf.length now').type
          = (cfg.EMS_MAX_TELEGRAM_LENGTH <<< 8) ||| (type >>> 8)) := by
  have hd0 : dest ≠ EMS_ID_NONE := by unfold EMS_ID_NONE; omega
  have hd128 : dest < 128 := by omega
  have hb := bit7_of_dest dest hd128
  have hand : dest &&& 0x7F = dest := by
    have := Nat.and_pow_two_sub_one_of_lt_two_pow (n := 7) (x := dest) (by omega)
    simpa using this
  have hdm : (dest ^^^ 0x80 ^^^ s.EMS_Sys_Status.emsIDMask) &&& 0x7F = dest := by
    rcases hmask with h | h <;> rw [h]
    · exact hb.2.2.2.2.1
    · exact hb.2.2.2.2.2
  rw [ems_doReadCommand_enqueues cfg now type dest forceRefresh s htype hd0 hen]
  generalize hte : ({ EMS_TX_TELEGRAM_NEW cfg with
            timestamp := now
            action := EMS_TX_TELEGRAM_READ
            dest := dest
            offset := 0
            type := type
            length := EMS_MIN_TELEGRAM_LENGTH
            dataValue := cfg.EMS_MAX_TELEGRAM_LENGTH
            type_validate := EMS_ID_NONE
            comparisonValue := 0
            comparisonOffset := 0
            comparisonPostRead := EMS_ID_NONE
            forceRefresh := forceRefresh } : _EMS_TxTelegram) = t
  have hpush : CircularBuffer_push cfg s.EMS_TxQueue t = [t] := by
    rw [hq]; unfold CircularBuffer_push; split <;> rfl
  have hta : t.action = EMS_TX_TELEGRAM_READ := by rw [← hte]
  have htd : t.dest = dest := by rw [← hte]
  have hto : t.offset = 0 := by rw [← hte]
  have htt : t.type = type := by rw [← hte]
  have htl : t.length = 6 := by rw [← hte]; rfl
  have htv : t.dataValue = cfg.EMS_MAX_TELEGRAM_LENGTH := by rw [← hte]
  have htb : 8 ≤ t.data.length := by
    rw [← hte]; show 8 ≤ (List.replicate cfg.EMS_MAX_TELEGRAM_LENGTH 0).length
    rw [List.length_replicate]; exact hmax.1
  have hm256 : s.EMS_Sys_Status.emsIDMask < 256 := by rcases hmask with h | h <;> rw [h] <;> decide
  have hsend := _ems_sendTelegram_uart_tx txStatus
    { s with
      EMS_Sys_Status.txRetryCount := 0
      EMS_TxQueue := CircularBuffer_push cfg s.EMS_TxQueue t } t [] hpush hen
    (by rw [htd]; exact hd0) (by rw [hta]; decide)
  refine ⟨_, hsend, ?_⟩
  show (ems_parseTelegram_frame
      ((_ems_sendTelegram_header s.EMS_Sys_Status.emsIDMask t).1.take
        (_ems_sendTelegram_header s.EMS_Sys_Status.emsIDMask t).2) _ now').dest = dest &&& 0x7F ∧ _
  by_cases hty : type ≤ 0xFF
  · obtain ⟨h2, h1⟩ := header_legacy s.EMS_Sys_Status.emsIDMask t htl htb (by rw [htt]; exact hty)
      hm256 (by rw [htd]; omega) (by rw [hto]; decide) (by rw [htv]; exact hmax.2)
    rw [h2, h1, hta, htd, hto, htt, htv]
    simp only [reduceCtorEq, if_false]
    obtain ⟨hfd, hfo⟩ := frame_dest_offset
      [0x0B ^^^ s.EMS_Sys_Status.emsIDMask, dest ^^^ 0x80 ^^^ s.EMS_Sys_Status.emsIDMask, type, 0,
        cfg.EMS_MAX_TELEGRAM_LENGTH,
        _crcCalculator [0x0B ^^^ s.EMS_Sys_Status.emsIDMask,
          dest ^^^ 0x80 ^^^ s.EMS_Sys_Status.emsIDMask, type, 0, cfg.EMS_MAX_TELEGRAM_LENGTH] 6]
      6 now'
    refine ⟨?_, ?_, ?_, ?_, ?_⟩
    · rw [hand]; exact hfd.trans hdm
    · exact hfd.trans hdm
    · exact hfo
    · intro hlt
      unfold ems_parseTelegram_frame
      rw [if_neg (by show ¬ type ≥ 0xF0; omega)]
      exact ⟨rfl, rfl⟩
    · intro hgt; omega
  · have hgt : type > 0xFF := Nat.lt_of_not_le hty
    obtain ⟨h2, h1⟩ := header_extended s.EMS_Sys_Status.emsIDMask t htl htb (by rw [htt]; exact hgt)
      (by rw [htt]; exact ht) hm256 (by rw [htd]; omega) (by rw [hto]; decide)
      (by rw [htv]; exact hmax.2)
    rw [h2, h1, hta, htd, hto, htt, htv]
    simp only [reduceCtorEq, if_false]
    obtain ⟨hfd, hfo⟩ := frame_dest_offset
      [0x0B ^^^ s.EMS_Sys_Status.emsIDMask, dest ^^^ 0x80 ^^^ s.EMS_Sys_Status.emsIDMask, 0xFF, 0,
        cfg.EMS_MAX_TELEGRAM_LENGTH, type >>> 8, type &&& 0xFF,
        _crcCalculator [0x0B ^^^ s.EMS_Sys_Status.emsIDMask,
          dest ^^^ 0x80 ^^^ s.EMS_Sys_Status.emsIDMask, 0xFF, 0, cfg.EMS_MAX_TELEGRAM_LENGTH,
          type >>> 8, type &&& 0xFF] 8]
      8 now'
    have hhi : type >>> 8 < 256 := by rw [Nat.shiftRight_eq_div_pow]; omega
    refine ⟨?_, ?_, ?_, ?_, ?_⟩
    · rw [hand]; exact hfd.trans hdm
    · exact hfd.trans hdm
    · exact hfo
    · intro hlt; omega
    · intro _
      unfold ems_parseTelegram_frame
      have e1 : ([0x0B ^^^ s.EMS_Sys_Status.emsIDMask,
          dest ^^^ 0x80 ^^^ s.EMS_Sys_Status.emsIDMask, 0xFF, 0,
          cfg.EMS_MAX_TELEGRAM_LENGTH, type >>> 8, type &&& 0xFF,
          _crcCalculator [0x0B ^^^ s.EMS_Sys_Status.emsIDMask,
            dest ^^^ 0x80 ^^^ s.EMS_Sys_Status.emsIDMask, 0xFF, 0, cfg.EMS_MAX_TELEGRAM_LENGTH,
            type >>> 8, type &&& 0xFF] 8] : List Nat).getD 2 0 = 0xFF := rfl
      rw [if_pos (by rw [e1]; decide), if_pos e1]
      refine ⟨rfl, ?_⟩
      show ((cfg.EMS_MAX_TELEGRAM_LENGTH <<< 8) + (type >>> 8)) % 65536 = _
      rw [Nat.mod_eq_of_lt, shl8_add_eq_or _ _ hhi]
      rw [Nat.shiftLeft_eq]
      have := hmax.2
      omega

/-- C7 (amended) at the read of type `0x18` from the boiler `0x08`. -/
theorem C7_roundtrip_amended_witness :
    ∃ buf, (_ems_sendTelegram EMS_TX_STATUS_OK
        (ems_doReadCommand sampleConfig 5 0x18 0x08 false (sampleIdle 0))).uart_tx
        = (sampleIdle 0).uart_tx ++ [buf] ∧
      (ems_parseTelegram_frame buf buf.length 0).dest = 0x08 &&& 0x7F ∧
      (ems_parseTelegram_frame buf buf.length 0).dest = 0x08 ∧
      (ems_parseTelegram_frame buf buf.length 0).offset = 0 ∧
      (0x18 < 0xF0 → (ems_parseTelegram_frame buf buf.length 0).type = 0x18 ∧
        (ems_parseTelegram_frame buf buf.length 0).emsplus = false) ∧
      (0x18 > 0xFF → (ems_parseTelegram_frame buf buf.length 0).emsplus = true ∧
        (ems_parseTelegram_frame buf buf.length 0).type
          = (sampleConfig.EMS_MAX_TELEGRAM_LENGTH <<< 8) ||| (0x18 >>> 8)) :=
  C7_roundtrip_amended sampleConfig 5 0 0x18 0x08 false EMS_TX_STATUS_OK (sampleIdle 0)
    (by decide) (by decide) (by decide) rfl rfl (Or.inl rfl) (by decide)

/-- C8 (as stated it fails): with id-mask `0x80` a Write to the boiler `0x08`
is sent with the destination byte `0x88`, bit 7 set. -/
theorem C8_write_bit7_set_under_mask_80 :
    (_ems_sendTelegram EMS_TX_STATUS_OK
      (sampleQueued 0x80 (sampleEntry EMS_TX_TELEGRAM_WRITE 0x33 0x08 50))).uart_tx
      = [[0x8B, 0x88, 0x33, 0x00, 0x32, 0xA2]] ∧
    ([0x8B, 0x88, 0x33, 0x00, 0x32, 0xA2].getD 1 0) &&& 0x80 = 0x80 := by
  decide

/-- C8 (amended): for a destination below `0x80` and an id-mask `0x00` or
`0x80`, bit 7 of the destination byte `_ems_sendTelegram` transmits is bit 7
of the id-mask for a Write and its complement for a Read or Validate: set on
reads and clear on writes under id-mask `0x00`, the reverse under `0x80`. -/
theorem C8_dest_bit7_amended (txStatus : _EMS_TX_STATUS) (s : State) (t : _EMS_TxTelegram)
    (rest : List _EMS_TxTelegram)
    (hq : s.EMS_TxQueue = t :: rest)
    (hact : t.action = EMS_TX_TELEGRAM_READ ∨ t.action = EMS_TX_TELEGRAM_WRITE ∨
      t.action = EMS_TX_TELEGRAM_VALIDATE)
    (hdest : t.dest ≠ 0x00) (hd : t.dest < 0x80)
    (hen : s.EMS_Sys_Status.emsTxDisabled = false)
    (hmask : s.EMS_Sys_Status.emsIDMask = 0x00 ∨ s.EMS_Sys_Status.emsIDMask = 0x80)
    (hlen : 3 ≤ t.length) (hlen2 : t.length ≤ 253) (hbuf : t.length + 2 ≤ t.data.length) :
    ∃ buf, (_ems_sendTelegram txStatus s).uart_tx = s.uart_tx ++ [buf] ∧
      (t.action = EMS_TX_TELEGRAM_WRITE →
        buf.getD 1 0 &&& 0x80 = s.EMS_Sys_Status.emsIDMask) ∧
      (t.action = EMS_TX_TELEGRAM_READ ∨ t.action = EMS_TX_TELEGRAM_VALIDATE →
        buf.getD 1 0 &&& 0x80 = 0x80 ^^^ s.EMS_Sys_Status.emsIDMask) := by
  have hraw : t.action ≠ EMS_TX_TELEGRAM_RAW := by
    rcases hact with h | h | h <;> rw [h] <;> decide
  have hb := bit7_of_dest t.dest hd
  have hm256 : s.EMS_Sys_Status.emsIDMask < 256 := by rcases hmask with h | h <;> rw [h] <;> decide
  have h2 : (t.dest ^^^ s.EMS_Sys_Status.emsIDMask) % 256 = t.dest ^^^ s.EMS_Sys_Status.emsIDMask :=
    Nat.mod_eq_of_lt (xor_lt_256 _ _ (by omega) hm256)
  have h3 : (t.dest ^^^ 0x80 ^^^ s.EMS_Sys_Status.emsIDMask) % 256
      = t.dest ^^^ 0x80 ^^^ s.EMS_Sys_Status.emsIDMask :=
    Nat.mod_eq_of_lt (xor_lt_256 _ _ (xor_lt_256 _ _ (by omega) (by decide)) hm256)
  refine ⟨_, _ems_sendTelegram_uart_tx txStatus s t rest hq hen hdest hraw, ?_, ?_⟩
  · intro hw
    rw [header_second_byte _ t hlen hlen2 hbuf, if_pos hw, h2]
    rcases hmask with h | h <;> rw [h]
    · exact hb.1
    · exact hb.2.1
  · intro hr
    have hnw : t.action ≠ EMS_TX_TELEGRAM_WRITE := by
      rcases hr with h | h <;> rw [h] <;> decide
    rw [header_second_byte _ t hlen hlen2 hbuf, if_neg hnw, h3]
    rcases hmask with h | h <;> rw [h]
    · exact hb.2.2.1
    · exact hb.2.2.2.1

/-- C8 (amended) at a Write to the boiler `0x08` under id-mask `0x80`. -/
theorem C8_dest_bit7_amended_witness :
    ∃ buf, (_ems_sendTelegram EMS_TX_STATUS_OK
        (sampleQueued 0x80 (sampleEntry EMS_TX_TELEGRAM_WRITE 0x33 0x08 50))).uart_tx
        = (sampleQueued 0x80 (sampleEntry EMS_TX_TELEGRAM_WRITE 0x33 0x08 50)).uart_tx ++ [buf] ∧
      ((sampleEntry EMS_TX_TELEGRAM_WRITE 0x33 0x08 50).action = EMS_TX_TELEGRAM_WRITE →
        buf.getD 1 0 &&& 0x80
          = (sampleQueued 0x80
              (sampleEntry EMS_TX_TELEGRAM_WRITE 0x33 0x08 50)).EMS_Sys_Status.emsIDMask) ∧
      ((sampleEntry EMS_TX_TELEGRAM_WRITE 0x33 0x08 50).action = EMS_TX_TELEGRAM_READ ∨
          (sampleEntry EMS_TX_TELEGRAM_WRITE 0x33 0x08 50).action = EMS_TX_TELEGRAM_VALIDATE →
        buf.getD 1 0 &&& 0x80
          = 0x80 ^^^ (sampleQueued 0x80
              (sampleEntry EMS_TX_TELEGRAM_WRITE 0x33 0x08 50)).EMS_Sys_Status.emsIDMask) :=
  C8_dest_bit7_amended EMS_TX_STATUS_OK
    (sampleQueued 0x80 (sampleEntry EMS_TX_TELEGRAM_WRITE 0x33 0x08 50))
    (sampleEntry EMS_TX_TELEGRAM_WRITE 0x33 0x08 50) [] rfl (Or.inr (Or.inl rfl)) (by decide)
    (by decide) rfl (Or.inr rfl) (by decide) (by decide) (by decide)

/-! ## Receiving while waiting for bus detection, and CRC errors -/

/-- C9: while Tx status is `EMS_TX_REV_DETECT`, a byte sequence shorter than
five bytes (single-byte polls and acknowledgements included) or whose last
byte is not its CRC leaves the whole state as it is: Tx status, id-mask,
poll-acknowledge byte, all counters, the Tx queue, the device records, the
bus-connected flag, and the trace of transmitted buffers. -/
theorem C9_detect_ignores (cfg : Config) (env : Env) (telegram : List Nat) (length : Nat)
    (s : State) (hrev : s.EMS_Sys_Status.emsTxStatus = EMS_TX_REV_DETECT)
    (hbad : length < 5 ∨ telegram.getD (length - 1) 0 ≠ _crcCalculator telegram length) :
    ems_parseTelegram cfg env telegram length s = s := by
  unfold ems_parseTelegram
  rw [if_pos]
  refine ⟨hrev, ?_⟩
  rintro ⟨h5, hc⟩
  rcases hbad with h | h
  · omega
  · exact h hc

/-- C9 at the poll byte `8B` received before the bus is detected. -/
theorem C9_detect_ignores_witness :
    ems_parseTelegram sampleConfig sampleEnv [0x8B] 1 sampleState = sampleState :=
  C9_detect_ignores sampleConfig sampleEnv [0x8B] 1 sampleState rfl (Or.inl (by decide))

/-- The path of `ems_parseTelegram` for a telegram of at least five bytes
with a wrong CRC, once the bus is detected and with Rx status idle. -/
theorem ems_parseTelegram_crc_error (cfg : Config) (env : Env) (telegram : List Nat)
    (length : Nat) (s : State) (hL : 5 ≤ length)
    (hbad : telegram.getD (length - 1) 0 ≠ _crcCalculator telegram length)
    (htx : s.EMS_Sys_Status.emsTxStatus ≠ EMS_TX_REV_DETECT)
    (hrx : s.EMS_Sys_Status.emsRxStatus = EMS_RX_STATUS_IDLE) :
    ems_parseTelegram cfg env telegram length s
      = { s with EMS_Sys_Status.emxCrcErr := (s.EMS_Sys_Status.emxCrcErr + 1) % 2 ^ 16 } := by
  unfold ems_parseTelegram
  have h1 : ¬ length = 1 := by omega
  have h4 : ¬ length ≤ 4 := by omega
  simp only [htx, false_and, if_false, hrx, ne_eq, not_true_eq_false, h1, h4, hbad,
    not_false_eq_true, if_true]

/-- C2: a telegram of `length >= 5` whose last byte differs from
`_crcCalculator(telegram, length)`, received with Tx status other than
`EMS_TX_REV_DETECT` and Rx status idle, makes `ems_parseTelegram` increment
`emxCrcErr` by exactly 1 and change nothing else.  The increment is the `++` of
the 16-bit field: the new value is the old one plus 1 modulo `2 ^ 16`, which is
the old one plus 1 unless the counter stood at its maximum 65535.  The result
is the old state with that one field replaced, so the device records, the
detected devices, the Tx queue, Tx status, `emsRxPgks`, `emsTxPkgs`,
`emsBusConnected`, `emsRxTimestamp` are the old ones and nothing is
transmitted. -/
theorem C2_crc_error_counted (cfg : Config) (env : Env) (telegram : List Nat) (length : Nat)
    (s : State) (hL : 5 ≤ length)
    (hbad : telegram.getD (length - 1) 0 ≠ _crcCalculator telegram length)
    (htx : s.EMS_Sys_Status.emsTxStatus ≠ EMS_TX_REV_DETECT)
    (hrx : s.EMS_Sys_Status.emsRxStatus = EMS_RX_STATUS_IDLE) :
    ems_parseTelegram cfg env telegram length s
      = { s with EMS_Sys_Status.emxCrcErr := (s.EMS_Sys_Status.emxCrcErr + 1) % 2 ^ 16 } ∧
    (ems_parseTelegram cfg env telegram length s).EMS_Sys_Status.emxCrcErr
      = (s.EMS_Sys_Status.emxCrcErr + 1) % 2 ^ 16 ∧
    (s.EMS_Sys_Status.emxCrcErr < 65535 →
      (ems_parseTelegram cfg env telegram length s).EMS_Sys_Status.emxCrcErr
        = s.EMS_Sys_Status.emxCrcErr + 1) ∧
    (ems_parseTelegram cfg env telegram length s).EMS_Boiler = s.EMS_Boiler ∧
    (ems_parseTelegram cfg env telegram length s).EMS_Thermostat = s.EMS_Thermostat ∧
    (ems_parseTelegram cfg env telegram length s).EMS_SolarModule = s.EMS_SolarModule ∧
    (ems_parseTelegram cfg env telegram length s).EMS_HeatPump = s.EMS_HeatPump ∧
    (ems_parseTelegram cfg env telegram length s).Devices = s.Devices ∧
    (ems_parseTelegram cfg env telegram length s).EMS_TxQueue = s.EMS_TxQueue ∧
    (ems_parseTelegram cfg env telegram length s).EMS_Sys_Status.emsTxStatus
      = s.EMS_Sys_Status.emsTxStatus ∧
    (ems_parseTelegram cfg env telegram length s).EMS_Sys_Status.emsRxPgks
      = s.EMS_Sys_Status.emsRxPgks ∧
    (ems_parseTelegram cfg env telegram length s).EMS_Sys_Status.emsTxPkgs
      = s.EMS_Sys_Status.emsTxPkgs ∧
    (ems_parseTelegram cfg env telegram length s).EMS_Sys_Status.emsBusConnected
      = s.EMS_Sys_Status.emsBusConnected ∧
    (ems_parseTelegram cfg env telegram length s).EMS_Sys_Status.emsRxTimestamp
      = s.EMS_Sys_Status.emsRxTimestamp ∧
    (ems_parseTelegram cfg env telegram length s).uart_tx = s.uart_tx := by
  rw [ems_parseTelegram_crc_error cfg env telegram length s hL hbad htx hrx]
  exact ⟨rfl, rfl, fun h => Nat.mod_eq_of_lt (by norm_num; omega),
    rfl, rfl, rfl, rfl, rfl, rfl, rfl, rfl, rfl, rfl, rfl, rfl⟩

/-- C2 at scenario C: the telegram `08 00 18 00 05 01 5C` with the CRC byte
`00` in place of `E1`, received in the idle state. -/
theorem C2_crc_error_counted_witness :
    ems_parseTelegram sampleConfig sampleEnv [0x08, 0x00, 0x18, 0x00, 0x05, 0x01, 0x5C, 0x00] 8
        (sampleIdle 0)
      = { sampleIdle 0 with
          EMS_Sys_Status.emxCrcErr := ((sampleIdle 0).EMS_Sys_Status.emxCrcErr + 1) % 2 ^ 16 } ∧
    (ems_parseTelegram sampleConfig sampleEnv [0x08, 0x00, 0x18, 0x00, 0x05, 0x01, 0x5C, 0x00] 8
      (sampleIdle 0)).EMS_Sys_Status.emxCrcErr
      = ((sampleIdle 0).EMS_Sys_Status.emxCrcErr + 1) % 2 ^ 16 ∧
    ((sampleIdle 0).EMS_Sys_Status.emxCrcErr < 65535 →
      (ems_parseTelegram sampleConfig sampleEnv [0x08, 0x00, 0x18, 0x00, 0x05, 0x01, 0x5C, 0x00] 8
        (sampleIdle 0)).EMS_Sys_Status.emxCrcErr = (sampleIdle 0).EMS_Sys_Status.emxCrcErr + 1) ∧
    (ems_parseTelegram sampleConfig sampleEnv [0x08, 0x00, 0x18, 0x00, 0x05, 0x01, 0x5C, 0x00] 8
      (sampleIdle 0)).EMS_Boiler = (sampleIdle 0).EMS_Boiler ∧
    (ems_parseTelegram sampleConfig sampleEnv [0x08, 0x00, 0x18, 0x00, 0x05, 0x01, 0x5C, 0x00] 8
      (sampleIdle 0)).EMS_Thermostat = (sampleIdle 0).EMS_Thermostat ∧
    (ems_parseTelegram sampleConfig sampleEnv [0x08, 0x00, 0x18, 0x00, 0x05, 0x01, 0x5C, 0x00] 8
      (sampleIdle 0)).EMS_SolarModule = (sampleIdle 0).EMS_SolarModule ∧
    (ems_parseTelegram sampleConfig sampleEnv [0x08, 0x00, 0x18, 0x00, 0x05, 0x01, 0x5C, 0x00] 8
      (sampleIdle 0)).EMS_HeatPump = (sampleIdle 0).EMS_HeatPump ∧
    (ems_parseTelegram sampleConfig sampleEnv [0x08, 0x00, 0x18, 0x00, 0x05, 0x01, 0x5C, 0x00] 8
      (sampleIdle 0)).Devices = (sampleIdle 0).Devices ∧
    (ems_parseTelegram sampleConfig sampleEnv [0x08, 0x00, 0x18, 0x00, 0x05, 0x01, 0x5C, 0x00] 8
      (sampleIdle 0)).EMS_TxQueue = (sampleIdle 0).EMS_TxQueue ∧
    (ems_parseTelegram sampleConfig sampleEnv [0x08, 0x00, 0x18, 0x00, 0x05, 0x01, 0x5C, 0x00] 8
      (sampleIdle 0)).EMS_Sys_Status.emsTxStatus = (sampleIdle 0).EMS_Sys_Status.emsTxStatus ∧
    (ems_parseTelegram sampleConfig sampleEnv [0x08, 0x00, 0x18, 0x00, 0x05, 0x01, 0x5C, 0x00] 8
      (sampleIdle 0)).EMS_Sys_Status.emsRxPgks = (sampleIdle 0).EMS_Sys_Status.emsRxPgks ∧
    (ems_parseTelegram sampleConfig sampleEnv [0x08, 0x00, 0x18, 0x00, 0x05, 0x01, 0x5C, 0x00] 8
      (sampleIdle 0)).EMS_Sys_Status.emsTxPkgs = (sampleIdle 0).EMS_Sys_Status.emsTxPkgs ∧
    (ems_parseTelegram sampleConfig sampleEnv [0x08, 0x00, 0x18, 0x00, 0x05, 0x01, 0x5C, 0x00] 8
      (sampleIdle 0)).EMS_Sys_Status.emsBusConnected
      = (sampleIdle 0).EMS_Sys_Status.emsBusConnected ∧
    (ems_parseTelegram sampleConfig sampleEnv [0x08, 0x00, 0x18, 0x00, 0x05, 0x01, 0x5C, 0x00] 8
      (sampleIdle 0)).EMS_Sys_Status.emsRxTimestamp
      = (sampleIdle 0).EMS_Sys_Status.emsRxTimestamp ∧
    (ems_parseTelegram sampleConfig sampleEnv [0x08, 0x00, 0x18, 0x00, 0x05, 0x01, 0x5C, 0x00] 8
      (sampleIdle 0)).uart_tx = (sampleIdle 0).uart_tx :=
  C2_crc_error_counted sampleConfig sampleEnv [0x08, 0x00, 0x18, 0x00, 0x05, 0x01, 0x5C, 0x00] 8
    (sampleIdle 0) (by decide) (by decide) (by decide) rfl

/-- The three 16-bit packet counters at their maximum 65535: the increments of
lines 941, 865 and 1169 give 0. -/
theorem packet_counters_wrap :
    (ems_parseTelegram sampleConfig sampleEnv [0x08, 0x00, 0x18, 0x00, 0x05, 0x01, 0x5C, 0x00] 8
      { sampleIdle 0 with EMS_Sys_Status.emxCrcErr := 65535 }).EMS_Sys_Status.emxCrcErr = 0 ∧
    (ems_parseTelegram sampleConfig sampleEnv [0x01] 1
      { sampleWaiting 0x00 [sampleWrite 0x33 0x08 2 50] with
        EMS_Sys_Status.emsTxPkgs := 65535 }).EMS_Sys_Status.emsTxPkgs = 0 ∧
    (ems_parseTelegram sampleConfig sampleEnv [0x08, 0x0B, 0x18, 0x00, 0x05, 0x01, 0x62] 7
      { sampleWaiting 0x00 [sampleEntry EMS_TX_TELEGRAM_READ 0x18 0x08 32] with
        EMS_Sys_Status.emsRxPgks := 65535 }).EMS_Sys_Status.emsRxPgks = 0 := by
  refine ⟨?_, ?_, ?_⟩ <;> decide

/-! ## Bus detection: what the first valid telegram fixes -/

/-- An index found by `findFirst` lies at or after the start index and
addresses an element that satisfies the test. -/
theorem findFirst_some {α : Type} (p : α → Bool) (l : List α) (i0 i : Nat)
    (h : findFirst p l i0 = some i) :
    i0 ≤ i ∧ ∃ e, l.get? (i - i0) = some e ∧ p e = true := by
  induction l generalizing i0 with
  | nil => simp [findFirst] at h
  | cons x xs ih =>
    unfold findFirst at h
    by_cases hp : p x = true
    · rw [if_pos hp] at h
      injection h with h
      subst h
      exact ⟨Nat.le_refl _, x, by simp, hp⟩
    · rw [if_neg hp] at h
      obtain ⟨hle, e, he, hpe⟩ := ih (i0 + 1) h
      refine ⟨by omega, e, ?_, hpe⟩
      have : i - i0 = (i - (i0 + 1)) + 1 := by omega
      rw [this]
      simpa using he

/-- The search loop finds nothing when no entry satisfies the test. -/
theorem findFirst_false {α : Type} (p : α → Bool) (l : List α) (i0 : Nat)
    (h : ∀ x, p x = false) : findFirst p l i0 = none := by
  induction l generalizing i0 with
  | nil => rfl
  | cons x xs ih =>
    unfold findFirst
    rw [h x]
    exact ih (i0 + 1)

/-- The function `_addDevice` only touches the list `Devices`. -/
theorem _addDevice_frame (product_id device_id : Nat) (version model_string : String) (s : State) :
    (_addDevice product_id device_id version model_string s).EMS_Sys_Status = s.EMS_Sys_Status ∧
    (_addDevice product_id device_id version model_string s).EMS_Boiler = s.EMS_Boiler ∧
    (_addDevice product_id device_id version model_string s).EMS_Thermostat = s.EMS_Thermostat := by
  unfold _addDevice
  dsimp only
  split <;> exact ⟨rfl, rfl, rfl⟩

/-- The function `ems_doReadCommand` leaves the bus mode, the Tx status and
the boiler record alone. -/
theorem ems_doReadCommand_frame (cfg : Config) (now type dest : Nat) (forceRefresh : Bool)
    (s : State) :
    (ems_doReadCommand cfg now type dest forceRefresh s).EMS_Sys_Status.emsIDMask
      = s.EMS_Sys_Status.emsIDMask ∧
    (ems_doReadCommand cfg now type dest forceRefresh s).EMS_Sys_Status.emsPollAck
      = s.EMS_Sys_Status.emsPollAck ∧
    (ems_doReadCommand cfg now type dest forceRefresh s).EMS_Sys_Status.emsTxStatus
      = s.EMS_Sys_Status.emsTxStatus ∧
    (ems_doReadCommand cfg now type dest forceRefresh s).EMS_Boiler = s.EMS_Boiler := by
  unfold ems_doReadCommand
  split_ifs <;> exact ⟨rfl, rfl, rfl, rfl⟩

/-- The function `ems_getBoilerValues` leaves the bus mode, the Tx status and
the boiler record alone. -/
theorem ems_getBoilerValues_frame (cfg : Config) (now : Nat) (s : State) :
    (ems_getBoilerValues cfg now s).EMS_Sys_Status.emsIDMask = s.EMS_Sys_Status.emsIDMask ∧
    (ems_getBoilerValues cfg now s).EMS_Sys_Status.emsPollAck = s.EMS_Sys_Status.emsPollAck ∧
    (ems_getBoilerValues cfg now s).EMS_Sys_Status.emsTxStatus = s.EMS_Sys_Status.emsTxStatus ∧
    (ems_getBoilerValues cfg now s).EMS_Boiler = s.EMS_Boiler := by
  unfold ems_getBoilerValues
  simp only [ems_doReadCommand_frame, and_self]

/-- The function `ems_getThermostatValues` leaves the bus mode and the Tx
status alone. -/
theorem ems_getThermostatValues_frame (cfg : Config) (now : Nat) (s : State) :
    (ems_getThermostatValues cfg now s).EMS_Sys_Status.emsIDMask = s.EMS_Sys_Status.emsIDMask ∧
    (ems_getThermostatValues cfg now s).EMS_Sys_Status.emsPollAck = s.EMS_Sys_Status.emsPollAck ∧
    (ems_getThermostatValues cfg now s).EMS_Sys_Status.emsTxStatus
      = s.EMS_Sys_Status.emsTxStatus := by
  unfold ems_getThermostatValues
  dsimp only
  split
  · exact ⟨rfl, rfl, rfl⟩
  · simp only [ems_doReadCommand_frame]
    split_ifs <;> simp only [ems_doReadCommand_frame, and_self]

/-- The function `ems_getSolarModuleValues` leaves the bus mode and the Tx
status alone. -/
theorem ems_getSolarModuleValues_frame (cfg : Config) (now : Nat) (s : State) :
    (ems_getSolarModuleValues cfg now s).EMS_Sys_Status.emsIDMask = s.EMS_Sys_Status.emsIDMask ∧
    (ems_getSolarModuleValues cfg now s).EMS_Sys_Status.emsPollAck = s.EMS_Sys_Status.emsPollAck ∧
    (ems_getSolarModuleValues cfg now s).EMS_Sys_Status.emsTxStatus
      = s.EMS_Sys_Status.emsTxStatus := by
  unfold ems_getSolarModuleValues
  dsimp only
  split_ifs <;> simp only [ems_doReadCommand_frame, and_self]

/-- The element `List.getD` reads at an index where `List.get?` finds one. -/
theorem getD_of_get? {α : Type} (l : List α) (i : Nat) (e d : α) (h : l.get? i = some e) :
    l.getD i d = e := by
  rw [List.getD_eq_getElem?_getD, ← List.get?_eq_getElem?, h]
  rfl

/-- The function `_process_Version` leaves the Tx status alone; it leaves the
id-mask and the poll-acknowledge byte alone unless it binds the so far
unbound boiler record to the Heatronics product ID, when it sets the id-mask
to `0x80`. -/
theorem _process_Version_bus (cfg : Config) (now : Nat) (rx : _EMS_RxTelegram) (s : State) :
    (_process_Version cfg now rx s).EMS_Sys_Status.emsTxStatus = s.EMS_Sys_Status.emsTxStatus ∧
    (((_process_Version cfg now rx s).EMS_Sys_Status.emsIDMask = s.EMS_Sys_Status.emsIDMask ∧
      (_process_Version cfg now rx s).EMS_Sys_Status.emsPollAck = s.EMS_Sys_Status.emsPollAck) ∨
     ((_process_Version cfg now rx s).EMS_Sys_Status.emsIDMask = 0x80 ∧
      (_process_Version cfg now rx s).EMS_Sys_Status.emsPollAck = EMS_ID_ME ^^^ 0x80 ∧
      _toByte rx 0 = cfg.EMS_PRODUCTID_HEATRONICS ∧
      (_process_Version cfg now rx s).EMS_Boiler.product_id = cfg.EMS_PRODUCTID_HEATRONICS ∧
      (_process_Version cfg now rx s).EMS_Boiler.device_id = cfg.EMS_ID_BOILER ∧
      (s.EMS_Boiler.device_id = EMS_ID_NONE ∨ s.EMS_Boiler.product_id = EMS_ID_NONE))) := by
  unfold _process_Version
  dsimp only
  split
  · exact ⟨rfl, Or.inl ⟨rfl, rfl⟩⟩
  · split
    · rename_i i hfind
      obtain ⟨_, e, hget, hp⟩ := findFirst_some _ _ _ _ hfind
      have hentry := getD_of_get? cfg.Boiler_Types i e ⟨0, 0, ""⟩ (by simpa using hget)
      rw [hentry]
      have hpid : e.product_id = _toByte rx 0 := by
        simp only [Bool.and_eq_true, beq_iff_eq] at hp
        exact hp.1
      split_ifs with hunb hheat
      · simp only [ems_getBoilerValues_frame, _addDevice_frame] at hunb ⊢
        refine ⟨trivial, Or.inr ⟨trivial, trivial, ?_, hheat, trivial, ?_⟩⟩
        · rw [← hpid]; exact hheat
        · rcases hunb with h | ⟨_, h⟩
          · exact Or.inl h
          · exact Or.inr h
      · simp only [ems_getBoilerValues_frame, _addDevice_frame]
        exact ⟨trivial, Or.inl ⟨trivial, trivial⟩⟩
      · simp only [_addDevice_frame]
        exact ⟨trivial, Or.inl ⟨trivial, trivial⟩⟩
    · split
      · split_ifs
        · simp only [ems_getThermostatValues_frame, _addDevice_frame]
          exact ⟨trivial, Or.inl ⟨trivial, trivial⟩⟩
        · simp only [_addDevice_frame]
          exact ⟨trivial, Or.inl ⟨trivial, trivial⟩⟩
      · split
        · simp only [ems_getSolarModuleValues_frame, _addDevice_frame]
          exact ⟨trivial, Or.inl ⟨trivial, trivial⟩⟩
        · split
          · simp only [_addDevice_frame]
            exact ⟨trivial, Or.inl ⟨trivial, trivial⟩⟩
          · split <;> simp only [_addDevice_frame] <;> exact ⟨trivial, Or.inl ⟨trivial, trivial⟩⟩

/-- Every callback of `EMS_Types` leaves the Tx status alone, and leaves the
id-mask and the poll-acknowledge byte alone unless it is the callback of
`EMS_TYPE_Version` binding a boiler with the Heatronics product ID. -/
theorem EMS_Types_bus (cfg : Config) (now : Nat) :
    ∀ e ∈ EMS_Types cfg now, ∀ cb, e.processType_cb = some cb → ∀ rx s,
      (cb rx s).EMS_Sys_Status.emsTxStatus = s.EMS_Sys_Status.emsTxStatus ∧
      (((cb rx s).EMS_Sys_Status.emsIDMask = s.EMS_Sys_Status.emsIDMask ∧
        (cb rx s).EMS_Sys_Status.emsPollAck = s.EMS_Sys_Status.emsPollAck) ∨
       (e.type = cfg.EMS_TYPE_Version ∧
        (cb rx s).EMS_Sys_Status.emsIDMask = 0x80 ∧
        (cb rx s).EMS_Sys_Status.emsPollAck = EMS_ID_ME ^^^ 0x80 ∧
        _toByte rx 0 = cfg.EMS_PRODUCTID_HEATRONICS ∧
        (cb rx s).EMS_Boiler.product_id = cfg.EMS_PRODUCTID_HEATRONICS ∧
        (cb rx s).EMS_Boiler.device_id = cfg.EMS_ID_BOILER ∧
        (s.EMS_Boiler.device_id = EMS_ID_NONE ∨ s.EMS_Boiler.product_id = EMS_ID_NONE))) := by
  intro e he cb hcb rx s
  unfold EMS_Types at he
  simp only [List.mem_cons, List.mem_singleton, List.not_mem_nil, or_false] at he
  rcases he with h | he
  · subst h
    simp only [Option.some.injEq] at hcb
    subst hcb
    obtain ⟨h1, h2⟩ := _process_Version_bus cfg now rx s
    refine ⟨h1, ?_⟩
    rcases h2 with h2 | h2
    · exact Or.inl h2
    · exact Or.inr ⟨rfl, h2⟩
  · casesm* _ ∨ _ <;> subst e <;> simp only [Option.some.injEq, reduceCtorEq] at hcb <;>
      subst cb <;> refine ⟨?_, Or.inl ⟨?_, ?_⟩⟩ <;>
      simp only [_process_UBAMonitorFast, _checkActive, _process_UBAMonitorSlow,
        _process_UBAMonitorWWMessage, _process_UBAParameterWW, _process_UBATotalUptimeMessage,
        _process_UBAParametersMessage, _process_SetPoints, _process_SM10Monitor,
        _process_SM100Monitor, _process_SM100Status, _process_SM100Status2,
        _process_SM100Energy, _process_ISM1StatusMessage, _process_ISM1Set,
        _process_HPMonitor1, _process_HPMonitor2, _process_RCTime, _process_RC10Set,
        _process_RC10StatusMessage, _process_RCOutdoorTempMessage, _process_RC20Set,
        _process_RC20StatusMessage, _process_RC30Set, _process_RC30StatusMessage,
        _process_RC35Set, _process_RC35StatusMessage, _process_EasyStatusMessage,
        _process_RCPLUSStatusMessage, _process_RCPLUSSetMessage, _process_RCPLUSStatusHeating,
        _process_RCPLUSStatusMode, _process_JunkersStatusMessage] <;>
      (try split_ifs) <;> rfl

/-- The function `_ems_processTelegram` either returns the state as it is or
ends with Tx status idle; the id-mask and the poll-acknowledge byte stay
unless a Version telegram binds a Heatronics boiler. -/
theorem _ems_processTelegram_bus (cfg : Config) (now : Nat) (rx : _EMS_RxTelegram) (s : State) :
    (_ems_processTelegram cfg now rx s = s ∨
      (_ems_processTelegram cfg now rx s).EMS_Sys_Status.emsTxStatus = EMS_TX_STATUS_IDLE) ∧
    (((_ems_processTelegram cfg now rx s).EMS_Sys_Status.emsIDMask = s.EMS_Sys_Status.emsIDMask ∧
      (_ems_processTelegram cfg now rx s).EMS_Sys_Status.emsPollAck
        = s.EMS_Sys_Status.emsPollAck) ∨
     (rx.type = cfg.EMS_TYPE_Version ∧
      (_ems_processTelegram cfg now rx s).EMS_Sys_Status.emsIDMask = 0x80 ∧
      (_ems_processTelegram cfg now rx s).EMS_Sys_Status.emsPollAck = EMS_ID_ME ^^^ 0x80 ∧
      _toByte rx 0 = cfg.EMS_PRODUCTID_HEATRONICS ∧
      (_ems_processTelegram cfg now rx s).EMS_Boiler.product_id = cfg.EMS_PRODUCTID_HEATRONICS ∧
      (_ems_processTelegram cfg now rx s).EMS_Boiler.device_id = cfg.EMS_ID_BOILER ∧
      (s.EMS_Boiler.device_id = EMS_ID_NONE ∨ s.EMS_Boiler.product_id = EMS_ID_NONE))) := by
  unfold _ems_processTelegram
  split
  · exact ⟨Or.inl rfl, Or.inl ⟨rfl, rfl⟩⟩
  · refine ⟨Or.inr rfl, ?_⟩
    dsimp only
    split
    · rename_i i hfind
      obtain ⟨_, e', hget', hp⟩ := findFirst_some _ _ _ _ hfind
      split
      · rename_i m t l cb hget
        have hee : e' = ⟨m, t, l, some cb⟩ := by
          rw [Nat.sub_zero, hget] at hget'
          exact (Option.some.inj hget').symm
        have hty : t = rx.type := by
          rw [hee] at hp
          simp only [Bool.and_eq_true, beq_iff_eq] at hp
          exact hp.1
        have hmem : (⟨m, t, l, some cb⟩ : _EMS_Type) ∈ EMS_Types cfg now := List.get?_mem hget
        have hbus := EMS_Types_bus cfg now _ hmem cb rfl rx s
        split_ifs
        · rcases hbus.2 with h | h
          · exact Or.inl h
          · exact Or.inr ⟨hty ▸ h.1, h.2⟩
        · rcases hbus.2 with h | h
          · exact Or.inl h
          · exact Or.inr ⟨hty ▸ h.1, h.2⟩
        · exact Or.inl ⟨rfl, rfl⟩
      · exact Or.inl ⟨rfl, rfl⟩
    · exact Or.inl ⟨rfl, rfl⟩

/-- C10 (as stated it fails): from the state `sampleState`, which waits for
bus detection, the CRC-valid Version telegram `08 00 02 00 5F 01 02 77` of a
boiler with the Heatronics product ID 95 leaves the id-mask `0x80`, while
bit 7 of its source byte is clear. -/
theorem C10_heatronics_overrides_mask :
    sampleState.EMS_Sys_Status.emsTxStatus = EMS_TX_REV_DETECT ∧
    [0x08, 0x00, 0x02, 0x00, 95, 1, 2, 0x77].getD (8 - 1) 0
      = _crcCalculator [0x08, 0x00, 0x02, 0x00, 95, 1, 2, 0x77] 8 ∧
    (ems_parseTelegram sampleConfig sampleEnv [0x08, 0x00, 0x02, 0x00, 95, 1, 2, 0x77] 8
      sampleState).EMS_Sys_Status.emsIDMask = 0x80 ∧
    [0x08, 0x00, 0x02, 0x00, 95, 1, 2, 0x77].getD 0 0 &&& 0x80 = 0x00 := by
  decide

/-- With Tx status idle `_processType` drops an echo of our own address and
hands everything else to `_ems_processTelegram`. -/
theorem _processType_idle (cfg : Config) (now : Nat) (rx : _EMS_RxTelegram) (s : State)
    (h : s.EMS_Sys_Status.emsTxStatus = EMS_TX_STATUS_IDLE) :
    _processType cfg now rx s
      = if rx.src = EMS_ID_ME then s else _ems_processTelegram cfg now rx s := by
  unfold _processType
  simp only [h, if_true]

/-- The path of `ems_parseTelegram` for a CRC-valid telegram of at least five
bytes that arrives while the Tx status waits for bus detection. -/
theorem ems_parseTelegram_detect (cfg : Config) (env : Env) (telegram : List Nat) (length : Nat)
    (s : State) (hrev : s.EMS_Sys_Status.emsTxStatus = EMS_TX_REV_DETECT)
    (hL : 5 ≤ length)
    (hcrc : telegram.getD (length - 1) 0 = _crcCalculator telegram length) :
    ems_parseTelegram cfg env telegram length s =
      if s.EMS_Sys_Status.emsRxStatus ≠ EMS_RX_STATUS_IDLE then
        { s with
          EMS_Sys_Status.emsTxStatus := EMS_TX_STATUS_IDLE
          EMS_Sys_Status.emsIDMask := telegram.getD 0 0 &&& 0x80
          EMS_Sys_Status.emsPollAck := EMS_ID_ME ^^^ (telegram.getD 0 0 &&& 0x80) }
      else
        _processType cfg env.millis (ems_parseTelegram_frame telegram length env.millis)
          { s with
            EMS_Sys_Status.emsTxStatus := EMS_TX_STATUS_IDLE
            EMS_Sys_Status.emsIDMask := telegram.getD 0 0 &&& 0x80
            EMS_Sys_Status.emsPollAck := EMS_ID_ME ^^^ (telegram.getD 0 0 &&& 0x80)
            EMS_Sys_Status.emsRxTimestamp :=
              (ems_parseTelegram_frame telegram length env.millis).timestamp
            EMS_Sys_Status.emsBusConnected := true } := by
  have h1 : ¬ length = 1 := by omega
  have h4 : ¬ length ≤ 4 := by omega
  unfold ems_parseTelegram
  simp only [hrev, hL, hcrc, ge_iff_le, and_self, not_true_eq_false, and_false, if_false, if_true,
    h1, h4, ne_eq]

/-- The id-mask and the poll-acknowledge byte after `_process_Version`: they
are overwritten exactly when the payload has three bytes, the boiler table
holds the product ID for the boiler address, the boiler record is not yet
bound and the product ID is `EMS_PRODUCTID_HEATRONICS`; the boiler record is
then bound to that product ID. -/
theorem _process_Version_override (cfg : Config) (now : Nat) (rx : _EMS_RxTelegram) (s : State) :
    (3 ≤ rx.data_length ∧
      (findFirst
        (fun (b : _Boiler_Type) =>
          b.product_id == _toByte rx 0 && (rx.src &&& 0x7F) == cfg.EMS_ID_BOILER)
        cfg.Boiler_Types 0).isSome = true ∧
      (s.EMS_Boiler.device_id = EMS_ID_NONE ∨
        (s.EMS_Boiler.device_id = cfg.EMS_ID_BOILER ∧ s.EMS_Boiler.product_id = EMS_ID_NONE)) ∧
      _toByte rx 0 = cfg.EMS_PRODUCTID_HEATRONICS ∧
      (_process_Version cfg now rx s).EMS_Sys_Status.emsIDMask = 0x80 ∧
      (_process_Version cfg now rx s).EMS_Sys_Status.emsPollAck = EMS_ID_ME ^^^ 0x80 ∧
      (_process_Version cfg now rx s).EMS_Boiler.product_id = cfg.EMS_PRODUCTID_HEATRONICS ∧
      (_process_Version cfg now rx s).EMS_Boiler.device_id = cfg.EMS_ID_BOILER) ∨
    (¬ (3 ≤ rx.data_length ∧
      (findFirst
        (fun (b : _Boiler_Type) =>
          b.product_id == _toByte rx 0 && (rx.src &&& 0x7F) == cfg.EMS_ID_BOILER)
        cfg.Boiler_Types 0).isSome = true ∧
      (s.EMS_Boiler.device_id = EMS_ID_NONE ∨
        (s.EMS_Boiler.device_id = cfg.EMS_ID_BOILER ∧ s.EMS_Boiler.product_id = EMS_ID_NONE)) ∧
      _toByte rx 0 = cfg.EMS_PRODUCTID_HEATRONICS) ∧
      (_process_Version cfg now rx s).EMS_Sys_Status.emsIDMask = s.EMS_Sys_Status.emsIDMask ∧
      (_process_Version cfg now rx s).EMS_Sys_Status.emsPollAck = s.EMS_Sys_Status.emsPollAck) := by
  unfold _process_Version
  dsimp only
  split
  · rename_i hdl
    exact Or.inr ⟨fun h => absurd h.1 (by omega), rfl, rfl⟩
  · rename_i hdl
    split
    · rename_i i hfind
      obtain ⟨_, e, hget, hp⟩ := findFirst_some _ _ _ _ hfind
      have hentry := getD_of_get? cfg.Boiler_Types i e ⟨0, 0, ""⟩ (by simpa using hget)
      rw [hentry]
      have hpid : e.product_id = _toByte rx 0 := by
        simp only [Bool.and_eq_true, beq_iff_eq] at hp
        exact hp.1
      split_ifs with hunb hheat
      · simp only [ems_getBoilerValues_frame, _addDevice_frame] at hunb ⊢
        refine Or.inl ⟨by omega, ?_, hunb, ?_, trivial, trivial, hheat, trivial⟩
        · rw [hfind]; rfl
        · rw [← hpid]; exact hheat
      · simp only [ems_getBoilerValues_frame, _addDevice_frame]
        refine Or.inr ⟨fun h => hheat ?_, trivial, trivial⟩
        show e.product_id = cfg.EMS_PRODUCTID_HEATRONICS
        rw [hpid]; exact h.2.2.2
      · simp only [_addDevice_frame] at hunb ⊢
        exact Or.inr ⟨fun h => hunb h.2.2.1, trivial, trivial⟩
    · rename_i hfind
      have hnone : ¬ (3 ≤ rx.data_length ∧
          (findFirst
            (fun (b : _Boiler_Type) =>
              b.product_id == _toByte rx 0 && (rx.src &&& 0x7F) == cfg.EMS_ID_BOILER)
            cfg.Boiler_Types 0).isSome = true ∧
          (s.EMS_Boiler.device_id = EMS_ID_NONE ∨
            (s.EMS_Boiler.device_id = cfg.EMS_ID_BOILER ∧
              s.EMS_Boiler.product_id = EMS_ID_NONE)) ∧
          _toByte rx 0 = cfg.EMS_PRODUCTID_HEATRONICS) := by
        intro h
        rw [hfind] at h
        exact absurd h.2.1 (by decide)
      split
      · split_ifs
        · simp only [ems_getThermostatValues_frame, _addDevice_frame]
          exact Or.inr ⟨hnone, trivial, trivial⟩
        · simp only [_addDevice_frame]
          exact Or.inr ⟨hnone, trivial, trivial⟩
      · split
        · simp only [ems_getSolarModuleValues_frame, _addDevice_frame]
          exact Or.inr ⟨hnone, trivial, trivial⟩
        · split
          · simp only [_addDevice_frame]
            exact Or.inr ⟨hnone, trivial, trivial⟩
          · split <;> simp only [_addDevice_frame] <;> exact Or.inr ⟨hnone, trivial, trivial⟩

/-- The function `_ems_processTelegram` on a telegram of type
`EMS_TYPE_Version` that is a broadcast or sent to us: the search stops at the
first entry of `EMS_Types`, whose callback is `_process_Version`. -/
theorem _ems_processTelegram_version (cfg : Config) (now : Nat) (rx : _EMS_RxTelegram)
    (s : State) (hty : rx.type = cfg.EMS_TYPE_Version)
    (hdest : rx.dest = EMS_ID_NONE ∨ rx.dest = EMS_ID_ME) :
    _ems_processTelegram cfg now rx s =
      if rx.data_length = 0 then s
      else
        { (if rx.emsplus then _process_Version cfg now rx s
            else if rx.offset = EMS_ID_NONE then _process_Version cfg now rx s
            else s) with EMS_Sys_Status.emsTxStatus := EMS_TX_STATUS_IDLE } := by
  have hp : (cfg.EMS_TYPE_Version == rx.type && (rx.dest == EMS_ID_NONE || rx.dest == EMS_ID_ME))
      = true := by
    simp only [Bool.and_eq_true, Bool.or_eq_true, beq_iff_eq]
    exact ⟨hty.symm, hdest⟩
  have hfind : findFirst
      (fun (e : _EMS_Type) => e.type == rx.type && (rx.dest == EMS_ID_NONE || rx.dest == EMS_ID_ME))
      (EMS_Types cfg now) 0 = some 0 := by
    unfold EMS_Types
    unfold findFirst
    rw [if_pos hp]
  unfold _ems_processTelegram
  dsimp only
  rw [hfind]
  rfl

/-- The function `_ems_processTelegram` leaves the id-mask alone on a telegram
that is not of type `EMS_TYPE_Version` or is sent to another device. -/
theorem _ems_processTelegram_other (cfg : Config) (now : Nat) (rx : _EMS_RxTelegram)
    (s : State)
    (h : ¬ (rx.type = cfg.EMS_TYPE_Version ∧ (rx.dest = EMS_ID_NONE ∨ rx.dest = EMS_ID_ME))) :
    (_ems_processTelegram cfg now rx s).EMS_Sys_Status.emsIDMask = s.EMS_Sys_Status.emsIDMask := by
  by_cases hdest : rx.dest = EMS_ID_NONE ∨ rx.dest = EMS_ID_ME
  · rcases (_ems_processTelegram_bus cfg now rx s).2 with h1 | h1
    · exact h1.1
    · exact absurd ⟨h1.1, hdest⟩ h
  · have hfind : findFirst
        (fun (e : _EMS_Type) =>
          e.type == rx.type && (rx.dest == EMS_ID_NONE || rx.dest == EMS_ID_ME))
        (EMS_Types cfg now) 0 = none := by
      apply findFirst_false
      intro x
      have : (rx.dest == EMS_ID_NONE || rx.dest == EMS_ID_ME) = false := by
        rw [Bool.eq_false_iff]
        intro hb
        simp only [Bool.or_eq_true, beq_iff_eq] at hb
        exact hdest hb
      rw [this, Bool.and_false]
    unfold _ems_processTelegram
    dsimp only
    rw [hfind]
    split <;> rfl

/-- C10 (amended): while Tx status waits for bus detection, a telegram of at
least five bytes whose last byte is its CRC leaves `ems_parseTelegram` with a
Tx status other than `EMS_TX_REV_DETECT` and with the poll-acknowledge byte
`0x0B ^ id-mask`.  Unless the telegram reaches the Heatronics assignment of
`_process_Version` (`reachesHeatronicsOverride`), the id-mask is
`byte0 & 0x80`; if it does, `_process_Version` has bound the boiler record to
the Heatronics product ID and overwritten the id-mask with `0x80` and the
poll-acknowledge byte with `0x0B ^ 0x80`. -/
theorem C10_detect_amended (cfg : Config) (env : Env) (telegram : List Nat) (length : Nat)
    (s : State) (hrev : s.EMS_Sys_Status.emsTxStatus = EMS_TX_REV_DETECT)
    (hL : 5 ≤ length)
    (hcrc : telegram.getD (length - 1) 0 = _crcCalculator telegram length) :
    (ems_parseTelegram cfg env telegram length s).EMS_Sys_Status.emsTxStatus ≠ EMS_TX_REV_DETECT ∧
    (ems_parseTelegram cfg env telegram length s).EMS_Sys_Status.emsPollAck
      = 0x0B ^^^ (ems_parseTelegram cfg env telegram length s).EMS_Sys_Status.emsIDMask ∧
    (¬ reachesHeatronicsOverride cfg (ems_parseTelegram_frame telegram length env.millis) s →
      (ems_parseTelegram cfg env telegram length s).EMS_Sys_Status.emsIDMask
        = telegram.getD 0 0 &&& 0x80) ∧
    (reachesHeatronicsOverride cfg (ems_parseTelegram_frame telegram length env.millis) s →
      (ems_parseTelegram cfg env telegram length s).EMS_Sys_Status.emsIDMask = 0x80 ∧
      (ems_parseTelegram cfg env telegram length s).EMS_Sys_Status.emsPollAck = 0x0B ^^^ 0x80 ∧
      (ems_parseTelegram cfg env telegram length s).EMS_Boiler.product_id
        = cfg.EMS_PRODUCTID_HEATRONICS ∧
      (ems_parseTelegram cfg env telegram length s).EMS_Boiler.device_id = cfg.EMS_ID_BOILER) := by
  rw [ems_parseTelegram_detect cfg env telegram length s hrev hL hcrc]
  unfold reachesHeatronicsOverride
  by_cases hrx : s.EMS_Sys_Status.emsRxStatus ≠ EMS_RX_STATUS_IDLE
  · rw [if_pos hrx]
    exact ⟨(by intro h; cases h), rfl, fun _ => rfl, fun h => absurd h.1 hrx⟩
  · rw [if_neg hrx, _processType_idle _ _ _ _ rfl]
    by_cases hsrc : (ems_parseTelegram_frame telegram length env.millis).src = EMS_ID_ME
    · rw [if_pos hsrc]
      exact ⟨(by intro h; cases h), rfl, fun _ => rfl, fun h => absurd hsrc h.2.1⟩
    · rw [if_neg hsrc]
      generalize hs1 : ({ s with
            EMS_Sys_Status.emsTxStatus := EMS_TX_STATUS_IDLE
            EMS_Sys_Status.emsIDMask := telegram.getD 0 0 &&& 0x80
            EMS_Sys_Status.emsPollAck := EMS_ID_ME ^^^ (telegram.getD 0 0 &&& 0x80)
            EMS_Sys_Status.emsRxTimestamp :=
              (ems_parseTelegram_frame telegram length env.millis).timestamp
            EMS_Sys_Status.emsBusConnected := true } : State) = s1
      have e1 : s1.EMS_Sys_Status.emsTxStatus = EMS_TX_STATUS_IDLE := by rw [← hs1]
      have e2 : s1.EMS_Sys_Status.emsIDMask = telegram.getD 0 0 &&& 0x80 := by rw [← hs1]
      have e3 : s1.EMS_Sys_Status.emsPollAck = EMS_ID_ME ^^^ (telegram.getD 0 0 &&& 0x80) := by
        rw [← hs1]
      have e4 : s1.EMS_Boiler = s.EMS_Boiler := by rw [← hs1]
      obtain ⟨ht, hb⟩ := _ems_processTelegram_bus cfg env.millis
        (ems_parseTelegram_frame telegram length env.millis) s1
      refine ⟨?_, ?_, ?_, ?_⟩
      · rcases ht with h | h
        · rw [h, e1]; decide
        · rw [h]; decide
      · rcases hb with ⟨hm, hp⟩ | ⟨_, hm, hp, _⟩
        · rw [hm, hp, e2, e3]; rfl
        · rw [hm, hp]; rfl
      · intro hn
        by_cases hv : (ems_parseTelegram_frame telegram length env.millis).type
              = cfg.EMS_TYPE_Version ∧
            ((ems_parseTelegram_frame telegram length env.millis).dest = EMS_ID_NONE ∨
              (ems_parseTelegram_frame telegram length env.millis).dest = EMS_ID_ME)
        · rw [_ems_processTelegram_version cfg env.millis _ s1 hv.1 hv.2]
          by_cases hdl : (ems_parseTelegram_frame telegram length env.millis).data_length = 0
          · rw [if_pos hdl]; exact e2
          · rw [if_neg hdl]
            by_cases hoff : (ems_parseTelegram_frame telegram length env.millis).emsplus = true ∨
                (ems_parseTelegram_frame telegram length env.millis).offset = EMS_ID_NONE
            · have hpv : (_process_Version cfg env.millis
                    (ems_parseTelegram_frame telegram length env.millis) s1
                    ).EMS_Sys_Status.emsIDMask = telegram.getD 0 0 &&& 0x80 := by
                rcases _process_Version_override cfg env.millis
                    (ems_parseTelegram_frame telegram length env.millis) s1 with h | h
                · rw [e4] at h
                  exact absurd ⟨Classical.not_not.mp hrx, hsrc, hv.1, hv.2, hoff, h.1, h.2.1,
                    h.2.2.1, h.2.2.2.1⟩ hn
                · exact h.2.1.trans e2
              rcases hoff with h | h
              · rw [if_pos h]; exact hpv
              · by_cases h' : (ems_parseTelegram_frame telegram length env.millis).emsplus = true
                · rw [if_pos h']; exact hpv
                · rw [if_neg h', if_pos h]; exact hpv
            · rw [if_neg (fun h => hoff (Or.inl h)), if_neg (fun h => hoff (Or.inr h))]
              exact e2
        · exact (_ems_processTelegram_other cfg env.millis _ s1 hv).trans e2
      · intro hc
        obtain ⟨_, _, hty, hdest, hoff, hdl, hfind, hbind, hheat⟩ := hc
        rw [_ems_processTelegram_version cfg env.millis _ s1 hty hdest,
          if_neg (show ¬ (ems_parseTelegram_frame telegram length env.millis).data_length = 0
            by omega)]
        have hpv : (_process_Version cfg env.millis
              (ems_parseTelegram_frame telegram length env.millis) s1).EMS_Sys_Status.emsIDMask
              = 0x80 ∧
            (_process_Version cfg env.millis
              (ems_parseTelegram_frame telegram length env.millis) s1).EMS_Sys_Status.emsPollAck
              = 0x0B ^^^ 0x80 ∧
            (_process_Version cfg env.millis
              (ems_parseTelegram_frame telegram length env.millis) s1).EMS_Boiler.product_id
              = cfg.EMS_PRODUCTID_HEATRONICS ∧
            (_process_Version cfg env.millis
              (ems_parseTelegram_frame telegram length env.millis) s1).EMS_Boiler.device_id
              = cfg.EMS_ID_BOILER := by
          rcases _process_Version_override cfg env.millis
              (ems_parseTelegram_frame telegram length env.millis) s1 with h | h
          · exact h.2.2.2.2
          · rw [e4] at h
            exact absurd ⟨hdl, hfind, hbind, hheat⟩ h.1
        rcases hoff with h | h
        · rw [if_pos h]; exact hpv
        · by_cases h' : (ems_parseTelegram_frame telegram length env.millis).emsplus = true
          · rw [if_pos h']; exact hpv
          · rw [if_neg h', if_pos h]; exact hpv

/-- C10 (amended) at two telegrams received in the state `sampleState`.  The
Version telegram `08 00 02 00 5F 01 02 77` of a Heatronics boiler reaches the
assignment: the id-mask is `0x80` although bit 7 of the source byte is clear.
The telegram `88 00 18 00 05 01 5C EA` does not: the id-mask is bit 7 of its
source byte. -/
theorem C10_detect_amended_witness :
    reachesHeatronicsOverride sampleConfig
      (ems_parseTelegram_frame [0x08, 0x00, 0x02, 0x00, 95, 1, 2, 0x77] 8 sampleEnv.millis)
      sampleState ∧
    (ems_parseTelegram sampleConfig sampleEnv [0x08, 0x00, 0x02, 0x00, 95, 1, 2, 0x77] 8
      sampleState).EMS_Sys_Status.emsTxStatus ≠ EMS_TX_REV_DETECT ∧
    ((ems_parseTelegram sampleConfig sampleEnv [0x08, 0x00, 0x02, 0x00, 95, 1, 2, 0x77] 8
        sampleState).EMS_Sys_Status.emsIDMask = 0x80 ∧
      (ems_parseTelegram sampleConfig sampleEnv [0x08, 0x00, 0x02, 0x00, 95, 1, 2, 0x77] 8
        sampleState).EMS_Sys_Status.emsPollAck = 0x0B ^^^ 0x80 ∧
      (ems_parseTelegram sampleConfig sampleEnv [0x08, 0x00, 0x02, 0x00, 95, 1, 2, 0x77] 8
        sampleState).EMS_Boiler.product_id = sampleConfig.EMS_PRODUCTID_HEATRONICS ∧
      (ems_parseTelegram sampleConfig sampleEnv [0x08, 0x00, 0x02, 0x00, 95, 1, 2, 0x77] 8
        sampleState).EMS_Boiler.device_id = sampleConfig.EMS_ID_BOILER) ∧
    ¬ reachesHeatronicsOverride sampleConfig
      (ems_parseTelegram_frame [0x88, 0x00, 0x18, 0x00, 0x05, 0x01, 0x5C, 0xEA] 8
        sampleEnv.millis) sampleState ∧
    (ems_parseTelegram sampleConfig sampleEnv [0x88, 0x00, 0x18, 0x00, 0x05, 0x01, 0x5C, 0xEA] 8
      sampleState).EMS_Sys_Status.emsIDMask
      = [0x88, 0x00, 0x18, 0x00, 0x05, 0x01, 0x5C, 0xEA].getD 0 0 &&& 0x80 :=
  (fun h1 h2 => ⟨by decide, h1.1, h1.2.2.2 (by decide), by decide, h2.2.2.1 (by decide)⟩)
    (C10_detect_amended sampleConfig sampleEnv [0x08, 0x00, 0x02, 0x00, 95, 1, 2, 0x77] 8
      sampleState rfl (by decide) (by decide))
    (C10_detect_amended sampleConfig sampleEnv [0x88, 0x00, 0x18, 0x00, 0x05, 0x01, 0x5C, 0xEA] 8
      sampleState rfl (by decide) (by decide))

/-! ## The reconciliation paths of `_processType` -/

/-- The function `ems_tx_pollAck` appends the one byte `emsPollAck` to the
transmitted buffers. -/
theorem ems_tx_pollAck_eq (s : State) :
    ems_tx_pollAck s = { s with uart_tx := s.uart_tx ++ [[s.EMS_Sys_Status.emsPollAck]] } := rfl

/-- The function `_removeTxQueue` drops the head of the queue, if there is one,
and sets Tx status idle. -/
theorem _removeTxQueue_eq (s : State) :
    _removeTxQueue s = { s with
      EMS_TxQueue := s.EMS_TxQueue.tail
      EMS_Sys_Status.emsTxStatus := EMS_TX_STATUS_IDLE } := by
  unfold _removeTxQueue CircularBuffer_shift
  cases h : s.EMS_TxQueue <;> rfl

/-- The path of `_processType` for a telegram that is not for us while a reply
is awaited (lines 1145-1149). -/
theorem _processType_stray (cfg : Config) (now : Nat) (rx : _EMS_RxTelegram) (s : State)
    (hsrc : rx.src ≠ EMS_ID_ME)
    (hwait : s.EMS_Sys_Status.emsTxStatus ≠ EMS_TX_STATUS_IDLE)
    (hdest : rx.telegram.getD 1 0 &&& 0x7F ≠ EMS_ID_ME) :
    _processType cfg now rx s
      = _ems_processTelegram cfg now rx
          (_removeTxQueue { s with EMS_Sys_Status.emsTxStatus := EMS_TX_STATUS_IDLE }) := by
  unfold _processType
  simp only [hsrc, hwait, hdest, if_false, if_true, ne_eq, not_false_eq_true]

/-- The path of `_processType` for a telegram for us while a reply is awaited
and the queue is empty (lines 1152-1155). -/
theorem _processType_empty (cfg : Config) (now : Nat) (rx : _EMS_RxTelegram) (s : State)
    (hsrc : rx.src ≠ EMS_ID_ME)
    (hwait : s.EMS_Sys_Status.emsTxStatus ≠ EMS_TX_STATUS_IDLE)
    (hdest : rx.telegram.getD 1 0 &&& 0x7F = EMS_ID_ME)
    (hq : s.EMS_TxQueue = []) :
    _processType cfg now rx s
      = _ems_processTelegram cfg now rx
          { s with EMS_Sys_Status.emsTxStatus := EMS_TX_STATUS_IDLE } := by
  unfold _processType
  simp only [hsrc, hwait, hdest, hq, if_false, if_true, ne_eq, not_true_eq_false]

/-- The path of `_processType` for a telegram for us while the reply to the
Read entry `t` at the head of the queue is awaited (lines 1164-1194, 1237). -/
theorem _processType_read (cfg : Config) (now : Nat) (rx : _EMS_RxTelegram) (s : State)
    (t : _EMS_TxTelegram) (rest : List _EMS_TxTelegram)
    (hsrc : rx.src ≠ EMS_ID_ME)
    (hwait : s.EMS_Sys_Status.emsTxStatus ≠ EMS_TX_STATUS_IDLE)
    (hdest : rx.telegram.getD 1 0 &&& 0x7F = EMS_ID_ME)
    (hq : s.EMS_TxQueue = t :: rest) (hact : t.action = EMS_TX_TELEGRAM_READ) :
    _processType cfg now rx s
      = ems_tx_pollAck (_ems_processTelegram cfg now rx
          (if (rx.src &&& 0x7F) = (t.dest &&& 0x7F) ∧ rx.type = t.type then
            ems_setEmsRefreshed t.forceRefresh
              { s with
                EMS_TxQueue := rest
                EMS_Sys_Status.emsTxStatus := EMS_TX_STATUS_IDLE
                EMS_Sys_Status.emsRxPgks := (s.EMS_Sys_Status.emsRxPgks + 1) % 2 ^ 16 }
          else if rx.data_length = 0 then
            { s with EMS_TxQueue := rest, EMS_Sys_Status.emsTxStatus := EMS_TX_STATUS_IDLE }
          else if s.EMS_Sys_Status.txRetryCount + 1 ≥ TX_WRITE_TIMEOUT_COUNT then
            { s with
              EMS_TxQueue := rest
              EMS_Sys_Status.emsTxStatus := EMS_TX_STATUS_IDLE
              EMS_Sys_Status.txRetryCount := s.EMS_Sys_Status.txRetryCount + 1 }
          else
            { s with
              EMS_Sys_Status.emsTxStatus := EMS_TX_STATUS_IDLE
              EMS_Sys_Status.txRetryCount := s.EMS_Sys_Status.txRetryCount + 1 })) := by
  unfold _processType
  simp only [hsrc, hwait, hdest, hq, hact, if_false, if_true, ne_eq, not_true_eq_false,
    _removeTxQueue_eq, List.tail_cons, reduceCtorEq]

/-- The path of `_processType` for a telegram for us while the reply to the
Validate entry `t` at the head of the queue is awaited (lines 1201-1237). -/
theorem _processType_validate (cfg : Config) (now : Nat) (rx : _EMS_RxTelegram) (s : State)
    (t : _EMS_TxTelegram) (rest : List _EMS_TxTelegram)
    (hsrc : rx.src ≠ EMS_ID_ME)
    (hwait : s.EMS_Sys_Status.emsTxStatus ≠ EMS_TX_STATUS_IDLE)
    (hdest : rx.telegram.getD 1 0 &&& 0x7F = EMS_ID_ME)
    (hq : s.EMS_TxQueue = t :: rest) (hact : t.action = EMS_TX_TELEGRAM_VALIDATE) :
    _processType cfg now rx s
      = ems_tx_pollAck
          (if t.comparisonValue = rx.telegram.getD 4 0 then
            ems_doReadCommand cfg now t.comparisonPostRead t.dest true
              { s with EMS_TxQueue := rest, EMS_Sys_Status.emsTxStatus := EMS_TX_STATUS_IDLE }
          else if s.EMS_Sys_Status.txRetryCount + 1 > TX_WRITE_TIMEOUT_COUNT then
            { s with
              EMS_TxQueue := rest
              EMS_Sys_Status.emsTxStatus := EMS_TX_STATUS_IDLE
              EMS_Sys_Status.txRetryCount := s.EMS_Sys_Status.txRetryCount + 1 }
          else
            { s with
              EMS_TxQueue := CircularBuffer_unshift cfg rest
                { t with
                  action := EMS_TX_TELEGRAM_WRITE
                  dataValue := t.comparisonValue
                  offset := t.comparisonOffset }
              EMS_Sys_Status.emsTxStatus := EMS_TX_STATUS_IDLE
              EMS_Sys_Status.txRetryCount := s.EMS_Sys_Status.txRetryCount + 1 }) := by
  unfold _processType
  simp only [hsrc, hwait, hdest, hq, hact, if_false, if_true, ne_eq, not_true_eq_false,
    _removeTxQueue_eq, List.tail_cons, reduceCtorEq, CircularBuffer_shift]

/-- The path of `_processType` for a telegram for us while a reply is awaited
and the head of the queue is neither a Read nor a Validate entry. -/
theorem _processType_other (cfg : Config) (now : Nat) (rx : _EMS_RxTelegram) (s : State)
    (t : _EMS_TxTelegram) (rest : List _EMS_TxTelegram)
    (hsrc : rx.src ≠ EMS_ID_ME)
    (hwait : s.EMS_Sys_Status.emsTxStatus ≠ EMS_TX_STATUS_IDLE)
    (hdest : rx.telegram.getD 1 0 &&& 0x7F = EMS_ID_ME)
    (hq : s.EMS_TxQueue = t :: rest) (hread : t.action ≠ EMS_TX_TELEGRAM_READ)
    (hval : t.action ≠ EMS_TX_TELEGRAM_VALIDATE) :
    _processType cfg now rx s
      = ems_tx_pollAck { s with EMS_Sys_Status.emsTxStatus := EMS_TX_STATUS_IDLE } := by
  unfold _processType
  simp only [hsrc, hwait, hdest, hq, hread, hval, if_false, if_true, ne_eq, not_true_eq_false]

/-! ## What the decoders leave alone -/

/-- A state is enqueued from its own queue and retry counter. -/
theorem EnqueuedFrom_self (cfg : Config) (n : Nat) (s : State) :
    EnqueuedFrom cfg s.EMS_TxQueue s.EMS_Sys_Status.txRetryCount n s :=
  ⟨Or.inl rfl, [], Nat.zero_le _, rfl⟩

/-- The relation `EnqueuedFrom` reads the queue and the retry counter only. -/
theorem EnqueuedFrom_congr (cfg : Config) (q : List _EMS_TxTelegram) (r n m : Nat)
    (s s' : State) (hq : s'.EMS_TxQueue = s.EMS_TxQueue)
    (hr : s'.EMS_Sys_Status.txRetryCount = s.EMS_Sys_Status.txRetryCount) (hnm : n ≤ m)
    (h : EnqueuedFrom cfg q r n s) : EnqueuedFrom cfg q r m s' := by
  obtain ⟨h1, extra, h2, h3⟩ := h
  exact ⟨by rw [hr]; exact h1, extra, Nat.le_trans h2 hnm, by rw [hq]; exact h3⟩

/-- The function `ems_doReadCommand` either quits or pushes one telegram and
resets the retry counter. -/
theorem ems_doReadCommand_cases (cfg : Config) (now type dest : Nat) (forceRefresh : Bool)
    (s : State) :
    ems_doReadCommand cfg now type dest forceRefresh s = s ∨
    ∃ t : _EMS_TxTelegram, ems_doReadCommand cfg now type dest forceRefresh s =
      { s with
        EMS_Sys_Status.txRetryCount := 0
        EMS_TxQueue := CircularBuffer_push cfg s.EMS_TxQueue t } := by
  unfold ems_doReadCommand
  split_ifs
  · exact Or.inl rfl
  · exact Or.inl rfl
  · exact Or.inr ⟨_, rfl⟩

/-- One call of `ems_doReadCommand` enqueues at most one telegram. -/
theorem ems_doReadCommand_enqueued (cfg : Config) (now type dest : Nat) (forceRefresh : Bool)
    (q : List _EMS_TxTelegram) (r n : Nat) (s : State) (h : EnqueuedFrom cfg q r n s) :
    EnqueuedFrom cfg q r (n + 1) (ems_doReadCommand cfg now type dest forceRefresh s) := by
  obtain ⟨h1, extra, h2, h3⟩ := h
  rcases ems_doReadCommand_cases cfg now type dest forceRefresh s with h | ⟨t, h⟩
  · rw [h]
    exact ⟨h1, extra, Nat.le_succ_of_le h2, h3⟩
  · rw [h]
    refine ⟨Or.inr rfl, extra ++ [t], ?_, ?_⟩
    · rw [List.length_append, List.length_singleton]
      exact Nat.succ_le_succ h2
    · rw [List.foldl_append, ← h3]
      rfl

/-- The function `ems_doReadCommand` leaves the counters, the switches and the
transmitted buffers alone. -/
theorem ems_doReadCommand_counters (cfg : Config) (now type dest : Nat) (forceRefresh : Bool)
    (s : State) :
    (ems_doReadCommand cfg now type dest forceRefresh s).EMS_Sys_Status.emsRxPgks
      = s.EMS_Sys_Status.emsRxPgks ∧
    (ems_doReadCommand cfg now type dest forceRefresh s).EMS_Sys_Status.emsTxPkgs
      = s.EMS_Sys_Status.emsTxPkgs ∧
    (ems_doReadCommand cfg now type dest forceRefresh s).EMS_Sys_Status.emxCrcErr
      = s.EMS_Sys_Status.emxCrcErr ∧
    (ems_doReadCommand cfg now type dest forceRefresh s).EMS_Sys_Status.emsRxStatus
      = s.EMS_Sys_Status.emsRxStatus ∧
    (ems_doReadCommand cfg now type dest forceRefresh s).EMS_Sys_Status.emsPollEnabled
      = s.EMS_Sys_Status.emsPollEnabled ∧
    (ems_doReadCommand cfg now type dest forceRefresh s).EMS_Sys_Status.emsTxDisabled
      = s.EMS_Sys_Status.emsTxDisabled ∧
    (ems_doReadCommand cfg now type dest forceRefresh s).uart_tx = s.uart_tx := by
  unfold ems_doReadCommand
  split_ifs <;> exact ⟨rfl, rfl, rfl, rfl, rfl, rfl, rfl⟩

/-- The function `ems_getBoilerValues` enqueues at most five telegrams. -/
theorem ems_getBoilerValues_enqueued (cfg : Config) (now : Nat) (s : State)
    (q : List _EMS_TxTelegram) (r : Nat) (hq : s.EMS_TxQueue = q)
    (hr : s.EMS_Sys_Status.txRetryCount = r) :
    EnqueuedFrom cfg q r 5 (ems_getBoilerValues cfg now s) := by
  subst hq hr
  unfold ems_getBoilerValues
  exact ems_doReadCommand_enqueued _ _ _ _ _ _ _ 4 _
    (ems_doReadCommand_enqueued _ _ _ _ _ _ _ 3 _
      (ems_doReadCommand_enqueued _ _ _ _ _ _ _ 2 _
        (ems_doReadCommand_enqueued _ _ _ _ _ _ _ 1 _
          (ems_doReadCommand_enqueued _ _ _ _ _ _ _ 0 _ (EnqueuedFrom_self cfg 0 s)))))

/-- The function `ems_getBoilerValues` leaves the counters, the switches and
the transmitted buffers alone. -/
theorem ems_getBoilerValues_counters (cfg : Config) (now : Nat) (s : State) :
    (ems_getBoilerValues cfg now s).EMS_Sys_Status.emsRxPgks = s.EMS_Sys_Status.emsRxPgks ∧
    (ems_getBoilerValues cfg now s).EMS_Sys_Status.emsTxPkgs = s.EMS_Sys_Status.emsTxPkgs ∧
    (ems_getBoilerValues cfg now s).EMS_Sys_Status.emxCrcErr = s.EMS_Sys_Status.emxCrcErr ∧
    (ems_getBoilerValues cfg now s).EMS_Sys_Status.emsRxStatus = s.EMS_Sys_Status.emsRxStatus ∧
    (ems_getBoilerValues cfg now s).EMS_Sys_Status.emsPollEnabled
      = s.EMS_Sys_Status.emsPollEnabled ∧
    (ems_getBoilerValues cfg now s).EMS_Sys_Status.emsTxDisabled
      = s.EMS_Sys_Status.emsTxDisabled ∧
    (ems_getBoilerValues cfg now s).uart_tx = s.uart_tx := by
  unfold ems_getBoilerValues
  simp only [ems_doReadCommand_counters, and_self]

/-- The function `ems_getThermostatValues` enqueues at most three telegrams. -/
theorem ems_getThermostatValues_enqueued (cfg : Config) (now : Nat) (s : State)
    (q : List _EMS_TxTelegram) (r : Nat) (hq : s.EMS_TxQueue = q)
    (hr : s.EMS_Sys_Status.txRetryCount = r) :
    EnqueuedFrom cfg q r 5 (ems_getThermostatValues cfg now s) := by
  subst hq hr
  have h0 := EnqueuedFrom_self cfg 0 s
  have h2 : ∀ n (s1 : State), EnqueuedFrom cfg s.EMS_TxQueue s.EMS_Sys_Status.txRetryCount n s1 →
      n ≤ 2 → EnqueuedFrom cfg s.EMS_TxQueue s.EMS_Sys_Status.txRetryCount 5 s1 :=
    fun n s1 h hn => EnqueuedFrom_congr cfg _ _ n 5 s1 s1 rfl rfl (by omega) h
  have h3 : ∀ (s1 : State) (ty d : Nat) (f : Bool),
      (∃ n, n ≤ 2 ∧ EnqueuedFrom cfg s.EMS_TxQueue s.EMS_Sys_Status.txRetryCount n s1) →
      EnqueuedFrom cfg s.EMS_TxQueue s.EMS_Sys_Status.txRetryCount 5
        (ems_doReadCommand cfg now ty d f s1) := by
    rintro s1 ty d f ⟨n, hn, h⟩
    exact EnqueuedFrom_congr cfg _ _ (n + 1) 5 _ _ rfl rfl (by omega)
      (ems_doReadCommand_enqueued cfg now ty d f _ _ n s1 h)
  unfold ems_getThermostatValues
  dsimp only
  split
  · exact h2 0 s h0 (by omega)
  · apply h3
    split_ifs
    · exact ⟨2, le_refl _, ems_doReadCommand_enqueued _ _ _ _ _ _ _ 1 _
        (ems_doReadCommand_enqueued _ _ _ _ _ _ _ 0 _ h0)⟩
    · exact ⟨2, le_refl _, ems_doReadCommand_enqueued _ _ _ _ _ _ _ 1 _
        (ems_doReadCommand_enqueued _ _ _ _ _ _ _ 0 _ h0)⟩
    · exact ⟨1, by omega, ems_doReadCommand_enqueued _ _ _ _ _ _ _ 0 _ h0⟩
    · exact ⟨2, le_refl _, ems_doReadCommand_enqueued _ _ _ _ _ _ _ 1 _
        (ems_doReadCommand_enqueued _ _ _ _ _ _ _ 0 _ h0)⟩
    · exact ⟨2, le_refl _, ems_doReadCommand_enqueued _ _ _ _ _ _ _ 1 _
        (ems_doReadCommand_enqueued _ _ _ _ _ _ _ 0 _ h0)⟩
    · exact ⟨0, by omega, h0⟩
    · exact ⟨1, by omega, ems_doReadCommand_enqueued _ _ _ _ _ _ _ 0 _ h0⟩
    · exact ⟨0, by omega, h0⟩

/-- The function `ems_getThermostatValues` leaves the counters, the switches
and the transmitted buffers alone. -/
theorem ems_getThermostatValues_counters (cfg : Config) (now : Nat) (s : State) :
    (ems_getThermostatValues cfg now s).EMS_Sys_Status.emsRxPgks = s.EMS_Sys_Status.emsRxPgks ∧
    (ems_getThermostatValues cfg now s).EMS_Sys_Status.emsTxPkgs = s.EMS_Sys_Status.emsTxPkgs ∧
    (ems_getThermostatValues cfg now s).EMS_Sys_Status.emxCrcErr = s.EMS_Sys_Status.emxCrcErr ∧
    (ems_getThermostatValues cfg now s).EMS_Sys_Status.emsRxStatus
      = s.EMS_Sys_Status.emsRxStatus ∧
    (ems_getThermostatValues cfg now s).EMS_Sys_Status.emsPollEnabled
      = s.EMS_Sys_Status.emsPollEnabled ∧
    (ems_getThermostatValues cfg now s).EMS_Sys_Status.emsTxDisabled
      = s.EMS_Sys_Status.emsTxDisabled ∧
    (ems_getThermostatValues cfg now s).uart_tx = s.uart_tx := by
  unfold ems_getThermostatValues
  dsimp only
  split
  · exact ⟨rfl, rfl, rfl, rfl, rfl, rfl, rfl⟩
  · simp only [ems_doReadCommand_counters]
    split_ifs <;> simp only [ems_doReadCommand_counters, and_self]

/-- The function `ems_getSolarModuleValues` enqueues at most one telegram. -/
theorem ems_getSolarModuleValues_enqueued (cfg : Config) (now : Nat) (s : State)
    (q : List _EMS_TxTelegram) (r : Nat) (hq : s.EMS_TxQueue = q)
    (hr : s.EMS_Sys_Status.txRetryCount = r) :
    EnqueuedFrom cfg q r 5 (ems_getSolarModuleValues cfg now s) := by
  subst hq hr
  have h0 := EnqueuedFrom_self cfg 0 s
  unfold ems_getSolarModuleValues
  dsimp only
  split_ifs
  · exact EnqueuedFrom_congr cfg _ _ 1 5 _ _ rfl rfl (by omega)
      (ems_doReadCommand_enqueued _ _ _ _ _ _ _ 0 _ h0)
  · exact EnqueuedFrom_congr cfg _ _ 1 5 _ _ rfl rfl (by omega)
      (ems_doReadCommand_enqueued _ _ _ _ _ _ _ 0 _ h0)
  · exact EnqueuedFrom_self cfg 5 s
  · exact EnqueuedFrom_self cfg 5 s

/-- The function `ems_getSolarModuleValues` leaves the counters, the switches
and the transmitted buffers alone. -/
theorem ems_getSolarModuleValues_counters (cfg : Config) (now : Nat) (s : State) :
    (ems_getSolarModuleValues cfg now s).EMS_Sys_Status.emsRxPgks = s.EMS_Sys_Status.emsRxPgks ∧
    (ems_getSolarModuleValues cfg now s).EMS_Sys_Status.emsTxPkgs = s.EMS_Sys_Status.emsTxPkgs ∧
    (ems_getSolarModuleValues cfg now s).EMS_Sys_Status.emxCrcErr = s.EMS_Sys_Status.emxCrcErr ∧
    (ems_getSolarModuleValues cfg now s).EMS_Sys_Status.emsRxStatus
      = s.EMS_Sys_Status.emsRxStatus ∧
    (ems_getSolarModuleValues cfg now s).EMS_Sys_Status.emsPollEnabled
      = s.EMS_Sys_Status.emsPollEnabled ∧
    (ems_getSolarModuleValues cfg now s).EMS_Sys_Status.emsTxDisabled
      = s.EMS_Sys_Status.emsTxDisabled ∧
    (ems_getSolarModuleValues cfg now s).uart_tx = s.uart_tx := by
  unfold ems_getSolarModuleValues
  dsimp only
  split_ifs <;> simp only [ems_doReadCommand_counters, and_self]

/-- The function `_addDevice` leaves the queue and the transmitted buffers
alone. -/
theorem _addDevice_queue (product_id device_id : Nat) (version model_string : String)
    (s : State) :
    (_addDevice product_id device_id version model_string s).EMS_TxQueue = s.EMS_TxQueue ∧
    (_addDevice product_id device_id version model_string s).uart_tx = s.uart_tx := by
  unfold _addDevice
  dsimp only
  split <;> exact ⟨rfl, rfl⟩

/-- The function `_process_Version` leaves the counters, the switches and the
transmitted buffers alone, and enqueues at most five telegrams. -/
theorem _process_Version_frame (cfg : Config) (now : Nat) (rx : _EMS_RxTelegram) (s : State) :
    ((_process_Version cfg now rx s).EMS_Sys_Status.emsRxPgks = s.EMS_Sys_Status.emsRxPgks ∧
     (_process_Version cfg now rx s).EMS_Sys_Status.emsTxPkgs = s.EMS_Sys_Status.emsTxPkgs ∧
     (_process_Version cfg now rx s).EMS_Sys_Status.emxCrcErr = s.EMS_Sys_Status.emxCrcErr ∧
     (_process_Version cfg now rx s).EMS_Sys_Status.emsRxStatus = s.EMS_Sys_Status.emsRxStatus ∧
     (_process_Version cfg now rx s).EMS_Sys_Status.emsPollEnabled
       = s.EMS_Sys_Status.emsPollEnabled ∧
     (_process_Version cfg now rx s).EMS_Sys_Status.emsTxDisabled
       = s.EMS_Sys_Status.emsTxDisabled ∧
     (_process_Version cfg now rx s).uart_tx = s.uart_tx) ∧
    EnqueuedFrom cfg s.EMS_TxQueue s.EMS_Sys_Status.txRetryCount 5
      (_process_Version cfg now rx s) := by
  have hadd : ∀ (p d : Nat) (v m : String),
      EnqueuedFrom cfg s.EMS_TxQueue s.EMS_Sys_Status.txRetryCount 5 (_addDevice p d v m s) :=
    fun p d v m => EnqueuedFrom_congr cfg _ _ 5 5 s _ (_addDevice_queue p d v m s).1
      (by rw [(_addDevice_frame p d v m s).1]) (le_refl _) (EnqueuedFrom_self cfg 5 s)
  unfold _process_Version
  dsimp only
  split
  · exact ⟨⟨rfl, rfl, rfl, rfl, rfl, rfl, rfl⟩, EnqueuedFrom_self cfg 5 s⟩
  · split
    · split_ifs
      · refine ⟨?_, ?_⟩
        · simp only [ems_getBoilerValues_counters, _addDevice_frame, _addDevice_queue, and_self]
        · apply ems_getBoilerValues_enqueued <;>
            simp only [_addDevice_frame, _addDevice_queue]
      · refine ⟨?_, ?_⟩
        · simp only [ems_getBoilerValues_counters, _addDevice_frame, _addDevice_queue, and_self]
        · apply ems_getBoilerValues_enqueued <;>
            simp only [_addDevice_frame, _addDevice_queue]
      · refine ⟨?_, hadd _ _ _ _⟩
        simp only [_addDevice_frame, _addDevice_queue, and_self]
    · split
      · split_ifs
        · refine ⟨?_, ?_⟩
          · simp only [ems_getThermostatValues_counters, _addDevice_frame, _addDevice_queue,
              and_self]
          · apply ems_getThermostatValues_enqueued <;>
              simp only [_addDevice_frame, _addDevice_queue]
        · refine ⟨?_, hadd _ _ _ _⟩
          simp only [_addDevice_frame, _addDevice_queue, and_self]
      · split
        · refine ⟨?_, ?_⟩
          · simp only [ems_getSolarModuleValues_counters, _addDevice_frame, _addDevice_queue,
              and_self]
          · apply ems_getSolarModuleValues_enqueued <;>
              simp only [_addDevice_frame, _addDevice_queue]
        · split
          · refine ⟨?_, ?_⟩
            · simp only [_addDevice_frame, _addDevice_queue, and_self]
            · exact EnqueuedFrom_congr cfg _ _ 5 5 _ _ rfl rfl (le_refl _) (hadd _ _ _ _)
          · split
            · refine ⟨?_, hadd _ _ _ _⟩
              simp only [_addDevice_frame, _addDevice_queue, and_self]
            · refine ⟨?_, hadd _ _ _ _⟩
              simp only [_addDevice_frame, _addDevice_queue, and_self]

/-- Every callback of `EMS_Types` leaves the counters, the switches and the
transmitted buffers alone; it leaves the queue and the retry counter alone
unless it is the callback of `EMS_TYPE_Version`, which enqueues at most five
telegrams. -/
theorem EMS_Types_frame (cfg : Config) (now : Nat) :
    ∀ e ∈ EMS_Types cfg now, ∀ cb, e.processType_cb = some cb → ∀ rx s,
      ((cb rx s).EMS_Sys_Status.emsRxPgks = s.EMS_Sys_Status.emsRxPgks ∧
       (cb rx s).EMS_Sys_Status.emsTxPkgs = s.EMS_Sys_Status.emsTxPkgs ∧
       (cb rx s).EMS_Sys_Status.emxCrcErr = s.EMS_Sys_Status.emxCrcErr ∧
       (cb rx s).EMS_Sys_Status.emsRxStatus = s.EMS_Sys_Status.emsRxStatus ∧
       (cb rx s).EMS_Sys_Status.emsPollEnabled = s.EMS_Sys_Status.emsPollEnabled ∧
       (cb rx s).EMS_Sys_Status.emsTxDisabled = s.EMS_Sys_Status.emsTxDisabled ∧
       (cb rx s).uart_tx = s.uart_tx) ∧
      EnqueuedFrom cfg s.EMS_TxQueue s.EMS_Sys_Status.txRetryCount 5 (cb rx s) ∧
      (((cb rx s).EMS_TxQueue = s.EMS_TxQueue ∧
        (cb rx s).EMS_Sys_Status.txRetryCount = s.EMS_Sys_Status.txRetryCount) ∨
       e.type = cfg.EMS_TYPE_Version) := by
  intro e he cb hcb rx s
  unfold EMS_Types at he
  simp only [List.mem_cons, List.mem_singleton, List.not_mem_nil, or_false] at he
  rcases he with h | he
  · subst h
    simp only [Option.some.injEq] at hcb
    subst hcb
    obtain ⟨h1, h2⟩ := _process_Version_frame cfg now rx s
    exact ⟨h1, h2, Or.inr rfl⟩
  · suffices h :
        ((cb rx s).EMS_Sys_Status.emsRxPgks = s.EMS_Sys_Status.emsRxPgks ∧
         (cb rx s).EMS_Sys_Status.emsTxPkgs = s.EMS_Sys_Status.emsTxPkgs ∧
         (cb rx s).EMS_Sys_Status.emxCrcErr = s.EMS_Sys_Status.emxCrcErr ∧
         (cb rx s).EMS_Sys_Status.emsRxStatus = s.EMS_Sys_Status.emsRxStatus ∧
         (cb rx s).EMS_Sys_Status.emsPollEnabled = s.EMS_Sys_Status.emsPollEnabled ∧
         (cb rx s).EMS_Sys_Status.emsTxDisabled = s.EMS_Sys_Status.emsTxDisabled ∧
         (cb rx s).uart_tx = s.uart_tx) ∧
        (cb rx s).EMS_TxQueue = s.EMS_TxQueue ∧
        (cb rx s).EMS_Sys_Status.txRetryCount = s.EMS_Sys_Status.txRetryCount by
      exact ⟨h.1, EnqueuedFrom_congr cfg _ _ 5 5 s _ h.2.1 h.2.2 (le_refl _)
        (EnqueuedFrom_self cfg 5 s), Or.inl h.2⟩
    casesm* _ ∨ _ <;> subst e <;> simp only [Option.some.injEq, reduceCtorEq] at hcb <;>
      subst cb <;> refine ⟨⟨?_, ?_, ?_, ?_, ?_, ?_, ?_⟩, ?_, ?_⟩ <;>
      simp only [_process_UBAMonitorFast, _checkActive, _process_UBAMonitorSlow,
        _process_UBAMonitorWWMessage, _process_UBAParameterWW, _process_UBATotalUptimeMessage,
        _process_UBAParametersMessage, _process_SetPoints, _process_SM10Monitor,
        _process_SM100Monitor, _process_SM100Status, _process_SM100Status2,
        _process_SM100Energy, _process_ISM1StatusMessage, _process_ISM1Set,
        _process_HPMonitor1, _process_HPMonitor2, _process_RCTime, _process_RC10Set,
        _process_RC10StatusMessage, _process_RCOutdoorTempMessage, _process_RC20Set,
        _process_RC20StatusMessage, _process_RC30Set, _process_RC30StatusMessage,
        _process_RC35Set, _process_RC35StatusMessage, _process_EasyStatusMessage,
        _process_RCPLUSStatusMessage, _process_RCPLUSSetMessage, _process_RCPLUSStatusHeating,
        _process_RCPLUSStatusMode, _process_JunkersStatusMessage] <;>
      (try split_ifs) <;> rfl

/-- The function `_ems_processTelegram` leaves the counters, the switches and
the transmitted buffers alone; it leaves the queue and the retry counter alone
unless the telegram is a Version telegram, whose decoder enqueues at most five
telegrams. -/
theorem _ems_processTelegram_frame (cfg : Config) (now : Nat) (rx : _EMS_RxTelegram)
    (s : State) :
    ((_ems_processTelegram cfg now rx s).EMS_Sys_Status.emsRxPgks = s.EMS_Sys_Status.emsRxPgks ∧
     (_ems_processTelegram cfg now rx s).EMS_Sys_Status.emsTxPkgs = s.EMS_Sys_Status.emsTxPkgs ∧
     (_ems_processTelegram cfg now rx s).EMS_Sys_Status.emxCrcErr = s.EMS_Sys_Status.emxCrcErr ∧
     (_ems_processTelegram cfg now rx s).EMS_Sys_Status.emsRxStatus
       = s.EMS_Sys_Status.emsRxStatus ∧
     (_ems_processTelegram cfg now rx s).EMS_Sys_Status.emsPollEnabled
       = s.EMS_Sys_Status.emsPollEnabled ∧
     (_ems_processTelegram cfg now rx s).EMS_Sys_Status.emsTxDisabled
       = s.EMS_Sys_Status.emsTxDisabled ∧
     (_ems_processTelegram cfg now rx s).uart_tx = s.uart_tx) ∧
    EnqueuedFrom cfg s.EMS_TxQueue s.EMS_Sys_Status.txRetryCount 5
      (_ems_processTelegram cfg now rx s) ∧
    (((_ems_processTelegram cfg now rx s).EMS_TxQueue = s.EMS_TxQueue ∧
      (_ems_processTelegram cfg now rx s).EMS_Sys_Status.txRetryCount
        = s.EMS_Sys_Status.txRetryCount) ∨
     rx.type = cfg.EMS_TYPE_Version) := by
  have hself : ((s.EMS_Sys_Status.emsRxPgks = s.EMS_Sys_Status.emsRxPgks ∧
       s.EMS_Sys_Status.emsTxPkgs = s.EMS_Sys_Status.emsTxPkgs ∧
       s.EMS_Sys_Status.emxCrcErr = s.EMS_Sys_Status.emxCrcErr ∧
       s.EMS_Sys_Status.emsRxStatus = s.EMS_Sys_Status.emsRxStatus ∧
       s.EMS_Sys_Status.emsPollEnabled = s.EMS_Sys_Status.emsPollEnabled ∧
       s.EMS_Sys_Status.emsTxDisabled = s.EMS_Sys_Status.emsTxDisabled ∧
       s.uart_tx = s.uart_tx) ∧
      EnqueuedFrom cfg s.EMS_TxQueue s.EMS_Sys_Status.txRetryCount 5 s ∧
      ((s.EMS_TxQueue = s.EMS_TxQueue ∧
        s.EMS_Sys_Status.txRetryCount = s.EMS_Sys_Status.txRetryCount) ∨
       rx.type = cfg.EMS_TYPE_Version)) :=
    ⟨⟨rfl, rfl, rfl, rfl, rfl, rfl, rfl⟩, EnqueuedFrom_self cfg 5 s, Or.inl ⟨rfl, rfl⟩⟩
  unfold _ems_processTelegram
  split
  · exact hself
  · dsimp only
    split
    · rename_i i hfind
      obtain ⟨_, e', hget', hp⟩ := findFirst_some _ _ _ _ hfind
      split
      · rename_i m t l cb hget
        have hee : e' = ⟨m, t, l, some cb⟩ := by
          rw [Nat.sub_zero, hget] at hget'
          exact (Option.some.inj hget').symm
        have hty : t = rx.type := by
          rw [hee] at hp
          simp only [Bool.and_eq_true, beq_iff_eq] at hp
          exact hp.1
        have hmem : (⟨m, t, l, some cb⟩ : _EMS_Type) ∈ EMS_Types cfg now := List.get?_mem hget
        obtain ⟨h1, h2, h3⟩ := EMS_Types_frame cfg now _ hmem cb rfl rx s
        have hres : (((cb rx s).EMS_TxQueue = s.EMS_TxQueue ∧
            (cb rx s).EMS_Sys_Status.txRetryCount = s.EMS_Sys_Status.txRetryCount) ∨
            rx.type = cfg.EMS_TYPE_Version) := by
          rcases h3 with h | h
          · exact Or.inl h
          · exact Or.inr (hty ▸ h)
        split_ifs
        · exact ⟨h1, h2, hres⟩
        · exact ⟨h1, h2, hres⟩
        · exact hself
      · exact hself
    · exact hself

/-! ## The bus mode once it is detected -/

/-- Dispatching from a state with Tx status idle ends with Tx status idle, and
with the id-mask and the poll-acknowledge byte of the state `s` it was derived
from unless a Version telegram binds a Heatronics boiler. -/
theorem _ems_processTelegram_bus_from (cfg : Config) (now : Nat) (rx : _EMS_RxTelegram)
    (s s3 : State) (ht : s3.EMS_Sys_Status.emsTxStatus = EMS_TX_STATUS_IDLE)
    (hm : s3.EMS_Sys_Status.emsIDMask = s.EMS_Sys_Status.emsIDMask)
    (hp : s3.EMS_Sys_Status.emsPollAck = s.EMS_Sys_Status.emsPollAck) :
    (_ems_processTelegram cfg now rx s3).EMS_Sys_Status.emsTxStatus = EMS_TX_STATUS_IDLE ∧
    (((_ems_processTelegram cfg now rx s3).EMS_Sys_Status.emsIDMask = s.EMS_Sys_Status.emsIDMask ∧
      (_ems_processTelegram cfg now rx s3).EMS_Sys_Status.emsPollAck
        = s.EMS_Sys_Status.emsPollAck) ∨
     (rx.type = cfg.EMS_TYPE_Version ∧
      (_ems_processTelegram cfg now rx s3).EMS_Sys_Status.emsIDMask = 0x80 ∧
      (_ems_processTelegram cfg now rx s3).EMS_Sys_Status.emsPollAck = EMS_ID_ME ^^^ 0x80 ∧
      _toByte rx 0 = cfg.EMS_PRODUCTID_HEATRONICS)) := by
  obtain ⟨h1, h2⟩ := _ems_processTelegram_bus cfg now rx s3
  refine ⟨?_, ?_⟩
  · rcases h1 with h | h
    · rw [h]; exact ht
    · exact h
  · rcases h2 with ⟨a, b⟩ | ⟨a, b, c, d, _⟩
    · exact Or.inl ⟨a.trans hm, b.trans hp⟩
    · exact Or.inr ⟨a, b, c, d⟩

/-- The function `_processType` returns the state as it is (an echo) or ends
with Tx status idle; the id-mask and the poll-acknowledge byte stay unless a
Version telegram binds a Heatronics boiler. -/
theorem _processType_bus (cfg : Config) (now : Nat) (rx : _EMS_RxTelegram) (s : State) :
    (_processType cfg now rx s = s ∨
      (_processType cfg now rx s).EMS_Sys_Status.emsTxStatus = EMS_TX_STATUS_IDLE) ∧
    (((_processType cfg now rx s).EMS_Sys_Status.emsIDMask = s.EMS_Sys_Status.emsIDMask ∧
      (_processType cfg now rx s).EMS_Sys_Status.emsPollAck = s.EMS_Sys_Status.emsPollAck) ∨
     (rx.type = cfg.EMS_TYPE_Version ∧
      (_processType cfg now rx s).EMS_Sys_Status.emsIDMask = 0x80 ∧
      (_processType cfg now rx s).EMS_Sys_Status.emsPollAck = EMS_ID_ME ^^^ 0x80 ∧
      _toByte rx 0 = cfg.EMS_PRODUCTID_HEATRONICS)) := by
  by_cases hsrc : rx.src = EMS_ID_ME
  · have h : _processType cfg now rx s = s := by
      unfold _processType
      simp only [hsrc, if_true]
    rw [h]
    exact ⟨Or.inl rfl, Or.inl ⟨rfl, rfl⟩⟩
  by_cases hidle : s.EMS_Sys_Status.emsTxStatus = EMS_TX_STATUS_IDLE
  · rw [_processType_idle cfg now rx s hidle, if_neg hsrc]
    obtain ⟨h1, h2⟩ := _ems_processTelegram_bus_from cfg now rx s s hidle rfl rfl
    exact ⟨Or.inr h1, h2⟩
  by_cases hdest : rx.telegram.getD 1 0 &&& 0x7F = EMS_ID_ME
  swap
  · rw [_processType_stray cfg now rx s hsrc hidle hdest]
    obtain ⟨h1, h2⟩ := _ems_processTelegram_bus_from cfg now rx s
      (_removeTxQueue { s with EMS_Sys_Status.emsTxStatus := EMS_TX_STATUS_IDLE }) rfl rfl rfl
    exact ⟨Or.inr h1, h2⟩
  cases hq : s.EMS_TxQueue with
  | nil =>
    rw [_processType_empty cfg now rx s hsrc hidle hdest hq]
    obtain ⟨h1, h2⟩ := _ems_processTelegram_bus_from cfg now rx s
      { s with EMS_Sys_Status.emsTxStatus := EMS_TX_STATUS_IDLE } rfl rfl rfl
    exact ⟨Or.inr h1, h2⟩
  | cons t rest =>
    by_cases hread : t.action = EMS_TX_TELEGRAM_READ
    · rw [_processType_read cfg now rx s t rest hsrc hidle hdest hq hread]
      split_ifs
      · obtain ⟨h1, h2⟩ := _ems_processTelegram_bus_from cfg now rx s
          (ems_setEmsRefreshed t.forceRefresh
              { s with
                EMS_TxQueue := rest
                EMS_Sys_Status.emsTxStatus := EMS_TX_STATUS_IDLE
                EMS_Sys_Status.emsRxPgks := (s.EMS_Sys_Status.emsRxPgks + 1) % 2 ^ 16 }) rfl rfl rfl
        exact ⟨Or.inr h1, h2⟩
      · obtain ⟨h1, h2⟩ := _ems_processTelegram_bus_from cfg now rx s
          { s with EMS_TxQueue := rest, EMS_Sys_Status.emsTxStatus := EMS_TX_STATUS_IDLE }
          rfl rfl rfl
        exact ⟨Or.inr h1, h2⟩
      · obtain ⟨h1, h2⟩ := _ems_processTelegram_bus_from cfg now rx s
          { s with
              EMS_TxQueue := rest
              EMS_Sys_Status.emsTxStatus := EMS_TX_STATUS_IDLE
              EMS_Sys_Status.txRetryCount := s.EMS_Sys_Status.txRetryCount + 1 } rfl rfl rfl
        exact ⟨Or.inr h1, h2⟩
      · obtain ⟨h1, h2⟩ := _ems_processTelegram_bus_from cfg now rx s
          { s with
              EMS_Sys_Status.emsTxStatus := EMS_TX_STATUS_IDLE
              EMS_Sys_Status.txRetryCount := s.EMS_Sys_Status.txRetryCount + 1 } rfl rfl rfl
        exact ⟨Or.inr h1, h2⟩
    · by_cases hval : t.action = EMS_TX_TELEGRAM_VALIDATE
      · rw [_processType_validate cfg now rx s t rest hsrc hidle hdest hq hval]
        split_ifs
        · simp only [ems_tx_pollAck_eq, ems_doReadCommand_frame]
          exact ⟨Or.inr trivial, Or.inl ⟨trivial, trivial⟩⟩
        · exact ⟨Or.inr rfl, Or.inl ⟨rfl, rfl⟩⟩
        · exact ⟨Or.inr rfl, Or.inl ⟨rfl, rfl⟩⟩
      · rw [_processType_other cfg now rx s t rest hsrc hidle hdest hq hread hval]
        exact ⟨Or.inr rfl, Or.inl ⟨rfl, rfl⟩⟩

/-- The function `_ems_sendTelegram` leaves the id-mask and the
poll-acknowledge byte alone, and leaves the Tx status alone or sets it to
waiting or idle. -/
theorem _ems_sendTelegram_bus (txStatus : _EMS_TX_STATUS) (s : State) :
    ((_ems_sendTelegram txStatus s).EMS_Sys_Status.emsTxStatus = s.EMS_Sys_Status.emsTxStatus ∨
      (_ems_sendTelegram txStatus s).EMS_Sys_Status.emsTxStatus = EMS_TX_STATUS_WAIT ∨
      (_ems_sendTelegram txStatus s).EMS_Sys_Status.emsTxStatus = EMS_TX_STATUS_IDLE) ∧
    (_ems_sendTelegram txStatus s).EMS_Sys_Status.emsIDMask = s.EMS_Sys_Status.emsIDMask ∧
    (_ems_sendTelegram txStatus s).EMS_Sys_Status.emsPollAck = s.EMS_Sys_Status.emsPollAck := by
  unfold _ems_sendTelegram
  split
  · exact ⟨Or.inl rfl, rfl, rfl⟩
  · split_ifs
    · exact ⟨Or.inl rfl, rfl, rfl⟩
    · exact ⟨Or.inl rfl, rfl, rfl⟩
    · exact ⟨Or.inl rfl, rfl, rfl⟩
    · exact ⟨Or.inr (Or.inl rfl), rfl, rfl⟩
    · exact ⟨Or.inr (Or.inr rfl), rfl, rfl⟩

/-- The function `_createValidate` leaves the id-mask and the poll-acknowledge
byte alone, and leaves the Tx status alone or sets it idle. -/
theorem _createValidate_bus (cfg : Config) (stack : _EMS_TxTelegram) (s : State) :
    ((_createValidate cfg stack s).EMS_Sys_Status.emsTxStatus = s.EMS_Sys_Status.emsTxStatus ∨
      (_createValidate cfg stack s).EMS_Sys_Status.emsTxStatus = EMS_TX_STATUS_IDLE) ∧
    (_createValidate cfg stack s).EMS_Sys_Status.emsIDMask = s.EMS_Sys_Status.emsIDMask ∧
    (_createValidate cfg stack s).EMS_Sys_Status.emsPollAck = s.EMS_Sys_Status.emsPollAck := by
  unfold _createValidate
  split
  · exact ⟨Or.inl rfl, rfl, rfl⟩
  · split_ifs
    · exact ⟨Or.inr rfl, rfl, rfl⟩
    · exact ⟨Or.inr rfl, rfl, rfl⟩

/-- The function `ems_parseTelegram` once the bus mode is detected: the
detection step is skipped. -/
theorem ems_parseTelegram_detected (cfg : Config) (env : Env) (telegram : List Nat)
    (length : Nat) (s : State) (h : s.EMS_Sys_Status.emsTxStatus ≠ EMS_TX_REV_DETECT) :
    ems_parseTelegram cfg env telegram length s =
      if s.EMS_Sys_Status.emsRxStatus ≠ EMS_RX_STATUS_IDLE then s
      else if length = 1 then
        if (telegram.getD 0 0 ^^^ 0x80 ^^^ s.EMS_Sys_Status.emsIDMask) = EMS_ID_ME then
          if !s.EMS_TxQueue.isEmpty ∧ s.EMS_Sys_Status.emsTxStatus = EMS_TX_STATUS_IDLE then
            _ems_sendTelegram env.txStatus { s with
              EMS_Sys_Status.emsTxCapable := true
              EMS_Sys_Status.emsPollFrequency :=
                (env.micros + 2 ^ 32 - s._last_emsPollFrequency) % 2 ^ 32
              _last_emsPollFrequency := env.micros }
          else if s.EMS_Sys_Status.emsPollEnabled then
            ems_tx_pollAck { s with
              EMS_Sys_Status.emsTxCapable := true
              EMS_Sys_Status.emsPollFrequency :=
                (env.micros + 2 ^ 32 - s._last_emsPollFrequency) % 2 ^ 32
              _last_emsPollFrequency := env.micros }
          else
            { s with
              EMS_Sys_Status.emsTxCapable := true
              EMS_Sys_Status.emsPollFrequency :=
                (env.micros + 2 ^ 32 - s._last_emsPollFrequency) % 2 ^ 32
              _last_emsPollFrequency := env.micros }
        else if s.EMS_Sys_Status.emsTxStatus = EMS_TX_STATUS_WAIT then
          if telegram.getD 0 0 = EMS_TX_SUCCESS then
            _createValidate cfg env.stack_TxTelegram
              (ems_tx_pollAck { s with
                EMS_Sys_Status.emsTxPkgs := (s.EMS_Sys_Status.emsTxPkgs + 1) % 2 ^ 16 })
          else if telegram.getD 0 0 = EMS_TX_ERROR then _removeTxQueue (ems_tx_pollAck s)
          else s
        else s
      else if length ≤ 4 then s
      else if telegram.getD (length - 1) 0 ≠ _crcCalculator telegram length then
        { s with EMS_Sys_Status.emxCrcErr := (s.EMS_Sys_Status.emxCrcErr + 1) % 2 ^ 16 }
      else
        _processType cfg env.millis (ems_parseTelegram_frame telegram length env.millis)
          { s with
            EMS_Sys_Status.emsRxTimestamp :=
              (ems_parseTelegram_frame telegram length env.millis).timestamp
            EMS_Sys_Status.emsBusConnected := true } := by
  unfold ems_parseTelegram
  simp only [h, false_and, if_false]

/-- One call of `ems_parseTelegram` after bus detection does not go back to
waiting for detection, and keeps the id-mask and the poll-acknowledge byte
unless a CRC-checked Version telegram with the Heatronics product ID sets the
id-mask to `0x80`. -/
theorem ems_parseTelegram_bus (cfg : Config) (env : Env) (telegram : List Nat) (length : Nat)
    (s : State) (h : s.EMS_Sys_Status.emsTxStatus ≠ EMS_TX_REV_DETECT) :
    (ems_parseTelegram cfg env telegram length s).EMS_Sys_Status.emsTxStatus
      ≠ EMS_TX_REV_DETECT ∧
    (((ems_parseTelegram cfg env telegram length s).EMS_Sys_Status.emsIDMask
        = s.EMS_Sys_Status.emsIDMask ∧
      (ems_parseTelegram cfg env telegram length s).EMS_Sys_Status.emsPollAck
        = s.EMS_Sys_Status.emsPollAck) ∨
     (5 ≤ length ∧
      (ems_parseTelegram_frame telegram length env.millis).type = cfg.EMS_TYPE_Version ∧
      _toByte (ems_parseTelegram_frame telegram length env.millis) 0
        = cfg.EMS_PRODUCTID_HEATRONICS ∧
      (ems_parseTelegram cfg env telegram length s).EMS_Sys_Status.emsIDMask = 0x80 ∧
      (ems_parseTelegram cfg env telegram length s).EMS_Sys_Status.emsPollAck
        = EMS_ID_ME ^^^ 0x80)) := by
  rw [ems_parseTelegram_detected cfg env telegram length s h]
  split_ifs with h1 h2 h3 h4 h5 h6 h7 h8 h9 h10
  · exact ⟨h, Or.inl ⟨rfl, rfl⟩⟩
  · obtain ⟨a, b, c⟩ := _ems_sendTelegram_bus env.txStatus { s with
              EMS_Sys_Status.emsTxCapable := true
              EMS_Sys_Status.emsPollFrequency :=
                (env.micros + 2 ^ 32 - s._last_emsPollFrequency) % 2 ^ 32
              _last_emsPollFrequency := env.micros }
    refine ⟨?_, Or.inl ⟨b, c⟩⟩
    rcases a with a | a | a
    · rw [a]; exact h
    · rw [a]; decide
    · rw [a]; decide
  · exact ⟨h, Or.inl ⟨rfl, rfl⟩⟩
  · exact ⟨h, Or.inl ⟨rfl, rfl⟩⟩
  · obtain ⟨a, b, c⟩ := _createValidate_bus cfg env.stack_TxTelegram
      (ems_tx_pollAck { s with
        EMS_Sys_Status.emsTxPkgs := (s.EMS_Sys_Status.emsTxPkgs + 1) % 2 ^ 16 })
    refine ⟨?_, Or.inl ⟨b, c⟩⟩
    rcases a with a | a
    · rw [a]; exact h
    · rw [a]; decide
  · exact ⟨(by intro hc; cases hc), Or.inl ⟨rfl, rfl⟩⟩
  · exact ⟨h, Or.inl ⟨rfl, rfl⟩⟩
  · exact ⟨h, Or.inl ⟨rfl, rfl⟩⟩
  · exact ⟨h, Or.inl ⟨rfl, rfl⟩⟩
  · exact ⟨h, Or.inl ⟨rfl, rfl⟩⟩
  · obtain ⟨a, b⟩ := _processType_bus cfg env.millis
      (ems_parseTelegram_frame telegram length env.millis)
      { s with
        EMS_Sys_Status.emsRxTimestamp :=
          (ems_parseTelegram_frame telegram length env.millis).timestamp
        EMS_Sys_Status.emsBusConnected := true }
    refine ⟨?_, ?_⟩
    · rcases a with a | a
      · rw [a]; exact h
      · rw [a]; decide
    · rcases b with b | ⟨b1, b2, b3, b4⟩
      · exact Or.inl b
      · exact Or.inr ⟨by omega, b1, b4, b2, b3⟩

/-- C11 (as stated it fails): the state `sampleState` leaves bus detection on
the telegram `08 00 18 00 05 01 D2` with the id-mask `0x00`; the one further
telegram `08 00 02 00 5F 01 02 77`, a CRC-valid Version telegram with the
Heatronics product ID 95, then leaves the id-mask `0x80`. -/
theorem C11_mask_changes_after_detection :
    (ems_parseTelegram sampleConfig sampleEnv [0x08, 0x00, 0x18, 0x00, 0x05, 0x01, 0xD2] 7
      sampleState).EMS_Sys_Status.emsTxStatus = EMS_TX_STATUS_IDLE ∧
    (ems_parseTelegram sampleConfig sampleEnv [0x08, 0x00, 0x18, 0x00, 0x05, 0x01, 0xD2] 7
      sampleState).EMS_Sys_Status.emsIDMask = 0x00 ∧
    (ems_parseTelegram_run sampleConfig
      [⟨sampleEnv, [0x08, 0x00, 0x02, 0x00, 95, 1, 2, 0x77], 8⟩]
      (ems_parseTelegram sampleConfig sampleEnv [0x08, 0x00, 0x18, 0x00, 0x05, 0x01, 0xD2] 7
        sampleState)).EMS_Sys_Status.emsIDMask = 0x80 := by
  decide

/-- C11 (amended): once Tx status has left `EMS_TX_REV_DETECT` it does not
return to it, and after every sequence of calls of `ems_parseTelegram` the
id-mask either has the value it had, or is `0x80` and one of the telegrams was
a Version telegram of at least five bytes whose product ID is
`EMS_PRODUCTID_HEATRONICS`. -/
theorem C11_mask_after_detection_amended (cfg : Config) (events : List RxEvent) (s : State)
    (h : s.EMS_Sys_Status.emsTxStatus ≠ EMS_TX_REV_DETECT) :
    (ems_parseTelegram_run cfg events s).EMS_Sys_Status.emsTxStatus ≠ EMS_TX_REV_DETECT ∧
    ((ems_parseTelegram_run cfg events s).EMS_Sys_Status.emsIDMask = s.EMS_Sys_Status.emsIDMask ∨
     ((ems_parseTelegram_run cfg events s).EMS_Sys_Status.emsIDMask = 0x80 ∧
      ∃ e ∈ events, 5 ≤ e.length ∧
        (ems_parseTelegram_frame e.telegram e.length e.env.millis).type = cfg.EMS_TYPE_Version ∧
        _toByte (ems_parseTelegram_frame e.telegram e.length e.env.millis) 0
          = cfg.EMS_PRODUCTID_HEATRONICS)) := by
  induction events generalizing s with
  | nil => exact ⟨h, Or.inl rfl⟩
  | cons e es ih =>
    obtain ⟨h1, h2⟩ := ems_parseTelegram_bus cfg e.env e.telegram e.length s h
    obtain ⟨h3, h4⟩ := ih (ems_parseTelegram cfg e.env e.telegram e.length s) h1
    refine ⟨h3, ?_⟩
    rcases h4 with h4 | ⟨h4, e', he', h5⟩
    · rcases h2 with ⟨h2, _⟩ | ⟨a, b, c, d, _⟩
      · exact Or.inl (h4.trans h2)
      · exact Or.inr ⟨h4.trans d, e, List.mem_cons_self _ _, a, b, c⟩
    · exact Or.inr ⟨h4, e', List.mem_cons_of_mem _ he', h5⟩

/-- C11 (amended) at the idle state `sampleIdle 0x80` and the two telegrams
`8B` (a poll for us) and `88 00 18 00 05 01 5C EA`. -/
theorem C11_mask_after_detection_amended_witness :
    (sampleIdle 0x80).EMS_Sys_Status.emsTxStatus ≠ EMS_TX_REV_DETECT ∧
    (ems_parseTelegram_run sampleConfig
      [⟨sampleEnv, [0x8B], 1⟩, ⟨sampleEnv, [0x88, 0x00, 0x18, 0x00, 0x05, 0x01, 0x5C, 0xEA], 8⟩]
      (sampleIdle 0x80)).EMS_Sys_Status.emsTxStatus ≠ EMS_TX_REV_DETECT ∧
    ((ems_parseTelegram_run sampleConfig
        [⟨sampleEnv, [0x8B], 1⟩, ⟨sampleEnv, [0x88, 0x00, 0x18, 0x00, 0x05, 0x01, 0x5C, 0xEA], 8⟩]
        (sampleIdle 0x80)).EMS_Sys_Status.emsIDMask = (sampleIdle 0x80).EMS_Sys_Status.emsIDMask ∨
     ((ems_parseTelegram_run sampleConfig
        [⟨sampleEnv, [0x8B], 1⟩, ⟨sampleEnv, [0x88, 0x00, 0x18, 0x00, 0x05, 0x01, 0x5C, 0xEA], 8⟩]
        (sampleIdle 0x80)).EMS_Sys_Status.emsIDMask = 0x80 ∧
      ∃ e ∈ ([⟨sampleEnv, [0x8B], 1⟩,
          ⟨sampleEnv, [0x88, 0x00, 0x18, 0x00, 0x05, 0x01, 0x5C, 0xEA], 8⟩] : List RxEvent),
        5 ≤ e.length ∧
        (ems_parseTelegram_frame e.telegram e.length e.env.millis).type
          = sampleConfig.EMS_TYPE_Version ∧
        _toByte (ems_parseTelegram_frame e.telegram e.length e.env.millis) 0
          = sampleConfig.EMS_PRODUCTID_HEATRONICS)) :=
  ⟨by decide, C11_mask_after_detection_amended sampleConfig _ (sampleIdle 0x80) (by decide)⟩

/-! ## Polls -/

/-- The poll byte for us, `0x0B ^ 0x80 ^ id-mask`, passes the poll test of
`ems_parseTelegram`. -/
theorem poll_byte_test (x mask : Nat) : (x ^^^ 0x80 ^^^ mask) ^^^ 0x80 ^^^ mask = x := by
  rw [Nat.xor_assoc x, Nat.xor_assoc (x ^^^ (0x80 ^^^ mask)), Nat.xor_assoc x, Nat.xor_self,
    Nat.xor_zero]

/-- C12: with Tx status idle, Rx status idle, an empty Tx queue and polling
enabled, in a state whose poll-acknowledge byte is `0x0B ^ id-mask`, the
single byte `0x0B ^ 0x80 ^ id-mask` makes `ems_parseTelegram` transmit exactly
one buffer, the one byte `0x0B ^ id-mask`, sets Tx-capable, and leaves
`emsTxPkgs`, `emsRxPgks`, the Tx queue and the Tx status as they were. -/
theorem C12_poll_empty_queue (cfg : Config) (env : Env) (telegram : List Nat) (s : State)
    (htx : s.EMS_Sys_Status.emsTxStatus = EMS_TX_STATUS_IDLE)
    (hrx : s.EMS_Sys_Status.emsRxStatus = EMS_RX_STATUS_IDLE)
    (hq : s.EMS_TxQueue = [])
    (hpoll : s.EMS_Sys_Status.emsPollEnabled = true)
    (hack : s.EMS_Sys_Status.emsPollAck = 0x0B ^^^ s.EMS_Sys_Status.emsIDMask)
    (hbyte : telegram.getD 0 0 = 0x0B ^^^ 0x80 ^^^ s.EMS_Sys_Status.emsIDMask) :
    (ems_parseTelegram cfg env telegram 1 s).uart_tx
      = s.uart_tx ++ [[0x0B ^^^ s.EMS_Sys_Status.emsIDMask]] ∧
    (ems_parseTelegram cfg env telegram 1 s).EMS_Sys_Status.emsTxCapable = true ∧
    (ems_parseTelegram cfg env telegram 1 s).EMS_Sys_Status.emsTxPkgs
      = s.EMS_Sys_Status.emsTxPkgs ∧
    (ems_parseTelegram cfg env telegram 1 s).EMS_Sys_Status.emsRxPgks
      = s.EMS_Sys_Status.emsRxPgks ∧
    (ems_parseTelegram cfg env telegram 1 s).EMS_TxQueue = s.EMS_TxQueue ∧
    (ems_parseTelegram cfg env telegram 1 s).EMS_Sys_Status.emsTxStatus
      = s.EMS_Sys_Status.emsTxStatus := by
  have hdet : s.EMS_Sys_Status.emsTxStatus ≠ EMS_TX_REV_DETECT := by rw [htx]; decide
  have hme : (telegram.getD 0 0 ^^^ 0x80 ^^^ s.EMS_Sys_Status.emsIDMask) = EMS_ID_ME := by
    rw [hbyte]
    exact poll_byte_test 0x0B _
  rw [ems_parseTelegram_detected cfg env telegram 1 s hdet]
  simp only [hrx, ne_eq, not_true_eq_false, if_false, if_true, hme, hq, List.isEmpty_nil,
    Bool.not_true, Bool.false_eq_true, false_and, hpoll, ems_tx_pollAck_eq, hack, and_self]

/-- C12 at the idle state `sampleIdle 0x80` with polling enabled and the poll
byte `0x0B`. -/
theorem C12_poll_empty_queue_witness :
    (ems_parseTelegram sampleConfig sampleEnv [0x0B] 1
      { sampleIdle 0x80 with EMS_Sys_Status.emsPollEnabled := true }).uart_tx
      = [[0x8B]] ∧
    (ems_parseTelegram sampleConfig sampleEnv [0x0B] 1
      { sampleIdle 0x80 with EMS_Sys_Status.emsPollEnabled := true }).EMS_Sys_Status.emsTxCapable
      = true ∧
    (ems_parseTelegram sampleConfig sampleEnv [0x0B] 1
      { sampleIdle 0x80 with EMS_Sys_Status.emsPollEnabled := true }).EMS_Sys_Status.emsTxPkgs
      = 0 ∧
    (ems_parseTelegram sampleConfig sampleEnv [0x0B] 1
      { sampleIdle 0x80 with EMS_Sys_Status.emsPollEnabled := true }).EMS_Sys_Status.emsRxPgks
      = 0 ∧
    (ems_parseTelegram sampleConfig sampleEnv [0x0B] 1
      { sampleIdle 0x80 with EMS_Sys_Status.emsPollEnabled := true }).EMS_TxQueue = [] ∧
    (ems_parseTelegram sampleConfig sampleEnv [0x0B] 1
      { sampleIdle 0x80 with EMS_Sys_Status.emsPollEnabled := true }).EMS_Sys_Status.emsTxStatus
      = EMS_TX_STATUS_IDLE :=
  C12_poll_empty_queue sampleConfig sampleEnv [0x0B]
    { sampleIdle 0x80 with EMS_Sys_Status.emsPollEnabled := true } rfl rfl rfl rfl rfl rfl

/-- Sending the Read, Write or Validate entry at the head of the queue with a
transport that reports success: one buffer goes out, Tx status becomes
waiting, everything else stays. -/
theorem _ems_sendTelegram_sent (txStatus : _EMS_TX_STATUS) (s : State) (t : _EMS_TxTelegram)
    (rest : List _EMS_TxTelegram)
    (hq : s.EMS_TxQueue = t :: rest)
    (hen : s.EMS_Sys_Status.emsTxDisabled = false)
    (hdest : t.dest ≠ EMS_ID_NONE) (hraw : t.action ≠ EMS_TX_TELEGRAM_RAW)
    (hok : txStatus = EMS_TX_STATUS_OK ∨ txStatus = EMS_TX_STATUS_IDLE) :
    (_ems_sendTelegram txStatus s).uart_tx = s.uart_tx ++
      [(_ems_sendTelegram_header s.EMS_Sys_Status.emsIDMask t).1.take
        (_ems_sendTelegram_header s.EMS_Sys_Status.emsIDMask t).2] ∧
    (_ems_sendTelegram txStatus s).EMS_Sys_Status.emsTxStatus = EMS_TX_STATUS_WAIT ∧
    (_ems_sendTelegram txStatus s).EMS_TxQueue = s.EMS_TxQueue := by
  unfold _ems_sendTelegram
  rw [hq]
  simp only [hen, hdest, hraw, hok, Bool.false_eq_true, if_false, if_true]
  refine ⟨?_, ?_, ?_⟩ <;> first | rfl | trivial

/-- C13 (as stated it fails): the state `sampleQueued 0x00` with a Read entry
for the boiler at the head of the queue but with Rx status not idle has Tx
status idle and Tx enabled; on the poll byte `8B`, with a transport that
reports success, `ems_parseTelegram` transmits nothing and Tx status stays
idle. -/
theorem C13_poll_ignored_while_rx_busy :
    ({ sampleQueued 0x00 (sampleEntry EMS_TX_TELEGRAM_READ 0x18 0x08 32) with
        EMS_Sys_Status.emsRxStatus := EMS_RX_STATUS_BUSY } : State).EMS_Sys_Status.emsTxStatus
      = EMS_TX_STATUS_IDLE ∧
    ({ sampleQueued 0x00 (sampleEntry EMS_TX_TELEGRAM_READ 0x18 0x08 32) with
        EMS_Sys_Status.emsRxStatus := EMS_RX_STATUS_BUSY } : State).EMS_Sys_Status.emsTxDisabled
      = false ∧
    (0x8B ^^^ 0x80 ^^^ 0x00 = EMS_ID_ME) ∧
    sampleEnv.txStatus = EMS_TX_STATUS_OK ∧
    (ems_parseTelegram sampleConfig sampleEnv [0x8B] 1
      { sampleQueued 0x00 (sampleEntry EMS_TX_TELEGRAM_READ 0x18 0x08 32) with
        EMS_Sys_Status.emsRxStatus := EMS_RX_STATUS_BUSY }).uart_tx = [] ∧
    (ems_parseTelegram sampleConfig sampleEnv [0x8B] 1
      { sampleQueued 0x00 (sampleEntry EMS_TX_TELEGRAM_READ 0x18 0x08 32) with
        EMS_Sys_Status.emsRxStatus := EMS_RX_STATUS_BUSY }).EMS_Sys_Status.emsTxStatus
      = EMS_TX_STATUS_IDLE := by
  decide

/-- C13 (amended): when a poll addressed to us arrives with Rx status idle,
Tx status idle, Tx enabled and a Read, Write or Validate entry with
destination other than `0x00` at the head of the queue, and the transport
reports success, exactly one buffer is transmitted (the bytes built from the
head entry), Tx status becomes `EMS_TX_STATUS_WAIT`, and the Tx queue is
unchanged. -/
theorem C13_poll_sends_head_amended (cfg : Config) (env : Env) (telegram : List Nat) (s : State)
    (t : _EMS_TxTelegram) (rest : List _EMS_TxTelegram)
    (hrx : s.EMS_Sys_Status.emsRxStatus = EMS_RX_STATUS_IDLE)
    (htx : s.EMS_Sys_Status.emsTxStatus = EMS_TX_STATUS_IDLE)
    (hen : s.EMS_Sys_Status.emsTxDisabled = false)
    (hq : s.EMS_TxQueue = t :: rest)
    (hact : t.action = EMS_TX_TELEGRAM_READ ∨ t.action = EMS_TX_TELEGRAM_WRITE ∨
      t.action = EMS_TX_TELEGRAM_VALIDATE)
    (hdest : t.dest ≠ 0x00)
    (hpoll : telegram.getD 0 0 ^^^ 0x80 ^^^ s.EMS_Sys_Status.emsIDMask = 0x0B)
    (hok : env.txStatus = EMS_TX_STATUS_OK) :
    (ems_parseTelegram cfg env telegram 1 s).uart_tx = s.uart_tx ++
      [(_ems_sendTelegram_header s.EMS_Sys_Status.emsIDMask t).1.take
        (_ems_sendTelegram_header s.EMS_Sys_Status.emsIDMask t).2] ∧
    (ems_parseTelegram cfg env telegram 1 s).EMS_Sys_Status.emsTxStatus = EMS_TX_STATUS_WAIT ∧
    (ems_parseTelegram cfg env telegram 1 s).EMS_TxQueue = s.EMS_TxQueue := by
  have hdet : s.EMS_Sys_Status.emsTxStatus ≠ EMS_TX_REV_DETECT := by rw [htx]; decide
  have hraw : t.action ≠ EMS_TX_TELEGRAM_RAW := by
    rcases hact with h | h | h <;> rw [h] <;> decide
  have hme : (telegram.getD 0 0 ^^^ 0x80 ^^^ s.EMS_Sys_Status.emsIDMask) = EMS_ID_ME := hpoll
  have hsend : (!s.EMS_TxQueue.isEmpty) = true ∧
      s.EMS_Sys_Status.emsTxStatus = EMS_TX_STATUS_IDLE := by
    rw [hq]
    exact ⟨rfl, htx⟩
  rw [ems_parseTelegram_detected cfg env telegram 1 s hdet, if_neg (not_not.mpr hrx), if_pos rfl,
    if_pos hme, if_pos hsend]
  exact _ems_sendTelegram_sent env.txStatus _ t rest hq hen hdest hraw (Or.inl hok)

/-- C13 (amended) at the state `sampleQueued 0x00` with a Read entry for the
boiler queued, and the poll byte `8B`. -/
theorem C13_poll_sends_head_amended_witness :
    (ems_parseTelegram sampleConfig sampleEnv [0x8B] 1
      (sampleQueued 0x00 (sampleEntry EMS_TX_TELEGRAM_READ 0x18 0x08 32))).uart_tx
      = (sampleQueued 0x00 (sampleEntry EMS_TX_TELEGRAM_READ 0x18 0x08 32)).uart_tx ++
        [(_ems_sendTelegram_header 0x00 (sampleEntry EMS_TX_TELEGRAM_READ 0x18 0x08 32)).1.take
          (_ems_sendTelegram_header 0x00 (sampleEntry EMS_TX_TELEGRAM_READ 0x18 0x08 32)).2] ∧
    (ems_parseTelegram sampleConfig sampleEnv [0x8B] 1
      (sampleQueued 0x00 (sampleEntry EMS_TX_TELEGRAM_READ 0x18 0x08 32))).EMS_Sys_Status.emsTxStatus
      = EMS_TX_STATUS_WAIT ∧
    (ems_parseTelegram sampleConfig sampleEnv [0x8B] 1
      (sampleQueued 0x00 (sampleEntry EMS_TX_TELEGRAM_READ 0x18 0x08 32))).EMS_TxQueue
      = [sampleEntry EMS_TX_TELEGRAM_READ 0x18 0x08 32] :=
  C13_poll_sends_head_amended sampleConfig sampleEnv [0x8B]
    (sampleQueued 0x00 (sampleEntry EMS_TX_TELEGRAM_READ 0x18 0x08 32))
    (sampleEntry EMS_TX_TELEGRAM_READ 0x18 0x08 32) [] rfl rfl rfl rfl (Or.inl rfl)
    (by decide) (by decide) rfl

/-- C14: whenever Tx status is `EMS_TX_STATUS_WAIT`, a poll addressed to us
leaves the Tx queue and the Tx status as they are, whatever the queue holds,
and transmits nothing or, only if polling is enabled, the one-byte
poll-acknowledge. -/
theorem C14_single_in_flight (cfg : Config) (env : Env) (telegram : List Nat) (s : State)
    (hwait : s.EMS_Sys_Status.emsTxStatus = EMS_TX_STATUS_WAIT)
    (hpoll : telegram.getD 0 0 ^^^ 0x80 ^^^ s.EMS_Sys_Status.emsIDMask = 0x0B) :
    (ems_parseTelegram cfg env telegram 1 s).EMS_TxQueue = s.EMS_TxQueue ∧
    (ems_parseTelegram cfg env telegram 1 s).EMS_Sys_Status.emsTxStatus
      = s.EMS_Sys_Status.emsTxStatus ∧
    ((ems_parseTelegram cfg env telegram 1 s).uart_tx = s.uart_tx ∨
     (s.EMS_Sys_Status.emsPollEnabled = true ∧
      (ems_parseTelegram cfg env telegram 1 s).uart_tx
        = s.uart_tx ++ [[s.EMS_Sys_Status.emsPollAck]])) := by
  have hdet : s.EMS_Sys_Status.emsTxStatus ≠ EMS_TX_REV_DETECT := by rw [hwait]; decide
  have hme : (telegram.getD 0 0 ^^^ 0x80 ^^^ s.EMS_Sys_Status.emsIDMask) = EMS_ID_ME := hpoll
  have hsend : ¬ ((!s.EMS_TxQueue.isEmpty) = true ∧
      s.EMS_Sys_Status.emsTxStatus = EMS_TX_STATUS_IDLE) := by
    rw [hwait]
    intro h
    exact absurd h.2 (by decide)
  rw [ems_parseTelegram_detected cfg env telegram 1 s hdet]
  by_cases hrx : s.EMS_Sys_Status.emsRxStatus ≠ EMS_RX_STATUS_IDLE
  · rw [if_pos hrx]
    exact ⟨rfl, rfl, Or.inl rfl⟩
  · rw [if_neg hrx, if_pos rfl, if_pos hme, if_neg hsend]
    by_cases hen : s.EMS_Sys_Status.emsPollEnabled = true
    · rw [if_pos hen]
      exact ⟨rfl, rfl, Or.inr ⟨hen, rfl⟩⟩
    · rw [if_neg hen]
      exact ⟨rfl, rfl, Or.inl rfl⟩

/-- C14 at a waiting state with two Read entries queued and polling enabled,
and the poll byte `8B`. -/
theorem C14_single_in_flight_witness :
    (ems_parseTelegram sampleConfig sampleEnv [0x8B] 1
      { sampleIdle 0x00 with
        EMS_Sys_Status.emsTxStatus := EMS_TX_STATUS_WAIT
        EMS_Sys_Status.emsPollEnabled := true
        EMS_TxQueue := [sampleEntry EMS_TX_TELEGRAM_READ 0x18 0x08 32,
          sampleEntry EMS_TX_TELEGRAM_READ 0x19 0x08 32] }).EMS_TxQueue
      = [sampleEntry EMS_TX_TELEGRAM_READ 0x18 0x08 32,
          sampleEntry EMS_TX_TELEGRAM_READ 0x19 0x08 32] ∧
    (ems_parseTelegram sampleConfig sampleEnv [0x8B] 1
      { sampleIdle 0x00 with
        EMS_Sys_Status.emsTxStatus := EMS_TX_STATUS_WAIT
        EMS_Sys_Status.emsPollEnabled := true
        EMS_TxQueue := [sampleEntry EMS_TX_TELEGRAM_READ 0x18 0x08 32,
          sampleEntry EMS_TX_TELEGRAM_READ 0x19 0x08 32] }).EMS_Sys_Status.emsTxStatus
      = EMS_TX_STATUS_WAIT ∧
    ((ems_parseTelegram sampleConfig sampleEnv [0x8B] 1
      { sampleIdle 0x00 with
        EMS_Sys_Status.emsTxStatus := EMS_TX_STATUS_WAIT
        EMS_Sys_Status.emsPollEnabled := true
        EMS_TxQueue := [sampleEntry EMS_TX_TELEGRAM_READ 0x18 0x08 32,
          sampleEntry EMS_TX_TELEGRAM_READ 0x19 0x08 32] }).uart_tx = [] ∨
     (true = true ∧
      (ems_parseTelegram sampleConfig sampleEnv [0x8B] 1
        { sampleIdle 0x00 with
          EMS_Sys_Status.emsTxStatus := EMS_TX_STATUS_WAIT
          EMS_Sys_Status.emsPollEnabled := true
          EMS_TxQueue := [sampleEntry EMS_TX_TELEGRAM_READ 0x18 0x08 32,
            sampleEntry EMS_TX_TELEGRAM_READ 0x19 0x08 32] }).uart_tx = [] ++ [[0x0B]])) :=
  C14_single_in_flight sampleConfig sampleEnv [0x8B]
    { sampleIdle 0x00 with
      EMS_Sys_Status.emsTxStatus := EMS_TX_STATUS_WAIT
      EMS_Sys_Status.emsPollEnabled := true
      EMS_TxQueue := [sampleEntry EMS_TX_TELEGRAM_READ 0x18 0x08 32,
        sampleEntry EMS_TX_TELEGRAM_READ 0x19 0x08 32] } rfl (by decide)

/-! ## The reply to a Write -/

/-- C15 (as stated it fails): the state `sampleWaiting 0x00` with a Write entry
to be validated at the head of the queue but with Rx status not idle has Tx
status `EMS_TX_STATUS_WAIT`; on the single byte `01` `ems_parseTelegram`
leaves `emsTxPkgs` at 0, transmits nothing, leaves Tx status waiting and the
Write entry at the head. -/
theorem C15_success_byte_ignored_while_rx_busy :
    ({ sampleWaiting 0x00 [sampleWrite 0x33 0x08 2 50] with
        EMS_Sys_Status.emsRxStatus := EMS_RX_STATUS_BUSY } : State).EMS_Sys_Status.emsTxStatus
      = EMS_TX_STATUS_WAIT ∧
    (sampleWrite 0x33 0x08 2 50).action = EMS_TX_TELEGRAM_WRITE ∧
    (sampleWrite 0x33 0x08 2 50).type_validate ≠ EMS_ID_NONE ∧
    (0x01 ^^^ 0x80 ^^^ 0x00 ≠ EMS_ID_ME) ∧
    (ems_parseTelegram sampleConfig sampleEnv [0x01] 1
      { sampleWaiting 0x00 [sampleWrite 0x33 0x08 2 50] with
        EMS_Sys_Status.emsRxStatus := EMS_RX_STATUS_BUSY }).EMS_Sys_Status.emsTxPkgs = 0 ∧
    (ems_parseTelegram sampleConfig sampleEnv [0x01] 1
      { sampleWaiting 0x00 [sampleWrite 0x33 0x08 2 50] with
        EMS_Sys_Status.emsRxStatus := EMS_RX_STATUS_BUSY }).uart_tx = [] ∧
    (ems_parseTelegram sampleConfig sampleEnv [0x01] 1
      { sampleWaiting 0x00 [sampleWrite 0x33 0x08 2 50] with
        EMS_Sys_Status.emsRxStatus := EMS_RX_STATUS_BUSY }).EMS_Sys_Status.emsTxStatus
      = EMS_TX_STATUS_WAIT ∧
    (ems_parseTelegram sampleConfig sampleEnv [0x01] 1
      { sampleWaiting 0x00 [sampleWrite 0x33 0x08 2 50] with
        EMS_Sys_Status.emsRxStatus := EMS_RX_STATUS_BUSY }).EMS_TxQueue
      = [sampleWrite 0x33 0x08 2 50] := by
  decide

/-- C15 (amended): when Rx status is idle, Tx status is `EMS_TX_STATUS_WAIT`
and the single byte `0x01`, which is not a poll for us, is received with the
entry `t` at the head of a queue within its capacity, `ems_parseTelegram`
increments `emsTxPkgs` by one (the `++` of the 16-bit field: plus 1 modulo
`2 ^ 16`, which is plus 1 unless the counter stood at its maximum 65535),
transmits one poll-acknowledge and sets Tx status idle.  If `t` is a Write whose `type_validate` is not the none sentinel
the head is replaced by a Validate entry with the dest, type, type_validate,
comparisonValue, comparisonOffset and comparisonPostRead of `t`, offset the
comparisonOffset of `t`, dataValue 1 and length 6, the rest of the queue
staying; otherwise the head is removed. -/
theorem C15_write_success_amended (cfg : Config) (env : Env) (telegram : List Nat) (s : State)
    (t : _EMS_TxTelegram) (rest : List _EMS_TxTelegram)
    (hrx : s.EMS_Sys_Status.emsRxStatus = EMS_RX_STATUS_IDLE)
    (hwait : s.EMS_Sys_Status.emsTxStatus = EMS_TX_STATUS_WAIT)
    (hbyte : telegram.getD 0 0 = 0x01)
    (hnopoll : 0x01 ^^^ 0x80 ^^^ s.EMS_Sys_Status.emsIDMask ≠ 0x0B)
    (hq : s.EMS_TxQueue = t :: rest)
    (hcap : s.EMS_TxQueue.length ≤ cfg.EMS_TX_TELEGRAM_QUEUE_MAX) :
    (ems_parseTelegram cfg env telegram 1 s).EMS_Sys_Status.emsTxPkgs
      = (s.EMS_Sys_Status.emsTxPkgs + 1) % 2 ^ 16 ∧
    (s.EMS_Sys_Status.emsTxPkgs < 65535 →
      (ems_parseTelegram cfg env telegram 1 s).EMS_Sys_Status.emsTxPkgs
        = s.EMS_Sys_Status.emsTxPkgs + 1) ∧
    (ems_parseTelegram cfg env telegram 1 s).uart_tx
      = s.uart_tx ++ [[s.EMS_Sys_Status.emsPollAck]] ∧
    (ems_parseTelegram cfg env telegram 1 s).EMS_Sys_Status.emsTxStatus = EMS_TX_STATUS_IDLE ∧
    (t.action = EMS_TX_TELEGRAM_WRITE ∧ t.type_validate ≠ 0x00 →
      ∃ v : _EMS_TxTelegram,
        (ems_parseTelegram cfg env telegram 1 s).EMS_TxQueue = v :: rest ∧
        v.action = EMS_TX_TELEGRAM_VALIDATE ∧ v.dest = t.dest ∧ v.type = t.type ∧
        v.type_validate = t.type_validate ∧ v.comparisonValue = t.comparisonValue ∧
        v.comparisonOffset = t.comparisonOffset ∧
        v.comparisonPostRead = t.comparisonPostRead ∧
        v.offset = t.comparisonOffset ∧ v.dataValue = 1 ∧ v.length = 6) ∧
    (¬ (t.action = EMS_TX_TELEGRAM_WRITE ∧ t.type_validate ≠ 0x00) →
      (ems_parseTelegram cfg env telegram 1 s).EMS_TxQueue = rest) := by
  have hdet : s.EMS_Sys_Status.emsTxStatus ≠ EMS_TX_REV_DETECT := by rw [hwait]; decide
  have hme : ¬ (telegram.getD 0 0 ^^^ 0x80 ^^^ s.EMS_Sys_Status.emsIDMask) = EMS_ID_ME := by
    rw [hbyte]
    exact hnopoll
  have hroom : rest.length < cfg.EMS_TX_TELEGRAM_QUEUE_MAX := by
    rw [hq, List.length_cons] at hcap
    omega
  rw [ems_parseTelegram_detected cfg env telegram 1 s hdet, if_neg (not_not.mpr hrx), if_pos rfl,
    if_neg hme, if_pos hwait, if_pos (show telegram.getD 0 0 = EMS_TX_SUCCESS from hbyte)]
  unfold _createValidate
  simp only [ems_tx_pollAck_eq, hq, CircularBuffer_shift, List.tail_cons, CircularBuffer_unshift,
    hroom, if_true]
  by_cases hw : t.action = EMS_TX_TELEGRAM_WRITE ∧ t.type_validate ≠ 0x00
  · have hc : ¬ (t.action ≠ EMS_TX_TELEGRAM_WRITE ∨ t.type_validate = EMS_ID_NONE) := by
      intro h
      rcases h with h | h
      · exact h hw.1
      · exact hw.2 h
    rw [if_neg hc]
    exact ⟨rfl, fun h => Nat.mod_eq_of_lt (by norm_num; omega), rfl, rfl,
      fun _ => ⟨_, rfl, rfl, rfl, rfl, rfl, rfl, rfl, rfl, rfl, rfl, rfl⟩,
      fun h => absurd hw h⟩
  · have hc : t.action ≠ EMS_TX_TELEGRAM_WRITE ∨ t.type_validate = EMS_ID_NONE := by
      by_cases ha : t.action = EMS_TX_TELEGRAM_WRITE
      · by_cases hv : t.type_validate = 0x00
        · exact Or.inr hv
        · exact absurd ⟨ha, hv⟩ hw
      · exact Or.inl ha
    rw [if_pos hc]
    exact ⟨rfl, fun h => Nat.mod_eq_of_lt (by norm_num; omega), rfl, rfl,
      fun h => absurd h hw, fun _ => rfl⟩

/-- C15 (amended) at the state `sampleWaiting 0x00` with the Write entry
`sampleWrite 0x33 0x08 2 50` queued, and the byte `01`. -/
theorem C15_write_success_amended_witness :
    (ems_parseTelegram sampleConfig sampleEnv [0x01] 1
      (sampleWaiting 0x00 [sampleWrite 0x33 0x08 2 50])).EMS_Sys_Status.emsTxPkgs
      = (0 + 1) % 2 ^ 16 ∧
    (0 < 65535 →
      (ems_parseTelegram sampleConfig sampleEnv [0x01] 1
        (sampleWaiting 0x00 [sampleWrite 0x33 0x08 2 50])).EMS_Sys_Status.emsTxPkgs = 0 + 1) ∧
    (ems_parseTelegram sampleConfig sampleEnv [0x01] 1
      (sampleWaiting 0x00 [sampleWrite 0x33 0x08 2 50])).uart_tx = [] ++ [[0x0B]] ∧
    (ems_parseTelegram sampleConfig sampleEnv [0x01] 1
      (sampleWaiting 0x00 [sampleWrite 0x33 0x08 2 50])).EMS_Sys_Status.emsTxStatus
      = EMS_TX_STATUS_IDLE ∧
    ((sampleWrite 0x33 0x08 2 50).action = EMS_TX_TELEGRAM_WRITE ∧
        (sampleWrite 0x33 0x08 2 50).type_validate ≠ 0x00 →
      ∃ v : _EMS_TxTelegram,
        (ems_parseTelegram sampleConfig sampleEnv [0x01] 1
          (sampleWaiting 0x00 [sampleWrite 0x33 0x08 2 50])).EMS_TxQueue = v :: [] ∧
        v.action = EMS_TX_TELEGRAM_VALIDATE ∧ v.dest = 0x08 ∧ v.type = 0x33 ∧
        v.type_validate = 0x33 ∧ v.comparisonValue = 50 ∧
        v.comparisonOffset = 2 ∧ v.comparisonPostRead = 0x33 ∧
        v.offset = 2 ∧ v.dataValue = 1 ∧ v.length = 6) ∧
    (¬ ((sampleWrite 0x33 0x08 2 50).action = EMS_TX_TELEGRAM_WRITE ∧
        (sampleWrite 0x33 0x08 2 50).type_validate ≠ 0x00) →
      (ems_parseTelegram sampleConfig sampleEnv [0x01] 1
        (sampleWaiting 0x00 [sampleWrite 0x33 0x08 2 50])).EMS_TxQueue = []) :=
  C15_write_success_amended sampleConfig sampleEnv [0x01]
    (sampleWaiting 0x00 [sampleWrite 0x33 0x08 2 50]) (sampleWrite 0x33 0x08 2 50) []
    rfl rfl rfl (by decide) rfl (by decide)

/-! ## The reply to a Read -/

/-- Pushing onto a queue with room for all of them appends. -/
theorem foldl_push_room (cfg : Config) (extra q : List _EMS_TxTelegram)
    (h : q.length + extra.length ≤ cfg.EMS_TX_TELEGRAM_QUEUE_MAX) :
    extra.foldl (CircularBuffer_push cfg) q = q ++ extra := by
  induction extra generalizing q with
  | nil => simp only [List.foldl_nil, List.append_nil]
  | cons x xs ih =>
    rw [List.length_cons] at h
    have hlt : q.length < cfg.EMS_TX_TELEGRAM_QUEUE_MAX := by omega
    have hp : CircularBuffer_push cfg q x = q ++ [x] := by
      unfold CircularBuffer_push
      rw [if_pos hlt]
    rw [List.foldl_cons, hp,
      ih (q ++ [x]) (by rw [List.length_append, List.length_singleton]; omega),
      List.append_assoc, List.singleton_append]

/-- What dispatching a telegram to its decoder leaves of the state `s3` it is
given: `emsRxPgks` and the transmitted buffers stay; the retry counter stays
or is reset; the queue gets at most five telegrams pushed at the tail, and
none unless the telegram is a Version telegram. -/
theorem _ems_processTelegram_after (cfg : Config) (now : Nat) (rx : _EMS_RxTelegram)
    (s3 : State) :
    (_ems_processTelegram cfg now rx s3).EMS_Sys_Status.emsRxPgks = s3.EMS_Sys_Status.emsRxPgks ∧
    (_ems_processTelegram cfg now rx s3).uart_tx = s3.uart_tx ∧
    ((_ems_processTelegram cfg now rx s3).EMS_Sys_Status.txRetryCount
        = s3.EMS_Sys_Status.txRetryCount ∨
      (_ems_processTelegram cfg now rx s3).EMS_Sys_Status.txRetryCount = 0) ∧
    (rx.type ≠ cfg.EMS_TYPE_Version →
      (_ems_processTelegram cfg now rx s3).EMS_TxQueue = s3.EMS_TxQueue ∧
      (_ems_processTelegram cfg now rx s3).EMS_Sys_Status.txRetryCount
        = s3.EMS_Sys_Status.txRetryCount) ∧
    ∃ extra : List _EMS_TxTelegram, extra.length ≤ 5 ∧
      (_ems_processTelegram cfg now rx s3).EMS_TxQueue
        = extra.foldl (CircularBuffer_push cfg) s3.EMS_TxQueue ∧
      (s3.EMS_TxQueue.length + 5 ≤ cfg.EMS_TX_TELEGRAM_QUEUE_MAX →
        (_ems_processTelegram cfg now rx s3).EMS_TxQueue = s3.EMS_TxQueue ++ extra) := by
  obtain ⟨⟨h1, _, _, _, _, _, h7⟩, ⟨hr, extra, hlen, hqe⟩, h3⟩ :=
    _ems_processTelegram_frame cfg now rx s3
  refine ⟨h1, h7, hr, ?_, extra, hlen, hqe, ?_⟩
  · intro hty
    rcases h3 with h | h
    · exact h
    · exact absurd h hty
  · intro hroom
    rw [hqe]
    exact foldl_push_room cfg extra _ (by omega)

/-- C16 (as stated it fails): with Tx status `EMS_TX_STATUS_WAIT` and at the
head of the queue a Read entry of type `0x18` whose destination is our own
address `0x0B`, the CRC-valid telegram `0B 0B 18 00 05 01 02`, addressed to us,
with the source and the type of the entry, is taken for an echo: `_processType`
leaves the entry in the queue, `emsRxPgks` at 0 and Tx status waiting. -/
theorem C16_read_match_from_own_address_ignored :
    [0x0B, 0x0B, 0x18, 0x00, 0x05, 0x01, 0x02].getD (7 - 1) 0
      = _crcCalculator [0x0B, 0x0B, 0x18, 0x00, 0x05, 0x01, 0x02] 7 ∧
    [0x0B, 0x0B, 0x18, 0x00, 0x05, 0x01, 0x02].getD 1 0 &&& 0x7F = EMS_ID_ME ∧
    (ems_parseTelegram_frame [0x0B, 0x0B, 0x18, 0x00, 0x05, 0x01, 0x02] 7 1000).src &&& 0x7F
      = (sampleEntry EMS_TX_TELEGRAM_READ 0x18 0x0B 32).dest &&& 0x7F ∧
    (ems_parseTelegram_frame [0x0B, 0x0B, 0x18, 0x00, 0x05, 0x01, 0x02] 7 1000).type
      = (sampleEntry EMS_TX_TELEGRAM_READ 0x18 0x0B 32).type ∧
    (_processType sampleConfig 1000
      (ems_parseTelegram_frame [0x0B, 0x0B, 0x18, 0x00, 0x05, 0x01, 0x02] 7 1000)
      (sampleWaiting 0x00 [sampleEntry EMS_TX_TELEGRAM_READ 0x18 0x0B 32])).EMS_TxQueue
      = [sampleEntry EMS_TX_TELEGRAM_READ 0x18 0x0B 32] ∧
    (_processType sampleConfig 1000
      (ems_parseTelegram_frame [0x0B, 0x0B, 0x18, 0x00, 0x05, 0x01, 0x02] 7 1000)
      (sampleWaiting 0x00
        [sampleEntry EMS_TX_TELEGRAM_READ 0x18 0x0B 32])).EMS_Sys_Status.emsRxPgks = 0 ∧
    (_processType sampleConfig 1000
      (ems_parseTelegram_frame [0x0B, 0x0B, 0x18, 0x00, 0x05, 0x01, 0x02] 7 1000)
      (sampleWaiting 0x00
        [sampleEntry EMS_TX_TELEGRAM_READ 0x18 0x0B 32])).EMS_Sys_Status.emsTxStatus
      = EMS_TX_STATUS_WAIT := by
  decide

/-- C16 (amended): when Tx status is `EMS_TX_STATUS_WAIT`, the queue head `t`
is a Read entry, and a telegram addressed to us arrives whose source is not
our own address, equals the destination of `t` (both masked with `0x7F`) and
whose type is the type of `t`, `_processType` removes exactly the head before
the telegram is decoded, increments `emsRxPgks` by exactly one (the `++` of
the 16-bit field: plus 1 modulo `2 ^ 16`, which is plus 1 unless the counter
stood at its maximum 65535), and Tx status is idle afterwards.  The decoder leaves the queue as it is, the rest in its
order, unless the telegram is a Version telegram: then at most five read
requests are pushed at the tail, which with room for five more keeps every
other entry queued in the same order. -/
theorem C16_read_success_amended (cfg : Config) (now : Nat) (rx : _EMS_RxTelegram) (s : State)
    (t : _EMS_TxTelegram) (rest : List _EMS_TxTelegram)
    (hwait : s.EMS_Sys_Status.emsTxStatus = EMS_TX_STATUS_WAIT)
    (hq : s.EMS_TxQueue = t :: rest) (hact : t.action = EMS_TX_TELEGRAM_READ)
    (hme : rx.telegram.getD 1 0 &&& 0x7F = 0x0B)
    (hsrc : rx.src ≠ 0x0B)
    (hmatch : rx.src &&& 0x7F = t.dest &&& 0x7F) (hty : rx.type = t.type) :
    _processType cfg now rx s
      = ems_tx_pollAck (_ems_processTelegram cfg now rx
          (ems_setEmsRefreshed t.forceRefresh
            { s with
              EMS_TxQueue := rest
              EMS_Sys_Status.emsTxStatus := EMS_TX_STATUS_IDLE
              EMS_Sys_Status.emsRxPgks := (s.EMS_Sys_Status.emsRxPgks + 1) % 2 ^ 16 })) ∧
    (_processType cfg now rx s).EMS_Sys_Status.emsRxPgks
      = (s.EMS_Sys_Status.emsRxPgks + 1) % 2 ^ 16 ∧
    (s.EMS_Sys_Status.emsRxPgks < 65535 →
      (_processType cfg now rx s).EMS_Sys_Status.emsRxPgks = s.EMS_Sys_Status.emsRxPgks + 1) ∧
    (_processType cfg now rx s).EMS_Sys_Status.emsTxStatus = EMS_TX_STATUS_IDLE ∧
    (rx.type ≠ cfg.EMS_TYPE_Version → (_processType cfg now rx s).EMS_TxQueue = rest) ∧
    ∃ extra : List _EMS_TxTelegram, extra.length ≤ 5 ∧
      (_processType cfg now rx s).EMS_TxQueue = extra.foldl (CircularBuffer_push cfg) rest ∧
      (rest.length + 5 ≤ cfg.EMS_TX_TELEGRAM_QUEUE_MAX →
        (_processType cfg now rx s).EMS_TxQueue = rest ++ extra) := by
  have hnidle : s.EMS_Sys_Status.emsTxStatus ≠ EMS_TX_STATUS_IDLE := by rw [hwait]; decide
  rw [_processType_read cfg now rx s t rest hsrc hnidle hme hq hact, if_pos ⟨hmatch, hty⟩]
  obtain ⟨h1, _, _, h4, extra, h5, h6, h7⟩ := _ems_processTelegram_after cfg now rx
    (ems_setEmsRefreshed t.forceRefresh
      { s with
        EMS_TxQueue := rest
        EMS_Sys_Status.emsTxStatus := EMS_TX_STATUS_IDLE
        EMS_Sys_Status.emsRxPgks := (s.EMS_Sys_Status.emsRxPgks + 1) % 2 ^ 16 })
  obtain ⟨h8, _⟩ := _ems_processTelegram_bus_from cfg now rx s
    (ems_setEmsRefreshed t.forceRefresh
      { s with
        EMS_TxQueue := rest
        EMS_Sys_Status.emsTxStatus := EMS_TX_STATUS_IDLE
        EMS_Sys_Status.emsRxPgks := (s.EMS_Sys_Status.emsRxPgks + 1) % 2 ^ 16 }) rfl rfl rfl
  exact ⟨rfl, h1, fun h => h1.trans (Nat.mod_eq_of_lt (by norm_num; omega)), h8,
    fun h => (h4 h).1, extra, h5, h6, h7⟩

/-- C16 (amended) at the state `sampleWaiting 0x00` with two Read entries for
the boiler queued, types `0x18` and `0x19`, and the telegram
`08 0B 18 00 05 01 62` that answers the first. -/
theorem C16_read_success_amended_witness :
    (_processType sampleConfig 1000
      (ems_parseTelegram_frame [0x08, 0x0B, 0x18, 0x00, 0x05, 0x01, 0x62] 7 1000)
      (sampleWaiting 0x00 [sampleEntry EMS_TX_TELEGRAM_READ 0x18 0x08 32,
        sampleEntry EMS_TX_TELEGRAM_READ 0x19 0x08 32])).EMS_Sys_Status.emsRxPgks = 0 + 1 ∧
    (_processType sampleConfig 1000
      (ems_parseTelegram_frame [0x08, 0x0B, 0x18, 0x00, 0x05, 0x01, 0x62] 7 1000)
      (sampleWaiting 0x00 [sampleEntry EMS_TX_TELEGRAM_READ 0x18 0x08 32,
        sampleEntry EMS_TX_TELEGRAM_READ 0x19 0x08 32])).EMS_Sys_Status.emsTxStatus
      = EMS_TX_STATUS_IDLE ∧
    (_processType sampleConfig 1000
      (ems_parseTelegram_frame [0x08, 0x0B, 0x18, 0x00, 0x05, 0x01, 0x62] 7 1000)
      (sampleWaiting 0x00 [sampleEntry EMS_TX_TELEGRAM_READ 0x18 0x08 32,
        sampleEntry EMS_TX_TELEGRAM_READ 0x19 0x08 32])).EMS_TxQueue
      = [sampleEntry EMS_TX_TELEGRAM_READ 0x19 0x08 32] :=
  (fun h => ⟨h.2.2.1 (by decide), h.2.2.2.1, h.2.2.2.2.1 (by decide)⟩)
    (C16_read_success_amended sampleConfig 1000
      (ems_parseTelegram_frame [0x08, 0x0B, 0x18, 0x00, 0x05, 0x01, 0x62] 7 1000)
      (sampleWaiting 0x00 [sampleEntry EMS_TX_TELEGRAM_READ 0x18 0x08 32,
        sampleEntry EMS_TX_TELEGRAM_READ 0x19 0x08 32])
      (sampleEntry EMS_TX_TELEGRAM_READ 0x18 0x08 32)
      [sampleEntry EMS_TX_TELEGRAM_READ 0x19 0x08 32]
      rfl rfl rfl (by decide) (by decide) (by decide) (by decide))

/-- C17 (as stated it fails): with Tx status `EMS_TX_STATUS_WAIT`, the retry
counter at 0 and a Read entry of type `0x18` for the boiler at the head of the
queue, the CRC-valid telegram `0B 0B 19 00 05 01 0A`, addressed to us, with a
non-empty payload and neither the source nor the type of the entry, is taken
for an echo: `_processType` leaves the retry counter at 0. -/
theorem C17_read_mismatch_from_own_address_ignored :
    [0x0B, 0x0B, 0x19, 0x00, 0x05, 0x01, 0x0A].getD (7 - 1) 0
      = _crcCalculator [0x0B, 0x0B, 0x19, 0x00, 0x05, 0x01, 0x0A] 7 ∧
    [0x0B, 0x0B, 0x19, 0x00, 0x05, 0x01, 0x0A].getD 1 0 &&& 0x7F = EMS_ID_ME ∧
    (ems_parseTelegram_frame [0x0B, 0x0B, 0x19, 0x00, 0x05, 0x01, 0x0A] 7 1000).data_length ≠ 0 ∧
    ¬ ((ems_parseTelegram_frame [0x0B, 0x0B, 0x19, 0x00, 0x05, 0x01, 0x0A] 7 1000).src &&& 0x7F
        = (sampleEntry EMS_TX_TELEGRAM_READ 0x18 0x08 32).dest &&& 0x7F ∧
      (ems_parseTelegram_frame [0x0B, 0x0B, 0x19, 0x00, 0x05, 0x01, 0x0A] 7 1000).type
        = (sampleEntry EMS_TX_TELEGRAM_READ 0x18 0x08 32).type) ∧
    (sampleWaiting 0x00
      [sampleEntry EMS_TX_TELEGRAM_READ 0x18 0x08 32]).EMS_Sys_Status.txRetryCount = 0 ∧
    (_processType sampleConfig 1000
      (ems_parseTelegram_frame [0x0B, 0x0B, 0x19, 0x00, 0x05, 0x01, 0x0A] 7 1000)
      (sampleWaiting 0x00
        [sampleEntry EMS_TX_TELEGRAM_READ 0x18 0x08 32])).EMS_Sys_Status.txRetryCount = 0 := by
  decide

/-- C17 (amended): when Tx status is `EMS_TX_STATUS_WAIT`, the queue head `t`
is a Read entry, and a telegram addressed to us arrives whose source is not
our own address and whose (source, type) does not match `t`: with a non-empty
payload `_processType` increments the retry counter by exactly one, removes
the head iff the incremented counter is at least 2 and otherwise leaves it in
place, and then dispatches the telegram to the decoder, which does not change
`emsRxPgks` and, unless the telegram is a Version telegram, leaves the queue
and the retry counter as `_processType` set them; with an empty payload the
head is removed at once and the retry counter is unchanged. -/
theorem C17_read_mismatch_amended (cfg : Config) (now : Nat) (rx : _EMS_RxTelegram) (s : State)
    (t : _EMS_TxTelegram) (rest : List _EMS_TxTelegram)
    (hwait : s.EMS_Sys_Status.emsTxStatus = EMS_TX_STATUS_WAIT)
    (hq : s.EMS_TxQueue = t :: rest) (hact : t.action = EMS_TX_TELEGRAM_READ)
    (hme : rx.telegram.getD 1 0 &&& 0x7F = 0x0B)
    (hsrc : rx.src ≠ 0x0B)
    (hmis : ¬ (rx.src &&& 0x7F = t.dest &&& 0x7F ∧ rx.type = t.type)) :
    (rx.data_length ≠ 0 →
      _processType cfg now rx s
        = ems_tx_pollAck (_ems_processTelegram cfg now rx
            { s with
              EMS_TxQueue := if s.EMS_Sys_Status.txRetryCount + 1 ≥ 2 then rest else t :: rest
              EMS_Sys_Status.emsTxStatus := EMS_TX_STATUS_IDLE
              EMS_Sys_Status.txRetryCount := s.EMS_Sys_Status.txRetryCount + 1 }) ∧
      (_processType cfg now rx s).EMS_Sys_Status.emsRxPgks = s.EMS_Sys_Status.emsRxPgks ∧
      (rx.type ≠ cfg.EMS_TYPE_Version →
        (_processType cfg now rx s).EMS_Sys_Status.txRetryCount
          = s.EMS_Sys_Status.txRetryCount + 1 ∧
        (_processType cfg now rx s).EMS_TxQueue
          = if s.EMS_Sys_Status.txRetryCount + 1 ≥ 2 then rest else t :: rest)) ∧
    (rx.data_length = 0 →
      _processType cfg now rx s
        = ems_tx_pollAck
            { s with EMS_TxQueue := rest, EMS_Sys_Status.emsTxStatus := EMS_TX_STATUS_IDLE } ∧
      (_processType cfg now rx s).EMS_TxQueue = rest ∧
      (_processType cfg now rx s).EMS_Sys_Status.txRetryCount = s.EMS_Sys_Status.txRetryCount ∧
      (_processType cfg now rx s).EMS_Sys_Status.emsRxPgks = s.EMS_Sys_Status.emsRxPgks) := by
  have hnidle : s.EMS_Sys_Status.emsTxStatus ≠ EMS_TX_STATUS_IDLE := by rw [hwait]; decide
  rw [_processType_read cfg now rx s t rest hsrc hnidle hme hq hact, if_neg hmis]
  refine ⟨?_, ?_⟩
  · intro hlen
    rw [if_neg hlen]
    have hmid : (if s.EMS_Sys_Status.txRetryCount + 1 ≥ TX_WRITE_TIMEOUT_COUNT then
            ({ s with
              EMS_TxQueue := rest
              EMS_Sys_Status.emsTxStatus := EMS_TX_STATUS_IDLE
              EMS_Sys_Status.txRetryCount := s.EMS_Sys_Status.txRetryCount + 1 } : State)
          else
            { s with
              EMS_Sys_Status.emsTxStatus := EMS_TX_STATUS_IDLE
              EMS_Sys_Status.txRetryCount := s.EMS_Sys_Status.txRetryCount + 1 })
        = { s with
              EMS_TxQueue := if s.EMS_Sys_Status.txRetryCount + 1 ≥ 2 then rest else t :: rest
              EMS_Sys_Status.emsTxStatus := EMS_TX_STATUS_IDLE
              EMS_Sys_Status.txRetryCount := s.EMS_Sys_Status.txRetryCount + 1 } := by
      by_cases h2 : s.EMS_Sys_Status.txRetryCount + 1 ≥ 2
      · rw [if_pos (show s.EMS_Sys_Status.txRetryCount + 1 ≥ TX_WRITE_TIMEOUT_COUNT from h2),
          if_pos h2]
      · rw [if_neg (show ¬ s.EMS_Sys_Status.txRetryCount + 1 ≥ TX_WRITE_TIMEOUT_COUNT from h2),
          if_neg h2, ← hq]
    rw [hmid]
    obtain ⟨h1, _, _, h4, _⟩ := _ems_processTelegram_after cfg now rx
      { s with
        EMS_TxQueue := if s.EMS_Sys_Status.txRetryCount + 1 ≥ 2 then rest else t :: rest
        EMS_Sys_Status.emsTxStatus := EMS_TX_STATUS_IDLE
        EMS_Sys_Status.txRetryCount := s.EMS_Sys_Status.txRetryCount + 1 }
    exact ⟨rfl, h1, fun h => ⟨(h4 h).2, (h4 h).1⟩⟩
  · intro hlen
    rw [if_pos hlen]
    have hnop : ∀ s3 : State, _ems_processTelegram cfg now rx s3 = s3 := by
      intro s3
      unfold _ems_processTelegram
      rw [if_pos hlen]
    rw [hnop]
    exact ⟨rfl, rfl, rfl, rfl⟩

/-- C17 (amended) at the state `sampleWaiting 0x00` with a Read entry of type
`0x18` for the boiler queued and the retry counter at 0, and the telegram
`08 0B 19 00 05 01 6A` of another type, payload `05 01`. -/
theorem C17_read_mismatch_amended_witness :
    (_processType sampleConfig 1000
      (ems_parseTelegram_frame [0x08, 0x0B, 0x19, 0x00, 0x05, 0x01, 0x6A] 7 1000)
      (sampleWaiting 0x00
        [sampleEntry EMS_TX_TELEGRAM_READ 0x18 0x08 32])).EMS_Sys_Status.emsRxPgks = 0 ∧
    (_processType sampleConfig 1000
      (ems_parseTelegram_frame [0x08, 0x0B, 0x19, 0x00, 0x05, 0x01, 0x6A] 7 1000)
      (sampleWaiting 0x00
        [sampleEntry EMS_TX_TELEGRAM_READ 0x18 0x08 32])).EMS_Sys_Status.txRetryCount = 0 + 1 ∧
    (_processType sampleConfig 1000
      (ems_parseTelegram_frame [0x08, 0x0B, 0x19, 0x00, 0x05, 0x01, 0x6A] 7 1000)
      (sampleWaiting 0x00 [sampleEntry EMS_TX_TELEGRAM_READ 0x18 0x08 32])).EMS_TxQueue
      = [sampleEntry EMS_TX_TELEGRAM_READ 0x18 0x08 32] :=
  (fun h => ⟨(h.1 (by decide)).2.1, ((h.1 (by decide)).2.2 (by decide)).1,
      ((h.1 (by decide)).2.2 (by decide)).2⟩)
    (C17_read_mismatch_amended sampleConfig 1000
      (ems_parseTelegram_frame [0x08, 0x0B, 0x19, 0x00, 0x05, 0x01, 0x6A] 7 1000)
      (sampleWaiting 0x00 [sampleEntry EMS_TX_TELEGRAM_READ 0x18 0x08 32])
      (sampleEntry EMS_TX_TELEGRAM_READ 0x18 0x08 32) []
      rfl rfl rfl (by decide) (by decide) (by decide))

/-! ## A telegram for somebody else while a reply is awaited -/

/-- C20: when Tx status is `EMS_TX_STATUS_WAIT` and a telegram arrives whose
source is not our address and whose destination (`byte1 & 0x7F`) is not our
address `0x0B`, `_processType` removes the head of the Tx queue whatever its
action, sets Tx status idle, and dispatches the telegram to the decoder
exactly as it does from the idle state so obtained; `emsRxPgks` is unchanged,
the retry counter is not incremented (it stays, or a decoder that enqueues
resets it), nothing is transmitted, and unless the telegram is a Version
telegram the queue is left with its head removed. -/
theorem C20_stray_while_waiting (cfg : Config) (now : Nat) (rx : _EMS_RxTelegram) (s : State)
    (hwait : s.EMS_Sys_Status.emsTxStatus = EMS_TX_STATUS_WAIT)
    (hsrc : rx.src ≠ 0x0B)
    (hdest : rx.telegram.getD 1 0 &&& 0x7F ≠ 0x0B) :
    _processType cfg now rx s
      = _ems_processTelegram cfg now rx
          { s with
            EMS_TxQueue := s.EMS_TxQueue.tail
            EMS_Sys_Status.emsTxStatus := EMS_TX_STATUS_IDLE } ∧
    _processType cfg now rx s
      = _processType cfg now rx
          { s with
            EMS_TxQueue := s.EMS_TxQueue.tail
            EMS_Sys_Status.emsTxStatus := EMS_TX_STATUS_IDLE } ∧
    (_processType cfg now rx s).EMS_Sys_Status.emsTxStatus = EMS_TX_STATUS_IDLE ∧
    (_processType cfg now rx s).EMS_Sys_Status.emsRxPgks = s.EMS_Sys_Status.emsRxPgks ∧
    ((_processType cfg now rx s).EMS_Sys_Status.txRetryCount = s.EMS_Sys_Status.txRetryCount ∨
      (_processType cfg now rx s).EMS_Sys_Status.txRetryCount = 0) ∧
    (_processType cfg now rx s).uart_tx = s.uart_tx ∧
    (rx.type ≠ cfg.EMS_TYPE_Version →
      (_processType cfg now rx s).EMS_TxQueue = s.EMS_TxQueue.tail ∧
      (_processType cfg now rx s).EMS_Sys_Status.txRetryCount
        = s.EMS_Sys_Status.txRetryCount) := by
  have hnidle : s.EMS_Sys_Status.emsTxStatus ≠ EMS_TX_STATUS_IDLE := by rw [hwait]; decide
  have hidle : _processType cfg now rx
      { s with
        EMS_TxQueue := s.EMS_TxQueue.tail
        EMS_Sys_Status.emsTxStatus := EMS_TX_STATUS_IDLE }
      = _ems_processTelegram cfg now rx
          { s with
            EMS_TxQueue := s.EMS_TxQueue.tail
            EMS_Sys_Status.emsTxStatus := EMS_TX_STATUS_IDLE } := by
    rw [_processType_idle cfg now rx _ rfl, if_neg (show ¬ rx.src = EMS_ID_ME from hsrc)]
  rw [hidle, _processType_stray cfg now rx s hsrc hnidle hdest, _removeTxQueue_eq]
  obtain ⟨h1, h2, h3, h4, _⟩ := _ems_processTelegram_after cfg now rx
    { s with
      EMS_TxQueue := s.EMS_TxQueue.tail
      EMS_Sys_Status.emsTxStatus := EMS_TX_STATUS_IDLE }
  obtain ⟨h5, _⟩ := _ems_processTelegram_bus_from cfg now rx s
    { s with
      EMS_TxQueue := s.EMS_TxQueue.tail
      EMS_Sys_Status.emsTxStatus := EMS_TX_STATUS_IDLE } rfl rfl rfl
  exact ⟨rfl, rfl, h5, h1, h3, h2, h4⟩

/-- C20 at the state `sampleWaiting 0x00` with a Write entry and a Read entry
queued, and the broadcast `08 00 18 00 05 01 D2` of the boiler. -/
theorem C20_stray_while_waiting_witness :
    (_processType sampleConfig 1000
      (ems_parseTelegram_frame [0x08, 0x00, 0x18, 0x00, 0x05, 0x01, 0xD2] 7 1000)
      (sampleWaiting 0x00 [sampleWrite 0x33 0x08 2 50,
        sampleEntry EMS_TX_TELEGRAM_READ 0x19 0x08 32])).EMS_Sys_Status.emsTxStatus
      = EMS_TX_STATUS_IDLE ∧
    (_processType sampleConfig 1000
      (ems_parseTelegram_frame [0x08, 0x00, 0x18, 0x00, 0x05, 0x01, 0xD2] 7 1000)
      (sampleWaiting 0x00 [sampleWrite 0x33 0x08 2 50,
        sampleEntry EMS_TX_TELEGRAM_READ 0x19 0x08 32])).EMS_Sys_Status.emsRxPgks = 0 ∧
    (_processType sampleConfig 1000
      (ems_parseTelegram_frame [0x08, 0x00, 0x18, 0x00, 0x05, 0x01, 0xD2] 7 1000)
      (sampleWaiting 0x00 [sampleWrite 0x33 0x08 2 50,
        sampleEntry EMS_TX_TELEGRAM_READ 0x19 0x08 32])).uart_tx = [] ∧
    (_processType sampleConfig 1000
      (ems_parseTelegram_frame [0x08, 0x00, 0x18, 0x00, 0x05, 0x01, 0xD2] 7 1000)
      (sampleWaiting 0x00 [sampleWrite 0x33 0x08 2 50,
        sampleEntry EMS_TX_TELEGRAM_READ 0x19 0x08 32])).EMS_TxQueue
      = [sampleEntry EMS_TX_TELEGRAM_READ 0x19 0x08 32] ∧
    (_processType sampleConfig 1000
      (ems_parseTelegram_frame [0x08, 0x00, 0x18, 0x00, 0x05, 0x01, 0xD2] 7 1000)
      (sampleWaiting 0x00 [sampleWrite 0x33 0x08 2 50,
        sampleEntry EMS_TX_TELEGRAM_READ 0x19 0x08 32])).EMS_Sys_Status.txRetryCount = 0 :=
  (fun h => ⟨h.2.2.1, h.2.2.2.1, h.2.2.2.2.2.1, (h.2.2.2.2.2.2 (by decide)).1,
      (h.2.2.2.2.2.2 (by decide)).2⟩)
    (C20_stray_while_waiting sampleConfig 1000
      (ems_parseTelegram_frame [0x08, 0x00, 0x18, 0x00, 0x05, 0x01, 0xD2] 7 1000)
      (sampleWaiting 0x00 [sampleWrite 0x33 0x08 2 50,
        sampleEntry EMS_TX_TELEGRAM_READ 0x19 0x08 32])
      rfl (by decide) (by decide))

/-! ## The number of retries of a Read -/

/-- C18 (as stated it fails): the Read of type `0x18` from the boiler,
enqueued by `ems_doReadCommand` on the idle state `sampleIdle 0x00` with the
retry counter at 0, is sent on the first poll `8B`; after the first
mismatched reply `08 0B 19 00 05 01 6A` it is still at the head of the queue
with the retry counter at 1, and the next poll sends it a second time; the
second mismatched reply removes it (the counter reaches the limit 2 of lines
1179-1181), so that a third poll sends nothing: the entry is re-sent once, not
twice, and is not at the head of the queue after the second mismatched
reply. -/
theorem C18_read_dropped_by_second_mismatch :
    (ems_doReadCommand sampleConfig 5 0x18 0x08 false (sampleIdle 0x00)).EMS_TxQueue
      = [sampleEntry EMS_TX_TELEGRAM_READ 0x18 0x08 32] ∧
    (ems_doReadCommand sampleConfig 5 0x18 0x08 false
      (sampleIdle 0x00)).EMS_Sys_Status.txRetryCount = 0 ∧
    (ems_parseTelegram_run sampleConfig [⟨sampleEnv, [0x8B], 1⟩]
      (ems_doReadCommand sampleConfig 5 0x18 0x08 false (sampleIdle 0x00))).uart_tx
      = [[0x0B, 0x88, 0x18, 0x00, 0x20, 0xD4]] ∧
    (ems_parseTelegram_run sampleConfig
      [⟨sampleEnv, [0x8B], 1⟩, ⟨sampleEnv, [0x08, 0x0B, 0x19, 0x00, 0x05, 0x01, 0x6A], 7⟩]
      (ems_doReadCommand sampleConfig 5 0x18 0x08 false (sampleIdle 0x00))).EMS_TxQueue
      = [sampleEntry EMS_TX_TELEGRAM_READ 0x18 0x08 32] ∧
    (ems_parseTelegram_run sampleConfig
      [⟨sampleEnv, [0x8B], 1⟩, ⟨sampleEnv, [0x08, 0x0B, 0x19, 0x00, 0x05, 0x01, 0x6A], 7⟩]
      (ems_doReadCommand sampleConfig 5 0x18 0x08 false
        (sampleIdle 0x00))).EMS_Sys_Status.txRetryCount = 1 ∧
    (ems_parseTelegram_run sampleConfig
      [⟨sampleEnv, [0x8B], 1⟩, ⟨sampleEnv, [0x08, 0x0B, 0x19, 0x00, 0x05, 0x01, 0x6A], 7⟩,
       ⟨sampleEnv, [0x8B], 1⟩, ⟨sampleEnv, [0x08, 0x0B, 0x19, 0x00, 0x05, 0x01, 0x6A], 7⟩]
      (ems_doReadCommand sampleConfig 5 0x18 0x08 false (sampleIdle 0x00))).EMS_TxQueue = [] ∧
    (ems_parseTelegram_run sampleConfig
      [⟨sampleEnv, [0x8B], 1⟩, ⟨sampleEnv, [0x08, 0x0B, 0x19, 0x00, 0x05, 0x01, 0x6A], 7⟩,
       ⟨sampleEnv, [0x8B], 1⟩, ⟨sampleEnv, [0x08, 0x0B, 0x19, 0x00, 0x05, 0x01, 0x6A], 7⟩,
       ⟨sampleEnv, [0x8B], 1⟩]
      (ems_doReadCommand sampleConfig 5 0x18 0x08 false (sampleIdle 0x00))).uart_tx
      = [[0x0B, 0x88, 0x18, 0x00, 0x20, 0xD4], [0x0B],
         [0x0B, 0x88, 0x18, 0x00, 0x20, 0xD4], [0x0B]] := by
  decide

/-- A poll for us that finds Rx and Tx idle, Tx enabled and a Read entry `t`
with a destination at the head of the queue, with a transport that reports
success: `ems_parseTelegram` sends `t`, Tx status becomes waiting, and the
queue, the retry counter, the bus mode and the switches stay. -/
theorem ems_parseTelegram_poll_read (cfg : Config) (env : Env) (telegram : List Nat) (s : State)
    (t : _EMS_TxTelegram) (rest : List _EMS_TxTelegram)
    (hrx : s.EMS_Sys_Status.emsRxStatus = EMS_RX_STATUS_IDLE)
    (htx : s.EMS_Sys_Status.emsTxStatus = EMS_TX_STATUS_IDLE)
    (hen : s.EMS_Sys_Status.emsTxDisabled = false)
    (hq : s.EMS_TxQueue = t :: rest) (hact : t.action = EMS_TX_TELEGRAM_READ)
    (hdest : t.dest ≠ 0x00)
    (hpoll : telegram.getD 0 0 ^^^ 0x80 ^^^ s.EMS_Sys_Status.emsIDMask = 0x0B)
    (hok : env.txStatus = EMS_TX_STATUS_OK) :
    (ems_parseTelegram cfg env telegram 1 s).uart_tx = s.uart_tx ++
      [(_ems_sendTelegram_header s.EMS_Sys_Status.emsIDMask t).1.take
        (_ems_sendTelegram_header s.EMS_Sys_Status.emsIDMask t).2] ∧
    (ems_parseTelegram cfg env telegram 1 s).EMS_Sys_Status.emsTxStatus = EMS_TX_STATUS_WAIT ∧
    (ems_parseTelegram cfg env telegram 1 s).EMS_TxQueue = t :: rest ∧
    (ems_parseTelegram cfg env telegram 1 s).EMS_Sys_Status.txRetryCount
      = s.EMS_Sys_Status.txRetryCount ∧
    (ems_parseTelegram cfg env telegram 1 s).EMS_Sys_Status.emsRxStatus = EMS_RX_STATUS_IDLE ∧
    (ems_parseTelegram cfg env telegram 1 s).EMS_Sys_Status.emsTxDisabled = false ∧
    (ems_parseTelegram cfg env telegram 1 s).EMS_Sys_Status.emsIDMask
      = s.EMS_Sys_Status.emsIDMask ∧
    (ems_parseTelegram cfg env telegram 1 s).EMS_Sys_Status.emsPollAck
      = s.EMS_Sys_Status.emsPollAck := by
  have hdet : s.EMS_Sys_Status.emsTxStatus ≠ EMS_TX_REV_DETECT := by rw [htx]; decide
  have hraw : t.action ≠ EMS_TX_TELEGRAM_RAW := by rw [hact]; decide
  have hme : (telegram.getD 0 0 ^^^ 0x80 ^^^ s.EMS_Sys_Status.emsIDMask) = EMS_ID_ME := hpoll
  have hsend : (!s.EMS_TxQueue.isEmpty) = true ∧
      s.EMS_Sys_Status.emsTxStatus = EMS_TX_STATUS_IDLE := by
    rw [hq]
    exact ⟨rfl, htx⟩
  have hdest0 : t.dest ≠ EMS_ID_NONE := hdest
  rw [ems_parseTelegram_detected cfg env telegram 1 s hdet, if_neg (not_not.mpr hrx), if_pos rfl,
    if_pos hme, if_pos hsend]
  unfold _ems_sendTelegram
  simp only [hq, hen, hdest0, hraw, hok, Bool.false_eq_true, if_false, if_true, true_or]
  refine ⟨?_, ?_, ?_, ?_, ?_, ?_, ?_, ?_⟩ <;> first | rfl | trivial

/-- A mismatched reply with a non-empty payload, not a Version telegram,
addressed to us and not our own echo, that arrives while the reply to the Read
entry `t` at the head of the queue is awaited: `ems_parseTelegram` raises the
retry counter by one, removes `t` iff the raised counter is at least 2, sends
one poll-acknowledge and leaves Tx status idle; the bus mode and the switches
stay. -/
theorem ems_parseTelegram_read_mismatch (cfg : Config) (env : Env) (telegram : List Nat)
    (length : Nat) (s : State) (t : _EMS_TxTelegram) (rest : List _EMS_TxTelegram)
    (hrx : s.EMS_Sys_Status.emsRxStatus = EMS_RX_STATUS_IDLE)
    (hwait : s.EMS_Sys_Status.emsTxStatus = EMS_TX_STATUS_WAIT)
    (hq : s.EMS_TxQueue = t :: rest) (hact : t.action = EMS_TX_TELEGRAM_READ)
    (hL : 5 ≤ length)
    (hcrc : telegram.getD (length - 1) 0 = _crcCalculator telegram length)
    (hme : telegram.getD 1 0 &&& 0x7F = 0x0B)
    (hsrc : (ems_parseTelegram_frame telegram length env.millis).src ≠ 0x0B)
    (hlen : (ems_parseTelegram_frame telegram length env.millis).data_length ≠ 0)
    (hmis : ¬ ((ems_parseTelegram_frame telegram length env.millis).src &&& 0x7F
          = t.dest &&& 0x7F ∧
        (ems_parseTelegram_frame telegram length env.millis).type = t.type))
    (hver : (ems_parseTelegram_frame telegram length env.millis).type ≠ cfg.EMS_TYPE_Version) :
    (ems_parseTelegram cfg env telegram length s).uart_tx
      = s.uart_tx ++ [[s.EMS_Sys_Status.emsPollAck]] ∧
    (ems_parseTelegram cfg env telegram length s).EMS_Sys_Status.emsTxStatus
      = EMS_TX_STATUS_IDLE ∧
    (ems_parseTelegram cfg env telegram length s).EMS_TxQueue
      = (if s.EMS_Sys_Status.txRetryCount + 1 ≥ 2 then rest else t :: rest) ∧
    (ems_parseTelegram cfg env telegram length s).EMS_Sys_Status.txRetryCount
      = s.EMS_Sys_Status.txRetryCount + 1 ∧
    (ems_parseTelegram cfg env telegram length s).EMS_Sys_Status.emsRxStatus
      = EMS_RX_STATUS_IDLE ∧
    (ems_parseTelegram cfg env telegram length s).EMS_Sys_Status.emsTxDisabled
      = s.EMS_Sys_Status.emsTxDisabled ∧
    (ems_parseTelegram cfg env telegram length s).EMS_Sys_Status.emsIDMask
      = s.EMS_Sys_Status.emsIDMask ∧
    (ems_parseTelegram cfg env telegram length s).EMS_Sys_Status.emsPollAck
      = s.EMS_Sys_Status.emsPollAck := by
  have hdet : s.EMS_Sys_Status.emsTxStatus ≠ EMS_TX_REV_DETECT := by rw [hwait]; decide
  have hnidle : s.EMS_Sys_Status.emsTxStatus ≠ EMS_TX_STATUS_IDLE := by rw [hwait]; decide
  have hftel : (ems_parseTelegram_frame telegram length env.millis).telegram = telegram := by
    unfold ems_parseTelegram_frame
    dsimp only
    split_ifs <;> rfl
  have hme2 : (ems_parseTelegram_frame telegram length env.millis).telegram.getD 1 0 &&& 0x7F
      = EMS_ID_ME := by rw [hftel]; exact hme
  rw [ems_parseTelegram_detected cfg env telegram length s hdet, if_neg (not_not.mpr hrx),
    if_neg (show ¬ length = 1 by omega), if_neg (show ¬ length ≤ 4 by omega),
    if_neg (not_not.mpr hcrc)]
  generalize hs2 : ({ s with
      EMS_Sys_Status.emsRxTimestamp :=
        (ems_parseTelegram_frame telegram length env.millis).timestamp
      EMS_Sys_Status.emsBusConnected := true } : State) = s2
  have y1 : s2.uart_tx = s.uart_tx := by rw [← hs2]
  have y2 : s2.EMS_Sys_Status.emsTxStatus ≠ EMS_TX_STATUS_IDLE := by rw [← hs2]; exact hnidle
  have y3 : s2.EMS_TxQueue = t :: rest := by rw [← hs2]; exact hq
  have y4 : s2.EMS_Sys_Status.txRetryCount = s.EMS_Sys_Status.txRetryCount := by rw [← hs2]
  have y5 : s2.EMS_Sys_Status.emsRxStatus = EMS_RX_STATUS_IDLE := by rw [← hs2]; exact hrx
  have y6 : s2.EMS_Sys_Status.emsTxDisabled = s.EMS_Sys_Status.emsTxDisabled := by rw [← hs2]
  have y7 : s2.EMS_Sys_Status.emsIDMask = s.EMS_Sys_Status.emsIDMask := by rw [← hs2]
  have y8 : s2.EMS_Sys_Status.emsPollAck = s.EMS_Sys_Status.emsPollAck := by rw [← hs2]
  rw [_processType_read cfg env.millis _ s2 t rest hsrc y2 hme2 y3 hact, if_neg hmis,
    if_neg hlen]
  generalize hX : (if s2.EMS_Sys_Status.txRetryCount + 1 ≥ TX_WRITE_TIMEOUT_COUNT then
      ({ s2 with
          EMS_TxQueue := rest
          EMS_Sys_Status.emsTxStatus := EMS_TX_STATUS_IDLE
          EMS_Sys_Status.txRetryCount := s2.EMS_Sys_Status.txRetryCount + 1 } : State)
    else
      { s2 with
          EMS_Sys_Status.emsTxStatus := EMS_TX_STATUS_IDLE
          EMS_Sys_Status.txRetryCount := s2.EMS_Sys_Status.txRetryCount + 1 }) = X
  have x1 : X.uart_tx = s.uart_tx := by rw [← hX, ← y1]; split <;> rfl
  have x2 : X.EMS_Sys_Status.emsTxStatus = EMS_TX_STATUS_IDLE := by rw [← hX]; split <;> rfl
  have x3 : X.EMS_TxQueue
      = (if s.EMS_Sys_Status.txRetryCount + 1 ≥ 2 then rest else t :: rest) := by
    rw [← hX, ← y4]
    by_cases h2 : s2.EMS_Sys_Status.txRetryCount + 1 ≥ 2
    · rw [if_pos (show s2.EMS_Sys_Status.txRetryCount + 1 ≥ TX_WRITE_TIMEOUT_COUNT from h2),
        if_pos h2]
    · rw [if_neg (show ¬ s2.EMS_Sys_Status.txRetryCount + 1 ≥ TX_WRITE_TIMEOUT_COUNT from h2),
        if_neg h2]
      exact y3
  have x4 : X.EMS_Sys_Status.txRetryCount = s.EMS_Sys_Status.txRetryCount + 1 := by
    rw [← hX, ← y4]; split <;> rfl
  have x5 : X.EMS_Sys_Status.emsRxStatus = EMS_RX_STATUS_IDLE := by
    rw [← hX]; split <;> exact y5
  have x6 : X.EMS_Sys_Status.emsTxDisabled = s.EMS_Sys_Status.emsTxDisabled := by
    rw [← hX, ← y6]; split <;> rfl
  have x7 : X.EMS_Sys_Status.emsIDMask = s.EMS_Sys_Status.emsIDMask := by
    rw [← hX, ← y7]; split <;> rfl
  have x8 : X.EMS_Sys_Status.emsPollAck = s.EMS_Sys_Status.emsPollAck := by
    rw [← hX, ← y8]; split <;> rfl
  obtain ⟨⟨_, _, _, f4, _, f6, f7⟩, _, f9⟩ := _ems_processTelegram_frame cfg env.millis
    (ems_parseTelegram_frame telegram length env.millis) X
  obtain ⟨b1, b2⟩ := _ems_processTelegram_bus cfg env.millis
    (ems_parseTelegram_frame telegram length env.millis) X
  have hqr := f9.resolve_right hver
  have hbus := b2.resolve_right (fun h => hver h.1)
  rw [ems_tx_pollAck_eq]
  refine ⟨?_, ?_, ?_, ?_, ?_, ?_, ?_, ?_⟩
  · show (_ems_processTelegram cfg env.millis _ X).uart_tx ++
      [[(_ems_processTelegram cfg env.millis _ X).EMS_Sys_Status.emsPollAck]] = _
    rw [f7, x1, hbus.2, x8]
  · show (_ems_processTelegram cfg env.millis _ X).EMS_Sys_Status.emsTxStatus = _
    rcases b1 with h | h
    · rw [h, x2]
    · exact h
  · show (_ems_processTelegram cfg env.millis _ X).EMS_TxQueue = _
    rw [hqr.1, x3]
  · show (_ems_processTelegram cfg env.millis _ X).EMS_Sys_Status.txRetryCount = _
    rw [hqr.2, x4]
  · show (_ems_processTelegram cfg env.millis _ X).EMS_Sys_Status.emsRxStatus = _
    rw [f4, x5]
  · show (_ems_processTelegram cfg env.millis _ X).EMS_Sys_Status.emsTxDisabled = _
    rw [f6, x6]
  · show (_ems_processTelegram cfg env.millis _ X).EMS_Sys_Status.emsIDMask = _
    rw [hbus.1, x7]
  · show (_ems_processTelegram cfg env.millis _ X).EMS_Sys_Status.emsPollAck = _
    rw [hbus.2, x8]

/-- C18 (amended): a Read entry `t` with a destination is at the head of the
queue with the retry counter at 0, Rx and Tx idle and Tx enabled; the
transport reports success; every reply is CRC-valid, addressed to us, not our
own echo, has a non-empty payload, does not match `t` and is not a Version
telegram (whose decoder enqueues).  Then the first poll sends `t`; after the
first mismatched reply `t` is still at the head of the queue, with the retry
counter at 1; the second poll sends `t` again; the second mismatched reply
removes `t` from the queue, with the retry counter at 2.  Over the four calls
`t` went out twice: it was re-sent exactly once. -/
theorem C18_read_retried_once_amended (cfg : Config) (e1 e2 e3 e4 : Env)
    (poll1 reply1 poll2 reply2 : List Nat) (L1 L2 : Nat) (s : State)
    (t : _EMS_TxTelegram) (rest : List _EMS_TxTelegram)
    (hrx : s.EMS_Sys_Status.emsRxStatus = EMS_RX_STATUS_IDLE)
    (htx : s.EMS_Sys_Status.emsTxStatus = EMS_TX_STATUS_IDLE)
    (hen : s.EMS_Sys_Status.emsTxDisabled = false)
    (hq : s.EMS_TxQueue = t :: rest) (hact : t.action = EMS_TX_TELEGRAM_READ)
    (hdest : t.dest ≠ 0x00)
    (hretry : s.EMS_Sys_Status.txRetryCount = 0)
    (hp1 : poll1.getD 0 0 ^^^ 0x80 ^^^ s.EMS_Sys_Status.emsIDMask = 0x0B)
    (hp2 : poll2.getD 0 0 ^^^ 0x80 ^^^ s.EMS_Sys_Status.emsIDMask = 0x0B)
    (hok1 : e1.txStatus = EMS_TX_STATUS_OK) (hok3 : e3.txStatus = EMS_TX_STATUS_OK)
    (hL1 : 5 ≤ L1) (hcrc1 : reply1.getD (L1 - 1) 0 = _crcCalculator reply1 L1)
    (hme1 : reply1.getD 1 0 &&& 0x7F = 0x0B)
    (hsrc1 : (ems_parseTelegram_frame reply1 L1 e2.millis).src ≠ 0x0B)
    (hlen1 : (ems_parseTelegram_frame reply1 L1 e2.millis).data_length ≠ 0)
    (hmis1 : ¬ ((ems_parseTelegram_frame reply1 L1 e2.millis).src &&& 0x7F = t.dest &&& 0x7F ∧
      (ems_parseTelegram_frame reply1 L1 e2.millis).type = t.type))
    (hver1 : (ems_parseTelegram_frame reply1 L1 e2.millis).type ≠ cfg.EMS_TYPE_Version)
    (hL2 : 5 ≤ L2) (hcrc2 : reply2.getD (L2 - 1) 0 = _crcCalculator reply2 L2)
    (hme2 : reply2.getD 1 0 &&& 0x7F = 0x0B)
    (hsrc2 : (ems_parseTelegram_frame reply2 L2 e4.millis).src ≠ 0x0B)
    (hlen2 : (ems_parseTelegram_frame reply2 L2 e4.millis).data_length ≠ 0)
    (hmis2 : ¬ ((ems_parseTelegram_frame reply2 L2 e4.millis).src &&& 0x7F = t.dest &&& 0x7F ∧
      (ems_parseTelegram_frame reply2 L2 e4.millis).type = t.type))
    (hver2 : (ems_parseTelegram_frame reply2 L2 e4.millis).type ≠ cfg.EMS_TYPE_Version) :
    (ems_parseTelegram_run cfg [⟨e1, poll1, 1⟩] s).uart_tx = s.uart_tx ++
      [(_ems_sendTelegram_header s.EMS_Sys_Status.emsIDMask t).1.take
        (_ems_sendTelegram_header s.EMS_Sys_Status.emsIDMask t).2] ∧
    (ems_parseTelegram_run cfg [⟨e1, poll1, 1⟩] s).EMS_Sys_Status.emsTxStatus
      = EMS_TX_STATUS_WAIT ∧
    (ems_parseTelegram_run cfg [⟨e1, poll1, 1⟩, ⟨e2, reply1, L1⟩] s).EMS_TxQueue = t :: rest ∧
    (ems_parseTelegram_run cfg
      [⟨e1, poll1, 1⟩, ⟨e2, reply1, L1⟩] s).EMS_Sys_Status.txRetryCount = 1 ∧
    (ems_parseTelegram_run cfg
      [⟨e1, poll1, 1⟩, ⟨e2, reply1, L1⟩] s).EMS_Sys_Status.emsTxStatus = EMS_TX_STATUS_IDLE ∧
    (ems_parseTelegram_run cfg
      [⟨e1, poll1, 1⟩, ⟨e2, reply1, L1⟩, ⟨e3, poll2, 1⟩] s).uart_tx = s.uart_tx ++
      [(_ems_sendTelegram_header s.EMS_Sys_Status.emsIDMask t).1.take
        (_ems_sendTelegram_header s.EMS_Sys_Status.emsIDMask t).2,
       [s.EMS_Sys_Status.emsPollAck],
       (_ems_sendTelegram_header s.EMS_Sys_Status.emsIDMask t).1.take
        (_ems_sendTelegram_header s.EMS_Sys_Status.emsIDMask t).2] ∧
    (ems_parseTelegram_run cfg
      [⟨e1, poll1, 1⟩, ⟨e2, reply1, L1⟩, ⟨e3, poll2, 1⟩] s).EMS_Sys_Status.emsTxStatus
      = EMS_TX_STATUS_WAIT ∧
    (ems_parseTelegram_run cfg
      [⟨e1, poll1, 1⟩, ⟨e2, reply1, L1⟩, ⟨e3, poll2, 1⟩, ⟨e4, reply2, L2⟩] s).EMS_TxQueue
      = rest ∧
    (ems_parseTelegram_run cfg
      [⟨e1, poll1, 1⟩, ⟨e2, reply1, L1⟩, ⟨e3, poll2, 1⟩,
       ⟨e4, reply2, L2⟩] s).EMS_Sys_Status.txRetryCount = 2 ∧
    (ems_parseTelegram_run cfg
      [⟨e1, poll1, 1⟩, ⟨e2, reply1, L1⟩, ⟨e3, poll2, 1⟩,
       ⟨e4, reply2, L2⟩] s).EMS_Sys_Status.emsTxStatus = EMS_TX_STATUS_IDLE ∧
    (ems_parseTelegram_run cfg
      [⟨e1, poll1, 1⟩, ⟨e2, reply1, L1⟩, ⟨e3, poll2, 1⟩, ⟨e4, reply2, L2⟩] s).uart_tx
      = s.uart_tx ++
      [(_ems_sendTelegram_header s.EMS_Sys_Status.emsIDMask t).1.take
        (_ems_sendTelegram_header s.EMS_Sys_Status.emsIDMask t).2,
       [s.EMS_Sys_Status.emsPollAck],
       (_ems_sendTelegram_header s.EMS_Sys_Status.emsIDMask t).1.take
        (_ems_sendTelegram_header s.EMS_Sys_Status.emsIDMask t).2,
       [s.EMS_Sys_Status.emsPollAck]] := by
  obtain ⟨p1, p2, p3, p4, p5, p6, p7, p8⟩ :=
    ems_parseTelegram_poll_read cfg e1 poll1 s t rest hrx htx hen hq hact hdest hp1 hok1
  obtain ⟨q1, q2, q3, q4, q5, q6, q7, q8⟩ :=
    ems_parseTelegram_read_mismatch cfg e2 reply1 L1 _ t rest p5 p2 p3 hact hL1 hcrc1 hme1
      hsrc1 hlen1 hmis1 hver1
  rw [p4, hretry] at q3 q4
  rw [p6] at q6
  rw [p7] at q7
  rw [p8] at q8
  rw [p1, p8] at q1
  have q3' : (ems_parseTelegram cfg e2 reply1 L1
      (ems_parseTelegram cfg e1 poll1 1 s)).EMS_TxQueue = t :: rest := q3
  obtain ⟨r1, r2, r3, r4, r5, r6, r7, r8⟩ :=
    ems_parseTelegram_poll_read cfg e3 poll2 _ t rest q5 q2 q6 q3' hact hdest
      (by rw [q7]; exact hp2) hok3
  obtain ⟨u1, u2, u3, u4, u5, u6, u7, u8⟩ :=
    ems_parseTelegram_read_mismatch cfg e4 reply2 L2 _ t rest r5 r2 r3 hact hL2 hcrc2 hme2
      hsrc2 hlen2 hmis2 hver2
  rw [q7, q1] at r1
  rw [r4, q4] at u3 u4
  rw [r1, r8, q8] at u1
  rw [if_pos (show 1 + 1 ≥ 2 by decide)] at u3
  simp only [ems_parseTelegram_run, List.foldl]
  refine ⟨p1, p2, q3', q4, q2, ?_, r2, u3, u4, u2, ?_⟩
  · rw [r1, List.append_assoc, List.append_assoc]
    rfl
  · rw [u1, List.append_assoc, List.append_assoc, List.append_assoc]
    rfl

/-- C18 (amended) at the Read of type `0x18` from the boiler that
`ems_doReadCommand` enqueues on the idle state `sampleIdle 0x00`, with the
polls `8B` and the mismatched replies `08 0B 19 00 05 01 6A`. -/
theorem C18_read_retried_once_amended_witness :
    (ems_parseTelegram_run sampleConfig
      [⟨sampleEnv, [0x8B], 1⟩, ⟨sampleEnv, [0x08, 0x0B, 0x19, 0x00, 0x05, 0x01, 0x6A], 7⟩]
      (ems_doReadCommand sampleConfig 5 0x18 0x08 false (sampleIdle 0x00))).EMS_TxQueue
      = sampleEntry EMS_TX_TELEGRAM_READ 0x18 0x08 32 :: [] ∧
    (ems_parseTelegram_run sampleConfig
      [⟨sampleEnv, [0x8B], 1⟩, ⟨sampleEnv, [0x08, 0x0B, 0x19, 0x00, 0x05, 0x01, 0x6A], 7⟩]
      (ems_doReadCommand sampleConfig 5 0x18 0x08 false
        (sampleIdle 0x00))).EMS_Sys_Status.txRetryCount = 1 ∧
    (ems_parseTelegram_run sampleConfig
      [⟨sampleEnv, [0x8B], 1⟩, ⟨sampleEnv, [0x08, 0x0B, 0x19, 0x00, 0x05, 0x01, 0x6A], 7⟩,
       ⟨sampleEnv, [0x8B], 1⟩, ⟨sampleEnv, [0x08, 0x0B, 0x19, 0x00, 0x05, 0x01, 0x6A], 7⟩]
      (ems_doReadCommand sampleConfig 5 0x18 0x08 false (sampleIdle 0x00))).EMS_TxQueue = [] ∧
    (ems_parseTelegram_run sampleConfig
      [⟨sampleEnv, [0x8B], 1⟩, ⟨sampleEnv, [0x08, 0x0B, 0x19, 0x00, 0x05, 0x01, 0x6A], 7⟩,
       ⟨sampleEnv, [0x8B], 1⟩, ⟨sampleEnv, [0x08, 0x0B, 0x19, 0x00, 0x05, 0x01, 0x6A], 7⟩]
      (ems_doReadCommand sampleConfig 5 0x18 0x08 false
        (sampleIdle 0x00))).EMS_Sys_Status.txRetryCount = 2 :=
  (fun h => ⟨h.2.2.1, h.2.2.2.1, h.2.2.2.2.2.2.2.1, h.2.2.2.2.2.2.2.2.1⟩)
    (C18_read_retried_once_amended sampleConfig sampleEnv sampleEnv sampleEnv sampleEnv
      [0x8B] [0x08, 0x0B, 0x19, 0x00, 0x05, 0x01, 0x6A]
      [0x8B] [0x08, 0x0B, 0x19, 0x00, 0x05, 0x01, 0x6A] 7 7
      (ems_doReadCommand sampleConfig 5 0x18 0x08 false (sampleIdle 0x00))
      (sampleEntry EMS_TX_TELEGRAM_READ 0x18 0x08 32) []
      rfl rfl rfl rfl rfl (by decide) rfl (by decide) (by decide) rfl rfl
      (by decide) (by decide) (by decide) (by decide) (by decide) (by decide) (by decide)
      (by decide) (by decide) (by decide) (by decide) (by decide) (by decide) (by decide))

/-- C19 (the code at the failing input): on the idle state `sampleIdle 0x00`
two Reads from the boiler are enqueued, A of type `0x18` and then B of type
`0x19`.  When A is answered at once, B is still queued after its first
mismatched reply `08 0B 33 00 05 01 23`; when A first gets that mismatched
reply and is answered then, the first mismatched reply to B removes B.  And
when only A is enqueued and, after its first mismatched reply, a further
`ems_doReadCommand` enqueues B, A is still at the head of the queue after its
second mismatched reply, with the retry counter back at 1. -/
theorem C19_retry_counter_is_shared :
    (ems_doReadCommand sampleConfig 5 0x19 0x08 false
      (ems_doReadCommand sampleConfig 5 0x18 0x08 false (sampleIdle 0x00))).EMS_TxQueue
      = [sampleEntry EMS_TX_TELEGRAM_READ 0x18 0x08 32,
         sampleEntry EMS_TX_TELEGRAM_READ 0x19 0x08 32] ∧
    (ems_parseTelegram_run sampleConfig
      [⟨sampleEnv, [0x8B], 1⟩, ⟨sampleEnv, [0x08, 0x0B, 0x18, 0x00, 0x05, 0x01, 0x62], 7⟩,
       ⟨sampleEnv, [0x8B], 1⟩, ⟨sampleEnv, [0x08, 0x0B, 0x33, 0x00, 0x05, 0x01, 0x23], 7⟩]
      (ems_doReadCommand sampleConfig 5 0x19 0x08 false
        (ems_doReadCommand sampleConfig 5 0x18 0x08 false (sampleIdle 0x00)))).EMS_TxQueue
      = [sampleEntry EMS_TX_TELEGRAM_READ 0x19 0x08 32] ∧
    (ems_parseTelegram_run sampleConfig
      [⟨sampleEnv, [0x8B], 1⟩, ⟨sampleEnv, [0x08, 0x0B, 0x33, 0x00, 0x05, 0x01, 0x23], 7⟩,
       ⟨sampleEnv, [0x8B], 1⟩, ⟨sampleEnv, [0x08, 0x0B, 0x18, 0x00, 0x05, 0x01, 0x62], 7⟩]
      (ems_doReadCommand sampleConfig 5 0x19 0x08 false
        (ems_doReadCommand sampleConfig 5 0x18 0x08 false (sampleIdle 0x00)))).EMS_TxQueue
      = [sampleEntry EMS_TX_TELEGRAM_READ 0x19 0x08 32] ∧
    (ems_parseTelegram_run sampleConfig
      [⟨sampleEnv, [0x8B], 1⟩, ⟨sampleEnv, [0x08, 0x0B, 0x33, 0x00, 0x05, 0x01, 0x23], 7⟩,
       ⟨sampleEnv, [0x8B], 1⟩, ⟨sampleEnv, [0x08, 0x0B, 0x18, 0x00, 0x05, 0x01, 0x62], 7⟩,
       ⟨sampleEnv, [0x8B], 1⟩, ⟨sampleEnv, [0x08, 0x0B, 0x33, 0x00, 0x05, 0x01, 0x23], 7⟩]
      (ems_doReadCommand sampleConfig 5 0x19 0x08 false
        (ems_doReadCommand sampleConfig 5 0x18 0x08 false (sampleIdle 0x00)))).EMS_TxQueue
      = [] ∧
    (ems_parseTelegram_run sampleConfig
      [⟨sampleEnv, [0x8B], 1⟩, ⟨sampleEnv, [0x08, 0x0B, 0x33, 0x00, 0x05, 0x01, 0x23], 7⟩]
      (ems_doReadCommand sampleConfig 5 0x19 0x08 false
        (ems_parseTelegram_run sampleConfig
          [⟨sampleEnv, [0x8B], 1⟩, ⟨sampleEnv, [0x08, 0x0B, 0x33, 0x00, 0x05, 0x01, 0x23], 7⟩]
          (ems_doReadCommand sampleConfig 5 0x18 0x08 false (sampleIdle 0x00))))).EMS_TxQueue
      = [sampleEntry EMS_TX_TELEGRAM_READ 0x18 0x08 32,
         sampleEntry EMS_TX_TELEGRAM_READ 0x19 0x08 32] ∧
    (ems_parseTelegram_run sampleConfig
      [⟨sampleEnv, [0x8B], 1⟩, ⟨sampleEnv, [0x08, 0x0B, 0x33, 0x00, 0x05, 0x01, 0x23], 7⟩]
      (ems_doReadCommand sampleConfig 5 0x19 0x08 false
        (ems_parseTelegram_run sampleConfig
          [⟨sampleEnv, [0x8B], 1⟩, ⟨sampleEnv, [0x08, 0x0B, 0x33, 0x00, 0x05, 0x01, 0x23], 7⟩]
          (ems_doReadCommand sampleConfig 5 0x18 0x08 false
            (sampleIdle 0x00))))).EMS_Sys_Status.txRetryCount = 1 := by
  decide

/-! ## The poll-acknowledge byte follows the id-mask -/

/-- Every call of `ems_parseTelegram` keeps the poll-acknowledge byte equal to
`0x0B ^ id-mask`: the two are only ever written together. -/
theorem ems_parseTelegram_pollAck (cfg : Config) (env : Env) (telegram : List Nat)
    (length : Nat) (s : State)
    (hinv : s.EMS_Sys_Status.emsPollAck = 0x0B ^^^ s.EMS_Sys_Status.emsIDMask) :
    (ems_parseTelegram cfg env telegram length s).EMS_Sys_Status.emsPollAck
      = 0x0B ^^^ (ems_parseTelegram cfg env telegram length s).EMS_Sys_Status.emsIDMask := by
  by_cases hrev : s.EMS_Sys_Status.emsTxStatus = EMS_TX_REV_DETECT
  · by_cases hval : 5 ≤ length ∧ telegram.getD (length - 1) 0 = _crcCalculator telegram length
    · rw [ems_parseTelegram_detect cfg env telegram length s hrev hval.1 hval.2]
      split
      · rfl
      · rw [_processType_idle _ _ _ _ rfl]
        split
        · rfl
        · obtain ⟨_, hb⟩ := _ems_processTelegram_bus_from cfg env.millis
            (ems_parseTelegram_frame telegram length env.millis)
            { s with
              EMS_Sys_Status.emsTxStatus := EMS_TX_STATUS_IDLE
              EMS_Sys_Status.emsIDMask := telegram.getD 0 0 &&& 0x80
              EMS_Sys_Status.emsPollAck := EMS_ID_ME ^^^ (telegram.getD 0 0 &&& 0x80) }
            { s with
              EMS_Sys_Status.emsTxStatus := EMS_TX_STATUS_IDLE
              EMS_Sys_Status.emsIDMask := telegram.getD 0 0 &&& 0x80
              EMS_Sys_Status.emsPollAck := EMS_ID_ME ^^^ (telegram.getD 0 0 &&& 0x80)
              EMS_Sys_Status.emsRxTimestamp :=
                (ems_parseTelegram_frame telegram length env.millis).timestamp
              EMS_Sys_Status.emsBusConnected := true } rfl rfl rfl
          rcases hb with ⟨hm, hp⟩ | ⟨_, hm, hp, _⟩
          · rw [hm, hp]; rfl
          · rw [hm, hp]; rfl
    · have h : ems_parseTelegram cfg env telegram length s = s := by
        unfold ems_parseTelegram
        rw [if_pos ⟨hrev, hval⟩]
      rw [h]
      exact hinv
  · rcases (ems_parseTelegram_bus cfg env telegram length s hrev).2 with
      ⟨hm, hp⟩ | ⟨_, _, _, hm, hp⟩
    · rw [hm, hp]
      exact hinv
    · rw [hm, hp]
      rfl

/-! ## The poll-acknowledge after a reply -/

/-- C21 (as stated it fails): with Tx status `EMS_TX_STATUS_WAIT` and a Read
entry at the head of the queue, the CRC-valid broadcast `08 00 18 00 05 01 D2`
of the boiler, which is not an echo of our own address and is not addressed to
us, leaves `_processType` without anything transmitted. -/
theorem C21_no_pollAck_for_stray_telegram :
    [0x08, 0x00, 0x18, 0x00, 0x05, 0x01, 0xD2].getD (7 - 1) 0
      = _crcCalculator [0x08, 0x00, 0x18, 0x00, 0x05, 0x01, 0xD2] 7 ∧
    (ems_parseTelegram_frame [0x08, 0x00, 0x18, 0x00, 0x05, 0x01, 0xD2] 7 1000).src
      ≠ EMS_ID_ME ∧
    (sampleWaiting 0x00
      [sampleEntry EMS_TX_TELEGRAM_READ 0x19 0x08 32]).EMS_Sys_Status.emsTxStatus
      = EMS_TX_STATUS_WAIT ∧
    (sampleWaiting 0x00 [sampleEntry EMS_TX_TELEGRAM_READ 0x19 0x08 32]).uart_tx = [] ∧
    (_processType sampleConfig 1000
      (ems_parseTelegram_frame [0x08, 0x00, 0x18, 0x00, 0x05, 0x01, 0xD2] 7 1000)
      (sampleWaiting 0x00 [sampleEntry EMS_TX_TELEGRAM_READ 0x19 0x08 32])).uart_tx = [] := by
  decide

/-- C21 (amended): whenever a telegram that is not an echo of our own address
is received while Tx status is `EMS_TX_STATUS_WAIT`, `_processType` transmits
after reconciliation exactly one buffer, the poll-acknowledge byte, if the
telegram is addressed to us and the queue is not empty, whatever the action of
the queue head; if the telegram is not addressed to us, or the queue is empty,
it transmits nothing. -/
theorem C21_pollAck_after_reply_amended (cfg : Config) (now : Nat) (rx : _EMS_RxTelegram)
    (s : State)
    (hwait : s.EMS_Sys_Status.emsTxStatus = EMS_TX_STATUS_WAIT)
    (hsrc : rx.src ≠ 0x0B) :
    (rx.telegram.getD 1 0 &&& 0x7F = 0x0B ∧ s.EMS_TxQueue ≠ [] →
      (_processType cfg now rx s).uart_tx
        = s.uart_tx ++ [[(_processType cfg now rx s).EMS_Sys_Status.emsPollAck]]) ∧
    (rx.telegram.getD 1 0 &&& 0x7F ≠ 0x0B ∨ s.EMS_TxQueue = [] →
      (_processType cfg now rx s).uart_tx = s.uart_tx) := by
  have hnidle : s.EMS_Sys_Status.emsTxStatus ≠ EMS_TX_STATUS_IDLE := by rw [hwait]; decide
  refine ⟨?_, ?_⟩
  · rintro ⟨hme, hne⟩
    cases hq : s.EMS_TxQueue with
    | nil => exact absurd hq hne
    | cons t rest =>
      by_cases hread : t.action = EMS_TX_TELEGRAM_READ
      · rw [_processType_read cfg now rx s t rest hsrc hnidle hme hq hread]
        generalize hs3 : (if (rx.src &&& 0x7F) = (t.dest &&& 0x7F) ∧ rx.type = t.type then
            ems_setEmsRefreshed t.forceRefresh
              { s with
                EMS_TxQueue := rest
                EMS_Sys_Status.emsTxStatus := EMS_TX_STATUS_IDLE
                EMS_Sys_Status.emsRxPgks := (s.EMS_Sys_Status.emsRxPgks + 1) % 2 ^ 16 }
          else if rx.data_length = 0 then
            { s with EMS_TxQueue := rest, EMS_Sys_Status.emsTxStatus := EMS_TX_STATUS_IDLE }
          else if s.EMS_Sys_Status.txRetryCount + 1 ≥ TX_WRITE_TIMEOUT_COUNT then
            { s with
              EMS_TxQueue := rest
              EMS_Sys_Status.emsTxStatus := EMS_TX_STATUS_IDLE
              EMS_Sys_Status.txRetryCount := s.EMS_Sys_Status.txRetryCount + 1 }
          else
            { s with
              EMS_Sys_Status.emsTxStatus := EMS_TX_STATUS_IDLE
              EMS_Sys_Status.txRetryCount := s.EMS_Sys_Status.txRetryCount + 1 }) = s3
        have hu : s3.uart_tx = s.uart_tx := by
          rw [← hs3]
          split_ifs <;> rfl
        rw [ems_tx_pollAck_eq]
        show (_ems_processTelegram cfg now rx s3).uart_tx ++ _ = _
        rw [(_ems_processTelegram_after cfg now rx s3).2.1, hu]
      · by_cases hval : t.action = EMS_TX_TELEGRAM_VALIDATE
        · rw [_processType_validate cfg now rx s t rest hsrc hnidle hme hq hval,
            ems_tx_pollAck_eq]
          split_ifs
          · show (ems_doReadCommand cfg now t.comparisonPostRead t.dest true _).uart_tx ++ _ = _
            rw [(ems_doReadCommand_counters cfg now t.comparisonPostRead t.dest true _).2.2.2.2.2.2]
          · rfl
          · rfl
        · rw [_processType_other cfg now rx s t rest hsrc hnidle hme hq hread hval]
          rfl
  · intro h
    by_cases hme : rx.telegram.getD 1 0 &&& 0x7F = EMS_ID_ME
    · have hq : s.EMS_TxQueue = [] := by
        rcases h with h | h
        · exact absurd hme h
        · exact h
      rw [_processType_empty cfg now rx s hsrc hnidle hme hq]
      exact (_ems_processTelegram_after cfg now rx _).2.1
    · rw [_processType_stray cfg now rx s hsrc hnidle hme]
      exact (_ems_processTelegram_after cfg now rx _).2.1

/-- C21 (amended) at the state `sampleWaiting 0x00` with a Read entry of type
`0x18` for the boiler queued, and the reply `08 0B 18 00 05 01 62`. -/
theorem C21_pollAck_after_reply_amended_witness :
    (_processType sampleConfig 1000
      (ems_parseTelegram_frame [0x08, 0x0B, 0x18, 0x00, 0x05, 0x01, 0x62] 7 1000)
      (sampleWaiting 0x00 [sampleEntry EMS_TX_TELEGRAM_READ 0x18 0x08 32])).uart_tx
      = [] ++ [[(_processType sampleConfig 1000
          (ems_parseTelegram_frame [0x08, 0x0B, 0x18, 0x00, 0x05, 0x01, 0x62] 7 1000)
          (sampleWaiting 0x00
            [sampleEntry EMS_TX_TELEGRAM_READ 0x18 0x08 32])).EMS_Sys_Status.emsPollAck]] :=
  (C21_pollAck_after_reply_amended sampleConfig 1000
    (ems_parseTelegram_frame [0x08, 0x0B, 0x18, 0x00, 0x05, 0x01, 0x62] 7 1000)
    (sampleWaiting 0x00 [sampleEntry EMS_TX_TELEGRAM_READ 0x18 0x08 32])
    rfl (by decide)).1 ⟨by decide, by decide⟩

/-! ## The reply to a Validate -/

/-- C22 (as stated it fails): with Tx status `EMS_TX_STATUS_WAIT` and the
Validate entry `sampleValidate 0x33 0x08 2 50` at the head of the queue, the
CRC-valid telegram `0B 0B 33 02 32 12`, addressed to us, whose byte at index 4
is the comparison value 50, is taken for an echo: `_processType` leaves the
entry at the head and Tx status waiting, and transmits nothing. -/
theorem C22_validate_match_from_own_address_ignored :
    [0x0B, 0x0B, 0x33, 0x02, 0x32, 0x12].getD (6 - 1) 0
      = _crcCalculator [0x0B, 0x0B, 0x33, 0x02, 0x32, 0x12] 6 ∧
    [0x0B, 0x0B, 0x33, 0x02, 0x32, 0x12].getD 1 0 &&& 0x7F = EMS_ID_ME ∧
    [0x0B, 0x0B, 0x33, 0x02, 0x32, 0x12].getD 4 0
      = (sampleValidate 0x33 0x08 2 50).comparisonValue ∧
    (_processType sampleConfig 1000
      (ems_parseTelegram_frame [0x0B, 0x0B, 0x33, 0x02, 0x32, 0x12] 6 1000)
      (sampleWaiting 0x00 [sampleValidate 0x33 0x08 2 50])).EMS_TxQueue
      = [sampleValidate 0x33 0x08 2 50] ∧
    (_processType sampleConfig 1000
      (ems_parseTelegram_frame [0x0B, 0x0B, 0x33, 0x02, 0x32, 0x12] 6 1000)
      (sampleWaiting 0x00 [sampleValidate 0x33 0x08 2 50])).EMS_Sys_Status.emsTxStatus
      = EMS_TX_STATUS_WAIT ∧
    (_processType sampleConfig 1000
      (ems_parseTelegram_frame [0x0B, 0x0B, 0x33, 0x02, 0x32, 0x12] 6 1000)
      (sampleWaiting 0x00 [sampleValidate 0x33 0x08 2 50])).uart_tx = [] := by
  decide

/-- C22 (amended): when Tx status is `EMS_TX_STATUS_WAIT`, the head `t` of a
queue within its capacity is a Validate entry, and a telegram addressed to us
arrives whose source is not our own address and whose byte at raw index 4
equals the comparison value of `t`, `_processType` removes the head, sets Tx
status idle, transmits one poll-acknowledge and, provided the
comparisonPostRead and the dest of `t` are not the none sentinel and Tx is not
disabled, appends at the tail of the queue exactly one Read entry with type
the comparisonPostRead of `t`, the dest of `t`, offset 0 and forceRefresh set;
otherwise nothing is appended. -/
theorem C22_validate_success_amended (cfg : Config) (now : Nat) (rx : _EMS_RxTelegram)
    (s : State) (t : _EMS_TxTelegram) (rest : List _EMS_TxTelegram)
    (hwait : s.EMS_Sys_Status.emsTxStatus = EMS_TX_STATUS_WAIT)
    (hq : s.EMS_TxQueue = t :: rest) (hact : t.action = EMS_TX_TELEGRAM_VALIDATE)
    (hme : rx.telegram.getD 1 0 &&& 0x7F = 0x0B)
    (hsrc : rx.src ≠ 0x0B)
    (heq : rx.telegram.getD 4 0 = t.comparisonValue)
    (hcap : s.EMS_TxQueue.length ≤ cfg.EMS_TX_TELEGRAM_QUEUE_MAX) :
    (_processType cfg now rx s).EMS_Sys_Status.emsTxStatus = EMS_TX_STATUS_IDLE ∧
    (_processType cfg now rx s).uart_tx = s.uart_tx ++ [[s.EMS_Sys_Status.emsPollAck]] ∧
    (t.comparisonPostRead ≠ 0x00 ∧ t.dest ≠ 0x00 ∧ s.EMS_Sys_Status.emsTxDisabled = false →
      ∃ e : _EMS_TxTelegram,
        (_processType cfg now rx s).EMS_TxQueue = rest ++ [e] ∧
        e.action = EMS_TX_TELEGRAM_READ ∧ e.type = t.comparisonPostRead ∧ e.dest = t.dest ∧
        e.offset = 0 ∧ e.forceRefresh = true) ∧
    (¬ (t.comparisonPostRead ≠ 0x00 ∧ t.dest ≠ 0x00 ∧
        s.EMS_Sys_Status.emsTxDisabled = false) →
      (_processType cfg now rx s).EMS_TxQueue = rest) := by
  have hnidle : s.EMS_Sys_Status.emsTxStatus ≠ EMS_TX_STATUS_IDLE := by rw [hwait]; decide
  have hroom : rest.length < cfg.EMS_TX_TELEGRAM_QUEUE_MAX := by
    rw [hq, List.length_cons] at hcap
    omega
  rw [_processType_validate cfg now rx s t rest hsrc hnidle hme hq hact, if_pos heq.symm,
    ems_tx_pollAck_eq]
  unfold ems_doReadCommand
  by_cases hgo : t.comparisonPostRead ≠ 0x00 ∧ t.dest ≠ 0x00 ∧
      s.EMS_Sys_Status.emsTxDisabled = false
  · have h1 : ¬ (t.comparisonPostRead = EMS_ID_NONE ∨ t.dest = EMS_ID_NONE) := by
      intro h
      rcases h with h | h
      · exact hgo.1 h
      · exact hgo.2.1 h
    have h2 : ¬ (({ s with
        EMS_TxQueue := rest
        EMS_Sys_Status.emsTxStatus := EMS_TX_STATUS_IDLE } : State).EMS_Sys_Status.emsTxDisabled
        = true) := by
      show ¬ (s.EMS_Sys_Status.emsTxDisabled = true)
      rw [hgo.2.2]
      decide
    rw [if_neg h1, if_neg h2]
    have hpush : ∀ e : _EMS_TxTelegram, CircularBuffer_push cfg rest e = rest ++ [e] := by
      intro e
      unfold CircularBuffer_push
      rw [if_pos hroom]
    exact ⟨rfl, rfl, fun _ => ⟨_, hpush _, rfl, rfl, rfl, rfl, rfl⟩, fun h => absurd hgo h⟩
  · by_cases h1 : t.comparisonPostRead = EMS_ID_NONE ∨ t.dest = EMS_ID_NONE
    · rw [if_pos h1]
      exact ⟨rfl, rfl, fun h => absurd h hgo, fun _ => rfl⟩
    · have h2 : ({ s with
          EMS_TxQueue := rest
          EMS_Sys_Status.emsTxStatus := EMS_TX_STATUS_IDLE } : State).EMS_Sys_Status.emsTxDisabled
          = true := by
        show s.EMS_Sys_Status.emsTxDisabled = true
        cases hd : s.EMS_Sys_Status.emsTxDisabled
        · exact absurd ⟨fun h => h1 (Or.inl h), fun h => h1 (Or.inr h), hd⟩ hgo
        · rfl
      rw [if_neg h1, if_pos h2]
      exact ⟨rfl, rfl, fun h => absurd h hgo, fun _ => rfl⟩

/-- C22 (amended) at the state `sampleWaiting 0x00` with the Validate entry
`sampleValidate 0x33 0x08 2 50` and a Read entry queued, and the reply
`08 0B 33 02 32 22` of the boiler. -/
theorem C22_validate_success_amended_witness :
    (_processType sampleConfig 1000
      (ems_parseTelegram_frame [0x08, 0x0B, 0x33, 0x02, 0x32, 0x22] 6 1000)
      (sampleWaiting 0x00 [sampleValidate 0x33 0x08 2 50,
        sampleEntry EMS_TX_TELEGRAM_READ 0x19 0x08 32])).EMS_Sys_Status.emsTxStatus
      = EMS_TX_STATUS_IDLE ∧
    (_processType sampleConfig 1000
      (ems_parseTelegram_frame [0x08, 0x0B, 0x33, 0x02, 0x32, 0x22] 6 1000)
      (sampleWaiting 0x00 [sampleValidate 0x33 0x08 2 50,
        sampleEntry EMS_TX_TELEGRAM_READ 0x19 0x08 32])).uart_tx = [] ++ [[0x0B]] ∧
    ∃ e : _EMS_TxTelegram,
      (_processType sampleConfig 1000
        (ems_parseTelegram_frame [0x08, 0x0B, 0x33, 0x02, 0x32, 0x22] 6 1000)
        (sampleWaiting 0x00 [sampleValidate 0x33 0x08 2 50,
          sampleEntry EMS_TX_TELEGRAM_READ 0x19 0x08 32])).EMS_TxQueue
        = [sampleEntry EMS_TX_TELEGRAM_READ 0x19 0x08 32] ++ [e] ∧
      e.action = EMS_TX_TELEGRAM_READ ∧ e.type = 0x33 ∧ e.dest = 0x08 ∧
      e.offset = 0 ∧ e.forceRefresh = true :=
  (fun h => ⟨h.1, h.2.1, h.2.2.1 ⟨by decide, by decide, rfl⟩⟩)
    (C22_validate_success_amended sampleConfig 1000
      (ems_parseTelegram_frame [0x08, 0x0B, 0x33, 0x02, 0x32, 0x22] 6 1000)
      (sampleWaiting 0x00 [sampleValidate 0x33 0x08 2 50,
        sampleEntry EMS_TX_TELEGRAM_READ 0x19 0x08 32])
      (sampleValidate 0x33 0x08 2 50) [sampleEntry EMS_TX_TELEGRAM_READ 0x19 0x08 32]
      rfl rfl rfl (by decide) (by decide) (by decide) (by decide))

/-- C23 (as stated it fails): with Tx status `EMS_TX_STATUS_WAIT`, the retry
counter at 0 and the Validate entry `sampleValidate 0x33 0x08 2 50` at the head
of the queue, the CRC-valid telegram `0B 0B 33 02 31 11`, addressed to us,
whose byte at index 4 is 49 and not the comparison value 50, is taken for an
echo: `_processType` leaves the retry counter at 0 and the Validate entry at
the head. -/
theorem C23_validate_mismatch_from_own_address_ignored :
    [0x0B, 0x0B, 0x33, 0x02, 0x31, 0x11].getD (6 - 1) 0
      = _crcCalculator [0x0B, 0x0B, 0x33, 0x02, 0x31, 0x11] 6 ∧
    [0x0B, 0x0B, 0x33, 0x02, 0x31, 0x11].getD 1 0 &&& 0x7F = EMS_ID_ME ∧
    [0x0B, 0x0B, 0x33, 0x02, 0x31, 0x11].getD 4 0
      ≠ (sampleValidate 0x33 0x08 2 50).comparisonValue ∧
    (sampleWaiting 0x00 [sampleValidate 0x33 0x08 2 50]).EMS_Sys_Status.txRetryCount = 0 ∧
    (_processType sampleConfig 1000
      (ems_parseTelegram_frame [0x0B, 0x0B, 0x33, 0x02, 0x31, 0x11] 6 1000)
      (sampleWaiting 0x00 [sampleValidate 0x33 0x08 2 50])).EMS_Sys_Status.txRetryCount = 0 ∧
    (_processType sampleConfig 1000
      (ems_parseTelegram_frame [0x0B, 0x0B, 0x33, 0x02, 0x31, 0x11] 6 1000)
      (sampleWaiting 0x00 [sampleValidate 0x33 0x08 2 50])).EMS_TxQueue
      = [sampleValidate 0x33 0x08 2 50] := by
  decide

/-- C23 (amended): when Tx status is `EMS_TX_STATUS_WAIT`, the head `t` of a
queue within its capacity is a Validate entry, and a telegram addressed to us
arrives whose source is not our own address and whose byte at raw index 4
differs from the comparison value of `t`, `_processType` increments the retry
counter by one; if the incremented counter exceeds 2 the head is removed;
otherwise the head is replaced in place, the rest of the queue staying, by `t`
turned into a Write with dataValue its comparisonValue and offset its
comparisonOffset. -/
theorem C23_validate_failure_amended (cfg : Config) (now : Nat) (rx : _EMS_RxTelegram)
    (s : State) (t : _EMS_TxTelegram) (rest : List _EMS_TxTelegram)
    (hwait : s.EMS_Sys_Status.emsTxStatus = EMS_TX_STATUS_WAIT)
    (hq : s.EMS_TxQueue = t :: rest) (hact : t.action = EMS_TX_TELEGRAM_VALIDATE)
    (hme : rx.telegram.getD 1 0 &&& 0x7F = 0x0B)
    (hsrc : rx.src ≠ 0x0B)
    (hne : rx.telegram.getD 4 0 ≠ t.comparisonValue)
    (hcap : s.EMS_TxQueue.length ≤ cfg.EMS_TX_TELEGRAM_QUEUE_MAX) :
    (_processType cfg now rx s).EMS_Sys_Status.txRetryCount
      = s.EMS_Sys_Status.txRetryCount + 1 ∧
    (s.EMS_Sys_Status.txRetryCount + 1 > 2 → (_processType cfg now rx s).EMS_TxQueue = rest) ∧
    (¬ s.EMS_Sys_Status.txRetryCount + 1 > 2 →
      (_processType cfg now rx s).EMS_TxQueue
        = { t with
            action := EMS_TX_TELEGRAM_WRITE
            dataValue := t.comparisonValue
            offset := t.comparisonOffset } :: rest ∧
      (_processType cfg now rx s).EMS_TxQueue.length = s.EMS_TxQueue.length) := by
  have hnidle : s.EMS_Sys_Status.emsTxStatus ≠ EMS_TX_STATUS_IDLE := by rw [hwait]; decide
  have hroom : rest.length < cfg.EMS_TX_TELEGRAM_QUEUE_MAX := by
    rw [hq, List.length_cons] at hcap
    omega
  have hne' : ¬ t.comparisonValue = rx.telegram.getD 4 0 := fun h => hne h.symm
  rw [_processType_validate cfg now rx s t rest hsrc hnidle hme hq hact, if_neg hne',
    ems_tx_pollAck_eq]
  by_cases hgt : s.EMS_Sys_Status.txRetryCount + 1 > 2
  · rw [if_pos (show s.EMS_Sys_Status.txRetryCount + 1 > TX_WRITE_TIMEOUT_COUNT from hgt)]
    exact ⟨rfl, fun _ => rfl, fun h => absurd hgt h⟩
  · rw [if_neg (show ¬ s.EMS_Sys_Status.txRetryCount + 1 > TX_WRITE_TIMEOUT_COUNT from hgt)]
    have hun : ∀ e : _EMS_TxTelegram, CircularBuffer_unshift cfg rest e = e :: rest := by
      intro e
      unfold CircularBuffer_unshift
      rw [if_pos hroom]
    refine ⟨rfl, fun h => absurd h hgt, fun _ => ⟨hun _, ?_⟩⟩
    show (CircularBuffer_unshift cfg rest _).length = _
    rw [hun, hq, List.length_cons, List.length_cons]

/-- C23 (amended) at the state `sampleWaiting 0x00` with the Validate entry
`sampleValidate 0x33 0x08 2 50` and a Read entry queued, the retry counter at
0, and the reply `08 0B 33 02 31 21` of the boiler with the value 49. -/
theorem C23_validate_failure_amended_witness :
    (_processType sampleConfig 1000
      (ems_parseTelegram_frame [0x08, 0x0B, 0x33, 0x02, 0x31, 0x21] 6 1000)
      (sampleWaiting 0x00 [sampleValidate 0x33 0x08 2 50,
        sampleEntry EMS_TX_TELEGRAM_READ 0x19 0x08 32])).EMS_Sys_Status.txRetryCount
      = 0 + 1 ∧
    (_processType sampleConfig 1000
      (ems_parseTelegram_frame [0x08, 0x0B, 0x33, 0x02, 0x31, 0x21] 6 1000)
      (sampleWaiting 0x00 [sampleValidate 0x33 0x08 2 50,
        sampleEntry EMS_TX_TELEGRAM_READ 0x19 0x08 32])).EMS_TxQueue
      = [{ sampleValidate 0x33 0x08 2 50 with
            action := EMS_TX_TELEGRAM_WRITE, dataValue := 50, offset := 2 },
         sampleEntry EMS_TX_TELEGRAM_READ 0x19 0x08 32] :=
  (fun h => ⟨h.1, (h.2.2 (by decide)).1⟩)
    (C23_validate_failure_amended sampleConfig 1000
      (ems_parseTelegram_frame [0x08, 0x0B, 0x33, 0x02, 0x31, 0x21] 6 1000)
      (sampleWaiting 0x00 [sampleValidate 0x33 0x08 2 50,
        sampleEntry EMS_TX_TELEGRAM_READ 0x19 0x08 32])
      (sampleValidate 0x33 0x08 2 50) [sampleEntry EMS_TX_TELEGRAM_READ 0x19 0x08 32]
      rfl rfl rfl (by decide) (by decide) (by decide) (by decide))

/-! ## A transport failure while sending -/

/-- Appending a buffer changes the list of transmitted buffers. -/
theorem append_singleton_ne {α : Type} (l : List α) (x : α) : l ++ [x] ≠ l := by
  intro h
  have := congrArg List.length h
  rw [List.length_append, List.length_singleton] at this
  omega

/-- C24: with a Read, Write or Validate entry at the head of the queue and a
transport that reports `EMS_TX_BRK_DETECT` or `EMS_TX_WTD_TIMEOUT`,
`_ems_sendTelegram` sends (something is transmitted) exactly if Tx is enabled
and the destination of the entry is not `0x00`; and when it sends, Tx status
is idle afterwards, the Tx queue is unchanged, with the entry still at the
head, and the retry counter is unchanged. -/
theorem C24_transport_failure (txStatus : _EMS_TX_STATUS) (s : State) (t : _EMS_TxTelegram)
    (rest : List _EMS_TxTelegram)
    (hq : s.EMS_TxQueue = t :: rest)
    (hact : t.action = EMS_TX_TELEGRAM_READ ∨ t.action = EMS_TX_TELEGRAM_WRITE ∨
      t.action = EMS_TX_TELEGRAM_VALIDATE)
    (hfail : txStatus = EMS_TX_BRK_DETECT ∨ txStatus = EMS_TX_WTD_TIMEOUT) :
    ((_ems_sendTelegram txStatus s).uart_tx ≠ s.uart_tx ↔
      (s.EMS_Sys_Status.emsTxDisabled = false ∧ t.dest ≠ 0x00)) ∧
    ((_ems_sendTelegram txStatus s).uart_tx ≠ s.uart_tx →
      (_ems_sendTelegram txStatus s).EMS_Sys_Status.emsTxStatus = EMS_TX_STATUS_IDLE ∧
      (_ems_sendTelegram txStatus s).EMS_TxQueue = t :: rest ∧
      (_ems_sendTelegram txStatus s).EMS_TxQueue = s.EMS_TxQueue ∧
      (_ems_sendTelegram txStatus s).EMS_Sys_Status.txRetryCount
        = s.EMS_Sys_Status.txRetryCount) := by
  have hraw : t.action ≠ EMS_TX_TELEGRAM_RAW := by
    rcases hact with h | h | h <;> rw [h] <;> decide
  have hnok : ¬ (txStatus = EMS_TX_STATUS_OK ∨ txStatus = EMS_TX_STATUS_IDLE) := by
    rcases hfail with h | h <;> rw [h] <;> decide
  unfold _ems_sendTelegram
  rw [hq]
  dsimp only
  by_cases hdis : s.EMS_Sys_Status.emsTxDisabled = true
  · rw [if_pos hdis]
    refine ⟨⟨fun h => absurd rfl h, fun h => ?_⟩, fun h => absurd rfl h⟩
    rw [h.1] at hdis
    exact absurd hdis (by decide)
  · rw [if_neg hdis]
    have hen : s.EMS_Sys_Status.emsTxDisabled = false := by
      cases hd : s.EMS_Sys_Status.emsTxDisabled
      · rfl
      · exact absurd hd hdis
    by_cases hdest : t.dest = EMS_ID_NONE
    · rw [if_pos hdest]
      exact ⟨⟨fun h => absurd rfl h, fun h => absurd hdest h.2⟩, fun h => absurd rfl h⟩
    · rw [if_neg hdest, if_neg hraw, if_neg hnok]
      exact ⟨⟨fun _ => ⟨hen, hdest⟩, fun _ => append_singleton_ne _ _⟩,
        fun _ => ⟨rfl, hq, hq, rfl⟩⟩

/-- C24 at the state `sampleQueued 0x00` with a Read entry for the boiler
queued and a transport that reports a break. -/
theorem C24_transport_failure_witness :
    (_ems_sendTelegram EMS_TX_BRK_DETECT
      (sampleQueued 0x00 (sampleEntry EMS_TX_TELEGRAM_READ 0x18 0x08 32))).uart_tx
      = [[0x0B, 0x88, 0x18, 0x00, 0x20, 0xD4]] ∧
    (_ems_sendTelegram EMS_TX_BRK_DETECT
      (sampleQueued 0x00
        (sampleEntry EMS_TX_TELEGRAM_READ 0x18 0x08 32))).EMS_Sys_Status.emsTxStatus
      = EMS_TX_STATUS_IDLE ∧
    (_ems_sendTelegram EMS_TX_BRK_DETECT
      (sampleQueued 0x00 (sampleEntry EMS_TX_TELEGRAM_READ 0x18 0x08 32))).EMS_TxQueue
      = [sampleEntry EMS_TX_TELEGRAM_READ 0x18 0x08 32] ∧
    (_ems_sendTelegram EMS_TX_BRK_DETECT
      (sampleQueued 0x00
        (sampleEntry EMS_TX_TELEGRAM_READ 0x18 0x08 32))).EMS_Sys_Status.txRetryCount = 0 :=
  (fun h => ⟨by decide, (h.2 (h.1.mpr ⟨rfl, by decide⟩)).1, (h.2 (h.1.mpr ⟨rfl, by decide⟩)).2.1,
      (h.2 (h.1.mpr ⟨rfl, by decide⟩)).2.2.2⟩)
    (C24_transport_failure EMS_TX_BRK_DETECT
      (sampleQueued 0x00 (sampleEntry EMS_TX_TELEGRAM_READ 0x18 0x08 32))
      (sampleEntry EMS_TX_TELEGRAM_READ 0x18 0x08 32) [] rfl (Or.inl rfl) (Or.inl rfl))

/-! ## Tx status when `ems_parseTelegram` returns -/

/-- The source the framing step yields is byte 0 without bit 7, and the raw
bytes are kept, whatever the format. -/
theorem frame_src_telegram (telegram : List Nat) (length now : Nat) :
    (ems_parseTelegram_frame telegram length now).src = telegram.getD 0 0 &&& 0x7F ∧
    (ems_parseTelegram_frame telegram length now).telegram = telegram := by
  unfold ems_parseTelegram_frame
  split_ifs <;> exact ⟨rfl, rfl⟩

/-- For a telegram that is not an echo of our own address `_processType` ends
with Tx status idle, whatever the Tx status was. -/
theorem _processType_txStatus (cfg : Config) (now : Nat) (rx : _EMS_RxTelegram) (s : State)
    (hsrc : rx.src ≠ EMS_ID_ME) :
    (_processType cfg now rx s).EMS_Sys_Status.emsTxStatus = EMS_TX_STATUS_IDLE := by
  by_cases hidle : s.EMS_Sys_Status.emsTxStatus = EMS_TX_STATUS_IDLE
  · rw [_processType_idle cfg now rx s hidle, if_neg hsrc]
    exact (_ems_processTelegram_bus_from cfg now rx s s hidle rfl rfl).1
  by_cases hdest : rx.telegram.getD 1 0 &&& 0x7F = EMS_ID_ME
  swap
  · rw [_processType_stray cfg now rx s hsrc hidle hdest]
    exact (_ems_processTelegram_bus_from cfg now rx s
      (_removeTxQueue { s with EMS_Sys_Status.emsTxStatus := EMS_TX_STATUS_IDLE })
      rfl rfl rfl).1
  cases hq : s.EMS_TxQueue with
  | nil =>
    rw [_processType_empty cfg now rx s hsrc hidle hdest hq]
    exact (_ems_processTelegram_bus_from cfg now rx s
      { s with EMS_Sys_Status.emsTxStatus := EMS_TX_STATUS_IDLE } rfl rfl rfl).1
  | cons t rest =>
    by_cases hread : t.action = EMS_TX_TELEGRAM_READ
    · rw [_processType_read cfg now rx s t rest hsrc hidle hdest hq hread]
      generalize hs3 : (if (rx.src &&& 0x7F) = (t.dest &&& 0x7F) ∧ rx.type = t.type then
          ems_setEmsRefreshed t.forceRefresh
            { s with
              EMS_TxQueue := rest
              EMS_Sys_Status.emsTxStatus := EMS_TX_STATUS_IDLE
              EMS_Sys_Status.emsRxPgks := (s.EMS_Sys_Status.emsRxPgks + 1) % 2 ^ 16 }
        else if rx.data_length = 0 then
          { s with EMS_TxQueue := rest, EMS_Sys_Status.emsTxStatus := EMS_TX_STATUS_IDLE }
        else if s.EMS_Sys_Status.txRetryCount + 1 ≥ TX_WRITE_TIMEOUT_COUNT then
          { s with
            EMS_TxQueue := rest
            EMS_Sys_Status.emsTxStatus := EMS_TX_STATUS_IDLE
            EMS_Sys_Status.txRetryCount := s.EMS_Sys_Status.txRetryCount + 1 }
        else
          { s with
            EMS_Sys_Status.emsTxStatus := EMS_TX_STATUS_IDLE
            EMS_Sys_Status.txRetryCount := s.EMS_Sys_Status.txRetryCount + 1 }) = s3
      have h3 : s3.EMS_Sys_Status.emsTxStatus = EMS_TX_STATUS_IDLE ∧
          s3.EMS_Sys_Status.emsIDMask = s.EMS_Sys_Status.emsIDMask ∧
          s3.EMS_Sys_Status.emsPollAck = s.EMS_Sys_Status.emsPollAck := by
        rw [← hs3]
        split_ifs <;> exact ⟨rfl, rfl, rfl⟩
      exact (_ems_processTelegram_bus_from cfg now rx s s3 h3.1 h3.2.1 h3.2.2).1
    · by_cases hval : t.action = EMS_TX_TELEGRAM_VALIDATE
      · rw [_processType_validate cfg now rx s t rest hsrc hidle hdest hq hval]
        split_ifs
        · simp only [ems_tx_pollAck_eq, ems_doReadCommand_frame]
        · rfl
        · rfl
      · rw [_processType_other cfg now rx s t rest hsrc hidle hdest hq hread hval]
        rfl

/-- C26: for every telegram of at least five bytes whose last byte is its CRC
and whose source (`byte0 & 0x7F`) is not our address `0x0B`, received with Rx
status idle and from any Tx status, Tx status is idle when `ems_parseTelegram`
returns. -/
theorem C26_tx_idle_at_return (cfg : Config) (env : Env) (telegram : List Nat) (length : Nat)
    (s : State)
    (hrx : s.EMS_Sys_Status.emsRxStatus = EMS_RX_STATUS_IDLE)
    (hL : 5 ≤ length)
    (hcrc : telegram.getD (length - 1) 0 = _crcCalculator telegram length)
    (hsrc : telegram.getD 0 0 &&& 0x7F ≠ 0x0B) :
    (ems_parseTelegram cfg env telegram length s).EMS_Sys_Status.emsTxStatus
      = EMS_TX_STATUS_IDLE := by
  have hecho : (ems_parseTelegram_frame telegram length env.millis).src ≠ EMS_ID_ME := by
    rw [(frame_src_telegram telegram length env.millis).1]
    exact hsrc
  by_cases hrev : s.EMS_Sys_Status.emsTxStatus = EMS_TX_REV_DETECT
  · rw [ems_parseTelegram_detect cfg env telegram length s hrev hL hcrc,
      if_neg (not_not.mpr hrx)]
    exact _processType_txStatus cfg env.millis _ _ hecho
  · rw [ems_parseTelegram_detected cfg env telegram length s hrev, if_neg (not_not.mpr hrx),
      if_neg (by omega), if_neg (by omega), if_neg (not_not.mpr hcrc)]
    exact _processType_txStatus cfg env.millis _ _ hecho

/-- C26 at the state `sampleWaiting 0x00` with a Read entry queued and the
telegram `08 0B 19 00 5E` of the boiler, which has no payload. -/
theorem C26_tx_idle_at_return_witness :
    (ems_parseTelegram sampleConfig sampleEnv [0x08, 0x0B, 0x19, 0x00, 0x5E] 5
      (sampleWaiting 0x00
        [sampleEntry EMS_TX_TELEGRAM_READ 0x18 0x08 32])).EMS_Sys_Status.emsTxStatus
      = EMS_TX_STATUS_IDLE :=
  C26_tx_idle_at_return sampleConfig sampleEnv [0x08, 0x0B, 0x19, 0x00, 0x5E] 5
    (sampleWaiting 0x00 [sampleEntry EMS_TX_TELEGRAM_READ 0x18 0x08 32])
    rfl (by decide) (by decide) (by decide)

/-! ## The dispatch rule -/

/-- The entry at the index the search loop finds is the first entry that
satisfies the test, the one `List.find?` returns. -/
theorem findFirst_find? {α : Type} (p : α → Bool) (l : List α) (i0 : Nat) :
    (findFirst p l i0).bind (fun i => l.get? (i - i0)) = l.find? p := by
  induction l generalizing i0 with
  | nil => rfl
  | cons x xs ih =>
    unfold findFirst
    by_cases hp : p x = true
    · rw [if_pos hp, List.find?_cons_of_pos _ hp]
      simp
    · rw [if_neg hp, List.find?_cons_of_neg _ hp, ← ih (i0 + 1)]
      cases hf : findFirst p xs (i0 + 1) with
      | none => rfl
      | some i =>
        obtain ⟨hle, _⟩ := findFirst_some p xs (i0 + 1) i hf
        have : i - i0 = (i - (i0 + 1)) + 1 := by omega
        show (x :: xs).get? (i - i0) = xs.get? (i - (i0 + 1))
        rw [this]
        rfl

/-- C25: `_ems_processTelegram` follows the dispatch rule: when the rule
selects a handler (non-empty payload, destination `0x00` or `0x0B`, the first
entry of `EMS_Types` with the type of the telegram has a handler, and the
telegram is EMS-plus or its offset is 0) the result is that handler applied to
the telegram, followed by Tx status idle; in every other case no handler is
applied: the result is the state itself, but for Tx status idle when the
payload is not empty, so that no device-state record and nothing of the
detected-device list is changed. -/
theorem C25_dispatch_rule (cfg : Config) (now : Nat) (rx : _EMS_RxTelegram) (s : State) :
    (∀ cb, dispatch_rule cfg now rx = some cb →
      _ems_processTelegram cfg now rx s
        = { cb rx s with EMS_Sys_Status.emsTxStatus := EMS_TX_STATUS_IDLE }) ∧
    (dispatch_rule cfg now rx = none →
      _ems_processTelegram cfg now rx s
        = (if rx.data_length = 0 then s
            else { s with EMS_Sys_Status.emsTxStatus := EMS_TX_STATUS_IDLE }) ∧
      (_ems_processTelegram cfg now rx s).EMS_Boiler = s.EMS_Boiler ∧
      (_ems_processTelegram cfg now rx s).EMS_Thermostat = s.EMS_Thermostat ∧
      (_ems_processTelegram cfg now rx s).EMS_SolarModule = s.EMS_SolarModule ∧
      (_ems_processTelegram cfg now rx s).EMS_HeatPump = s.EMS_HeatPump ∧
      (_ems_processTelegram cfg now rx s).Devices = s.Devices) := by
  unfold _ems_processTelegram dispatch_rule
  by_cases hlen : rx.data_length = 0
  · rw [if_pos hlen, if_neg (fun h => h.1 hlen)]
    exact ⟨(by intro cb h; cases h), fun _ => ⟨(if_pos hlen).symm, rfl, rfl, rfl, rfl, rfl⟩⟩
  rw [if_neg hlen, if_neg hlen]
  dsimp only
  by_cases hdest : rx.dest = 0x00 ∨ rx.dest = 0x0B
  · have hpred : (fun (e : _EMS_Type) =>
          e.type == rx.type && (rx.dest == EMS_ID_NONE || rx.dest == EMS_ID_ME))
        = (fun (e : _EMS_Type) => e.type == rx.type) := by
      funext e
      have : (rx.dest == EMS_ID_NONE || rx.dest == EMS_ID_ME) = true := by
        rcases hdest with h | h
        · rw [h]; rfl
        · rw [h]; rfl
      rw [this, Bool.and_true]
    rw [hpred, if_pos ⟨hlen, hdest⟩]
    have hfind := findFirst_find? (fun (e : _EMS_Type) => e.type == rx.type) (EMS_Types cfg now) 0
    cases hf : findFirst (fun (e : _EMS_Type) => e.type == rx.type) (EMS_Types cfg now) 0 with
    | none =>
      rw [hf] at hfind
      rw [← hfind]
      dsimp only [Option.bind]
      exact ⟨(by intro cb h; cases h), fun _ => ⟨rfl, rfl, rfl, rfl, rfl, rfl⟩⟩
    | some i =>
      rw [hf] at hfind
      obtain ⟨_, e, hget, _⟩ := findFirst_some _ _ _ _ hf
      rw [Nat.sub_zero] at hget
      have hfe : List.find? (fun (e : _EMS_Type) => e.type == rx.type) (EMS_Types cfg now)
          = some e := by
        rw [← hfind]
        show (EMS_Types cfg now).get? (i - 0) = some e
        rw [Nat.sub_zero]
        exact hget
      dsimp only
      rw [hfe, hget]
      obtain ⟨m, ty, l, cbo⟩ := e
      cases cbo with
      | none =>
        exact ⟨(by intro cb h; cases h), fun _ => ⟨rfl, rfl, rfl, rfl, rfl, rfl⟩⟩
      | some cb0 =>
        dsimp only
        by_cases hplus : rx.emsplus = true
        · rw [if_pos hplus, if_pos (Or.inl hplus)]
          refine ⟨fun cb h => ?_, (by intro h; cases h)⟩
          injection h with h
          rw [h]
        · rw [if_neg hplus]
          by_cases hoff : rx.offset = 0
          · rw [if_pos (show rx.offset = EMS_ID_NONE from hoff), if_pos (Or.inr hoff)]
            refine ⟨fun cb h => ?_, (by intro h; cases h)⟩
            injection h with h
            rw [h]
          · rw [if_neg (show ¬ rx.offset = EMS_ID_NONE from hoff),
              if_neg (fun h => h.elim hplus hoff)]
            exact ⟨(by intro cb h; cases h), fun _ => ⟨rfl, rfl, rfl, rfl, rfl, rfl⟩⟩
  · have hpred : ∀ e : _EMS_Type,
        (e.type == rx.type && (rx.dest == EMS_ID_NONE || rx.dest == EMS_ID_ME)) = false := by
      intro e
      have h1 : (rx.dest == EMS_ID_NONE) = false := by
        rw [beq_eq_false_iff_ne]
        exact fun h => hdest (Or.inl h)
      have h2 : (rx.dest == EMS_ID_ME) = false := by
        rw [beq_eq_false_iff_ne]
        exact fun h => hdest (Or.inr h)
      rw [h1, h2]
      simp only [Bool.or_self, Bool.and_false]
    rw [findFirst_false _ _ _ hpred, if_neg (fun h => hdest h.2)]
    exact ⟨(by intro cb h; cases h), fun _ => ⟨rfl, rfl, rfl, rfl, rfl, rfl⟩⟩

/-- C25 at the broadcast `08 00 18 00 05 01 D2` of the boiler: the rule selects
the handler of the entry UBAMonitorFast, and `_ems_processTelegram` applies
it. -/
theorem C25_dispatch_rule_witness :
    _ems_processTelegram sampleConfig 1000
      (ems_parseTelegram_frame [0x08, 0x00, 0x18, 0x00, 0x05, 0x01, 0xD2] 7 1000) sampleState
      = { _process_UBAMonitorFast sampleConfig
            (ems_parseTelegram_frame [0x08, 0x00, 0x18, 0x00, 0x05, 0x01, 0xD2] 7 1000)
            sampleState with
          EMS_Sys_Status.emsTxStatus := EMS_TX_STATUS_IDLE } :=
  (C25_dispatch_rule sampleConfig 1000
    (ems_parseTelegram_frame [0x08, 0x00, 0x18, 0x00, 0x05, 0x01, 0xD2] 7 1000) sampleState).1
    (_process_UBAMonitorFast sampleConfig) rfl

/-! ## The decoder of UBAMonitorFast -/

/-- The accessor `_toShort` puts the byte at `i` above the byte at `i + 1`. -/
theorem _toShort_eq (rx : _EMS_RxTelegram) (i : Nat) :
    _toShort rx i = _toByte rx i * 256 + _toByte rx (i + 1) := by
  unfold _toShort
  rw [Nat.shiftLeft_eq]

/-- The accessor `_bitRead` yields the binary digit `bit` of the byte at `i`. -/
theorem _bitRead_eq (rx : _EMS_RxTelegram) (i bit : Nat) :
    _bitRead rx i bit = _toByte rx i / 2 ^ bit % 2 := by
  unfold _bitRead
  rw [Nat.shiftRight_eq_div_pow, Nat.and_one_is_mod]

/-- Within the payload the accessor `_toByte` yields the payload byte. -/
theorem _toByte_payload (rx : _EMS_RxTelegram) (p : List Nat)
    (hp : (rx.telegram.drop rx.data).take rx.data_length = p) (i : Nat) (hi : i < p.length) :
    _toByte rx i = p[i] := by
  subst hp
  unfold _toByte
  rw [List.getElem_take, List.getElem_drop]
  have h1 : i < rx.telegram.length - rx.data := by
    rw [List.length_take, List.length_drop] at hi
    omega
  rw [List.getD_eq_getElem _ _ (by omega)]

/-- The function `_checkActive` writes the two derived fields only. -/
theorem _checkActive_frame (cfg : Config) (s : State) :
    _checkActive cfg s = { s with
      EMS_Boiler.tapwaterActive := (_checkActive cfg s).EMS_Boiler.tapwaterActive
      EMS_Boiler.heatingActive := (_checkActive cfg s).EMS_Boiler.heatingActive } := by
  unfold _checkActive
  dsimp only
  split_ifs <;> rfl

/-- C27: for every telegram record whose payload `p` has at least 22 bytes,
`_process_UBAMonitorFast` stores selFlowTemp = `p[0]`, curFlowTemp =
`p[1]*256 + p[2]`, selBurnPow = `p[3]`, curBurnPow = `p[4]`, burnGas, fanWork,
ignWork, heatPmp, wWHeat and wWCirc = the binary digits 0, 2, 3, 5, 6 and 7 of
`p[7]`, retTemp = `p[13]*256 + p[14]`, flameCurr = `p[15]*256 + p[16]`,
sysPress = `p[17]`, the two service-code characters = `p[18]`, `p[19]`
(followed by the terminating zero) and serviceCode = `p[20]*256 + p[21]`, and
leaves the thermostat, solar-module and heat-pump records as they are. -/
theorem C27_UBAMonitorFast_field_map (cfg : Config) (rx : _EMS_RxTelegram) (s : State)
    (p : List Nat) (hp : (rx.telegram.drop rx.data).take rx.data_length = p)
    (hlen : 22 ≤ p.length) :
    (_process_UBAMonitorFast cfg rx s).EMS_Boiler.selFlowTemp = p[0] ∧
    (_process_UBAMonitorFast cfg rx s).EMS_Boiler.curFlowTemp = p[1] * 256 + p[2] ∧
    (_process_UBAMonitorFast cfg rx s).EMS_Boiler.selBurnPow = p[3] ∧
    (_process_UBAMonitorFast cfg rx s).EMS_Boiler.curBurnPow = p[4] ∧
    (_process_UBAMonitorFast cfg rx s).EMS_Boiler.burnGas = p[7] / 2 ^ 0 % 2 ∧
    (_process_UBAMonitorFast cfg rx s).EMS_Boiler.fanWork = p[7] / 2 ^ 2 % 2 ∧
    (_process_UBAMonitorFast cfg rx s).EMS_Boiler.ignWork = p[7] / 2 ^ 3 % 2 ∧
    (_process_UBAMonitorFast cfg rx s).EMS_Boiler.heatPmp = p[7] / 2 ^ 5 % 2 ∧
    (_process_UBAMonitorFast cfg rx s).EMS_Boiler.wWHeat = p[7] / 2 ^ 6 % 2 ∧
    (_process_UBAMonitorFast cfg rx s).EMS_Boiler.wWCirc = p[7] / 2 ^ 7 % 2 ∧
    (_process_UBAMonitorFast cfg rx s).EMS_Boiler.retTemp = p[13] * 256 + p[14] ∧
    (_process_UBAMonitorFast cfg rx s).EMS_Boiler.flameCurr = p[15] * 256 + p[16] ∧
    (_process_UBAMonitorFast cfg rx s).EMS_Boiler.sysPress = p[17] ∧
    (_process_UBAMonitorFast cfg rx s).EMS_Boiler.serviceCodeChar = [p[18], p[19], 0] ∧
    (_process_UBAMonitorFast cfg rx s).EMS_Boiler.serviceCode = p[20] * 256 + p[21] ∧
    (_process_UBAMonitorFast cfg rx s).EMS_Thermostat = s.EMS_Thermostat ∧
    (_process_UBAMonitorFast cfg rx s).EMS_SolarModule = s.EMS_SolarModule ∧
    (_process_UBAMonitorFast cfg rx s).EMS_HeatPump = s.EMS_HeatPump := by
  have hb : ∀ (i : Nat) (hi : i < p.length), _toByte rx i = p[i] :=
    fun i hi => _toByte_payload rx p hp i hi
  unfold _process_UBAMonitorFast
  rw [_checkActive_frame]
  simp only [_toShort_eq, _bitRead_eq, hb 0 (by omega), hb 1 (by omega), hb 2 (by omega),
    hb 3 (by omega), hb 4 (by omega), hb 7 (by omega), hb 13 (by omega), hb 14 (by omega),
    hb 15 (by omega), hb 16 (by omega), hb 17 (by omega), hb 18 (by omega), hb 19 (by omega),
    hb 20 (by omega), hb 21 (by omega), and_self]

/-- C27 at the 27-byte UBAMonitorFast telegram `sampleMonitorFast 0x3C 0xCE`
of the boiler, payload of 22 bytes: selected flow temperature 60, current flow
temperature `0x01F4`, burner bits `0x09`, service code `0x00CB`. -/
theorem C27_UBAMonitorFast_field_map_witness :
    (_process_UBAMonitorFast sampleConfig
      (ems_parseTelegram_frame (sampleMonitorFast 0x3C 0xCE) 27 1000)
      sampleState).EMS_Boiler.selFlowTemp = 60 ∧
    (_process_UBAMonitorFast sampleConfig
      (ems_parseTelegram_frame (sampleMonitorFast 0x3C 0xCE) 27 1000)
      sampleState).EMS_Boiler.curFlowTemp = 0x01 * 256 + 0xF4 ∧
    (_process_UBAMonitorFast sampleConfig
      (ems_parseTelegram_frame (sampleMonitorFast 0x3C 0xCE) 27 1000)
      sampleState).EMS_Boiler.burnGas = 0x09 / 2 ^ 0 % 2 ∧
    (_process_UBAMonitorFast sampleConfig
      (ems_parseTelegram_frame (sampleMonitorFast 0x3C 0xCE) 27 1000)
      sampleState).EMS_Boiler.serviceCode = 0x00 * 256 + 0xCB :=
  (fun h => ⟨h.1, h.2.1, h.2.2.2.2.1, h.2.2.2.2.2.2.2.2.2.2.2.2.2.2.1⟩)
    (C27_UBAMonitorFast_field_map sampleConfig
      (ems_parseTelegram_frame (sampleMonitorFast 0x3C 0xCE) 27 1000)
      sampleState
      [0x3C, 0x01, 0xF4, 0x64, 0x50, 0x00, 0x00, 0x09, 0x00, 0x00, 0x00, 0x00, 0x00, 0x01, 0xC2,
       0x00, 0x96, 0x0F, 0x30, 0x48, 0x00, 0xCB]
      (by decide) (by decide))

/-! ## The derived boiler flags -/

/-- A bit read from the payload is 0 or 1. -/
theorem _bitRead_le_one (rx : _EMS_RxTelegram) (i bit : Nat) : _bitRead rx i bit ≤ 1 := by
  rw [_bitRead_eq]
  omega

/-- C28 (amended): with `EMS_VALUE_INT_ON` = 1 and `EMS_VALUE_INT_NOTSET` = `0xFF`,
after `_process_UBAMonitorFast` the field heatingActive is (selFlowTemp >= the
heating threshold and burner-on bit = 1) provided the selected flow temperature
just decoded is not the not-set sentinel, and is otherwise left as it was; the
field tapwaterActive is (wWCurFlow != 0 and burner-on bit = 1), a boolean
value, provided wWCurFlow, which an earlier UBAMonitorWWMessage sets, is not
the not-set sentinel, and is otherwise left as it was. -/
theorem C28_derived_flags_amended (cfg : Config) (rx : _EMS_RxTelegram) (s : State)
    (hon : cfg.EMS_VALUE_INT_ON = 1) (hns : cfg.EMS_VALUE_INT_NOTSET = 0xFF) :
    ((_process_UBAMonitorFast cfg rx s).EMS_Boiler.selFlowTemp ≠ 0xFF →
      (_process_UBAMonitorFast cfg rx s).EMS_Boiler.heatingActive
        = if (_process_UBAMonitorFast cfg rx s).EMS_Boiler.selFlowTemp
              ≥ cfg.EMS_BOILER_SELFLOWTEMP_HEATING ∧
            (_process_UBAMonitorFast cfg rx s).EMS_Boiler.burnGas = 1 then 1 else 0) ∧
    ((_process_UBAMonitorFast cfg rx s).EMS_Boiler.selFlowTemp = 0xFF →
      (_process_UBAMonitorFast cfg rx s).EMS_Boiler.heatingActive
        = s.EMS_Boiler.heatingActive) ∧
    (s.EMS_Boiler.wWCurFlow ≠ 0xFF →
      (_process_UBAMonitorFast cfg rx s).EMS_Boiler.tapwaterActive
        = if s.EMS_Boiler.wWCurFlow ≠ 0 ∧
            (_process_UBAMonitorFast cfg rx s).EMS_Boiler.burnGas = 1 then 1 else 0) ∧
    (s.EMS_Boiler.wWCurFlow = 0xFF →
      (_process_UBAMonitorFast cfg rx s).EMS_Boiler.tapwaterActive
        = s.EMS_Boiler.tapwaterActive) ∧
    (_process_UBAMonitorFast cfg rx s).EMS_Boiler.wWCurFlow = s.EMS_Boiler.wWCurFlow := by
  have hbit : ¬ _bitRead rx 7 0 = 0xFF := by
    have := _bitRead_le_one rx 7 0
    omega
  unfold _process_UBAMonitorFast _checkActive
  simp only [hon, hns, ne_eq, hbit, not_false_eq_true, and_true]
  by_cases hw : s.EMS_Boiler.wWCurFlow = 0xFF <;> by_cases hf : _toByte rx 0 = 0xFF <;>
    simp [hw, hf, hbit, boolToByte]

set_option maxRecDepth 100000 in
/-- The sample UBAMonitorFast telegrams end with their CRC. -/
theorem sampleMonitorFast_crc :
    (sampleMonitorFast 0x3C 0xCE).getD (27 - 1) 0
      = _crcCalculator (sampleMonitorFast 0x3C 0xCE) 27 ∧
    (sampleMonitorFast 0xFF 0x75).getD (27 - 1) 0
      = _crcCalculator (sampleMonitorFast 0xFF 0x75) 27 ∧
    sampleMonitorFastShort.getD (25 - 1) 0 = _crcCalculator sampleMonitorFastShort 25 := by
  decide

/-- C28 (as stated it fails): from the freshly initialised boiler record of
`sampleState`, whose tapwaterActive and wWCurFlow are the not-set sentinel
`0xFF`, decoding the CRC-valid UBAMonitorFast telegram
`sampleMonitorFast 0x3C 0xCE` leaves tapwaterActive at `0xFF`; and decoding
`sampleMonitorFast 0xFF 0x75`, whose selected flow temperature `0xFF` is at
least the heating threshold 70 and whose burner-on bit is 1, leaves
heatingActive at `0xFF` instead of 1. -/
theorem C28_flags_not_recomputed :
    (sampleMonitorFast 0x3C 0xCE).getD (27 - 1) 0
      = _crcCalculator (sampleMonitorFast 0x3C 0xCE) 27 ∧
    sampleState.EMS_Boiler.tapwaterActive = sampleConfig.EMS_VALUE_INT_NOTSET ∧
    (_process_UBAMonitorFast sampleConfig
      (ems_parseTelegram_frame (sampleMonitorFast 0x3C 0xCE) 27 1000)
      sampleState).EMS_Boiler.tapwaterActive = sampleConfig.EMS_VALUE_INT_NOTSET ∧
    (sampleMonitorFast 0xFF 0x75).getD (27 - 1) 0
      = _crcCalculator (sampleMonitorFast 0xFF 0x75) 27 ∧
    (_process_UBAMonitorFast sampleConfig
      (ems_parseTelegram_frame (sampleMonitorFast 0xFF 0x75) 27 1000)
      sampleState).EMS_Boiler.selFlowTemp ≥ sampleConfig.EMS_BOILER_SELFLOWTEMP_HEATING ∧
    (_process_UBAMonitorFast sampleConfig
      (ems_parseTelegram_frame (sampleMonitorFast 0xFF 0x75) 27 1000)
      sampleState).EMS_Boiler.burnGas = 1 ∧
    (_process_UBAMonitorFast sampleConfig
      (ems_parseTelegram_frame (sampleMonitorFast 0xFF 0x75) 27 1000)
      sampleState).EMS_Boiler.heatingActive = 0xFF :=
  ⟨sampleMonitorFast_crc.1, by decide, by decide, sampleMonitorFast_crc.2.1, by decide,
    by decide, by decide⟩

/-- C28 (amended) at the boiler record of `sampleState` with wWCurFlow set to
12 and the telegram `sampleMonitorFast 0x3C 0xCE`: selected flow temperature 60
below the threshold 70, burner-on bit 1. -/
theorem C28_derived_flags_amended_witness :
    (_process_UBAMonitorFast sampleConfig
      (ems_parseTelegram_frame (sampleMonitorFast 0x3C 0xCE) 27 1000)
      { sampleState with EMS_Boiler.wWCurFlow := 12 }).EMS_Boiler.heatingActive = 0 ∧
    (_process_UBAMonitorFast sampleConfig
      (ems_parseTelegram_frame (sampleMonitorFast 0x3C 0xCE) 27 1000)
      { sampleState with EMS_Boiler.wWCurFlow := 12 }).EMS_Boiler.tapwaterActive = 1 :=
  (fun h => ⟨h.1 (by decide), h.2.2.1 (by decide)⟩)
    (C28_derived_flags_amended sampleConfig
      (ems_parseTelegram_frame (sampleMonitorFast 0x3C 0xCE) 27 1000)
      { sampleState with EMS_Boiler.wWCurFlow := 12 } rfl rfl)

/-! ## Payloads shorter than the decoder expects -/

/-- C29 (the code at the failing input): the receive buffer
`sampleMonitorFastShort` holds a CRC-valid legacy UBAMonitorFast telegram of 25
bytes with offset 0, payload length 20, followed by bytes left from before.
Dispatched by `_ems_processTelegram`, the decoder takes the service code from
the payload indices 20 and 21, which are the CRC byte `0x47` and the first
byte `0xA5` behind the telegram, and overwrites the not-set value `0x8000` of
serviceCode with `0x47A5`. -/
theorem C29_short_payload_read_past_end :
    sampleMonitorFastShort.getD (25 - 1) 0 = _crcCalculator sampleMonitorFastShort 25 ∧
    (ems_parseTelegram_frame sampleMonitorFastShort 25 1000).emsplus = false ∧
    (ems_parseTelegram_frame sampleMonitorFastShort 25 1000).offset = 0 ∧
    (ems_parseTelegram_frame sampleMonitorFastShort 25 1000).data_length = 20 ∧
    _toByte (ems_parseTelegram_frame sampleMonitorFastShort 25 1000) 20
      = sampleMonitorFastShort.getD (25 - 1) 0 ∧
    _toByte (ems_parseTelegram_frame sampleMonitorFastShort 25 1000) 21
      = sampleMonitorFastShort.getD 25 0 ∧
    sampleState.EMS_Boiler.serviceCode = 0x8000 ∧
    (_ems_processTelegram sampleConfig 1000
      (ems_parseTelegram_frame sampleMonitorFastShort 25 1000)
      sampleState).EMS_Boiler.serviceCode = 0x47A5 :=
  ⟨sampleMonitorFast_crc.2.2, by decide, by decide, by decide, by decide, by decide, by decide,
    by decide⟩

/-! ## The list of detected devices -/

/-- The test of `_addDevice` for an entry with the product ID and the device
address. -/
theorem _addDevice_found (product_id device_id : Nat) (l : List _Generic_Type) :
    l.any (fun it => it.product_id == product_id && it.device_id == device_id) = true ↔
      ∃ d ∈ l, d.product_id = product_id ∧ d.device_id = device_id := by
  rw [List.any_eq_true]
  constructor
  · rintro ⟨d, hd, h⟩
    rw [Bool.and_eq_true, beq_iff_eq, beq_iff_eq] at h
    exact ⟨d, hd, h⟩
  · rintro ⟨d, hd, h⟩
    refine ⟨d, hd, ?_⟩
    rw [Bool.and_eq_true, beq_iff_eq, beq_iff_eq]
    exact h

/-- C30: `_addDevice` keeps the list of detected devices free of two entries
with the same (product ID, device address) pair; when an entry with the pair
exists the list is unchanged, otherwise exactly one entry, with the four
arguments, is appended at the end behind the existing entries in their order;
and calling `_addDevice` twice with the same arguments equals calling it
once. -/
theorem C30_addDevice_dedup (product_id device_id : Nat) (version model_string : String)
    (s : State) :
    ((s.Devices.map (fun d => (d.product_id, d.device_id))).Nodup →
      ((_addDevice product_id device_id version model_string s).Devices.map
        (fun d => (d.product_id, d.device_id))).Nodup) ∧
    ((∃ d ∈ s.Devices, d.product_id = product_id ∧ d.device_id = device_id) →
      (_addDevice product_id device_id version model_string s).Devices = s.Devices) ∧
    ((¬ ∃ d ∈ s.Devices, d.product_id = product_id ∧ d.device_id = device_id) →
      (_addDevice product_id device_id version model_string s).Devices
        = s.Devices ++ [{ product_id := product_id, device_id := device_id,
                          version := version, model_string := model_string }]) ∧
    _addDevice product_id device_id version model_string
        (_addDevice product_id device_id version model_string s)
      = _addDevice product_id device_id version model_string s := by
  have hyes : (∃ d ∈ s.Devices, d.product_id = product_id ∧ d.device_id = device_id) →
      _addDevice product_id device_id version model_string s = s := by
    intro h
    unfold _addDevice
    dsimp only
    rw [(_addDevice_found product_id device_id s.Devices).mpr h]
    rfl
  have hno : (¬ ∃ d ∈ s.Devices, d.product_id = product_id ∧ d.device_id = device_id) →
      _addDevice product_id device_id version model_string s
        = { s with Devices := s.Devices ++
              [{ product_id := product_id, device_id := device_id, version := version,
                 model_string := model_string }] } := by
    intro h
    have hf : s.Devices.any
        (fun it => it.product_id == product_id && it.device_id == device_id) = false := by
      rw [Bool.eq_false_iff]
      exact fun hc => h ((_addDevice_found product_id device_id s.Devices).mp hc)
    unfold _addDevice
    dsimp only
    rw [hf]
    rfl
  refine ⟨?_, ?_, ?_, ?_⟩
  · intro hnd
    by_cases h : ∃ d ∈ s.Devices, d.product_id = product_id ∧ d.device_id = device_id
    · rw [hyes h]
      exact hnd
    · rw [hno h]
      show ((s.Devices ++ [_]).map
        (fun (d : _Generic_Type) => (d.product_id, d.device_id))).Nodup
      rw [List.map_append, List.map_singleton]
      refine List.Nodup.append hnd (List.nodup_singleton _) ?_
      intro a ha hb
      rw [List.mem_singleton] at hb
      rw [List.mem_map] at ha
      obtain ⟨d, hd, hda⟩ := ha
      apply h
      refine ⟨d, hd, ?_⟩
      rw [hb] at hda
      exact ⟨congrArg Prod.fst hda, congrArg Prod.snd hda⟩
  · intro h
    rw [hyes h]
  · intro h
    rw [hno h]
  · by_cases h : ∃ d ∈ s.Devices, d.product_id = product_id ∧ d.device_id = device_id
    · rw [hyes h, hyes h]
    · rw [hno h]
      unfold _addDevice
      dsimp only
      have hin : (s.Devices ++
          [({ product_id := product_id, device_id := device_id, version := version,
              model_string := model_string } : _Generic_Type)]).any
          (fun it => it.product_id == product_id && it.device_id == device_id) = true := by
        rw [_addDevice_found]
        exact ⟨_, List.mem_append_right _ (List.mem_singleton_self _), rfl, rfl⟩
      rw [hin]
      rfl

/-- C30 at the empty list of `sampleState` and the boiler with product ID 95
at the address `0x08`. -/
theorem C30_addDevice_dedup_witness :
    (_addDevice 95 0x08 "01.02" "Heatronics 3" sampleState).Devices
      = sampleState.Devices ++ [{ product_id := 95, device_id := 0x08, version := "01.02",
                                  model_string := "Heatronics 3" }] ∧
    _addDevice 95 0x08 "01.02" "Heatronics 3"
        (_addDevice 95 0x08 "01.02" "Heatronics 3" sampleState)
      = _addDevice 95 0x08 "01.02" "Heatronics 3" sampleState :=
  (fun h => ⟨h.2.2.1 (by rintro ⟨d, hd, _⟩; cases hd), h.2.2.2⟩)
    (C30_addDevice_dedup 95 0x08 "01.02" "Heatronics 3" sampleState)

/-! ## The CRC table in closed form -/

set_option maxRecDepth 100000 in
/-- Every entry of `ems_crc_table` is given by the closed form. -/
theorem ems_crc_table_closed_form :
    ∀ i, i < 256 → ems_crc_table.getD i 0 = ems_crc_table_formula i := by
  decide

set_option maxRecDepth 100000 in
/-- The table is a rearrangement of the bytes `0 .. 255`. -/
theorem ems_crc_table_perm : ems_crc_table.Perm (List.range 256) := by
  decide

set_option maxRecDepth 100000 in
/-- The table has 256 entries. -/
theorem ems_crc_table_length : ems_crc_table.length = 256 := by
  decide

/-- From a byte on, the fold of `_crcCalculator` over any indices is the same
with the closed form in the place of the lookup. -/
theorem foldl_crc_formula (data : List Nat) (l : List Nat) (crc : Nat) (h : crc < 256) :
    l.foldl (fun crc i => (ems_crc_table.getD crc 0 ^^^ data.getD i 0) % 256) crc =
    l.foldl (fun crc i => (ems_crc_table_formula crc ^^^ data.getD i 0) % 256) crc := by
  induction l generalizing crc with
  | nil => rfl
  | cons x xs ih =>
    simp only [List.foldl_cons]
    rw [ems_crc_table_closed_form crc h]
    exact ih _ (Nat.mod_lt _ (by norm_num))

/-- C37: the table `ems_crc_table` has 256 entries, entry `i` is
`(2 * i mod 256) xor (0x19 if i >= 128 else 0x00)`, the table is a permutation
of `0 .. 255`, and `_crcCalculator` equals the computation that uses the
formula in the place of the lookup, for every buffer and length. -/
theorem C37_crc_table_closed_form :
    ems_crc_table.length = 256 ∧
    (∀ i, i < 256 →
      ems_crc_table.getD i 0 = (2 * i % 256) ^^^ (if i ≥ 128 then 0x19 else 0x00)) ∧
    ems_crc_table.Perm (List.range 256) ∧
    ∀ (data : List Nat) (len : Nat), _crcCalculator data len = _crcCalculator_formula data len :=
  ⟨ems_crc_table_length, ems_crc_table_closed_form, ems_crc_table_perm,
    fun data len => foldl_crc_formula data _ 0 (by norm_num)⟩

/-- C37 at entry 129 of the table and on the telegram `08 0B 19 00`. -/
theorem C37_crc_table_closed_form_witness :
    ems_crc_table.getD 129 0 = (2 * 129 % 256) ^^^ (if 129 ≥ 128 then 0x19 else 0x00) ∧
    ems_crc_table.getD 129 0 = 0x1B ∧
    _crcCalculator [0x08, 0x0B, 0x19, 0x00, 0x5E] 5
      = _crcCalculator_formula [0x08, 0x0B, 0x19, 0x00, 0x5E] 5 ∧
    _crcCalculator [0x08, 0x0B, 0x19, 0x00, 0x5E] 5 = 0x5E :=
  ⟨C37_crc_table_closed_form.2.1 129 (by decide), by decide,
    C37_crc_table_closed_form.2.2.2 _ _, by decide⟩

/-! ## Single-byte errors -/

set_option maxRecDepth 100000 in
/-- The table holds bytes, and an entry of the table gives its index back. -/
theorem ems_crc_table_inverse :
    ∀ i, i < 256 → ems_crc_table.getD i 0 < 256 ∧
      (if ems_crc_table.getD i 0 % 2 = 0 then ems_crc_table.getD i 0 / 2
        else (ems_crc_table.getD i 0 ^^^ 0x19) / 2 + 128) = i := by
  decide

/-- Two different bytes have different entries in the table. -/
theorem ems_crc_table_injective (i j : Nat) (hi : i < 256) (hj : j < 256)
    (h : ems_crc_table.getD i 0 = ems_crc_table.getD j 0) : i = j := by
  have h1 := (ems_crc_table_inverse i hi).2
  have h2 := (ems_crc_table_inverse j hj).2
  rw [h] at h1
  exact h1.symm.trans h2

/-- One step of the CRC from different bytes, with the same data byte, gives
different bytes. -/
theorem crc_step_injective (c c' d : Nat) (hc : c < 256) (hc' : c' < 256) (hd : d < 256)
    (hne : c ≠ c') :
    (ems_crc_table.getD c 0 ^^^ d) % 256 ≠ (ems_crc_table.getD c' 0 ^^^ d) % 256 := by
  rw [Nat.mod_eq_of_lt (xor_lt_256 _ _ (ems_crc_table_inverse c hc).1 hd),
    Nat.mod_eq_of_lt (xor_lt_256 _ _ (ems_crc_table_inverse c' hc').1 hd)]
  intro h
  exact hne (ems_crc_table_injective c c' hc hc' (Nat.xor_left_injective h))

/-- The CRC fold over any indices, from different bytes, ends in different
bytes. -/
theorem crc_foldl_injective (data : List Nat) (hb : ∀ b ∈ data, b < 256) (l : List Nat)
    (c c' : Nat) (hc : c < 256) (hc' : c' < 256) (hne : c ≠ c') :
    l.foldl (fun crc i => (ems_crc_table.getD crc 0 ^^^ data.getD i 0) % 256) c ≠
    l.foldl (fun crc i => (ems_crc_table.getD crc 0 ^^^ data.getD i 0) % 256) c' := by
  induction l generalizing c c' with
  | nil => exact hne
  | cons x xs ih =>
    simp only [List.foldl_cons]
    exact ih _ _ (Nat.mod_lt _ (by norm_num)) (Nat.mod_lt _ (by norm_num))
      (crc_step_injective c c' _ hc hc' (getD_lt_256 data hb x) hne)

/-- The CRC fold over indices at which two buffers agree is the same. -/
theorem crc_foldl_congr (d1 d2 : List Nat) (l : List Nat)
    (h : ∀ i ∈ l, d1.getD i 0 = d2.getD i 0) (c : Nat) :
    l.foldl (fun crc i => (ems_crc_table.getD crc 0 ^^^ d1.getD i 0) % 256) c =
    l.foldl (fun crc i => (ems_crc_table.getD crc 0 ^^^ d2.getD i 0) % 256) c := by
  induction l generalizing c with
  | nil => rfl
  | cons x xs ih =>
    simp only [List.foldl_cons]
    rw [h x (List.mem_cons_self _ _)]
    exact ih (fun i hi => h i (List.mem_cons_of_mem _ hi)) _

/-- The CRC fold from a byte ends in a byte. -/
theorem crc_foldl_lt (data : List Nat) (l : List Nat) (c : Nat) (hc : c < 256) :
    l.foldl (fun crc i => (ems_crc_table.getD crc 0 ^^^ data.getD i 0) % 256) c < 256 := by
  induction l generalizing c with
  | nil => exact hc
  | cons x xs ih =>
    simp only [List.foldl_cons]
    exact ih _ (Nat.mod_lt _ (by norm_num))

/-- A change of one byte before the CRC slot changes the CRC. -/
theorem _crcCalculator_set_ne (telegram : List Nat) (L k v : Nat)
    (hlen : L ≤ telegram.length) (hbytes : ∀ b ∈ telegram, b < 256)
    (hk : k + 1 < L) (hv : v < 256) (hne : v ≠ telegram.getD k 0) :
    _crcCalculator (telegram.set k v) L ≠ _crcCalculator telegram L := by
  obtain ⟨m, hm⟩ : ∃ m, L - 1 = (k + 1) + m := ⟨L - 1 - (k + 1), by omega⟩
  unfold _crcCalculator
  rw [hm, List.range_add, List.foldl_append, List.foldl_append, List.range_succ,
    List.foldl_append, List.foldl_append]
  simp only [List.foldl_cons, List.foldl_nil]
  have hpre : (List.range k).foldl
      (fun crc i => (ems_crc_table.getD crc 0 ^^^ (telegram.set k v).getD i 0) % 256) 0
      = (List.range k).foldl
      (fun crc i => (ems_crc_table.getD crc 0 ^^^ telegram.getD i 0) % 256) 0 :=
    crc_foldl_congr _ _ _ (fun i hi => getD_set_ne telegram i k v
      (by have := List.mem_range.mp hi; omega)) 0
  have hsuf : ∀ c, ((List.range m).map (fun x => k + 1 + x)).foldl
      (fun crc i => (ems_crc_table.getD crc 0 ^^^ (telegram.set k v).getD i 0) % 256) c
      = ((List.range m).map (fun x => k + 1 + x)).foldl
      (fun crc i => (ems_crc_table.getD crc 0 ^^^ telegram.getD i 0) % 256) c :=
    fun c => crc_foldl_congr _ _ _ (fun i hi => getD_set_ne telegram i k v
      (by obtain ⟨x, _, hx⟩ := List.mem_map.mp hi; omega)) c
  rw [hpre, hsuf, getD_set_eq telegram k v (by omega)]
  have hc0 := crc_foldl_lt telegram (List.range k) 0 (by norm_num)
  have hT := (ems_crc_table_inverse _ hc0).1
  apply crc_foldl_injective telegram hbytes _ _ _ (Nat.mod_lt _ (by norm_num))
    (Nat.mod_lt _ (by norm_num))
  rw [Nat.mod_eq_of_lt (xor_lt_256 _ _ hT hv),
    Nat.mod_eq_of_lt (xor_lt_256 _ _ hT (getD_lt_256 telegram hbytes k))]
  intro h
  exact hne (Nat.xor_right_injective h)

/-- C38: in a telegram of `L >= 2` bytes whose last byte is its CRC, the
replacement of one byte at any index `0 .. L - 1` by a different byte gives a
telegram whose last byte is not its CRC, so that the check of the receiver
(`telegram[length - 1] != _crcCalculator(telegram, length)`) rejects it. -/
theorem C38_single_byte_error_detected (telegram : List Nat) (L k v : Nat)
    (h2 : 2 ≤ L) (hlen : L ≤ telegram.length) (hbytes : ∀ b ∈ telegram, b < 256)
    (hcrc : telegram.getD (L - 1) 0 = _crcCalculator telegram L)
    (hk : k < L) (hv : v < 256) (hne : v ≠ telegram.getD k 0) :
    (telegram.set k v).getD (L - 1) 0 ≠ _crcCalculator (telegram.set k v) L := by
  by_cases hlast : k = L - 1
  · subst hlast
    rw [getD_set_eq telegram _ v (by omega), _crcCalculator_set_last, ← hcrc]
    exact hne
  · rw [getD_set_ne telegram _ k v (by omega), hcrc]
    exact fun h => _crcCalculator_set_ne telegram L k v hlen hbytes (by omega) hv hne h.symm

/-- C38 on the telegram `08 0B 19 00 5E` with the type byte changed to
`0x18`. -/
theorem C38_single_byte_error_detected_witness :
    [0x08, 0x0B, 0x19, 0x00, 0x5E].getD (5 - 1) 0
      = _crcCalculator [0x08, 0x0B, 0x19, 0x00, 0x5E] 5 ∧
    ([0x08, 0x0B, 0x19, 0x00, 0x5E].set 2 0x18).getD (5 - 1) 0
      ≠ _crcCalculator ([0x08, 0x0B, 0x19, 0x00, 0x5E].set 2 0x18) 5 :=
  ⟨by decide,
    C38_single_byte_error_detected [0x08, 0x0B, 0x19, 0x00, 0x5E] 5 2 0x18 (by decide)
      (by decide) (by decide) (by decide) (by decide) (by decide) (by decide)⟩

/-! ## The heat pump record -/

/-- C32: the Version broadcast `38 00 02 00 FC 01 02 65` of a heat pump
(product ID 252, entry 0 of `HeatPump_Types`, device address `0x38`) makes
`_process_Version` register the pair (252, `0x38`) in the list of detected
devices and store the product ID 252 in the heat pump record, but the device
address it stores there is `0x30`, the one of entry 0 of `SolarModule_Types`:
line 1887 indexes the table of the solar modules with the index found in the
table of the heat pumps. -/
theorem C32_heat_pump_address_from_solar_table :
    [0x38, 0x00, 0x02, 0x00, 0xFC, 0x01, 0x02, 0x65].getD (8 - 1) 0
      = _crcCalculator [0x38, 0x00, 0x02, 0x00, 0xFC, 0x01, 0x02, 0x65] 8 ∧
    (ems_parseTelegram_frame [0x38, 0x00, 0x02, 0x00, 0xFC, 0x01, 0x02, 0x65] 8 1000).data_length
      = 3 ∧
    findFirst (fun (t : _HeatPump_Type) => t.product_id == 0xFC) sampleConfig.HeatPump_Types 0
      = some 0 ∧
    (sampleConfig.HeatPump_Types.getD 0 ⟨0, 0, 0, ""⟩).device_id = 0x38 ∧
    (sampleConfig.SolarModule_Types.getD 0 ⟨0, 0, 0, ""⟩).device_id = 0x30 ∧
    ((ems_parseTelegram sampleConfig sampleEnv [0x38, 0x00, 0x02, 0x00, 0xFC, 0x01, 0x02, 0x65] 8
      (sampleIdle 0x00)).Devices.map (fun d => (d.product_id, d.device_id))) = [(0xFC, 0x38)] ∧
    (ems_parseTelegram sampleConfig sampleEnv [0x38, 0x00, 0x02, 0x00, 0xFC, 0x01, 0x02, 0x65] 8
      (sampleIdle 0x00)).EMS_HeatPump.product_id = 0xFC ∧
    (ems_parseTelegram sampleConfig sampleEnv [0x38, 0x00, 0x02, 0x00, 0xFC, 0x01, 0x02, 0x65] 8
      (sampleIdle 0x00)).EMS_HeatPump.device_id = 0x30 := by
  refine ⟨?_, ?_, ?_, ?_, ?_, ?_, ?_, ?_⟩ <;> decide

/-! ## Re-initialisation -/

/-- C34: the Version telegram `08 0B 02 00 5F 01 02 0E` binds the boiler;
after `ems_init` from that state `ems_getBoilerEnabled` still returns true,
while the product ID of the boiler record is the none sentinel again.
`ems_init` assigns `EMS_ID_NONE` to the `device_id` of the thermostat, the
solar module and the heat pump (lines 253, 318, 327); for the boiler it
assigns the product ID and the version only (lines 335-337), so the device
address `0x08` is still there. -/
theorem C34_boiler_still_enabled_after_init :
    [0x08, 0x0B, 0x02, 0x00, 0x5F, 0x01, 0x02, 0x0E].getD (8 - 1) 0
      = _crcCalculator [0x08, 0x0B, 0x02, 0x00, 0x5F, 0x01, 0x02, 0x0E] 8 ∧
    ems_getBoilerEnabled
      (ems_parseTelegram sampleConfig sampleEnv [0x08, 0x0B, 0x02, 0x00, 0x5F, 0x01, 0x02, 0x0E] 8
        sampleState) = true ∧
    ems_getBoilerEnabled (ems_init sampleConfig
      (ems_parseTelegram sampleConfig sampleEnv [0x08, 0x0B, 0x02, 0x00, 0x5F, 0x01, 0x02, 0x0E] 8
        sampleState)) = true ∧
    (ems_init sampleConfig
      (ems_parseTelegram sampleConfig sampleEnv [0x08, 0x0B, 0x02, 0x00, 0x5F, 0x01, 0x02, 0x0E] 8
        sampleState)).EMS_Boiler.device_id = 0x08 ∧
    (ems_init sampleConfig
      (ems_parseTelegram sampleConfig sampleEnv [0x08, 0x0B, 0x02, 0x00, 0x5F, 0x01, 0x02, 0x0E] 8
        sampleState)).EMS_Boiler.product_id = EMS_ID_NONE := by
  refine ⟨?_, ?_, ?_, ?_, ?_⟩ <;> decide

/-- What `ems_init` does to the bindings, from every state: no thermostat,
solar module or heat pump is bound afterwards (the three getters return
false), Tx status is `EMS_TX_REV_DETECT` and the counters `emsRxPgks`,
`emsTxPkgs` and `emxCrcErr` are 0; the product ID of the boiler record is the
none sentinel, but its device address is not assigned, so
`ems_getBoilerEnabled` returns what it returned before. -/
theorem ems_init_bindings (cfg : Config) (s : State) :
    ems_getThermostatEnabled (ems_init cfg s) = false ∧
    ems_getSolarModuleEnabled (ems_init cfg s) = false ∧
    ems_getHeatPumpEnabled (ems_init cfg s) = false ∧
    (ems_init cfg s).EMS_Sys_Status.emsTxStatus = EMS_TX_REV_DETECT ∧
    (ems_init cfg s).EMS_Sys_Status.emsRxPgks = 0 ∧
    (ems_init cfg s).EMS_Sys_Status.emsTxPkgs = 0 ∧
    (ems_init cfg s).EMS_Sys_Status.emxCrcErr = 0 ∧
    (ems_init cfg s).EMS_Boiler.product_id = EMS_ID_NONE ∧
    (ems_init cfg s).EMS_Boiler.device_id = s.EMS_Boiler.device_id ∧
    ems_getBoilerEnabled (ems_init cfg s) = ems_getBoilerEnabled s := by
  refine ⟨?_, ?_, ?_, ?_, ?_, ?_, ?_, ?_, ?_, ?_⟩ <;>
    unfold ems_init ems_setLogging <;> split <;> rfl

/-! ## The refreshed flag -/

/-- C35: with the flag `emsRefreshed` set and a Read of type `0x18` for the
boiler in flight whose `forceRefresh` is false, the reply
`08 0B 18 00 05 01 62` makes `ems_parseTelegram` clear the flag: line 1170
assigns `forceRefresh` to it. -/
theorem C35_refreshed_cleared_by_read_reply :
    (ems_setEmsRefreshed true
      (sampleWaiting 0x00 [sampleEntry EMS_TX_TELEGRAM_READ 0x18 0x08 32])
      ).EMS_Sys_Status.emsRefreshed = true ∧
    (sampleEntry EMS_TX_TELEGRAM_READ 0x18 0x08 32).forceRefresh = false ∧
    [0x08, 0x0B, 0x18, 0x00, 0x05, 0x01, 0x62].getD (7 - 1) 0
      = _crcCalculator [0x08, 0x0B, 0x18, 0x00, 0x05, 0x01, 0x62] 7 ∧
    (ems_parseTelegram sampleConfig sampleEnv [0x08, 0x0B, 0x18, 0x00, 0x05, 0x01, 0x62] 7
      (ems_setEmsRefreshed true
        (sampleWaiting 0x00 [sampleEntry EMS_TX_TELEGRAM_READ 0x18 0x08 32]))
      ).EMS_Sys_Status.emsRefreshed = false ∧
    (ems_parseTelegram sampleConfig sampleEnv [0x08, 0x0B, 0x18, 0x00, 0x05, 0x01, 0x62] 7
      (ems_setEmsRefreshed true
        (sampleWaiting 0x00 [sampleEntry EMS_TX_TELEGRAM_READ 0x18 0x08 32]))
      ).EMS_Sys_Status.emsRxPgks = 1 := by
  refine ⟨?_, ?_, ?_, ?_, ?_⟩ <;> decide

/-! ## The bytes the framing step reads -/

/-- C40: the telegram `08 00 FF 00 A7` has 5 bytes and a valid CRC; the
framing step takes its type from the bytes at the indices 4 and 5, so that two
receive buffers that hold this telegram and differ in the byte behind it are
framed with different types. -/
theorem C40_framing_reads_past_short_telegram :
    [0x08, 0x00, 0xFF, 0x00, 0xA7, 0x11].getD (5 - 1) 0
      = _crcCalculator [0x08, 0x00, 0xFF, 0x00, 0xA7, 0x11] 5 ∧
    [0x08, 0x00, 0xFF, 0x00, 0xA7, 0x11].take 5 = [0x08, 0x00, 0xFF, 0x00, 0xA7, 0x22].take 5 ∧
    (ems_parseTelegram_frame [0x08, 0x00, 0xFF, 0x00, 0xA7, 0x11] 5 1000).type = 0xA711 ∧
    (ems_parseTelegram_frame [0x08, 0x00, 0xFF, 0x00, 0xA7, 0x22] 5 1000).type = 0xA722 := by
  refine ⟨?_, ?_, ?_, ?_⟩ <;> decide

/-! ## Bus liveness -/

/-- The function `ems_doReadCommand` leaves the bus-connected flag and the
time of the last valid telegram alone. -/
theorem ems_doReadCommand_live (cfg : Config) (now type dest : Nat) (forceRefresh : Bool)
    (s : State) :
    (ems_doReadCommand cfg now type dest forceRefresh s).EMS_Sys_Status.emsBusConnected
      = s.EMS_Sys_Status.emsBusConnected ∧
    (ems_doReadCommand cfg now type dest forceRefresh s).EMS_Sys_Status.emsRxTimestamp
      = s.EMS_Sys_Status.emsRxTimestamp := by
  unfold ems_doReadCommand
  split_ifs <;> exact ⟨rfl, rfl⟩

/-- The function `ems_getBoilerValues` leaves the bus-connected flag and the
time of the last valid telegram alone. -/
theorem ems_getBoilerValues_live (cfg : Config) (now : Nat) (s : State) :
    (ems_getBoilerValues cfg now s).EMS_Sys_Status.emsBusConnected
      = s.EMS_Sys_Status.emsBusConnected ∧
    (ems_getBoilerValues cfg now s).EMS_Sys_Status.emsRxTimestamp
      = s.EMS_Sys_Status.emsRxTimestamp := by
  unfold ems_getBoilerValues
  simp only [ems_doReadCommand_live, and_self]

/-- The function `ems_getThermostatValues` leaves the bus-connected flag and
the time of the last valid telegram alone. -/
theorem ems_getThermostatValues_live (cfg : Config) (now : Nat) (s : State) :
    (ems_getThermostatValues cfg now s).EMS_Sys_Status.emsBusConnected
      = s.EMS_Sys_Status.emsBusConnected ∧
    (ems_getThermostatValues cfg now s).EMS_Sys_Status.emsRxTimestamp
      = s.EMS_Sys_Status.emsRxTimestamp := by
  unfold ems_getThermostatValues
  dsimp only
  split
  · exact ⟨rfl, rfl⟩
  · simp only [ems_doReadCommand_live]
    split_ifs <;> simp only [ems_doReadCommand_live, and_self]

/-- The function `ems_getSolarModuleValues` leaves the bus-connected flag and
the time of the last valid telegram alone. -/
theorem ems_getSolarModuleValues_live (cfg : Config) (now : Nat) (s : State) :
    (ems_getSolarModuleValues cfg now s).EMS_Sys_Status.emsBusConnected
      = s.EMS_Sys_Status.emsBusConnected ∧
    (ems_getSolarModuleValues cfg now s).EMS_Sys_Status.emsRxTimestamp
      = s.EMS_Sys_Status.emsRxTimestamp := by
  unfold ems_getSolarModuleValues
  dsimp only
  split_ifs <;> simp only [ems_doReadCommand_live, and_self]

/-- The function `_process_Version` leaves the bus-connected flag and the time
of the last valid telegram alone. -/
theorem _process_Version_live (cfg : Config) (now : Nat) (rx : _EMS_RxTelegram) (s : State) :
    (_process_Version cfg now rx s).EMS_Sys_Status.emsBusConnected
      = s.EMS_Sys_Status.emsBusConnected ∧
    (_process_Version cfg now rx s).EMS_Sys_Status.emsRxTimestamp
      = s.EMS_Sys_Status.emsRxTimestamp := by
  unfold _process_Version
  dsimp only
  split
  · exact ⟨rfl, rfl⟩
  · split
    · split_ifs <;>
        simp only [ems_getBoilerValues_live, _addDevice_frame, and_self]
    · split
      · split_ifs <;>
          simp only [ems_getThermostatValues_live, _addDevice_frame, and_self]
      · split
        · simp only [ems_getSolarModuleValues_live, _addDevice_frame, and_self]
        · split
          · simp only [_addDevice_frame, and_self]
          · split <;> simp only [_addDevice_frame, and_self]

/-- Every callback of `EMS_Types` leaves the bus-connected flag and the time
of the last valid telegram alone. -/
theorem EMS_Types_live (cfg : Config) (now : Nat) :
    ∀ e ∈ EMS_Types cfg now, ∀ cb, e.processType_cb = some cb → ∀ rx s,
      (cb rx s).EMS_Sys_Status.emsBusConnected = s.EMS_Sys_Status.emsBusConnected ∧
      (cb rx s).EMS_Sys_Status.emsRxTimestamp = s.EMS_Sys_Status.emsRxTimestamp := by
  intro e he cb hcb rx s
  unfold EMS_Types at he
  simp only [List.mem_cons, List.mem_singleton, List.not_mem_nil, or_false] at he
  rcases he with h | he
  · subst h
    simp only [Option.some.injEq] at hcb
    subst hcb
    exact _process_Version_live cfg now rx s
  · casesm* _ ∨ _ <;> subst e <;> simp only [Option.some.injEq, reduceCtorEq] at hcb <;>
      subst cb <;> refine ⟨?_, ?_⟩ <;>
      simp only [_process_UBAMonitorFast, _checkActive, _process_UBAMonitorSlow,
        _process_UBAMonitorWWMessage, _process_UBAParameterWW, _process_UBATotalUptimeMessage,
        _process_UBAParametersMessage, _process_SetPoints, _process_SM10Monitor,
        _process_SM100Monitor, _process_SM100Status, _process_SM100Status2,
        _process_SM100Energy, _process_ISM1StatusMessage, _process_ISM1Set,
        _process_HPMonitor1, _process_HPMonitor2, _process_RCTime, _process_RC10Set,
        _process_RC10StatusMessage, _process_RCOutdoorTempMessage, _process_RC20Set,
        _process_RC20StatusMessage, _process_RC30Set, _process_RC30StatusMessage,
        _process_RC35Set, _process_RC35StatusMessage, _process_EasyStatusMessage,
        _process_RCPLUSStatusMessage, _process_RCPLUSSetMessage, _process_RCPLUSStatusHeating,
        _process_RCPLUSStatusMode, _process_JunkersStatusMessage] <;>
      (try split_ifs) <;> rfl

/-- The function `_ems_processTelegram` leaves the bus-connected flag and the
time of the last valid telegram alone. -/
theorem _ems_processTelegram_live (cfg : Config) (now : Nat) (rx : _EMS_RxTelegram)
    (s : State) :
    (_ems_processTelegram cfg now rx s).EMS_Sys_Status.emsBusConnected
      = s.EMS_Sys_Status.emsBusConnected ∧
    (_ems_processTelegram cfg now rx s).EMS_Sys_Status.emsRxTimestamp
      = s.EMS_Sys_Status.emsRxTimestamp := by
  unfold _ems_processTelegram
  split
  · exact ⟨rfl, rfl⟩
  · dsimp only
    split
    · rename_i i hfind
      split
      · rename_i m t l cb hget
        have hmem : (⟨m, t, l, some cb⟩ : _EMS_Type) ∈ EMS_Types cfg now := List.get?_mem hget
        have h := EMS_Types_live cfg now _ hmem cb rfl rx s
        split_ifs
        · exact h
        · exact h
        · exact ⟨rfl, rfl⟩
      · exact ⟨rfl, rfl⟩
    · exact ⟨rfl, rfl⟩

/-- The function `_processType` leaves the bus-connected flag and the time of
the last valid telegram alone. -/
theorem _processType_live (cfg : Config) (now : Nat) (rx : _EMS_RxTelegram) (s : State) :
    (_processType cfg now rx s).EMS_Sys_Status.emsBusConnected
      = s.EMS_Sys_Status.emsBusConnected ∧
    (_processType cfg now rx s).EMS_Sys_Status.emsRxTimestamp
      = s.EMS_Sys_Status.emsRxTimestamp := by
  by_cases hsrc : rx.src = EMS_ID_ME
  · have h : _processType cfg now rx s = s := by
      unfold _processType
      simp only [hsrc, if_true]
    rw [h]
    exact ⟨rfl, rfl⟩
  by_cases hidle : s.EMS_Sys_Status.emsTxStatus = EMS_TX_STATUS_IDLE
  · rw [_processType_idle cfg now rx s hidle, if_neg hsrc]
    exact _ems_processTelegram_live cfg now rx s
  by_cases hdest : rx.telegram.getD 1 0 &&& 0x7F = EMS_ID_ME
  swap
  · rw [_processType_stray cfg now rx s hsrc hidle hdest]
    exact _ems_processTelegram_live cfg now rx _
  cases hq : s.EMS_TxQueue with
  | nil =>
    rw [_processType_empty cfg now rx s hsrc hidle hdest hq]
    exact _ems_processTelegram_live cfg now rx _
  | cons t rest =>
    by_cases hread : t.action = EMS_TX_TELEGRAM_READ
    · rw [_processType_read cfg now rx s t rest hsrc hidle hdest hq hread, ems_tx_pollAck_eq]
      refine ⟨(_ems_processTelegram_live cfg now rx _).1.trans ?_,
        (_ems_processTelegram_live cfg now rx _).2.trans ?_⟩ <;>
      split_ifs <;> rfl
    · by_cases hval : t.action = EMS_TX_TELEGRAM_VALIDATE
      · rw [_processType_validate cfg now rx s t rest hsrc hidle hdest hq hval]
        split_ifs
        · simp only [ems_tx_pollAck_eq, ems_doReadCommand_live, and_self]
        · exact ⟨rfl, rfl⟩
        · exact ⟨rfl, rfl⟩
      · rw [_processType_other cfg now rx s t rest hsrc hidle hdest hq hread hval]
        exact ⟨rfl, rfl⟩

/-- The framing step stamps the telegram with the time it is given. -/
theorem frame_timestamp (telegram : List Nat) (length now : Nat) :
    (ems_parseTelegram_frame telegram length now).timestamp = now := by
  unfold ems_parseTelegram_frame
  dsimp only
  split_ifs <;> rfl

/-- C36: `ems_getBusConnected` returns false and clears the stored flag when
the time since `emsRxTimestamp`, taken modulo `2 ^ 32`, is more than 15000 ms,
and otherwise returns the stored flag and leaves the state as it is; a
telegram of at least five bytes with a valid CRC, received with Rx status idle,
sets the flag and sets `emsRxTimestamp` to the time of the call, so that a
query at most 15000 ms later (also across the wrap of the 32-bit clock) returns
true. -/
theorem C36_bus_liveness (cfg : Config) (env : Env) (telegram : List Nat) (length : Nat)
    (s : State)
    (hrx : s.EMS_Sys_Status.emsRxStatus = EMS_RX_STATUS_IDLE)
    (hL : 5 ≤ length)
    (hcrc : telegram.getD (length - 1) 0 = _crcCalculator telegram length) :
    (∀ (now : Nat) (s0 : State),
      ((now + 2 ^ 32 - s0.EMS_Sys_Status.emsRxTimestamp) % 2 ^ 32 > 15000 →
        ems_getBusConnected now s0
          = (false, { s0 with EMS_Sys_Status.emsBusConnected := false })) ∧
      (¬ (now + 2 ^ 32 - s0.EMS_Sys_Status.emsRxTimestamp) % 2 ^ 32 > 15000 →
        ems_getBusConnected now s0 = (s0.EMS_Sys_Status.emsBusConnected, s0))) ∧
    (ems_parseTelegram cfg env telegram length s).EMS_Sys_Status.emsBusConnected = true ∧
    (ems_parseTelegram cfg env telegram length s).EMS_Sys_Status.emsRxTimestamp = env.millis ∧
    (∀ now, (now + 2 ^ 32 - env.millis) % 2 ^ 32 ≤ 15000 →
      (ems_getBusConnected now (ems_parseTelegram cfg env telegram length s)).1 = true) ∧
    (∀ elapsed, elapsed ≤ 15000 →
      (ems_getBusConnected ((env.millis + elapsed) % 2 ^ 32)
        (ems_parseTelegram cfg env telegram length s)).1 = true) := by
  have hget : ∀ (now : Nat) (s0 : State),
      ((now + 2 ^ 32 - s0.EMS_Sys_Status.emsRxTimestamp) % 2 ^ 32 > 15000 →
        ems_getBusConnected now s0
          = (false, { s0 with EMS_Sys_Status.emsBusConnected := false })) ∧
      (¬ (now + 2 ^ 32 - s0.EMS_Sys_Status.emsRxTimestamp) % 2 ^ 32 > 15000 →
        ems_getBusConnected now s0 = (s0.EMS_Sys_Status.emsBusConnected, s0)) := by
    intro now s0
    unfold ems_getBusConnected EMS_BUS_TIMEOUT
    dsimp only
    refine ⟨fun h => ?_, fun h => ?_⟩
    · rw [if_pos h]
    · rw [if_neg h]
  have hlive : (ems_parseTelegram cfg env telegram length s).EMS_Sys_Status.emsBusConnected
        = true ∧
      (ems_parseTelegram cfg env telegram length s).EMS_Sys_Status.emsRxTimestamp
        = env.millis := by
    by_cases hrev : s.EMS_Sys_Status.emsTxStatus = EMS_TX_REV_DETECT
    · rw [ems_parseTelegram_detect cfg env telegram length s hrev hL hcrc,
        if_neg (not_not.mpr hrx)]
      exact ⟨(_processType_live cfg env.millis _ _).1,
        (_processType_live cfg env.millis _ _).2.trans (frame_timestamp telegram length _)⟩
    · rw [ems_parseTelegram_detected cfg env telegram length s hrev, if_neg (not_not.mpr hrx),
        if_neg (by omega), if_neg (by omega), if_neg (not_not.mpr hcrc)]
      exact ⟨(_processType_live cfg env.millis _ _).1,
        (_processType_live cfg env.millis _ _).2.trans (frame_timestamp telegram length _)⟩
  have hquery : ∀ now, (now + 2 ^ 32 - env.millis) % 2 ^ 32 ≤ 15000 →
      (ems_getBusConnected now (ems_parseTelegram cfg env telegram length s)).1 = true := by
    intro now hnow
    have h := (hget now (ems_parseTelegram cfg env telegram length s)).2
      (by rw [hlive.2]; omega)
    rw [h]
    exact hlive.1
  refine ⟨hget, hlive.1, hlive.2, hquery, ?_⟩
  intro elapsed he
  apply hquery
  norm_num
  omega

/-- C36 at the state `sampleIdle 0x00` and the telegram `08 0B 19 00 5E`
received at 1000 ms: a query at 16000 ms returns true, and a query at 16001 ms
of a state with the same time stamp returns false and clears the flag. -/
theorem C36_bus_liveness_witness :
    (ems_parseTelegram sampleConfig sampleEnv [0x08, 0x0B, 0x19, 0x00, 0x5E] 5
      (sampleIdle 0x00)).EMS_Sys_Status.emsBusConnected = true ∧
    (ems_parseTelegram sampleConfig sampleEnv [0x08, 0x0B, 0x19, 0x00, 0x5E] 5
      (sampleIdle 0x00)).EMS_Sys_Status.emsRxTimestamp = sampleEnv.millis ∧
    (ems_getBusConnected 16000 (ems_parseTelegram sampleConfig sampleEnv
      [0x08, 0x0B, 0x19, 0x00, 0x5E] 5 (sampleIdle 0x00))).1 = true ∧
    ems_getBusConnected 16001
        { sampleIdle 0x00 with
          EMS_Sys_Status.emsRxTimestamp := 1000
          EMS_Sys_Status.emsBusConnected := true }
      = (false, { sampleIdle 0x00 with
          EMS_Sys_Status.emsRxTimestamp := 1000
          EMS_Sys_Status.emsBusConnected := false }) :=
  (fun h => ⟨h.2.1, h.2.2.1, h.2.2.2.1 16000 (by decide),
      (h.1 16001 { sampleIdle 0x00 with
          EMS_Sys_Status.emsRxTimestamp := 1000
          EMS_Sys_Status.emsBusConnected := true }).1 (by decide)⟩)
    (C36_bus_liveness sampleConfig sampleEnv [0x08, 0x0B, 0x19, 0x00, 0x5E] 5 (sampleIdle 0x00)
      rfl (by decide) (by decide))

/-! ## Binding is first-wins -/

/-- The function `ems_doReadCommand` leaves the list of detected devices and
the boiler and thermostat records alone. -/
theorem ems_doReadCommand_records (cfg : Config) (now type dest : Nat) (forceRefresh : Bool)
    (s : State) :
    (ems_doReadCommand cfg now type dest forceRefresh s).Devices = s.Devices ∧
    (ems_doReadCommand cfg now type dest forceRefresh s).EMS_Boiler = s.EMS_Boiler ∧
    (ems_doReadCommand cfg now type dest forceRefresh s).EMS_Thermostat = s.EMS_Thermostat := by
  unfold ems_doReadCommand
  split_ifs <;> exact ⟨rfl, rfl, rfl⟩

/-- The function `ems_getBoilerValues` leaves the list of detected devices and
the boiler and thermostat records alone. -/
theorem ems_getBoilerValues_records (cfg : Config) (now : Nat) (s : State) :
    (ems_getBoilerValues cfg now s).Devices = s.Devices ∧
    (ems_getBoilerValues cfg now s).EMS_Boiler = s.EMS_Boiler ∧
    (ems_getBoilerValues cfg now s).EMS_Thermostat = s.EMS_Thermostat := by
  unfold ems_getBoilerValues
  simp only [ems_doReadCommand_records, and_self]

/-- The function `ems_getThermostatValues` leaves the list of detected devices
and the boiler and thermostat records alone. -/
theorem ems_getThermostatValues_records (cfg : Config) (now : Nat) (s : State) :
    (ems_getThermostatValues cfg now s).Devices = s.Devices ∧
    (ems_getThermostatValues cfg now s).EMS_Boiler = s.EMS_Boiler ∧
    (ems_getThermostatValues cfg now s).EMS_Thermostat = s.EMS_Thermostat := by
  unfold ems_getThermostatValues
  dsimp only
  split
  · exact ⟨rfl, rfl, rfl⟩
  · simp only [ems_doReadCommand_records]
    split_ifs <;> simp only [ems_doReadCommand_records, and_self]

/-- The function `ems_getSolarModuleValues` leaves the list of detected devices
and the boiler and thermostat records alone. -/
theorem ems_getSolarModuleValues_records (cfg : Config) (now : Nat) (s : State) :
    (ems_getSolarModuleValues cfg now s).Devices = s.Devices ∧
    (ems_getSolarModuleValues cfg now s).EMS_Boiler = s.EMS_Boiler ∧
    (ems_getSolarModuleValues cfg now s).EMS_Thermostat = s.EMS_Thermostat := by
  unfold ems_getSolarModuleValues
  dsimp only
  split_ifs <;> simp only [ems_doReadCommand_records, and_self]

/-- After `_addDevice` the list holds an entry with the product ID and the
device address given. -/
theorem _addDevice_listed (product_id device_id : Nat) (version model_string : String)
    (s : State) :
    ∃ e ∈ (_addDevice product_id device_id version model_string s).Devices,
      e.product_id = product_id ∧ e.device_id = device_id := by
  unfold _addDevice
  dsimp only
  by_cases hf : s.Devices.any
      (fun it => it.product_id == product_id && it.device_id == device_id) = true
  · rw [hf]
    exact (_addDevice_found product_id device_id s.Devices).mp hf
  · rw [Bool.not_eq_true] at hf
    rw [hf]
    exact ⟨_, List.mem_append_right _ (List.mem_singleton_self _), rfl, rfl⟩

/-- The function `_process_Version` leaves a thermostat record with a product
ID, and a boiler record with a device address and a product ID, as they are. -/
theorem _process_Version_kept (cfg : Config) (now : Nat) (rx : _EMS_RxTelegram) (s : State) :
    (s.EMS_Thermostat.product_id ≠ EMS_ID_NONE →
      (_process_Version cfg now rx s).EMS_Thermostat = s.EMS_Thermostat) ∧
    (s.EMS_Boiler.device_id ≠ EMS_ID_NONE → s.EMS_Boiler.product_id ≠ EMS_ID_NONE →
      (_process_Version cfg now rx s).EMS_Boiler = s.EMS_Boiler) := by
  unfold _process_Version
  dsimp only
  split
  · exact ⟨fun _ => rfl, fun _ _ => rfl⟩
  · split
    · split_ifs with hc
      · refine ⟨fun _ => ?_, fun hd hp => ?_⟩
        · simp only [ems_getBoilerValues_records, _addDevice_frame]
        · simp only [_addDevice_frame] at hc
          rcases hc with hc | ⟨_, hc⟩
          · exact absurd hc hd
          · exact absurd hc hp
      · refine ⟨fun _ => ?_, fun hd hp => ?_⟩
        · simp only [ems_getBoilerValues_records, _addDevice_frame]
        · simp only [_addDevice_frame] at hc
          rcases hc with hc | ⟨_, hc⟩
          · exact absurd hc hd
          · exact absurd hc hp
      · simp only [_addDevice_frame, implies_true, and_self]
    · split
      · split_ifs with hc
        · refine ⟨fun hp => ?_, fun _ _ => ?_⟩
          · simp only [_addDevice_frame] at hc
            exact absurd hc.2 hp
          · simp only [ems_getThermostatValues_records, _addDevice_frame]
        · simp only [_addDevice_frame, implies_true, and_self]
      · split
        · simp only [ems_getSolarModuleValues_records, _addDevice_frame, implies_true, and_self]
        · split
          · simp only [_addDevice_frame, implies_true, and_self]
          · split <;> simp only [_addDevice_frame, implies_true, and_self]

/-- A Version telegram with a payload of at least three bytes leaves an entry
with its product ID in the list of detected devices: with the address
`EMS_ID_BOILER` when it is taken for a boiler, with the address of the first
matching entry of `Thermostat_Types` when it is taken for a thermostat. -/
theorem _process_Version_listed (cfg : Config) (now : Nat) (rx : _EMS_RxTelegram) (s : State)
    (hlen : 3 ≤ rx.data_length) :
    ∃ e ∈ (_process_Version cfg now rx s).Devices, e.product_id = _toByte rx 0 ∧
      (∀ j, findFirst (fun (b : _Boiler_Type) =>
            b.product_id == _toByte rx 0 && (rx.src &&& 0x7F) == cfg.EMS_ID_BOILER)
          cfg.Boiler_Types 0 = some j → e.device_id = cfg.EMS_ID_BOILER) ∧
      (∀ j, findFirst (fun (b : _Boiler_Type) =>
            b.product_id == _toByte rx 0 && (rx.src &&& 0x7F) == cfg.EMS_ID_BOILER)
          cfg.Boiler_Types 0 = none →
        findFirst (fun (t : _Thermostat_Type) => t.product_id == _toByte rx 0)
          cfg.Thermostat_Types 0 = some j →
        e.device_id = (cfg.Thermostat_Types.getD j ⟨0, 0, 0, "", false⟩).device_id) := by
  unfold _process_Version
  dsimp only
  rw [if_neg (by omega)]
  split
  · rename_i i hb
    obtain ⟨e, he, h1, h2⟩ := _addDevice_listed (_toByte rx 0) cfg.EMS_ID_BOILER
      (fmt02d (_toByte rx 1) ++ "." ++ fmt02d (_toByte rx 2))
      (cfg.Boiler_Types.getD i ⟨0, 0, ""⟩).model_string s
    refine ⟨e, ?_, h1, fun _ _ => h2, fun j hn => ?_⟩
    · split_ifs <;> (try simp only [ems_getBoilerValues_records]) <;> exact he
    · rw [hb] at hn
      cases hn
  · rename_i hb
    split
    · rename_i i ht
      obtain ⟨e, he, h1, h2⟩ := _addDevice_listed (_toByte rx 0)
        (cfg.Thermostat_Types.getD i ⟨0, 0, 0, "", false⟩).device_id
        (fmt02d (_toByte rx 1) ++ "." ++ fmt02d (_toByte rx 2))
        (cfg.Thermostat_Types.getD i ⟨0, 0, 0, "", false⟩).model_string s
      refine ⟨e, ?_, h1, fun j hj => ?_, fun j _ hj => ?_⟩
      · split_ifs <;> (try simp only [ems_getThermostatValues_records]) <;> exact he
      · rw [hb] at hj
        cases hj
      · rw [ht] at hj
        cases hj
        exact h2
    · rename_i ht
      have hno : ∀ (e : _Generic_Type),
          (∀ j, findFirst (fun (b : _Boiler_Type) =>
                b.product_id == _toByte rx 0 && (rx.src &&& 0x7F) == cfg.EMS_ID_BOILER)
              cfg.Boiler_Types 0 = some j → e.device_id = cfg.EMS_ID_BOILER) ∧
          (∀ j, findFirst (fun (b : _Boiler_Type) =>
                b.product_id == _toByte rx 0 && (rx.src &&& 0x7F) == cfg.EMS_ID_BOILER)
              cfg.Boiler_Types 0 = none →
            findFirst (fun (t : _Thermostat_Type) => t.product_id == _toByte rx 0)
              cfg.Thermostat_Types 0 = some j →
            e.device_id = (cfg.Thermostat_Types.getD j ⟨0, 0, 0, "", false⟩).device_id) := by
        intro e
        refine ⟨fun j hj => ?_, fun j _ hj => ?_⟩
        · rw [hb] at hj
          cases hj
        · rw [ht] at hj
          cases hj
      split
      · rename_i i _
        obtain ⟨e, he, h1, _⟩ := _addDevice_listed (_toByte rx 0)
          (cfg.SolarModule_Types.getD i ⟨0, 0, 0, ""⟩).device_id
          (fmt02d (_toByte rx 1) ++ "." ++ fmt02d (_toByte rx 2))
          (cfg.SolarModule_Types.getD i ⟨0, 0, 0, ""⟩).model_string s
        refine ⟨e, ?_, h1, hno e⟩
        simp only [ems_getSolarModuleValues_records]
        exact he
      · split
        · rename_i i _
          obtain ⟨e, he, h1, _⟩ := _addDevice_listed (_toByte rx 0)
            (cfg.HeatPump_Types.getD i ⟨0, 0, 0, ""⟩).device_id
            (fmt02d (_toByte rx 1) ++ "." ++ fmt02d (_toByte rx 2))
            (cfg.HeatPump_Types.getD i ⟨0, 0, 0, ""⟩).model_string s
          exact ⟨e, he, h1, hno e⟩
        · split
          · rename_i i _
            obtain ⟨e, he, h1, _⟩ := _addDevice_listed (_toByte rx 0)
              (cfg.Other_Types.getD i ⟨0, 0, 0, ""⟩).device_id
              (fmt02d (_toByte rx 1) ++ "." ++ fmt02d (_toByte rx 2))
              (cfg.Other_Types.getD i ⟨0, 0, 0, ""⟩).model_string s
            exact ⟨e, he, h1, hno e⟩
          · obtain ⟨e, he, h1, _⟩ := _addDevice_listed (_toByte rx 0) rx.src
              (fmt02d (_toByte rx 1) ++ "." ++ fmt02d (_toByte rx 2)) "unknown?" s
            exact ⟨e, he, h1, hno e⟩

/-- A Version telegram that is taken for a thermostat binds the thermostat
record when the record is still unset. -/
theorem _process_Version_binds_thermostat (cfg : Config) (now : Nat) (rx : _EMS_RxTelegram)
    (s : State) (i : Nat) (hlen : 3 ≤ rx.data_length)
    (hb : findFirst (fun (b : _Boiler_Type) =>
        b.product_id == _toByte rx 0 && (rx.src &&& 0x7F) == cfg.EMS_ID_BOILER)
      cfg.Boiler_Types 0 = none)
    (ht : findFirst (fun (t : _Thermostat_Type) => t.product_id == _toByte rx 0)
      cfg.Thermostat_Types 0 = some i)
    (hc : (s.EMS_Thermostat.device_id = EMS_ID_NONE ∨
        s.EMS_Thermostat.model_id = cfg.EMS_MODEL_NONE ∨
        s.EMS_Thermostat.device_id = (cfg.Thermostat_Types.getD i ⟨0, 0, 0, "", false⟩).device_id) ∧
      s.EMS_Thermostat.product_id = EMS_ID_NONE) :
    (_process_Version cfg now rx s).EMS_Thermostat =
      { s.EMS_Thermostat with
        model_id := (cfg.Thermostat_Types.getD i ⟨0, 0, 0, "", false⟩).model_id
        device_id := (cfg.Thermostat_Types.getD i ⟨0, 0, 0, "", false⟩).device_id
        write_supported := (cfg.Thermostat_Types.getD i ⟨0, 0, 0, "", false⟩).write_supported
        product_id := _toByte rx 0
        version := fmt02d (_toByte rx 1) ++ "." ++ fmt02d (_toByte rx 2) } := by
  unfold _process_Version
  dsimp only
  rw [if_neg (by omega), hb]
  dsimp only
  rw [ht]
  dsimp only
  rw [if_pos (by simp only [_addDevice_frame]; exact hc)]
  simp only [ems_getThermostatValues_records, _addDevice_frame]

/-- A Version telegram that is taken for a boiler binds the boiler record when
the record is still unset. -/
theorem _process_Version_binds_boiler (cfg : Config) (now : Nat) (rx : _EMS_RxTelegram)
    (s : State) (i : Nat) (hlen : 3 ≤ rx.data_length)
    (hb : findFirst (fun (b : _Boiler_Type) =>
        b.product_id == _toByte rx 0 && (rx.src &&& 0x7F) == cfg.EMS_ID_BOILER)
      cfg.Boiler_Types 0 = some i)
    (hc : s.EMS_Boiler.device_id = EMS_ID_NONE ∨
      (s.EMS_Boiler.device_id = cfg.EMS_ID_BOILER ∧ s.EMS_Boiler.product_id = EMS_ID_NONE)) :
    (_process_Version cfg now rx s).EMS_Boiler =
      { s.EMS_Boiler with
        device_id := cfg.EMS_ID_BOILER
        product_id := _toByte rx 0
        version := fmt02d (_toByte rx 1) ++ "." ++ fmt02d (_toByte rx 2) } := by
  obtain ⟨_, e, hget, hp⟩ := findFirst_some _ _ _ _ hb
  have he : cfg.Boiler_Types.getD i ⟨0, 0, ""⟩ = e := getD_of_get? _ _ _ _ hget
  have hid : e.product_id = _toByte rx 0 := by
    simp only [Bool.and_eq_true, beq_iff_eq] at hp
    exact hp.1
  unfold _process_Version
  dsimp only
  rw [if_neg (by omega), hb]
  dsimp only
  rw [if_pos (by simp only [_addDevice_frame]; exact hc), he, hid]
  simp only [ems_getBoilerValues_records]
  split_ifs <;> simp only [_addDevice_frame]

/-- C31, counterexample: the Version telegram `10 00 02 00 56 01 02 05` binds
the thermostat (product ID 86, address `0x10`); the later Version telegram
`17 00 02 00 4D 01 59` has the product ID 77 of another entry of
`Thermostat_Types`, but its payload has two bytes and `_process_Version`
ignores it: the list of detected devices still holds the one entry
(86, `0x10`). -/
theorem C31_short_version_telegram_not_listed :
    [0x10, 0x00, 0x02, 0x00, 0x56, 0x01, 0x02, 0x05].getD (8 - 1) 0
      = _crcCalculator [0x10, 0x00, 0x02, 0x00, 0x56, 0x01, 0x02, 0x05] 8 ∧
    [0x17, 0x00, 0x02, 0x00, 0x4D, 0x01, 0x59].getD (7 - 1) 0
      = _crcCalculator [0x17, 0x00, 0x02, 0x00, 0x4D, 0x01, 0x59] 7 ∧
    (ems_parseTelegram_frame [0x17, 0x00, 0x02, 0x00, 0x4D, 0x01, 0x59] 7 1000).type
      = sampleConfig.EMS_TYPE_Version ∧
    (ems_parseTelegram_frame [0x17, 0x00, 0x02, 0x00, 0x4D, 0x01, 0x59] 7 1000).data_length = 2 ∧
    _toByte (ems_parseTelegram_frame [0x17, 0x00, 0x02, 0x00, 0x4D, 0x01, 0x59] 7 1000) 0
      = 0x4D ∧
    findFirst (fun (t : _Thermostat_Type) => t.product_id == 0x4D)
      sampleConfig.Thermostat_Types 0 = some 1 ∧
    (ems_parseTelegram sampleConfig sampleEnv [0x10, 0x00, 0x02, 0x00, 0x56, 0x01, 0x02, 0x05] 8
      (sampleIdle 0x00)).EMS_Thermostat.product_id = 0x56 ∧
    ((ems_parseTelegram sampleConfig sampleEnv [0x17, 0x00, 0x02, 0x00, 0x4D, 0x01, 0x59] 7
      (ems_parseTelegram sampleConfig sampleEnv [0x10, 0x00, 0x02, 0x00, 0x56, 0x01, 0x02, 0x05] 8
        (sampleIdle 0x00))).Devices.map (fun d => (d.product_id, d.device_id)))
      = [(0x56, 0x10)] := by
  refine ⟨?_, ?_, ?_, ?_, ?_, ?_, ?_, ?_⟩ <;> decide

/-- C31 (amended): let a first Version telegram, with a product ID other than
the none sentinel, bind the thermostat record (respectively the boiler record)
that was unset.  Then every later Version telegram with a payload of at least
three bytes leaves the bound record as it is, every field of it, and leaves an
entry with its own product ID in the list of detected devices: with the
address of the matching entry of `Thermostat_Types` when it is taken for a
thermostat, with the address `EMS_ID_BOILER` when it is taken for a boiler. -/
theorem C31_first_wins_amended (cfg : Config) (now1 now2 : Nat) (rx1 rx2 : _EMS_RxTelegram)
    (s : State) (hlen1 : 3 ≤ rx1.data_length) (hlen2 : 3 ≤ rx2.data_length)
    (hid : _toByte rx1 0 ≠ EMS_ID_NONE) :
    (∀ i,
      findFirst (fun (b : _Boiler_Type) =>
          b.product_id == _toByte rx1 0 && (rx1.src &&& 0x7F) == cfg.EMS_ID_BOILER)
        cfg.Boiler_Types 0 = none →
      findFirst (fun (t : _Thermostat_Type) => t.product_id == _toByte rx1 0)
        cfg.Thermostat_Types 0 = some i →
      ((s.EMS_Thermostat.device_id = EMS_ID_NONE ∨
          s.EMS_Thermostat.model_id = cfg.EMS_MODEL_NONE ∨
          s.EMS_Thermostat.device_id
            = (cfg.Thermostat_Types.getD i ⟨0, 0, 0, "", false⟩).device_id) ∧
        s.EMS_Thermostat.product_id = EMS_ID_NONE) →
      (_process_Version cfg now1 rx1 s).EMS_Thermostat.product_id = _toByte rx1 0 ∧
      (_process_Version cfg now1 rx1 s).EMS_Thermostat.device_id
        = (cfg.Thermostat_Types.getD i ⟨0, 0, 0, "", false⟩).device_id ∧
      (_process_Version cfg now1 rx1 s).EMS_Thermostat.model_id
        = (cfg.Thermostat_Types.getD i ⟨0, 0, 0, "", false⟩).model_id ∧
      (_process_Version cfg now1 rx1 s).EMS_Thermostat.write_supported
        = (cfg.Thermostat_Types.getD i ⟨0, 0, 0, "", false⟩).write_supported ∧
      (_process_Version cfg now2 rx2 (_process_Version cfg now1 rx1 s)).EMS_Thermostat
        = (_process_Version cfg now1 rx1 s).EMS_Thermostat) ∧
    (∀ i,
      findFirst (fun (b : _Boiler_Type) =>
          b.product_id == _toByte rx1 0 && (rx1.src &&& 0x7F) == cfg.EMS_ID_BOILER)
        cfg.Boiler_Types 0 = some i →
      (s.EMS_Boiler.device_id = EMS_ID_NONE ∨
        (s.EMS_Boiler.device_id = cfg.EMS_ID_BOILER ∧ s.EMS_Boiler.product_id = EMS_ID_NONE)) →
      cfg.EMS_ID_BOILER ≠ EMS_ID_NONE →
      (_process_Version cfg now1 rx1 s).EMS_Boiler.product_id = _toByte rx1 0 ∧
      (_process_Version cfg now1 rx1 s).EMS_Boiler.device_id = cfg.EMS_ID_BOILER ∧
      (_process_Version cfg now2 rx2 (_process_Version cfg now1 rx1 s)).EMS_Boiler
        = (_process_Version cfg now1 rx1 s).EMS_Boiler) ∧
    ∃ e ∈ (_process_Version cfg now2 rx2 (_process_Version cfg now1 rx1 s)).Devices,
      e.product_id = _toByte rx2 0 ∧
      (∀ j, findFirst (fun (b : _Boiler_Type) =>
            b.product_id == _toByte rx2 0 && (rx2.src &&& 0x7F) == cfg.EMS_ID_BOILER)
          cfg.Boiler_Types 0 = some j → e.device_id = cfg.EMS_ID_BOILER) ∧
      (∀ j, findFirst (fun (b : _Boiler_Type) =>
            b.product_id == _toByte rx2 0 && (rx2.src &&& 0x7F) == cfg.EMS_ID_BOILER)
          cfg.Boiler_Types 0 = none →
        findFirst (fun (t : _Thermostat_Type) => t.product_id == _toByte rx2 0)
          cfg.Thermostat_Types 0 = some j →
        e.device_id = (cfg.Thermostat_Types.getD j ⟨0, 0, 0, "", false⟩).device_id) := by
  refine ⟨fun i hb ht hc => ?_, fun i hb hc hbid => ?_,
    _process_Version_listed cfg now2 rx2 _ hlen2⟩
  · have h1 := _process_Version_binds_thermostat cfg now1 rx1 s i hlen1 hb ht hc
    have hp : (_process_Version cfg now1 rx1 s).EMS_Thermostat.product_id = _toByte rx1 0 := by
      rw [h1]
    refine ⟨hp, by rw [h1], by rw [h1], by rw [h1], ?_⟩
    exact (_process_Version_kept cfg now2 rx2 _).1 (by rw [hp]; exact hid)
  · have h1 := _process_Version_binds_boiler cfg now1 rx1 s i hlen1 hb hc
    have hp : (_process_Version cfg now1 rx1 s).EMS_Boiler.product_id = _toByte rx1 0 := by
      rw [h1]
    have hd : (_process_Version cfg now1 rx1 s).EMS_Boiler.device_id = cfg.EMS_ID_BOILER := by
      rw [h1]
    exact ⟨hp, hd, (_process_Version_kept cfg now2 rx2 _).2 (by rw [hd]; exact hbid)
      (by rw [hp]; exact hid)⟩

/-- C31 (amended) at the state `sampleIdle 0x00`: the Version telegram
`10 00 02 00 56 01 02 05` binds the thermostat with product ID 86, and the
later Version telegram `17 00 02 00 4D 01 02 B0` with product ID 77 leaves the
record as it is and is listed with the address `0x17`. -/
theorem C31_first_wins_amended_witness :
    (_process_Version sampleConfig 1000
      (ems_parseTelegram_frame [0x10, 0x00, 0x02, 0x00, 0x56, 0x01, 0x02, 0x05] 8 1000)
      (sampleIdle 0x00)).EMS_Thermostat.product_id
      = _toByte (ems_parseTelegram_frame [0x10, 0x00, 0x02, 0x00, 0x56, 0x01, 0x02, 0x05] 8 1000)
          0 ∧
    (_process_Version sampleConfig 2000
      (ems_parseTelegram_frame [0x17, 0x00, 0x02, 0x00, 0x4D, 0x01, 0x02, 0xB0] 8 2000)
      (_process_Version sampleConfig 1000
        (ems_parseTelegram_frame [0x10, 0x00, 0x02, 0x00, 0x56, 0x01, 0x02, 0x05] 8 1000)
        (sampleIdle 0x00))).EMS_Thermostat
      = (_process_Version sampleConfig 1000
        (ems_parseTelegram_frame [0x10, 0x00, 0x02, 0x00, 0x56, 0x01, 0x02, 0x05] 8 1000)
        (sampleIdle 0x00)).EMS_Thermostat ∧
    ∃ e ∈ (_process_Version sampleConfig 2000
      (ems_parseTelegram_frame [0x17, 0x00, 0x02, 0x00, 0x4D, 0x01, 0x02, 0xB0] 8 2000)
      (_process_Version sampleConfig 1000
        (ems_parseTelegram_frame [0x10, 0x00, 0x02, 0x00, 0x56, 0x01, 0x02, 0x05] 8 1000)
        (sampleIdle 0x00))).Devices,
      e.product_id
        = _toByte (ems_parseTelegram_frame [0x17, 0x00, 0x02, 0x00, 0x4D, 0x01, 0x02, 0xB0] 8 2000)
            0 ∧
      e.device_id = (sampleConfig.Thermostat_Types.getD 1 ⟨0, 0, 0, "", false⟩).device_id :=
  (fun h => ⟨(h.1 0 (by decide) (by decide) (by decide)).1,
      (h.1 0 (by decide) (by decide) (by decide)).2.2.2.2,
      h.2.2.elim (fun e he => ⟨e, he.1, he.2.1, he.2.2.2 1 (by decide) (by decide)⟩)⟩)
    (C31_first_wins_amended sampleConfig 1000 2000
      (ems_parseTelegram_frame [0x10, 0x00, 0x02, 0x00, 0x56, 0x01, 0x02, 0x05] 8 1000)
      (ems_parseTelegram_frame [0x17, 0x00, 0x02, 0x00, 0x4D, 0x01, 0x02, 0xB0] 8 2000)
      (sampleIdle 0x00) (by decide) (by decide) (by decide))

/-! ## The command builders and an unbound target -/

/-- A queue is not empty after `CircularBuffer_push`. -/
theorem CircularBuffer_push_ne_nil (cfg : Config) (q : List _EMS_TxTelegram)
    (x : _EMS_TxTelegram) : CircularBuffer_push cfg q x ≠ [] := by
  unfold CircularBuffer_push
  split_ifs <;> exact List.append_ne_nil_of_right_ne_nil _ (List.cons_ne_nil _ _)

/-- A step that leaves the Tx status alone and leaves the queue alone or
pushes on it keeps the queue non-empty while a reply is awaited. -/
theorem waiting_of_push (cfg : Config) (s s1 : State)
    (ht : s1.EMS_Sys_Status.emsTxStatus = s.EMS_Sys_Status.emsTxStatus)
    (hq : s1.EMS_TxQueue = s.EMS_TxQueue ∨
      ∃ t, s1.EMS_TxQueue = CircularBuffer_push cfg s.EMS_TxQueue t)
    (h : s.EMS_Sys_Status.emsTxStatus = EMS_TX_STATUS_WAIT → s.EMS_TxQueue ≠ []) :
    s1.EMS_Sys_Status.emsTxStatus = EMS_TX_STATUS_WAIT → s1.EMS_TxQueue ≠ [] := by
  intro hw
  rcases hq with hq | ⟨t, hq⟩
  · rw [hq]
    exact h (ht ▸ hw)
  · rw [hq]
    exact CircularBuffer_push_ne_nil cfg _ t

/-- The function `ems_doReadCommand` leaves the Tx status alone and leaves the
queue alone or pushes on it. -/
theorem ems_doReadCommand_push (cfg : Config) (now type dest : Nat) (forceRefresh : Bool)
    (s : State) :
    (ems_doReadCommand cfg now type dest forceRefresh s).EMS_Sys_Status.emsTxStatus
      = s.EMS_Sys_Status.emsTxStatus ∧
    ((ems_doReadCommand cfg now type dest forceRefresh s).EMS_TxQueue = s.EMS_TxQueue ∨
      ∃ t, (ems_doReadCommand cfg now type dest forceRefresh s).EMS_TxQueue
        = CircularBuffer_push cfg s.EMS_TxQueue t) := by
  unfold ems_doReadCommand
  split_ifs
  · exact ⟨rfl, Or.inl rfl⟩
  · exact ⟨rfl, Or.inl rfl⟩
  · exact ⟨rfl, Or.inr ⟨_, rfl⟩⟩

/-- The function `ems_sendRawTelegram` leaves the Tx status alone and leaves
the queue alone or pushes on it. -/
theorem ems_sendRawTelegram_push (cfg : Config) (now : Nat) (values : List Nat) (s : State) :
    (ems_sendRawTelegram cfg now values s).EMS_Sys_Status.emsTxStatus
      = s.EMS_Sys_Status.emsTxStatus ∧
    ((ems_sendRawTelegram cfg now values s).EMS_TxQueue = s.EMS_TxQueue ∨
      ∃ t, (ems_sendRawTelegram cfg now values s).EMS_TxQueue
        = CircularBuffer_push cfg s.EMS_TxQueue t) := by
  unfold ems_sendRawTelegram
  by_cases hd : s.EMS_Sys_Status.emsTxDisabled = true
  · rw [if_pos hd]
    exact ⟨rfl, Or.inl rfl⟩
  · rw [if_neg hd]
    dsimp only
    by_cases hc : values.length - 1 = 0
    · rw [if_pos hc]
      exact ⟨rfl, Or.inl rfl⟩
    · rw [if_neg hc]
      exact ⟨rfl, Or.inr ⟨_, rfl⟩⟩

/-- The function `ems_setThermostatTemp` leaves the Tx status alone and leaves
the queue alone or pushes on it. -/
theorem ems_setThermostatTemp_push (cfg : Config) (now : Nat) (temperature : ℚ)
    (temptype : Nat) (s : State) :
    (ems_setThermostatTemp cfg now temperature temptype s).EMS_Sys_Status.emsTxStatus
      = s.EMS_Sys_Status.emsTxStatus ∧
    ((ems_setThermostatTemp cfg now temperature temptype s).EMS_TxQueue = s.EMS_TxQueue ∨
      ∃ t, (ems_setThermostatTemp cfg now temperature temptype s).EMS_TxQueue
        = CircularBuffer_push cfg s.EMS_TxQueue t) := by
  unfold ems_setThermostatTemp
  by_cases h1 : (!ems_getThermostatEnabled s) = true
  · rw [if_pos h1]
    exact ⟨rfl, Or.inl rfl⟩
  · rw [if_neg h1]
    by_cases h2 : (!s.EMS_Thermostat.write_supported) = true
    · rw [if_pos h2]
      exact ⟨rfl, Or.inl rfl⟩
    · rw [if_neg h2]
      exact ⟨rfl, Or.inr ⟨_, rfl⟩⟩

/-- The function `ems_setThermostatMode` leaves the Tx status alone and leaves
the queue alone or pushes on it. -/
theorem ems_setThermostatMode_push (cfg : Config) (now mode : Nat) (s : State) :
    (ems_setThermostatMode cfg now mode s).EMS_Sys_Status.emsTxStatus
      = s.EMS_Sys_Status.emsTxStatus ∧
    ((ems_setThermostatMode cfg now mode s).EMS_TxQueue = s.EMS_TxQueue ∨
      ∃ t, (ems_setThermostatMode cfg now mode s).EMS_TxQueue
        = CircularBuffer_push cfg s.EMS_TxQueue t) := by
  unfold ems_setThermostatMode
  by_cases h1 : (!ems_getThermostatEnabled s) = true
  · rw [if_pos h1]
    exact ⟨rfl, Or.inl rfl⟩
  · rw [if_neg h1]
    by_cases h2 : (!s.EMS_Thermostat.write_supported) = true
    · rw [if_pos h2]
      exact ⟨rfl, Or.inl rfl⟩
    · rw [if_neg h2]
      exact ⟨rfl, Or.inr ⟨_, rfl⟩⟩

/-- The function `ems_setWarmWaterTemp` leaves the Tx status alone and leaves
the queue alone or pushes on it. -/
theorem ems_setWarmWaterTemp_push (cfg : Config) (now temperature : Nat) (s : State) :
    (ems_setWarmWaterTemp cfg now temperature s).EMS_Sys_Status.emsTxStatus
      = s.EMS_Sys_Status.emsTxStatus ∧
    ((ems_setWarmWaterTemp cfg now temperature s).EMS_TxQueue = s.EMS_TxQueue ∨
      ∃ t, (ems_setWarmWaterTemp cfg now temperature s).EMS_TxQueue
        = CircularBuffer_push cfg s.EMS_TxQueue t) := by
  unfold ems_setWarmWaterTemp
  split_ifs
  · exact ⟨rfl, Or.inl rfl⟩
  · exact ⟨rfl, Or.inr ⟨_, rfl⟩⟩

/-- The function `ems_setWarmWaterModeComfort` leaves the Tx status alone and
leaves the queue alone or pushes on it. -/
theorem ems_setWarmWaterModeComfort_push (cfg : Config) (now comfort : Nat) (s : State) :
    (ems_setWarmWaterModeComfort cfg now comfort s).EMS_Sys_Status.emsTxStatus
      = s.EMS_Sys_Status.emsTxStatus ∧
    ((ems_setWarmWaterModeComfort cfg now comfort s).EMS_TxQueue = s.EMS_TxQueue ∨
      ∃ t, (ems_setWarmWaterModeComfort cfg now comfort s).EMS_TxQueue
        = CircularBuffer_push cfg s.EMS_TxQueue t) := by
  unfold ems_setWarmWaterModeComfort
  dsimp only
  split
  · exact ⟨rfl, Or.inl rfl⟩
  · exact ⟨rfl, Or.inr ⟨_, rfl⟩⟩

/-- The function `ems_setWarmTapWaterActivated` leaves the Tx status alone and
pushes on the queue. -/
theorem ems_setWarmTapWaterActivated_push (cfg : Config) (now : Nat) (activated : Bool)
    (s : State) :
    (ems_setWarmTapWaterActivated cfg now activated s).EMS_Sys_Status.emsTxStatus
      = s.EMS_Sys_Status.emsTxStatus ∧
    ((ems_setWarmTapWaterActivated cfg now activated s).EMS_TxQueue = s.EMS_TxQueue ∨
      ∃ t, (ems_setWarmTapWaterActivated cfg now activated s).EMS_TxQueue
        = CircularBuffer_push cfg s.EMS_TxQueue t) :=
  ⟨rfl, Or.inr ⟨_, rfl⟩⟩

/-- After `_ems_sendTelegram` from a state that does not await a reply, the
queue is not empty if a reply is awaited. -/
theorem _ems_sendTelegram_waiting (txStatus : _EMS_TX_STATUS) (s : State)
    (h : s.EMS_Sys_Status.emsTxStatus ≠ EMS_TX_STATUS_WAIT) :
    (_ems_sendTelegram txStatus s).EMS_Sys_Status.emsTxStatus = EMS_TX_STATUS_WAIT →
      (_ems_sendTelegram txStatus s).EMS_TxQueue ≠ [] := by
  unfold _ems_sendTelegram
  split
  · exact fun hw => absurd hw h
  · rename_i t rest hq
    split_ifs
    · exact fun hw => absurd hw h
    · exact fun hw => absurd hw h
    · exact fun hw => absurd hw h
    · intro _
      show s.EMS_TxQueue ≠ []
      rw [hq]
      exact List.cons_ne_nil _ _
    · intro hw
      cases hw

/-- The function `_createValidate` keeps the queue non-empty while a reply is
awaited. -/
theorem _createValidate_waiting (cfg : Config) (stack : _EMS_TxTelegram) (s : State)
    (h : s.EMS_Sys_Status.emsTxStatus = EMS_TX_STATUS_WAIT → s.EMS_TxQueue ≠ []) :
    (_createValidate cfg stack s).EMS_Sys_Status.emsTxStatus = EMS_TX_STATUS_WAIT →
      (_createValidate cfg stack s).EMS_TxQueue ≠ [] := by
  unfold _createValidate
  split
  · exact h
  · dsimp only
    split_ifs <;> (intro hw; cases hw)

/-- One call of `ems_parseTelegram` keeps the queue non-empty while a reply is
awaited. -/
theorem ems_parseTelegram_waiting (cfg : Config) (env : Env) (telegram : List Nat)
    (length : Nat) (s : State)
    (h : s.EMS_Sys_Status.emsTxStatus = EMS_TX_STATUS_WAIT → s.EMS_TxQueue ≠ []) :
    (ems_parseTelegram cfg env telegram length s).EMS_Sys_Status.emsTxStatus
        = EMS_TX_STATUS_WAIT →
      (ems_parseTelegram cfg env telegram length s).EMS_TxQueue ≠ [] := by
  have hproc : ∀ (rx : _EMS_RxTelegram) (s1 : State),
      (s1.EMS_Sys_Status.emsTxStatus = EMS_TX_STATUS_WAIT → s1.EMS_TxQueue ≠ []) →
      (_processType cfg env.millis rx s1).EMS_Sys_Status.emsTxStatus = EMS_TX_STATUS_WAIT →
        (_processType cfg env.millis rx s1).EMS_TxQueue ≠ [] := by
    intro rx s1 h1
    rcases (_processType_bus cfg env.millis rx s1).1 with hp | hp
    · rw [hp]
      exact h1
    · intro hw
      rw [hp] at hw
      cases hw
  by_cases hrev : s.EMS_Sys_Status.emsTxStatus = EMS_TX_REV_DETECT
  · by_cases hv : length ≥ 5 ∧ telegram.getD (length - 1) 0 = _crcCalculator telegram length
    · rw [ems_parseTelegram_detect cfg env telegram length s hrev hv.1 hv.2]
      split_ifs
      · intro hw
        cases hw
      · exact hproc _ _ (fun hw => by cases hw)
    · have hs : ems_parseTelegram cfg env telegram length s = s := by
        unfold ems_parseTelegram
        rw [if_pos ⟨hrev, hv⟩]
      rw [hs]
      exact h
  · rw [ems_parseTelegram_detected cfg env telegram length s hrev]
    by_cases h1 : s.EMS_Sys_Status.emsRxStatus ≠ EMS_RX_STATUS_IDLE
    · rw [if_pos h1]
      exact h
    rw [if_neg h1]
    by_cases h2 : length = 1
    · rw [if_pos h2]
      by_cases h3 : (telegram.getD 0 0 ^^^ 0x80 ^^^ s.EMS_Sys_Status.emsIDMask) = EMS_ID_ME
      · rw [if_pos h3]
        by_cases h4 : !s.EMS_TxQueue.isEmpty ∧ s.EMS_Sys_Status.emsTxStatus = EMS_TX_STATUS_IDLE
        · rw [if_pos h4]
          apply _ems_sendTelegram_waiting
          show s.EMS_Sys_Status.emsTxStatus ≠ EMS_TX_STATUS_WAIT
          rw [h4.2]
          intro hw
          cases hw
        · rw [if_neg h4]
          by_cases h5 : s.EMS_Sys_Status.emsPollEnabled = true
          · rw [if_pos h5]
            exact h
          · rw [if_neg h5]
            exact h
      · rw [if_neg h3]
        by_cases h6 : s.EMS_Sys_Status.emsTxStatus = EMS_TX_STATUS_WAIT
        · rw [if_pos h6]
          by_cases h7 : telegram.getD 0 0 = EMS_TX_SUCCESS
          · rw [if_pos h7]
            exact _createValidate_waiting cfg env.stack_TxTelegram _ h
          · rw [if_neg h7]
            by_cases h8 : telegram.getD 0 0 = EMS_TX_ERROR
            · rw [if_pos h8]
              intro hw
              cases hw
            · rw [if_neg h8]
              exact h
        · rw [if_neg h6]
          exact h
    rw [if_neg h2]
    by_cases h9 : length ≤ 4
    · rw [if_pos h9]
      exact h
    rw [if_neg h9]
    by_cases h10 : telegram.getD (length - 1) 0 ≠ _crcCalculator telegram length
    · rw [if_pos h10]
      exact h
    · rw [if_neg h10]
      exact hproc _ _ h

/-- In every reachable state the queue is not empty while a reply is
awaited. -/
theorem Reachable_waiting (cfg : Config) (s : State) (h : Reachable cfg s) :
    s.EMS_Sys_Status.emsTxStatus = EMS_TX_STATUS_WAIT → s.EMS_TxQueue ≠ [] := by
  induction h with
  | init s0 =>
    intro hw
    have hi : (ems_init cfg s0).EMS_Sys_Status.emsTxStatus = EMS_TX_REV_DETECT := by
      unfold ems_init ems_setLogging
      split <;> rfl
    rw [hi] at hw
    cases hw
  | parseTelegram env telegram length s0 _ ih =>
    exact ems_parseTelegram_waiting cfg env telegram length s0 ih
  | doReadCommand now type dest forceRefresh s0 _ ih =>
    exact waiting_of_push cfg s0 _ (ems_doReadCommand_push cfg now type dest forceRefresh s0).1
      (ems_doReadCommand_push cfg now type dest forceRefresh s0).2 ih
  | sendRawTelegram now values s0 _ ih =>
    exact waiting_of_push cfg s0 _ (ems_sendRawTelegram_push cfg now values s0).1
      (ems_sendRawTelegram_push cfg now values s0).2 ih
  | setThermostatTemp now temperature temptype s0 _ ih =>
    exact waiting_of_push cfg s0 _ (ems_setThermostatTemp_push cfg now temperature temptype s0).1
      (ems_setThermostatTemp_push cfg now temperature temptype s0).2 ih
  | setThermostatMode now mode s0 _ ih =>
    exact waiting_of_push cfg s0 _ (ems_setThermostatMode_push cfg now mode s0).1
      (ems_setThermostatMode_push cfg now mode s0).2 ih
  | setWarmWaterTemp now temperature s0 _ ih =>
    exact waiting_of_push cfg s0 _ (ems_setWarmWaterTemp_push cfg now temperature s0).1
      (ems_setWarmWaterTemp_push cfg now temperature s0).2 ih
  | setFlowTemp now temperature s0 _ ih =>
    exact waiting_of_push cfg s0 _ rfl (Or.inr ⟨_, rfl⟩) ih
  | setWarmWaterModeComfort now comfort s0 _ ih =>
    exact waiting_of_push cfg s0 _ (ems_setWarmWaterModeComfort_push cfg now comfort s0).1
      (ems_setWarmWaterModeComfort_push cfg now comfort s0).2 ih
  | setWarmWaterActivated now activated s0 _ ih =>
    exact waiting_of_push cfg s0 _ rfl (Or.inr ⟨_, rfl⟩) ih
  | setWarmTapWaterActivated now activated s0 _ ih =>
    exact waiting_of_push cfg s0 _ (ems_setWarmTapWaterActivated_push cfg now activated s0).1
      (ems_setWarmTapWaterActivated_push cfg now activated s0).2 ih

/-- C39: in every state reached from `ems_init` by calls of
`ems_parseTelegram`, `ems_doReadCommand`, `ems_sendRawTelegram` and the command
builders, Tx status `EMS_TX_STATUS_WAIT` implies that the Tx queue is not
empty: it has a head, which is the entry `_processType` takes after its test
for an empty queue, and `_createValidate` does not take its early return for
an empty queue (it sets Tx status to idle, which the early return does
not). -/
theorem C39_waiting_implies_queue_nonempty (cfg : Config) (s : State) (h : Reachable cfg s)
    (hw : s.EMS_Sys_Status.emsTxStatus = EMS_TX_STATUS_WAIT) :
    s.EMS_TxQueue ≠ [] ∧
    (∃ t rest, s.EMS_TxQueue = t :: rest) ∧
    ∀ stack, (_createValidate cfg stack s).EMS_Sys_Status.emsTxStatus = EMS_TX_STATUS_IDLE := by
  have hne := Reachable_waiting cfg s h hw
  obtain ⟨t, rest, hq⟩ := List.exists_cons_of_ne_nil hne
  refine ⟨hne, ⟨t, rest, hq⟩, fun stack => ?_⟩
  unfold _createValidate
  rw [hq]
  dsimp only
  split_ifs <;> rfl

/-- C39 at the state reached from `ems_init` by the telegram `08 0B 19 00 5E`
(bus detection), a call of `ems_doReadCommand` for type `0x18` of the boiler,
and the poll `8B`, which sends the read: Tx status is waiting and the queue
holds the read. -/
theorem C39_waiting_implies_queue_nonempty_witness :
    (ems_parseTelegram sampleConfig sampleEnv [0x8B] 1
      (ems_doReadCommand sampleConfig 1000 0x18 0x08 false
        (ems_parseTelegram sampleConfig sampleEnv [0x08, 0x0B, 0x19, 0x00, 0x5E] 5
          (ems_init sampleConfig sampleState)))).EMS_Sys_Status.emsTxStatus
      = EMS_TX_STATUS_WAIT ∧
    (ems_parseTelegram sampleConfig sampleEnv [0x8B] 1
      (ems_doReadCommand sampleConfig 1000 0x18 0x08 false
        (ems_parseTelegram sampleConfig sampleEnv [0x08, 0x0B, 0x19, 0x00, 0x5E] 5
          (ems_init sampleConfig sampleState)))).EMS_TxQueue ≠ [] :=
  ⟨by decide,
    (C39_waiting_implies_queue_nonempty sampleConfig _
      (Reachable.parseTelegram sampleEnv [0x8B] 1 _
        (Reachable.doReadCommand 1000 0x18 0x08 false _
          (Reachable.parseTelegram sampleEnv [0x08, 0x0B, 0x19, 0x00, 0x5E] 5 _
            (Reachable.init sampleState))))
      (by decide)).1⟩

end EMS
